import Mathlib

/-!
Meridian59.Ogre.Client: OgreClientConfig

A shallow embedding of `OgreClientConfig.cpp` (ReadXml, WriteXml, GetButtonType,
GetActionButtonSetByName) together with models of the pieces of the .NET base
class library the code calls (System.Convert, System.String, XmlReader, XmlWriter).

Conventions of the embedding:
* a managed `String^` is an `Option String`, `none` being `nullptr`;
* `int` is `Int32`, `unsigned int` is `UInt32` (integers carrying their range);
* a method that may throw runs in `Op σ`, a state transformer whose state
  survives a throw, as the fields of a managed object do;
* the XML document is seen through the reader as the sequence of its element
  nodes in document order, and through the writer as the sequence of calls made.
-/

set_option maxRecDepth 8000

namespace Meridian59.Ogre

/-! ## The platform: culture and compiler

Two things the program depends on are fixed neither by its source nor by the base
class library alone: the culture of the thread, by which `String.ToLower()` lower-cases,
and the order in which the compiler evaluates the arguments of a call.  Both are
parameters of the embedding; the examples run on the sample platform declared
here. -/

/-- Modelled from the .NET documentation: what the program uses of the globalization
services of the runtime.  `String.ToLower()` lower-cases by the culture of the
current thread; `Convert.ToBoolean(String)` trims the characters `Char.IsWhiteSpace`
accepts and compares by ordinal, ignoring case.  On the ASCII characters these are
the same everywhere, but for the letter `I`, whose lower case depends on the culture
(a dotless i in the Turkish and Azeri cultures).  On the other characters they are
left open: they depend on the culture and on the version of the runtime. -/
class Globalization where
  /-- The lower case of a character in the culture of the current thread. -/
  lowerChar : Char → Char
  /-- The test `Char.IsWhiteSpace`. -/
  whiteSpace : Char → Bool
  /-- The upper case of a character as an ordinal comparison ignoring case takes it. -/
  upperChar : Char → Char
  /-- Every culture lower-cases the ASCII characters alike, the letter `I` apart. -/
  lowerChar_ascii : ∀ c : Char, c.toNat < 128 → c ≠ 'I' → lowerChar c = c.toLower
  /-- The white space among the Latin-1 characters: U+0009 to U+000D, U+0020, U+0085
  and U+00A0. -/
  whiteSpace_latin1 : ∀ c : Char, c.toNat < 256 →
    whiteSpace c = (decide (c.toNat = 32) || (decide (9 ≤ c.toNat) && decide (c.toNat ≤ 13)) ||
      decide (c.toNat = 133) || decide (c.toNat = 160))
  /-- The upper case of an ASCII character. -/
  upperChar_ascii : ∀ c : Char, c.toNat < 128 → upperChar c = c.toUpper

/-- The white space of the sample platform: the characters the documentation of
`Char.IsWhiteSpace` lists. -/
def sampleWhiteSpace (c : Char) : Bool :=
  decide (c.toNat = 32) || (decide (9 ≤ c.toNat) && decide (c.toNat ≤ 13)) ||
    decide (c.toNat = 133) || decide (c.toNat = 160) || decide (c.toNat = 5760) ||
    (decide (8192 ≤ c.toNat) && decide (c.toNat ≤ 8202)) || decide (c.toNat = 8232) ||
    decide (c.toNat = 8233) || decide (c.toNat = 8239) || decide (c.toNat = 8287) ||
    decide (c.toNat = 12288)

/-- The sample platform, on which the examples run: the letters A to Z are
lower-cased, the letters a to z upper-cased, and every other character is left as it
is, as the invariant culture does on ASCII text. -/
instance sampleGlobalization : Globalization where
  lowerChar := Char.toLower
  whiteSpace := sampleWhiteSpace
  upperChar := Char.toUpper
  lowerChar_ascii := fun _ _ _ => rfl
  whiteSpace_latin1 := by
    intro c h
    unfold sampleWhiteSpace
    have h1 : decide (c.toNat = 5760) = false := decide_eq_false (by omega)
    have h2 : decide (8192 ≤ c.toNat) = false := decide_eq_false (by omega)
    have h3 : decide (c.toNat = 8232) = false := decide_eq_false (by omega)
    have h4 : decide (c.toNat = 8233) = false := decide_eq_false (by omega)
    have h5 : decide (c.toNat = 8239) = false := decide_eq_false (by omega)
    have h6 : decide (c.toNat = 8287) = false := decide_eq_false (by omega)
    have h7 : decide (c.toNat = 12288) = false := decide_eq_false (by omega)
    simp only [h1, h2, h3, h4, h5, h6, h7, Bool.or_false, Bool.false_and]
  upperChar_ascii := fun _ _ => rfl

/-- The lower case of a character in the Turkish culture, on ASCII and on the two
letters it treats its own way: the lower case of `I` is the dotless i (U+0131) and
that of the dotted capital (U+0130) is `i`. -/
def turkishLowerChar (c : Char) : Char :=
  if c = 'I' then Char.ofNat 305 else if c = Char.ofNat 304 then 'i' else c.toLower

/-- A platform whose current culture is Turkish. -/
def turkishGlobalization : Globalization where
  lowerChar := turkishLowerChar
  whiteSpace := sampleWhiteSpace
  upperChar := Char.toUpper
  lowerChar_ascii := by
    intro c h hI
    unfold turkishLowerChar
    have h2 : c ≠ Char.ofNat 304 := by
      intro hc
      rw [hc] at h
      exact absurd h (by decide)
    rw [if_neg hI, if_neg h2]
  whiteSpace_latin1 := by
    intro c h
    unfold sampleWhiteSpace
    have h1 : decide (c.toNat = 5760) = false := decide_eq_false (by omega)
    have h2 : decide (8192 ≤ c.toNat) = false := decide_eq_false (by omega)
    have h3 : decide (c.toNat = 8232) = false := decide_eq_false (by omega)
    have h4 : decide (c.toNat = 8233) = false := decide_eq_false (by omega)
    have h5 : decide (c.toNat = 8239) = false := decide_eq_false (by omega)
    have h6 : decide (c.toNat = 8287) = false := decide_eq_false (by omega)
    have h7 : decide (c.toNat = 12288) = false := decide_eq_false (by omega)
    simp only [h1, h2, h3, h4, h5, h6, h7, Bool.or_false, Bool.false_and]
  upperChar_ascii := fun _ _ => rfl

/-- An argument of the constructor call `gcnew ActionButtonConfig(...)` in ReadXml
whose evaluation reads the document (the two `nullptr` arguments read nothing). -/
inductive ButtonArgument where
  | Num
  | ButtonType
  | Name
  | NumOfSameName
  deriving DecidableEq, Repr

/-- The order in which the compiler evaluates the arguments of the constructor call:
C++ leaves it unspecified.  Every argument is evaluated once, and completely before
the next one. -/
class ArgumentOrder where
  /-- The arguments, in the order of their evaluation. -/
  order : List ButtonArgument
  /-- Every argument is evaluated, once. -/
  complete : order.Perm [ButtonArgument.Num, ButtonArgument.ButtonType, ButtonArgument.Name,
    ButtonArgument.NumOfSameName]

/-- The sample platform evaluates the arguments from left to right. -/
instance leftToRight : ArgumentOrder where
  order := [ButtonArgument.Num, ButtonArgument.ButtonType, ButtonArgument.Name,
    ButtonArgument.NumOfSameName]
  complete := List.Perm.refl _

/-- A compiler that evaluates the arguments from right to left. -/
def rightToLeft : ArgumentOrder where
  order := [ButtonArgument.NumOfSameName, ButtonArgument.Name, ButtonArgument.ButtonType,
    ButtonArgument.Num]
  complete := by decide

section

variable [Globalization] [ArgumentOrder]

/-! ## Exceptions and stateful computations -/

/-- The .NET exceptions the modelled calls can raise. -/
inductive Exception where
  | FormatException
  | OverflowException
  | NullReferenceException
  | NotSupportedException
  deriving DecidableEq, Repr

deriving instance DecidableEq for Except

/-- A computation on a mutable state `σ` that returns an `α` or throws.  The state
reached when the exception was raised is kept. -/
def Op (σ α : Type) : Type := σ → Except Exception α × σ

/-- Return without touching the state. -/
def Op.pure {σ α : Type} (a : α) : Op σ α := fun s => (Except.ok a, s)

/-- Sequencing: the second computation runs only when the first did not throw. -/
def Op.bind {σ α β : Type} (m : Op σ α) (f : α → Op σ β) : Op σ β := fun s =>
  match m s with
  | (Except.ok a, s1) => f a s1
  | (Except.error e, s1) => (Except.error e, s1)

instance {σ : Type} : Monad (Op σ) where
  pure := Op.pure
  bind := Op.bind

/-- Run a computation from a state. -/
def Op.run {σ α : Type} (m : Op σ α) (s : σ) : Except Exception α × σ := m s

/-- Use the result of a pure .NET call that may throw. -/
def Op.ofExcept {σ α : Type} (r : Except Exception α) : Op σ α := fun s => (r, s)

/-- A computation that only writes: what it returns or throws, and the output it
produced up to that point, in order. -/
def Emit (ω α : Type) : Type := Except Exception α × List ω

/-- Return without output. -/
def Emit.pure {ω α : Type} (a : α) : Emit ω α := (Except.ok a, [])

/-- Sequencing: the output of the second computation follows that of the first,
and nothing follows an exception. -/
def Emit.bind {ω α β : Type} (m : Emit ω α) (f : α → Emit ω β) : Emit ω β :=
  match m with
  | (Except.ok a, out) =>
    match f a with
    | (r, out2) => (r, out ++ out2)
  | (Except.error e, out) => (Except.error e, out)

instance {ω : Type} : Monad (Emit ω) where
  pure := Emit.pure
  bind := Emit.bind

/-- Whether a run ended without an exception. -/
def Succeeded {α : Type} : Except Exception α → Bool
  | Except.ok _ => true
  | Except.error _ => false

/-! ## System.Int32, System.UInt32, System.Boolean, System.String -/

/-- A .NET `int`: a 32-bit signed integer. -/
abbrev Int32 : Type := { i : Int // -2147483648 ≤ i ∧ i < 2147483648 }

/-- A .NET `unsigned int`: a 32-bit unsigned integer. -/
abbrev UInt32 : Type := { i : Int // 0 ≤ i ∧ i < 4294967296 }

/-- The character of a decimal digit. -/
def digitChar (d : Nat) : Char := Char.ofNat (48 + d)

/-- The decimal digits of `n`, most significant first; `fuel` bounds the number of digits. -/
def natDigits : Nat → Nat → List Char
  | 0, _ => []
  | fuel + 1, n =>
    if n < 10 then [digitChar n] else natDigits fuel (n / 10) ++ [digitChar (n % 10)]

/-- The text `ToString()` gives for an integer: decimal digits, a leading `-` when negative. -/
def intToString (i : Int) : String :=
  if i < 0 then String.mk ('-' :: natDigits (i.natAbs + 1) i.natAbs)
  else String.mk (natDigits (i.natAbs + 1) i.natAbs)

/-- The model of `Int32.ToString()`. -/
def Int32.ToString (i : Int32) : String := intToString i.val

/-- The model of `UInt32.ToString()`. -/
def UInt32.ToString (i : UInt32) : String := intToString i.val

/-- The model of `Boolean.ToString()`: `"True"` or `"False"`. -/
def Boolean.ToString (b : Bool) : String := if b then "True" else "False"

/-- The model of `String.ToLower()` on a non-null string: every character is replaced
by its lower case in the culture of the current thread. -/
def ToLower (s : String) : String := String.mk (s.data.map Globalization.lowerChar)

/-- The model of the static `String.Equals(a, b)`: ordinal equality, two nulls being equal. -/
def StringEquals (a b : Option String) : Bool := decide (a = b)

/-- White space as the number parser of .NET sees it: U+0009 to U+000D and U+0020. -/
def isWhiteSpace (c : Char) : Bool := decide (c.toNat = 32) || (decide (9 ≤ c.toNat) && decide (c.toNat ≤ 13))

/-- Remove leading and trailing white space. -/
def trim (cs : List Char) : List Char :=
  ((cs.dropWhile isWhiteSpace).reverse.dropWhile isWhiteSpace).reverse

/-- The value of a decimal digit character. -/
def digitValue (c : Char) : Option Nat :=
  if 48 ≤ c.toNat ∧ c.toNat ≤ 57 then some (c.toNat - 48) else none

/-- Read decimal digits onto an accumulator; any other character makes it fail. -/
def parseDigits : Nat → List Char → Option Nat
  | acc, [] => some acc
  | acc, c :: cs =>
    match digitValue c with
    | none => none
    | some d => parseDigits (acc * 10 + d) cs

/-- A non-empty run of decimal digits. -/
def parseNat : List Char → Option Nat
  | [] => none
  | c :: cs => parseDigits 0 (c :: cs)

/-- The text accepted by `NumberStyles.Integer`: optional white space, an optional
leading sign, digits, optional white space. -/
def parseInteger (s : String) : Option Int :=
  match trim s.data with
  | '-' :: ds => (parseNat ds).map (fun n => - (n : Int))
  | '+' :: ds => (parseNat ds).map (fun n => (n : Int))
  | ds => (parseNat ds).map (fun n => (n : Int))

/-- The model of `Convert.ToInt32(String)`: null gives 0, malformed text a
FormatException, a value outside the range an OverflowException. -/
def Convert.ToInt32 (value : Option String) : Except Exception Int32 :=
  match value with
  | none => Except.ok ⟨0, by decide⟩
  | some s =>
    match parseInteger s with
    | none => Except.error Exception.FormatException
    | some v =>
      if h : -2147483648 ≤ v ∧ v < 2147483648 then Except.ok ⟨v, h⟩
      else Except.error Exception.OverflowException

/-- The model of `Convert.ToUInt32(String)`. -/
def Convert.ToUInt32 (value : Option String) : Except Exception UInt32 :=
  match value with
  | none => Except.ok ⟨0, by decide⟩
  | some s =>
    match parseInteger s with
    | none => Except.error Exception.FormatException
    | some v =>
      if h : 0 ≤ v ∧ v < 4294967296 then Except.ok ⟨v, h⟩
      else Except.error Exception.OverflowException

/-- The comparison `String.Equals(a, b, StringComparison.OrdinalIgnoreCase)`: the two
texts have the same upper case, character by character. -/
def equalsIgnoreCase (a b : List Char) : Bool :=
  decide (a.map Globalization.upperChar = b.map Globalization.upperChar)

/-- The characters `Boolean.Parse` trims: white space and the null character. -/
def isWhiteSpaceOrNull (c : Char) : Bool := Globalization.whiteSpace c || decide (c.toNat = 0)

/-- Remove the leading and trailing white space and null characters, as `Boolean.Parse`
does. -/
def trimWhiteSpaceAndNull (cs : List Char) : List Char :=
  ((cs.dropWhile isWhiteSpaceOrNull).reverse.dropWhile isWhiteSpaceOrNull).reverse

/-- The text is `True` or `False`, whatever the case: the value it stands for. -/
def booleanLiteral (cs : List Char) : Option Bool :=
  if equalsIgnoreCase cs "True".data then some true
  else if equalsIgnoreCase cs "False".data then some false
  else none

/-- The model of `Boolean.Parse(String)` on a non-null text: the text is compared with
`True` and `False` ignoring case, as it is and then with white space and null
characters trimmed; anything else is a FormatException. -/
def Boolean.Parse (s : String) : Except Exception Bool :=
  match booleanLiteral s.data with
  | some b => Except.ok b
  | none =>
    match booleanLiteral (trimWhiteSpaceAndNull s.data) with
    | some b => Except.ok b
    | none => Except.error Exception.FormatException

/-- The model of `Convert.ToBoolean(String)`: null gives false, any other text is
parsed by `Boolean.Parse`. -/
def Convert.ToBoolean (value : Option String) : Except Exception Bool :=
  match value with
  | none => Except.ok false
  | some s => Boolean.Parse s

/-! ## Constants of the header

`OgreClientConfig.h` is not part of the sources at hand.  The attribute names and
the button type texts are the ones the specification lists; a tag constant has the
lower-case text of its name, as in the document shape the specification shows. -/

/-- Modelled from the spec: the element name behind the header constant TAG_ENGINE. -/
def TAG_ENGINE : String := "engine"

/-- Modelled from the spec: the element name behind the header constant TAG_DISPLAY. -/
def TAG_DISPLAY : String := "display"

/-- Modelled from the spec: the element name behind the header constant TAG_RESOLUTION. -/
def TAG_RESOLUTION : String := "resolution"

/-- Modelled from the spec: the element name behind the header constant TAG_WINDOWMODE. -/
def TAG_WINDOWMODE : String := "windowmode"

/-- Modelled from the spec: the element name behind the header constant TAG_WINDOWFRAME. -/
def TAG_WINDOWFRAME : String := "windowframe"

/-- Modelled from the spec: the element name behind the header constant TAG_VSYNC. -/
def TAG_VSYNC : String := "vsync"

/-- Modelled from the spec: the element name behind the header constant TAG_FSAA. -/
def TAG_FSAA : String := "fsaa"

/-- Modelled from the spec: the element name behind the header constant TAG_NOMIPMAPS. -/
def TAG_NOMIPMAPS : String := "nomipmaps"

/-- Modelled from the spec: the element name behind the header constant TAG_TEXTUREFILTERING. -/
def TAG_TEXTUREFILTERING : String := "texturefiltering"

/-- Modelled from the spec: the element name behind the header constant TAG_IMAGEBUILDER. -/
def TAG_IMAGEBUILDER : String := "imagebuilder"

/-- Modelled from the spec: the element name behind the header constant TAG_BITMAPSCALING. -/
def TAG_BITMAPSCALING : String := "bitmapscaling"

/-- Modelled from the spec: the element name behind the header constant TAG_TEXTUREQUALITY. -/
def TAG_TEXTUREQUALITY : String := "texturequality"

/-- Modelled from the spec: the element name behind the header constant TAG_DECORATIONINTENSITY. -/
def TAG_DECORATIONINTENSITY : String := "decorationintensity"

/-- Modelled from the spec: the element name behind the header constant TAG_DECORATIONQUALITY. -/
def TAG_DECORATIONQUALITY : String := "decorationquality"

/-- Modelled from the spec: the element name behind the header constant TAG_DISABLENEWROOMTEXTURES. -/
def TAG_DISABLENEWROOMTEXTURES : String := "disablenewroomtextures"

/-- Modelled from the spec: the element name behind the header constant TAG_DISABLE3DMODELS. -/
def TAG_DISABLE3DMODELS : String := "disable3dmodels"

/-- Modelled from the spec: the element name behind the header constant TAG_DISABLENEWSKY. -/
def TAG_DISABLENEWSKY : String := "disablenewsky"

/-- Modelled from the spec: the element name behind the header constant TAG_DISABLEWEATHEREFFECTS. -/
def TAG_DISABLEWEATHEREFFECTS : String := "disableweathereffects"

/-- Modelled from the spec: the element name behind the header constant TAG_WEATHERPARTICLES. -/
def TAG_WEATHERPARTICLES : String := "weatherparticles"

/-- Modelled from the spec: the element name behind the header constant TAG_MUSICVOLUME. -/
def TAG_MUSICVOLUME : String := "musicvolume"

/-- Modelled from the spec: the element name behind the header constant TAG_DISABLELOOPSOUNDS. -/
def TAG_DISABLELOOPSOUNDS : String := "disableloopsounds"

/-- Modelled from the spec: the element name behind the header constant TAG_INPUT. -/
def TAG_INPUT : String := "input"

/-- Modelled from the spec: the element name behind the header constant TAG_MOUSEAIMSPEED. -/
def TAG_MOUSEAIMSPEED : String := "mouseaimspeed"

/-- Modelled from the spec: the element name behind the header constant TAG_KEYROTATESPEED. -/
def TAG_KEYROTATESPEED : String := "keyrotatespeed"

/-- Modelled from the spec: the element name behind the header constant TAG_INVERTMOUSEY. -/
def TAG_INVERTMOUSEY : String := "invertmousey"

/-- Modelled from the spec: the element name behind the header constant TAG_KEYBINDING. -/
def TAG_KEYBINDING : String := "keybinding"

/-- Modelled from the spec: the element name behind the header constant TAG_MOVEFORWARD. -/
def TAG_MOVEFORWARD : String := "moveforward"

/-- Modelled from the spec: the element name behind the header constant TAG_MOVEBACKWARD. -/
def TAG_MOVEBACKWARD : String := "movebackward"

/-- Modelled from the spec: the element name behind the header constant TAG_MOVELEFT. -/
def TAG_MOVELEFT : String := "moveleft"

/-- Modelled from the spec: the element name behind the header constant TAG_MOVERIGHT. -/
def TAG_MOVERIGHT : String := "moveright"

/-- Modelled from the spec: the element name behind the header constant TAG_ROTATELEFT. -/
def TAG_ROTATELEFT : String := "rotateleft"

/-- Modelled from the spec: the element name behind the header constant TAG_ROTATERIGHT. -/
def TAG_ROTATERIGHT : String := "rotateright"

/-- Modelled from the spec: the element name behind the header constant TAG_WALK. -/
def TAG_WALK : String := "walk"

/-- Modelled from the spec: the element name behind the header constant TAG_AUTOMOVE. -/
def TAG_AUTOMOVE : String := "automove"

/-- Modelled from the spec: the element name behind the header constant TAG_NEXTTARGET. -/
def TAG_NEXTTARGET : String := "nexttarget"

/-- Modelled from the spec: the element name behind the header constant TAG_SELFTARGET. -/
def TAG_SELFTARGET : String := "selftarget"

/-- Modelled from the spec: the element name behind the header constant TAG_OPEN. -/
def TAG_OPEN : String := "open"

/-- Modelled from the spec: the element name behind the header constant TAG_CLOSE. -/
def TAG_CLOSE : String := "close"

/-- Modelled from the spec: the element name behind the header constant TAG_ACTION01. -/
def TAG_ACTION01 : String := "action01"

/-- Modelled from the spec: the element name behind the header constant TAG_ACTION02. -/
def TAG_ACTION02 : String := "action02"

/-- Modelled from the spec: the element name behind the header constant TAG_ACTION03. -/
def TAG_ACTION03 : String := "action03"

/-- Modelled from the spec: the element name behind the header constant TAG_ACTION04. -/
def TAG_ACTION04 : String := "action04"

/-- Modelled from the spec: the element name behind the header constant TAG_ACTION05. -/
def TAG_ACTION05 : String := "action05"

/-- Modelled from the spec: the element name behind the header constant TAG_ACTION06. -/
def TAG_ACTION06 : String := "action06"

/-- Modelled from the spec: the element name behind the header constant TAG_ACTION07. -/
def TAG_ACTION07 : String := "action07"

/-- Modelled from the spec: the element name behind the header constant TAG_ACTION08. -/
def TAG_ACTION08 : String := "action08"

/-- Modelled from the spec: the element name behind the header constant TAG_ACTION09. -/
def TAG_ACTION09 : String := "action09"

/-- Modelled from the spec: the element name behind the header constant TAG_ACTION10. -/
def TAG_ACTION10 : String := "action10"

/-- Modelled from the spec: the element name behind the header constant TAG_ACTION11. -/
def TAG_ACTION11 : String := "action11"

/-- Modelled from the spec: the element name behind the header constant TAG_ACTION12. -/
def TAG_ACTION12 : String := "action12"

/-- Modelled from the spec: the element name behind the header constant TAG_ACTION13. -/
def TAG_ACTION13 : String := "action13"

/-- Modelled from the spec: the element name behind the header constant TAG_ACTION14. -/
def TAG_ACTION14 : String := "action14"

/-- Modelled from the spec: the element name behind the header constant TAG_ACTION15. -/
def TAG_ACTION15 : String := "action15"

/-- Modelled from the spec: the element name behind the header constant TAG_ACTION16. -/
def TAG_ACTION16 : String := "action16"

/-- Modelled from the spec: the element name behind the header constant TAG_ACTION17. -/
def TAG_ACTION17 : String := "action17"

/-- Modelled from the spec: the element name behind the header constant TAG_ACTION18. -/
def TAG_ACTION18 : String := "action18"

/-- Modelled from the spec: the element name behind the header constant TAG_ACTION19. -/
def TAG_ACTION19 : String := "action19"

/-- Modelled from the spec: the element name behind the header constant TAG_ACTION20. -/
def TAG_ACTION20 : String := "action20"

/-- Modelled from the spec: the element name behind the header constant TAG_ACTION21. -/
def TAG_ACTION21 : String := "action21"

/-- Modelled from the spec: the element name behind the header constant TAG_ACTION22. -/
def TAG_ACTION22 : String := "action22"

/-- Modelled from the spec: the element name behind the header constant TAG_ACTION23. -/
def TAG_ACTION23 : String := "action23"

/-- Modelled from the spec: the element name behind the header constant TAG_ACTION24. -/
def TAG_ACTION24 : String := "action24"

/-- Modelled from the spec: the element name behind the header constant TAG_ACTION25. -/
def TAG_ACTION25 : String := "action25"

/-- Modelled from the spec: the element name behind the header constant TAG_ACTION26. -/
def TAG_ACTION26 : String := "action26"

/-- Modelled from the spec: the element name behind the header constant TAG_ACTION27. -/
def TAG_ACTION27 : String := "action27"

/-- Modelled from the spec: the element name behind the header constant TAG_ACTION28. -/
def TAG_ACTION28 : String := "action28"

/-- Modelled from the spec: the element name behind the header constant TAG_ACTION29. -/
def TAG_ACTION29 : String := "action29"

/-- Modelled from the spec: the element name behind the header constant TAG_ACTION30. -/
def TAG_ACTION30 : String := "action30"

/-- Modelled from the spec: the element name behind the header constant TAG_ACTION31. -/
def TAG_ACTION31 : String := "action31"

/-- Modelled from the spec: the element name behind the header constant TAG_ACTION32. -/
def TAG_ACTION32 : String := "action32"

/-- Modelled from the spec: the element name behind the header constant TAG_ACTION33. -/
def TAG_ACTION33 : String := "action33"

/-- Modelled from the spec: the element name behind the header constant TAG_ACTION34. -/
def TAG_ACTION34 : String := "action34"

/-- Modelled from the spec: the element name behind the header constant TAG_ACTION35. -/
def TAG_ACTION35 : String := "action35"

/-- Modelled from the spec: the element name behind the header constant TAG_ACTION36. -/
def TAG_ACTION36 : String := "action36"

/-- Modelled from the spec: the element name behind the header constant TAG_ACTION37. -/
def TAG_ACTION37 : String := "action37"

/-- Modelled from the spec: the element name behind the header constant TAG_ACTION38. -/
def TAG_ACTION38 : String := "action38"

/-- Modelled from the spec: the element name behind the header constant TAG_ACTION39. -/
def TAG_ACTION39 : String := "action39"

/-- Modelled from the spec: the element name behind the header constant TAG_ACTION40. -/
def TAG_ACTION40 : String := "action40"

/-- Modelled from the spec: the element name behind the header constant TAG_ACTION41. -/
def TAG_ACTION41 : String := "action41"

/-- Modelled from the spec: the element name behind the header constant TAG_ACTION42. -/
def TAG_ACTION42 : String := "action42"

/-- Modelled from the spec: the element name behind the header constant TAG_ACTION43. -/
def TAG_ACTION43 : String := "action43"

/-- Modelled from the spec: the element name behind the header constant TAG_ACTION44. -/
def TAG_ACTION44 : String := "action44"

/-- Modelled from the spec: the element name behind the header constant TAG_ACTION45. -/
def TAG_ACTION45 : String := "action45"

/-- Modelled from the spec: the element name behind the header constant TAG_ACTION46. -/
def TAG_ACTION46 : String := "action46"

/-- Modelled from the spec: the element name behind the header constant TAG_ACTION47. -/
def TAG_ACTION47 : String := "action47"

/-- Modelled from the spec: the element name behind the header constant TAG_ACTION48. -/
def TAG_ACTION48 : String := "action48"

/-- Modelled from the spec: the element name behind the header constant TAG_ACTIONBUTTONSETS. -/
def TAG_ACTIONBUTTONSETS : String := "actionbuttonsets"

/-- Modelled from the spec: the element name behind the header constant TAG_ACTIONBUTTONS. -/
def TAG_ACTIONBUTTONS : String := "actionbuttons"

/-- Modelled from the spec: the element name behind the header constant TAG_ACTIONBUTTON. -/
def TAG_ACTIONBUTTON : String := "actionbutton"

/-- Modelled from the spec: the attribute name behind the header constant ATTRIB_VALUE. -/
def ATTRIB_VALUE : String := "value"

/-- Modelled from the spec: the attribute name behind the header constant ATTRIB_ENABLED. -/
def ATTRIB_ENABLED : String := "enabled"

/-- Modelled from the spec: the attribute name behind the header constant ATTRIB_KEY. -/
def ATTRIB_KEY : String := "key"

/-- Modelled from the spec: the attribute name behind the header constant ATTRIB_RIGHTCLICKACTION. -/
def ATTRIB_RIGHTCLICKACTION : String := "rightclickaction"

/-- Modelled from the spec: the attribute name behind the header constant ATTRIB_COUNT. -/
def ATTRIB_COUNT : String := "count"

/-- Modelled from the spec: the attribute name behind the header constant ATTRIB_PLAYER. -/
def ATTRIB_PLAYER : String := "player"

/-- Modelled from the spec: the attribute name behind the header constant ATTRIB_NUM. -/
def ATTRIB_NUM : String := "num"

/-- Modelled from the spec: the attribute name behind the header constant ATTRIB_TYPE. -/
def ATTRIB_TYPE : String := "type"

/-- Modelled from the spec: the attribute name behind the header constant XMLATTRIB_NAME. -/
def XMLATTRIB_NAME : String := "name"

/-- Modelled from the spec: the attribute name behind the header constant ATTRIB_NUMOFSAMENAME. -/
def ATTRIB_NUMOFSAMENAME : String := "numofsamename"

/-- Modelled from the spec: the button type text behind the header constant BUTTONTYPE_SPELL. -/
def BUTTONTYPE_SPELL : String := "spell"

/-- Modelled from the spec: the button type text behind the header constant BUTTONTYPE_ACTION. -/
def BUTTONTYPE_ACTION : String := "action"

/-- Modelled from the spec: the button type text behind the header constant BUTTONTYPE_ITEM. -/
def BUTTONTYPE_ITEM : String := "item"

/-! ## Data model -/

/-- Modelled from the spec: the enumeration `ActionButtonType` (Unset, Spell, Action,
Item), declared outside this file. -/
inductive ActionButtonType where
  | Unset
  | Spell
  | Action
  | Item
  deriving DecidableEq, Repr

/-- The model of `Enum.ToString()` on `ActionButtonType`: the name of the value. -/
def ActionButtonType.ToString : ActionButtonType → String
  | ActionButtonType.Unset => "Unset"
  | ActionButtonType.Spell => "Spell"
  | ActionButtonType.Action => "Action"
  | ActionButtonType.Item => "Item"

/-- Modelled from the spec: an `ActionButtonConfig` as ReadXml constructs it, with
slot number, button type, name and the number of buttons of the same name.  The two constructor arguments ReadXml
passes as `nullptr` are run-time references that are never written to the document;
they are left out. -/
structure ActionButtonConfig where
  Num : Int32
  ButtonType : ActionButtonType
  Name : Option String
  NumOfSameName : UInt32
  deriving DecidableEq

/-- Modelled from the spec: an `ActionButtonList` associates a player name with the
ordered sequence of its buttons. -/
structure ActionButtonList where
  PlayerName : Option String
  Items : List ActionButtonConfig
  deriving DecidableEq

/-- Modelled from the spec: `ActionButtonList.Add` appends at the end (a set preserves
the insertion order of its buttons). -/
def ActionButtonList.Add (l : ActionButtonList) (b : ActionButtonConfig) : ActionButtonList :=
  { l with Items := l.Items ++ [b] }

/-- Modelled from the spec: `ActionButtonList.Count` is the number of buttons. -/
def ActionButtonList.Count (l : ActionButtonList) : Int := (l.Items.length : Int)

/-- The class `KeyBinding` of the launcher models, with the members this file uses. -/
structure KeyBinding (Keys : Type) where
  RightClickAction : Int32
  MoveForward : Keys
  MoveBackward : Keys
  MoveLeft : Keys
  MoveRight : Keys
  RotateLeft : Keys
  RotateRight : Keys
  Walk : Keys
  AutoMove : Keys
  NextTarget : Keys
  SelfTarget : Keys
  ReqGo : Keys
  Close : Keys
  ActionButton01 : Keys
  ActionButton02 : Keys
  ActionButton03 : Keys
  ActionButton04 : Keys
  ActionButton05 : Keys
  ActionButton06 : Keys
  ActionButton07 : Keys
  ActionButton08 : Keys
  ActionButton09 : Keys
  ActionButton10 : Keys
  ActionButton11 : Keys
  ActionButton12 : Keys
  ActionButton13 : Keys
  ActionButton14 : Keys
  ActionButton15 : Keys
  ActionButton16 : Keys
  ActionButton17 : Keys
  ActionButton18 : Keys
  ActionButton19 : Keys
  ActionButton20 : Keys
  ActionButton21 : Keys
  ActionButton22 : Keys
  ActionButton23 : Keys
  ActionButton24 : Keys
  ActionButton25 : Keys
  ActionButton26 : Keys
  ActionButton27 : Keys
  ActionButton28 : Keys
  ActionButton29 : Keys
  ActionButton30 : Keys
  ActionButton31 : Keys
  ActionButton32 : Keys
  ActionButton33 : Keys
  ActionButton34 : Keys
  ActionButton35 : Keys
  ActionButton36 : Keys
  ActionButton37 : Keys
  ActionButton38 : Keys
  ActionButton39 : Keys
  ActionButton40 : Keys
  ActionButton41 : Keys
  ActionButton42 : Keys
  ActionButton43 : Keys
  ActionButton44 : Keys
  ActionButton45 : Keys
  ActionButton46 : Keys
  ActionButton47 : Keys
  ActionButton48 : Keys
  deriving DecidableEq

/-- The fields of `OgreClientConfig` that ReadXml assigns and WriteXml emits. -/
structure OgreClientConfig (Keys : Type) where
  Display : Int32
  Resolution : Option String
  WindowMode : Bool
  WindowFrame : Bool
  VSync : Bool
  FSAA : Option String
  NoMipmaps : Bool
  TextureFiltering : Option String
  ImageBuilder : Option String
  BitmapScaling : Option String
  TextureQuality : Option String
  DecorationIntensity : Int32
  DecorationQuality : Int32
  DisableNewRoomTextures : Bool
  Disable3DModels : Bool
  DisableNewSky : Bool
  DisableWeatherEffects : Bool
  WeatherParticles : Int32
  MusicVolume : Int32
  DisableLoopSounds : Bool
  MouseAimSpeed : Int32
  KeyRotateSpeed : Int32
  InvertMouseY : Bool
  KeyBinding : KeyBinding Keys
  ActionButtonSets : List ActionButtonList
  deriving DecidableEq

/-- The external collaborators of the key bindings: the enumeration `Keys` with its
`ToString()`, the conversion `(Keys)keyConverter->ConvertFrom(text)`, and the object
`gcnew KeyBinding()` yields.  None of them is declared in this file. -/
structure Collaborators (Keys : Type) where
  ToString : Keys → String
  ConvertFrom : Option String → Except Exception Keys
  NewKeyBinding : KeyBinding Keys

/-! ## System.Xml.XmlReader -/

/-- An element node of the document: its name and its attributes in document order. -/
structure XmlElement where
  Name : String
  Attributes : List (String × String)
  deriving DecidableEq

/-- A call made on the reader; the calls are recorded in the order they are made. -/
inductive ReaderCall where
  | ReadToFollowing (name : String)
  | GetAttribute (name : String)
  deriving DecidableEq

/-- A forward-only reader: the element node it is positioned on (none before the first
read and at the end of the document), the element nodes still ahead in document
order, and the record of the calls made so far. -/
structure XmlReader where
  Current : Option XmlElement
  Following : List XmlElement
  Calls : List ReaderCall
  deriving DecidableEq

/-- The first element called `name` in a list of nodes, with the nodes after it. -/
def seekElement (name : String) : List XmlElement → Option (XmlElement × List XmlElement)
  | [] => none
  | e :: es => if e.Name = name then some (e, es) else seekElement name es

/-- The model of `XmlReader.ReadToFollowing(name)`: advance to the next element
called `name`; when there is none the reader ends at the end of the document and
the call returns false. -/
def XmlReader.ReadToFollowing (r : XmlReader) (name : String) : Bool × XmlReader :=
  match seekElement name r.Following with
  | some (e, es) =>
    (true, { Current := some e, Following := es, Calls := r.Calls ++ [ReaderCall.ReadToFollowing name] })
  | none =>
    (false, { Current := none, Following := [], Calls := r.Calls ++ [ReaderCall.ReadToFollowing name] })

/-- The value of the attribute `name` of the current node, null when the reader is
not on an element or the element has no such attribute. -/
def XmlReader.Item (r : XmlReader) (name : String) : Option String :=
  match r.Current with
  | none => none
  | some e => e.Attributes.lookup name

/-- The state ReadXml works on: the object being filled and the reader. -/
structure ReadState (Keys : Type) where
  This : OgreClientConfig Keys
  Reader : XmlReader

/-- The statement `Reader->ReadToFollowing(name)`. -/
def ReadToFollowing {Keys : Type} (name : String) : Op (ReadState Keys) Bool := fun s =>
  match s.Reader.ReadToFollowing name with
  | (found, reader) => (Except.ok found, { s with Reader := reader })

/-- The expression `Reader[name]`. -/
def ReaderItem {Keys : Type} (name : String) : Op (ReadState Keys) (Option String) := fun s =>
  (Except.ok (s.Reader.Item name),
    { s with Reader := { s.Reader with Calls := s.Reader.Calls ++ [ReaderCall.GetAttribute name] } })

/-- An assignment to members of `this`. -/
def assign {Keys : Type} (f : OgreClientConfig Keys → OgreClientConfig Keys) :
    Op (ReadState Keys) Unit := fun s =>
  (Except.ok (), { s with This := f s.This })

/-- The statement `member = convert(Reader[attrName])`. -/
def assignAttribute {Keys α : Type} (convert : Option String → Except Exception α)
    (attrName : String) (set : α → OgreClientConfig Keys → OgreClientConfig Keys) :
    Op (ReadState Keys) Unit := do
  let text ← ReaderItem attrName
  let v ← Op.ofExcept (convert text)
  assign (set v)

/-- The statement pair
`Reader->ReadToFollowing(tag); member = convert(Reader[attrName]);`. -/
def readField {Keys α : Type} (convert : Option String → Except Exception α)
    (tag attrName : String) (set : α → OgreClientConfig Keys → OgreClientConfig Keys) :
    Op (ReadState Keys) Unit := do
  let _ ← ReadToFollowing tag
  assignAttribute convert attrName set

/-! ## System.Xml.XmlWriter -/

/-- A call made on the writer. -/
inductive XmlEvent where
  | StartElement (name : String)
  | Attribute (name : String) (value : String)
  | EndElement
  deriving DecidableEq

/-- The statement `Writer->WriteStartElement(name)`. -/
def WriteStartElement (name : String) : Emit XmlEvent Unit :=
  (Except.ok (), [XmlEvent.StartElement name])

/-- The statement `Writer->WriteAttributeString(name, value)`; a null value is
written as the empty text. -/
def WriteAttributeString (name : String) (value : Option String) : Emit XmlEvent Unit :=
  (Except.ok (), [XmlEvent.Attribute name (value.getD "")])

/-- The statement `Writer->WriteEndElement()`. -/
def WriteEndElement : Emit XmlEvent Unit :=
  (Except.ok (), [XmlEvent.EndElement])

/-- A member call on a `String^`: a null receiver raises a NullReferenceException. -/
def deref (s : Option String) : Emit XmlEvent String :=
  match s with
  | none => (Except.error Exception.NullReferenceException, [])
  | some v => (Except.ok v, [])

/-- The attributes written right after a start tag. -/
def leadingAttributes : List XmlEvent → List (String × String)
  | XmlEvent.Attribute n v :: evs => (n, v) :: leadingAttributes evs
  | _ => []

/-- The element nodes of the document a sequence of writer calls produces, in
document order: one per start tag, with the attributes written after it. -/
def elementsOf : List XmlEvent → List XmlElement
  | [] => []
  | XmlEvent.StartElement n :: evs => { Name := n, Attributes := leadingAttributes evs } :: elementsOf evs
  | XmlEvent.Attribute _ _ :: evs => elementsOf evs
  | XmlEvent.EndElement :: evs => elementsOf evs

/-! ## OgreClientConfig -/

/-- The method `OgreClientConfig::GetButtonType`. -/
def GetButtonType (ButtonType : Option String) : ActionButtonType :=
  if StringEquals ButtonType (some BUTTONTYPE_SPELL) then ActionButtonType.Spell
  else if StringEquals ButtonType (some BUTTONTYPE_ACTION) then ActionButtonType.Action
  else if StringEquals ButtonType (some BUTTONTYPE_ITEM) then ActionButtonType.Item
  else ActionButtonType.Unset

/-- The loop of `OgreClientConfig::GetActionButtonSetByName` over the sets. -/
def findActionButtonSet (Name : Option String) : List ActionButtonList → Option ActionButtonList
  | [] => none
  | set :: rest =>
    if StringEquals set.PlayerName Name then some set else findActionButtonSet Name rest

/-- The method `OgreClientConfig::GetActionButtonSetByName`; `none` is `nullptr`. -/
def OgreClientConfig.GetActionButtonSetByName {Keys : Type} (this : OgreClientConfig Keys)
    (Name : Option String) : Option ActionButtonList :=
  findActionButtonSet Name this.ActionButtonSets

/-- ReadXml, the engine section. -/
def ReadXml_engine {Keys : Type} : Op (ReadState Keys) Unit := do
  let _ ← ReadToFollowing TAG_ENGINE
  readField Convert.ToInt32 TAG_DISPLAY ATTRIB_VALUE (fun v this => { this with Display := v })
  readField Except.ok TAG_RESOLUTION ATTRIB_VALUE (fun v this => { this with Resolution := v })
  readField Convert.ToBoolean TAG_WINDOWMODE ATTRIB_ENABLED (fun v this => { this with WindowMode := v })
  readField Convert.ToBoolean TAG_WINDOWFRAME ATTRIB_ENABLED (fun v this => { this with WindowFrame := v })
  readField Convert.ToBoolean TAG_VSYNC ATTRIB_ENABLED (fun v this => { this with VSync := v })
  readField Except.ok TAG_FSAA ATTRIB_VALUE (fun v this => { this with FSAA := v })
  readField Convert.ToBoolean TAG_NOMIPMAPS ATTRIB_VALUE (fun v this => { this with NoMipmaps := v })
  readField Except.ok TAG_TEXTUREFILTERING ATTRIB_VALUE (fun v this => { this with TextureFiltering := v })
  readField Except.ok TAG_IMAGEBUILDER ATTRIB_VALUE (fun v this => { this with ImageBuilder := v })
  readField Except.ok TAG_BITMAPSCALING ATTRIB_VALUE (fun v this => { this with BitmapScaling := v })
  readField Except.ok TAG_TEXTUREQUALITY ATTRIB_VALUE (fun v this => { this with TextureQuality := v })
  readField Convert.ToInt32 TAG_DECORATIONINTENSITY ATTRIB_VALUE (fun v this => { this with DecorationIntensity := v })
  readField Convert.ToInt32 TAG_DECORATIONQUALITY ATTRIB_VALUE (fun v this => { this with DecorationQuality := v })
  readField Convert.ToBoolean TAG_DISABLENEWROOMTEXTURES ATTRIB_VALUE (fun v this => { this with DisableNewRoomTextures := v })
  readField Convert.ToBoolean TAG_DISABLE3DMODELS ATTRIB_VALUE (fun v this => { this with Disable3DModels := v })
  readField Convert.ToBoolean TAG_DISABLENEWSKY ATTRIB_VALUE (fun v this => { this with DisableNewSky := v })
  readField Convert.ToBoolean TAG_DISABLEWEATHEREFFECTS ATTRIB_VALUE (fun v this => { this with DisableWeatherEffects := v })
  readField Convert.ToInt32 TAG_WEATHERPARTICLES ATTRIB_VALUE (fun v this => { this with WeatherParticles := v })
  readField Convert.ToInt32 TAG_MUSICVOLUME ATTRIB_VALUE (fun v this => { this with MusicVolume := v })
  readField Convert.ToBoolean TAG_DISABLELOOPSOUNDS ATTRIB_VALUE (fun v this => { this with DisableLoopSounds := v })

/-- ReadXml, the scalar fields of the input section. -/
def ReadXml_input {Keys : Type} : Op (ReadState Keys) Unit := do
  let _ ← ReadToFollowing TAG_INPUT
  readField Convert.ToInt32 TAG_MOUSEAIMSPEED ATTRIB_VALUE (fun v this => { this with MouseAimSpeed := v })
  readField Convert.ToInt32 TAG_KEYROTATESPEED ATTRIB_VALUE (fun v this => { this with KeyRotateSpeed := v })
  readField Convert.ToBoolean TAG_INVERTMOUSEY ATTRIB_VALUE (fun v this => { this with InvertMouseY := v })

/-- ReadXml, the keybinding element and its rightclickaction attribute. -/
def ReadXml_keybinding {Keys : Type} (api : Collaborators Keys) : Op (ReadState Keys) Unit := do
  let _ ← ReadToFollowing TAG_KEYBINDING
  assign (fun this => { this with KeyBinding := api.NewKeyBinding })
  assignAttribute Convert.ToInt32 ATTRIB_RIGHTCLICKACTION (fun v this => { this with KeyBinding := { this.KeyBinding with RightClickAction := v } })

/-- ReadXml, the movement keys. -/
def ReadXml_keys_movement {Keys : Type} (api : Collaborators Keys) : Op (ReadState Keys) Unit := do
  readField api.ConvertFrom TAG_MOVEFORWARD ATTRIB_KEY (fun v this => { this with KeyBinding := { this.KeyBinding with MoveForward := v } })
  readField api.ConvertFrom TAG_MOVEBACKWARD ATTRIB_KEY (fun v this => { this with KeyBinding := { this.KeyBinding with MoveBackward := v } })
  readField api.ConvertFrom TAG_MOVELEFT ATTRIB_KEY (fun v this => { this with KeyBinding := { this.KeyBinding with MoveLeft := v } })
  readField api.ConvertFrom TAG_MOVERIGHT ATTRIB_KEY (fun v this => { this with KeyBinding := { this.KeyBinding with MoveRight := v } })
  readField api.ConvertFrom TAG_ROTATELEFT ATTRIB_KEY (fun v this => { this with KeyBinding := { this.KeyBinding with RotateLeft := v } })
  readField api.ConvertFrom TAG_ROTATERIGHT ATTRIB_KEY (fun v this => { this with KeyBinding := { this.KeyBinding with RotateRight := v } })

/-- ReadXml, the modifier keys. -/
def ReadXml_keys_modifiers {Keys : Type} (api : Collaborators Keys) : Op (ReadState Keys) Unit := do
  readField api.ConvertFrom TAG_WALK ATTRIB_KEY (fun v this => { this with KeyBinding := { this.KeyBinding with Walk := v } })
  readField api.ConvertFrom TAG_AUTOMOVE ATTRIB_KEY (fun v this => { this with KeyBinding := { this.KeyBinding with AutoMove := v } })

/-- ReadXml, the targetting keys. -/
def ReadXml_keys_targetting {Keys : Type} (api : Collaborators Keys) : Op (ReadState Keys) Unit := do
  readField api.ConvertFrom TAG_NEXTTARGET ATTRIB_KEY (fun v this => { this with KeyBinding := { this.KeyBinding with NextTarget := v } })
  readField api.ConvertFrom TAG_SELFTARGET ATTRIB_KEY (fun v this => { this with KeyBinding := { this.KeyBinding with SelfTarget := v } })

/-- ReadXml, the other keys. -/
def ReadXml_keys_others {Keys : Type} (api : Collaborators Keys) : Op (ReadState Keys) Unit := do
  readField api.ConvertFrom TAG_OPEN ATTRIB_KEY (fun v this => { this with KeyBinding := { this.KeyBinding with ReqGo := v } })
  readField api.ConvertFrom TAG_CLOSE ATTRIB_KEY (fun v this => { this with KeyBinding := { this.KeyBinding with Close := v } })

/-- ReadXml, the 48 action button keys. -/
def ReadXml_keys_actions {Keys : Type} (api : Collaborators Keys) : Op (ReadState Keys) Unit := do
  readField api.ConvertFrom TAG_ACTION01 ATTRIB_KEY (fun v this => { this with KeyBinding := { this.KeyBinding with ActionButton01 := v } })
  readField api.ConvertFrom TAG_ACTION02 ATTRIB_KEY (fun v this => { this with KeyBinding := { this.KeyBinding with ActionButton02 := v } })
  readField api.ConvertFrom TAG_ACTION03 ATTRIB_KEY (fun v this => { this with KeyBinding := { this.KeyBinding with ActionButton03 := v } })
  readField api.ConvertFrom TAG_ACTION04 ATTRIB_KEY (fun v this => { this with KeyBinding := { this.KeyBinding with ActionButton04 := v } })
  readField api.ConvertFrom TAG_ACTION05 ATTRIB_KEY (fun v this => { this with KeyBinding := { this.KeyBinding with ActionButton05 := v } })
  readField api.ConvertFrom TAG_ACTION06 ATTRIB_KEY (fun v this => { this with KeyBinding := { this.KeyBinding with ActionButton06 := v } })
  readField api.ConvertFrom TAG_ACTION07 ATTRIB_KEY (fun v this => { this with KeyBinding := { this.KeyBinding with ActionButton07 := v } })
  readField api.ConvertFrom TAG_ACTION08 ATTRIB_KEY (fun v this => { this with KeyBinding := { this.KeyBinding with ActionButton08 := v } })
  readField api.ConvertFrom TAG_ACTION09 ATTRIB_KEY (fun v this => { this with KeyBinding := { this.KeyBinding with ActionButton09 := v } })
  readField api.ConvertFrom TAG_ACTION10 ATTRIB_KEY (fun v this => { this with KeyBinding := { this.KeyBinding with ActionButton10 := v } })
  readField api.ConvertFrom TAG_ACTION11 ATTRIB_KEY (fun v this => { this with KeyBinding := { this.KeyBinding with ActionButton11 := v } })
  readField api.ConvertFrom TAG_ACTION12 ATTRIB_KEY (fun v this => { this with KeyBinding := { this.KeyBinding with ActionButton12 := v } })
  readField api.ConvertFrom TAG_ACTION13 ATTRIB_KEY (fun v this => { this with KeyBinding := { this.KeyBinding with ActionButton13 := v } })
  readField api.ConvertFrom TAG_ACTION14 ATTRIB_KEY (fun v this => { this with KeyBinding := { this.KeyBinding with ActionButton14 := v } })
  readField api.ConvertFrom TAG_ACTION15 ATTRIB_KEY (fun v this => { this with KeyBinding := { this.KeyBinding with ActionButton15 := v } })
  readField api.ConvertFrom TAG_ACTION16 ATTRIB_KEY (fun v this => { this with KeyBinding := { this.KeyBinding with ActionButton16 := v } })
  readField api.ConvertFrom TAG_ACTION17 ATTRIB_KEY (fun v this => { this with KeyBinding := { this.KeyBinding with ActionButton17 := v } })
  readField api.ConvertFrom TAG_ACTION18 ATTRIB_KEY (fun v this => { this with KeyBinding := { this.KeyBinding with ActionButton18 := v } })
  readField api.ConvertFrom TAG_ACTION19 ATTRIB_KEY (fun v this => { this with KeyBinding := { this.KeyBinding with ActionButton19 := v } })
  readField api.ConvertFrom TAG_ACTION20 ATTRIB_KEY (fun v this => { this with KeyBinding := { this.KeyBinding with ActionButton20 := v } })
  readField api.ConvertFrom TAG_ACTION21 ATTRIB_KEY (fun v this => { this with KeyBinding := { this.KeyBinding with ActionButton21 := v } })
  readField api.ConvertFrom TAG_ACTION22 ATTRIB_KEY (fun v this => { this with KeyBinding := { this.KeyBinding with ActionButton22 := v } })
  readField api.ConvertFrom TAG_ACTION23 ATTRIB_KEY (fun v this => { this with KeyBinding := { this.KeyBinding with ActionButton23 := v } })
  readField api.ConvertFrom TAG_ACTION24 ATTRIB_KEY (fun v this => { this with KeyBinding := { this.KeyBinding with ActionButton24 := v } })
  readField api.ConvertFrom TAG_ACTION25 ATTRIB_KEY (fun v this => { this with KeyBinding := { this.KeyBinding with ActionButton25 := v } })
  readField api.ConvertFrom TAG_ACTION26 ATTRIB_KEY (fun v this => { this with KeyBinding := { this.KeyBinding with ActionButton26 := v } })
  readField api.ConvertFrom TAG_ACTION27 ATTRIB_KEY (fun v this => { this with KeyBinding := { this.KeyBinding with ActionButton27 := v } })
  readField api.ConvertFrom TAG_ACTION28 ATTRIB_KEY (fun v this => { this with KeyBinding := { this.KeyBinding with ActionButton28 := v } })
  readField api.ConvertFrom TAG_ACTION29 ATTRIB_KEY (fun v this => { this with KeyBinding := { this.KeyBinding with ActionButton29 := v } })
  readField api.ConvertFrom TAG_ACTION30 ATTRIB_KEY (fun v this => { this with KeyBinding := { this.KeyBinding with ActionButton30 := v } })
  readField api.ConvertFrom TAG_ACTION31 ATTRIB_KEY (fun v this => { this with KeyBinding := { this.KeyBinding with ActionButton31 := v } })
  readField api.ConvertFrom TAG_ACTION32 ATTRIB_KEY (fun v this => { this with KeyBinding := { this.KeyBinding with ActionButton32 := v } })
  readField api.ConvertFrom TAG_ACTION33 ATTRIB_KEY (fun v this => { this with KeyBinding := { this.KeyBinding with ActionButton33 := v } })
  readField api.ConvertFrom TAG_ACTION34 ATTRIB_KEY (fun v this => { this with KeyBinding := { this.KeyBinding with ActionButton34 := v } })
  readField api.ConvertFrom TAG_ACTION35 ATTRIB_KEY (fun v this => { this with KeyBinding := { this.KeyBinding with ActionButton35 := v } })
  readField api.ConvertFrom TAG_ACTION36 ATTRIB_KEY (fun v this => { this with KeyBinding := { this.KeyBinding with ActionButton36 := v } })
  readField api.ConvertFrom TAG_ACTION37 ATTRIB_KEY (fun v this => { this with KeyBinding := { this.KeyBinding with ActionButton37 := v } })
  readField api.ConvertFrom TAG_ACTION38 ATTRIB_KEY (fun v this => { this with KeyBinding := { this.KeyBinding with ActionButton38 := v } })
  readField api.ConvertFrom TAG_ACTION39 ATTRIB_KEY (fun v this => { this with KeyBinding := { this.KeyBinding with ActionButton39 := v } })
  readField api.ConvertFrom TAG_ACTION40 ATTRIB_KEY (fun v this => { this with KeyBinding := { this.KeyBinding with ActionButton40 := v } })
  readField api.ConvertFrom TAG_ACTION41 ATTRIB_KEY (fun v this => { this with KeyBinding := { this.KeyBinding with ActionButton41 := v } })
  readField api.ConvertFrom TAG_ACTION42 ATTRIB_KEY (fun v this => { this with KeyBinding := { this.KeyBinding with ActionButton42 := v } })
  readField api.ConvertFrom TAG_ACTION43 ATTRIB_KEY (fun v this => { this with KeyBinding := { this.KeyBinding with ActionButton43 := v } })
  readField api.ConvertFrom TAG_ACTION44 ATTRIB_KEY (fun v this => { this with KeyBinding := { this.KeyBinding with ActionButton44 := v } })
  readField api.ConvertFrom TAG_ACTION45 ATTRIB_KEY (fun v this => { this with KeyBinding := { this.KeyBinding with ActionButton45 := v } })
  readField api.ConvertFrom TAG_ACTION46 ATTRIB_KEY (fun v this => { this with KeyBinding := { this.KeyBinding with ActionButton46 := v } })
  readField api.ConvertFrom TAG_ACTION47 ATTRIB_KEY (fun v this => { this with KeyBinding := { this.KeyBinding with ActionButton47 := v } })
  readField api.ConvertFrom TAG_ACTION48 ATTRIB_KEY (fun v this => { this with KeyBinding := { this.KeyBinding with ActionButton48 := v } })

/-- The attribute a constructor argument reads. -/
def ButtonArgument.Attribute : ButtonArgument → String
  | ButtonArgument.Num => ATTRIB_NUM
  | ButtonArgument.ButtonType => ATTRIB_TYPE
  | ButtonArgument.Name => XMLATTRIB_NAME
  | ButtonArgument.NumOfSameName => ATTRIB_NUMOFSAMENAME

/-- The arguments of the constructor call `gcnew ActionButtonConfig(...)` before any
of them is evaluated.  The values written here are never seen: each is replaced by
the evaluation of its argument before the constructor runs. -/
def unevaluatedArguments : ActionButtonConfig :=
  { Num := ⟨0, by decide⟩, ButtonType := ActionButtonType.Unset, Name := none,
    NumOfSameName := ⟨0, by decide⟩ }

/-- The evaluation of one argument of the constructor call
`gcnew ActionButtonConfig(Convert::ToInt32(Reader[ATTRIB_NUM]),
GetButtonType(Reader[ATTRIB_TYPE]), Reader[XMLATTRIB_NAME], nullptr, nullptr,
Convert::ToUInt32(Reader[ATTRIB_NUMOFSAMENAME]))`; its value takes its place among
the arguments `args`. -/
def evalArgument {Keys : Type} :
    ButtonArgument → ActionButtonConfig → Op (ReadState Keys) ActionButtonConfig
  | ButtonArgument.Num, args => do
    let Num ← Op.ofExcept (Convert.ToInt32 (← ReaderItem ATTRIB_NUM))
    pure { args with Num := Num }
  | ButtonArgument.ButtonType, args => do
    let ButtonType := GetButtonType (← ReaderItem ATTRIB_TYPE)
    pure { args with ButtonType := ButtonType }
  | ButtonArgument.Name, args => do
    let Name ← ReaderItem XMLATTRIB_NAME
    pure { args with Name := Name }
  | ButtonArgument.NumOfSameName, args => do
    let NumOfSameName ← Op.ofExcept (Convert.ToUInt32 (← ReaderItem ATTRIB_NUMOFSAMENAME))
    pure { args with NumOfSameName := NumOfSameName }

/-- The evaluation of the arguments of the constructor call, one after the other in
the order given. -/
def evalArguments {Keys : Type} :
    List ButtonArgument → ActionButtonConfig → Op (ReadState Keys) ActionButtonConfig
  | [], args => pure args
  | a :: rest, args => do
    let args ← evalArgument a args
    evalArguments rest args

/-- ReadXml, the inner loop `for (int j = 0; j < num; j++)`: `n` iterations are left
and `buttonSet` holds the buttons read so far.  The constructor arguments are
evaluated in the order the compiler chose. -/
def ReadXml_actionbutton {Keys : Type} : Nat → ActionButtonList → Op (ReadState Keys) ActionButtonList
  | 0, buttonSet => pure buttonSet
  | n + 1, buttonSet => do
    let _ ← ReadToFollowing TAG_ACTIONBUTTON
    let button ← evalArguments ArgumentOrder.order unevaluatedArguments
    ReadXml_actionbutton n (buttonSet.Add button)

/-- ReadXml, the outer loop `for (int i = 0; i < count; i++)` with `n` iterations left. -/
def ReadXml_actionbuttons {Keys : Type} : Nat → Op (ReadState Keys) Unit
  | 0 => pure ()
  | n + 1 => do
    let _ ← ReadToFollowing TAG_ACTIONBUTTONS
    let PlayerName ← ReaderItem ATTRIB_PLAYER
    let num ← Op.ofExcept (Convert.ToInt32 (← ReaderItem ATTRIB_COUNT))
    let buttonSet ← ReadXml_actionbutton num.val.toNat { PlayerName := PlayerName, Items := [] }
    assign (fun this => { this with ActionButtonSets := this.ActionButtonSets ++ [buttonSet] })
    ReadXml_actionbuttons n

/-- ReadXml, the actionbuttonsets element and the sets under it. -/
def ReadXml_actionbuttonsets {Keys : Type} : Op (ReadState Keys) Unit := do
  let _ ← ReadToFollowing TAG_ACTIONBUTTONSETS
  let count ← Op.ofExcept (Convert.ToInt32 (← ReaderItem ATTRIB_COUNT))
  ReadXml_actionbuttons count.val.toNat

/-- The method `OgreClientConfig::ReadXml`, after the call of the base class. -/
def ReadXml {Keys : Type} (api : Collaborators Keys) : Op (ReadState Keys) Unit := do
  ReadXml_engine
  ReadXml_input
  ReadXml_keybinding api
  ReadXml_keys_movement api
  ReadXml_keys_modifiers api
  ReadXml_keys_targetting api
  ReadXml_keys_others api
  ReadXml_keys_actions api
  ReadXml_actionbuttonsets

/-- WriteXml, the engine element. -/
def WriteXml_engine {Keys : Type} (this : OgreClientConfig Keys) : Emit XmlEvent Unit := do
  WriteStartElement TAG_ENGINE
  WriteStartElement TAG_DISPLAY
  WriteAttributeString ATTRIB_VALUE (some (Int32.ToString this.Display))
  WriteEndElement
  WriteStartElement TAG_RESOLUTION
  WriteAttributeString ATTRIB_VALUE this.Resolution
  WriteEndElement
  WriteStartElement TAG_WINDOWMODE
  WriteAttributeString ATTRIB_ENABLED (some (ToLower (Boolean.ToString this.WindowMode)))
  WriteEndElement
  WriteStartElement TAG_WINDOWFRAME
  WriteAttributeString ATTRIB_ENABLED (some (ToLower (Boolean.ToString this.WindowFrame)))
  WriteEndElement
  WriteStartElement TAG_VSYNC
  WriteAttributeString ATTRIB_ENABLED (some (ToLower (Boolean.ToString this.VSync)))
  WriteEndElement
  WriteStartElement TAG_FSAA
  WriteAttributeString ATTRIB_VALUE this.FSAA
  WriteEndElement
  WriteStartElement TAG_NOMIPMAPS
  WriteAttributeString ATTRIB_VALUE (some (ToLower (Boolean.ToString this.NoMipmaps)))
  WriteEndElement
  WriteStartElement TAG_TEXTUREFILTERING
  WriteAttributeString ATTRIB_VALUE this.TextureFiltering
  WriteEndElement
  WriteStartElement TAG_IMAGEBUILDER
  WriteAttributeString ATTRIB_VALUE this.ImageBuilder
  WriteEndElement
  WriteStartElement TAG_BITMAPSCALING
  WriteAttributeString ATTRIB_VALUE this.BitmapScaling
  WriteEndElement
  WriteStartElement TAG_TEXTUREQUALITY
  WriteAttributeString ATTRIB_VALUE this.TextureQuality
  WriteEndElement
  WriteStartElement TAG_DECORATIONINTENSITY
  WriteAttributeString ATTRIB_VALUE (some (Int32.ToString this.DecorationIntensity))
  WriteEndElement
  WriteStartElement TAG_DECORATIONQUALITY
  WriteAttributeString ATTRIB_VALUE (some (Int32.ToString this.DecorationQuality))
  WriteEndElement
  WriteStartElement TAG_DISABLENEWROOMTEXTURES
  WriteAttributeString ATTRIB_VALUE (some (ToLower (Boolean.ToString this.DisableNewRoomTextures)))
  WriteEndElement
  WriteStartElement TAG_DISABLE3DMODELS
  WriteAttributeString ATTRIB_VALUE (some (ToLower (Boolean.ToString this.Disable3DModels)))
  WriteEndElement
  WriteStartElement TAG_DISABLENEWSKY
  WriteAttributeString ATTRIB_VALUE (some (ToLower (Boolean.ToString this.DisableNewSky)))
  WriteEndElement
  WriteStartElement TAG_DISABLEWEATHEREFFECTS
  WriteAttributeString ATTRIB_VALUE (some (ToLower (Boolean.ToString this.DisableWeatherEffects)))
  WriteEndElement
  WriteStartElement TAG_WEATHERPARTICLES
  WriteAttributeString ATTRIB_VALUE (some (ToLower (Int32.ToString this.WeatherParticles)))
  WriteEndElement
  WriteStartElement TAG_MUSICVOLUME
  WriteAttributeString ATTRIB_VALUE (some (Int32.ToString this.MusicVolume))
  WriteEndElement
  WriteStartElement TAG_DISABLELOOPSOUNDS
  WriteAttributeString ATTRIB_VALUE (some (ToLower (Boolean.ToString this.DisableLoopSounds)))
  WriteEndElement
  WriteEndElement

/-- WriteXml, the start of the input element and its scalar fields. -/
def WriteXml_input {Keys : Type} (this : OgreClientConfig Keys) : Emit XmlEvent Unit := do
  WriteStartElement TAG_INPUT
  WriteStartElement TAG_MOUSEAIMSPEED
  WriteAttributeString ATTRIB_VALUE (some (Int32.ToString this.MouseAimSpeed))
  WriteEndElement
  WriteStartElement TAG_KEYROTATESPEED
  WriteAttributeString ATTRIB_VALUE (some (Int32.ToString this.KeyRotateSpeed))
  WriteEndElement
  WriteStartElement TAG_INVERTMOUSEY
  WriteAttributeString ATTRIB_VALUE (some (Boolean.ToString this.InvertMouseY))
  WriteEndElement

/-- WriteXml, the start of the keybinding element and its rightclickaction attribute. -/
def WriteXml_keybinding {Keys : Type} (this : OgreClientConfig Keys) : Emit XmlEvent Unit := do
  WriteStartElement TAG_KEYBINDING
  WriteAttributeString ATTRIB_RIGHTCLICKACTION (some (Int32.ToString this.KeyBinding.RightClickAction))

/-- WriteXml, the movement keys. -/
def WriteXml_keys_movement {Keys : Type} (api : Collaborators Keys) (this : OgreClientConfig Keys) : Emit XmlEvent Unit := do
  WriteStartElement TAG_MOVEFORWARD
  WriteAttributeString ATTRIB_KEY (some (api.ToString this.KeyBinding.MoveForward))
  WriteEndElement
  WriteStartElement TAG_MOVEBACKWARD
  WriteAttributeString ATTRIB_KEY (some (api.ToString this.KeyBinding.MoveBackward))
  WriteEndElement
  WriteStartElement TAG_MOVELEFT
  WriteAttributeString ATTRIB_KEY (some (api.ToString this.KeyBinding.MoveLeft))
  WriteEndElement
  WriteStartElement TAG_MOVERIGHT
  WriteAttributeString ATTRIB_KEY (some (api.ToString this.KeyBinding.MoveRight))
  WriteEndElement
  WriteStartElement TAG_ROTATELEFT
  WriteAttributeString ATTRIB_KEY (some (api.ToString this.KeyBinding.RotateLeft))
  WriteEndElement
  WriteStartElement TAG_ROTATERIGHT
  WriteAttributeString ATTRIB_KEY (some (api.ToString this.KeyBinding.RotateRight))
  WriteEndElement

/-- WriteXml, the modifier keys. -/
def WriteXml_keys_modifiers {Keys : Type} (api : Collaborators Keys) (this : OgreClientConfig Keys) : Emit XmlEvent Unit := do
  WriteStartElement TAG_WALK
  WriteAttributeString ATTRIB_KEY (some (api.ToString this.KeyBinding.Walk))
  WriteEndElement
  WriteStartElement TAG_AUTOMOVE
  WriteAttributeString ATTRIB_KEY (some (api.ToString this.KeyBinding.AutoMove))
  WriteEndElement

/-- WriteXml, the targetting keys. -/
def WriteXml_keys_targetting {Keys : Type} (api : Collaborators Keys) (this : OgreClientConfig Keys) : Emit XmlEvent Unit := do
  WriteStartElement TAG_NEXTTARGET
  WriteAttributeString ATTRIB_KEY (some (api.ToString this.KeyBinding.NextTarget))
  WriteEndElement
  WriteStartElement TAG_SELFTARGET
  WriteAttributeString ATTRIB_KEY (some (api.ToString this.KeyBinding.SelfTarget))
  WriteEndElement

/-- WriteXml, the other keys. -/
def WriteXml_keys_others {Keys : Type} (api : Collaborators Keys) (this : OgreClientConfig Keys) : Emit XmlEvent Unit := do
  WriteStartElement TAG_OPEN
  WriteAttributeString ATTRIB_KEY (some (api.ToString this.KeyBinding.ReqGo))
  WriteEndElement
  WriteStartElement TAG_CLOSE
  WriteAttributeString ATTRIB_KEY (some (api.ToString this.KeyBinding.Close))
  WriteEndElement

/-- WriteXml, the 48 action button keys. -/
def WriteXml_keys_actions {Keys : Type} (api : Collaborators Keys) (this : OgreClientConfig Keys) : Emit XmlEvent Unit := do
  WriteStartElement TAG_ACTION01
  WriteAttributeString ATTRIB_KEY (some (api.ToString this.KeyBinding.ActionButton01))
  WriteEndElement
  WriteStartElement TAG_ACTION02
  WriteAttributeString ATTRIB_KEY (some (api.ToString this.KeyBinding.ActionButton02))
  WriteEndElement
  WriteStartElement TAG_ACTION03
  WriteAttributeString ATTRIB_KEY (some (api.ToString this.KeyBinding.ActionButton03))
  WriteEndElement
  WriteStartElement TAG_ACTION04
  WriteAttributeString ATTRIB_KEY (some (api.ToString this.KeyBinding.ActionButton04))
  WriteEndElement
  WriteStartElement TAG_ACTION05
  WriteAttributeString ATTRIB_KEY (some (api.ToString this.KeyBinding.ActionButton05))
  WriteEndElement
  WriteStartElement TAG_ACTION06
  WriteAttributeString ATTRIB_KEY (some (api.ToString this.KeyBinding.ActionButton06))
  WriteEndElement
  WriteStartElement TAG_ACTION07
  WriteAttributeString ATTRIB_KEY (some (api.ToString this.KeyBinding.ActionButton07))
  WriteEndElement
  WriteStartElement TAG_ACTION08
  WriteAttributeString ATTRIB_KEY (some (api.ToString this.KeyBinding.ActionButton08))
  WriteEndElement
  WriteStartElement TAG_ACTION09
  WriteAttributeString ATTRIB_KEY (some (api.ToString this.KeyBinding.ActionButton09))
  WriteEndElement
  WriteStartElement TAG_ACTION10
  WriteAttributeString ATTRIB_KEY (some (api.ToString this.KeyBinding.ActionButton10))
  WriteEndElement
  WriteStartElement TAG_ACTION11
  WriteAttributeString ATTRIB_KEY (some (api.ToString this.KeyBinding.ActionButton11))
  WriteEndElement
  WriteStartElement TAG_ACTION12
  WriteAttributeString ATTRIB_KEY (some (api.ToString this.KeyBinding.ActionButton12))
  WriteEndElement
  WriteStartElement TAG_ACTION13
  WriteAttributeString ATTRIB_KEY (some (api.ToString this.KeyBinding.ActionButton13))
  WriteEndElement
  WriteStartElement TAG_ACTION14
  WriteAttributeString ATTRIB_KEY (some (api.ToString this.KeyBinding.ActionButton14))
  WriteEndElement
  WriteStartElement TAG_ACTION15
  WriteAttributeString ATTRIB_KEY (some (api.ToString this.KeyBinding.ActionButton15))
  WriteEndElement
  WriteStartElement TAG_ACTION16
  WriteAttributeString ATTRIB_KEY (some (api.ToString this.KeyBinding.ActionButton16))
  WriteEndElement
  WriteStartElement TAG_ACTION17
  WriteAttributeString ATTRIB_KEY (some (api.ToString this.KeyBinding.ActionButton17))
  WriteEndElement
  WriteStartElement TAG_ACTION18
  WriteAttributeString ATTRIB_KEY (some (api.ToString this.KeyBinding.ActionButton18))
  WriteEndElement
  WriteStartElement TAG_ACTION19
  WriteAttributeString ATTRIB_KEY (some (api.ToString this.KeyBinding.ActionButton19))
  WriteEndElement
  WriteStartElement TAG_ACTION20
  WriteAttributeString ATTRIB_KEY (some (api.ToString this.KeyBinding.ActionButton20))
  WriteEndElement
  WriteStartElement TAG_ACTION21
  WriteAttributeString ATTRIB_KEY (some (api.ToString this.KeyBinding.ActionButton21))
  WriteEndElement
  WriteStartElement TAG_ACTION22
  WriteAttributeString ATTRIB_KEY (some (api.ToString this.KeyBinding.ActionButton22))
  WriteEndElement
  WriteStartElement TAG_ACTION23
  WriteAttributeString ATTRIB_KEY (some (api.ToString this.KeyBinding.ActionButton23))
  WriteEndElement
  WriteStartElement TAG_ACTION24
  WriteAttributeString ATTRIB_KEY (some (api.ToString this.KeyBinding.ActionButton24))
  WriteEndElement
  WriteStartElement TAG_ACTION25
  WriteAttributeString ATTRIB_KEY (some (api.ToString this.KeyBinding.ActionButton25))
  WriteEndElement
  WriteStartElement TAG_ACTION26
  WriteAttributeString ATTRIB_KEY (some (api.ToString this.KeyBinding.ActionButton26))
  WriteEndElement
  WriteStartElement TAG_ACTION27
  WriteAttributeString ATTRIB_KEY (some (api.ToString this.KeyBinding.ActionButton27))
  WriteEndElement
  WriteStartElement TAG_ACTION28
  WriteAttributeString ATTRIB_KEY (some (api.ToString this.KeyBinding.ActionButton28))
  WriteEndElement
  WriteStartElement TAG_ACTION29
  WriteAttributeString ATTRIB_KEY (some (api.ToString this.KeyBinding.ActionButton29))
  WriteEndElement
  WriteStartElement TAG_ACTION30
  WriteAttributeString ATTRIB_KEY (some (api.ToString this.KeyBinding.ActionButton30))
  WriteEndElement
  WriteStartElement TAG_ACTION31
  WriteAttributeString ATTRIB_KEY (some (api.ToString this.KeyBinding.ActionButton31))
  WriteEndElement
  WriteStartElement TAG_ACTION32
  WriteAttributeString ATTRIB_KEY (some (api.ToString this.KeyBinding.ActionButton32))
  WriteEndElement
  WriteStartElement TAG_ACTION33
  WriteAttributeString ATTRIB_KEY (some (api.ToString this.KeyBinding.ActionButton33))
  WriteEndElement
  WriteStartElement TAG_ACTION34
  WriteAttributeString ATTRIB_KEY (some (api.ToString this.KeyBinding.ActionButton34))
  WriteEndElement
  WriteStartElement TAG_ACTION35
  WriteAttributeString ATTRIB_KEY (some (api.ToString this.KeyBinding.ActionButton35))
  WriteEndElement
  WriteStartElement TAG_ACTION36
  WriteAttributeString ATTRIB_KEY (some (api.ToString this.KeyBinding.ActionButton36))
  WriteEndElement
  WriteStartElement TAG_ACTION37
  WriteAttributeString ATTRIB_KEY (some (api.ToString this.KeyBinding.ActionButton37))
  WriteEndElement
  WriteStartElement TAG_ACTION38
  WriteAttributeString ATTRIB_KEY (some (api.ToString this.KeyBinding.ActionButton38))
  WriteEndElement
  WriteStartElement TAG_ACTION39
  WriteAttributeString ATTRIB_KEY (some (api.ToString this.KeyBinding.ActionButton39))
  WriteEndElement
  WriteStartElement TAG_ACTION40
  WriteAttributeString ATTRIB_KEY (some (api.ToString this.KeyBinding.ActionButton40))
  WriteEndElement
  WriteStartElement TAG_ACTION41
  WriteAttributeString ATTRIB_KEY (some (api.ToString this.KeyBinding.ActionButton41))
  WriteEndElement
  WriteStartElement TAG_ACTION42
  WriteAttributeString ATTRIB_KEY (some (api.ToString this.KeyBinding.ActionButton42))
  WriteEndElement
  WriteStartElement TAG_ACTION43
  WriteAttributeString ATTRIB_KEY (some (api.ToString this.KeyBinding.ActionButton43))
  WriteEndElement
  WriteStartElement TAG_ACTION44
  WriteAttributeString ATTRIB_KEY (some (api.ToString this.KeyBinding.ActionButton44))
  WriteEndElement
  WriteStartElement TAG_ACTION45
  WriteAttributeString ATTRIB_KEY (some (api.ToString this.KeyBinding.ActionButton45))
  WriteEndElement
  WriteStartElement TAG_ACTION46
  WriteAttributeString ATTRIB_KEY (some (api.ToString this.KeyBinding.ActionButton46))
  WriteEndElement
  WriteStartElement TAG_ACTION47
  WriteAttributeString ATTRIB_KEY (some (api.ToString this.KeyBinding.ActionButton47))
  WriteEndElement
  WriteStartElement TAG_ACTION48
  WriteAttributeString ATTRIB_KEY (some (api.ToString this.KeyBinding.ActionButton48))
  WriteEndElement

/-- WriteXml, the inner loop over the buttons of a set, from the button at hand on. -/
def WriteXml_actionbutton : List ActionButtonConfig → Emit XmlEvent Unit
  | [] => pure ()
  | b :: rest => do
    WriteStartElement TAG_ACTIONBUTTON
    WriteAttributeString ATTRIB_NUM (some (Int32.ToString b.Num))
    WriteAttributeString ATTRIB_TYPE (some (ToLower (ActionButtonType.ToString b.ButtonType)))
    let Name ← deref b.Name
    WriteAttributeString XMLATTRIB_NAME (some (ToLower Name))
    WriteAttributeString ATTRIB_NUMOFSAMENAME (some (UInt32.ToString b.NumOfSameName))
    WriteEndElement
    WriteXml_actionbutton rest

/-- WriteXml, the outer loop over the sets, from the set at hand on. -/
def WriteXml_actionbuttons : List ActionButtonList → Emit XmlEvent Unit
  | [] => pure ()
  | set :: rest => do
    WriteStartElement TAG_ACTIONBUTTONS
    WriteAttributeString ATTRIB_PLAYER set.PlayerName
    WriteAttributeString ATTRIB_COUNT (some (intToString set.Count))
    WriteXml_actionbutton set.Items
    WriteEndElement
    WriteXml_actionbuttons rest

/-- WriteXml, the actionbuttonsets element. -/
def WriteXml_actionbuttonsets {Keys : Type} (this : OgreClientConfig Keys) : Emit XmlEvent Unit := do
  WriteStartElement TAG_ACTIONBUTTONSETS
  WriteAttributeString ATTRIB_COUNT (some (intToString (this.ActionButtonSets.length : Int)))
  WriteXml_actionbuttons this.ActionButtonSets
  WriteEndElement

/-- The method `OgreClientConfig::WriteXml`, after the call of the base class.  The
two end tags written here close the keybinding and the input element. -/
def WriteXml {Keys : Type} (api : Collaborators Keys) (this : OgreClientConfig Keys) :
    Emit XmlEvent Unit := do
  WriteXml_engine this
  WriteXml_input this
  WriteXml_keybinding this
  WriteXml_keys_movement api this
  WriteXml_keys_modifiers api this
  WriteXml_keys_targetting api this
  WriteXml_keys_others api this
  WriteXml_keys_actions api this
  WriteEndElement
  WriteXml_actionbuttonsets this
  WriteEndElement

/-! ## Notions used to state the properties -/

/-- The key collaborator reads back what `ToString()` prints. -/
def KeysRoundTrip {Keys : Type} (api : Collaborators Keys) : Prop :=
  ∀ k : Keys, api.ConvertFrom (some (api.ToString k)) = Except.ok k

/-- The reader calls that mirror a sequence of writer calls: a start tag is sought,
an attribute is read, an end tag needs no call. -/
def callsOf : List XmlEvent → List ReaderCall
  | [] => []
  | XmlEvent.StartElement n :: evs => ReaderCall.ReadToFollowing n :: callsOf evs
  | XmlEvent.Attribute n _ :: evs => ReaderCall.GetAttribute n :: callsOf evs
  | XmlEvent.EndElement :: evs => callsOf evs

/-- The node a reader is on after it has moved through the nodes `es` one by one,
starting on `cur`. -/
def lastOr : List XmlElement → Option XmlElement → Option XmlElement
  | [], cur => cur
  | e :: es, _ => lastOr es (some e)

/-- A button as the document stores it: the name in lower case, and as type the one
GetButtonType finds in the lower case of the name of the type. -/
def ActionButtonConfig.Stored (b : ActionButtonConfig) : ActionButtonConfig :=
  { b with
    ButtonType := GetButtonType (some (ToLower (ActionButtonType.ToString b.ButtonType)))
    Name := b.Name.map ToLower }

/-- A set as the document stores it: a null player name becomes the empty text. -/
def ActionButtonList.Stored (l : ActionButtonList) : ActionButtonList :=
  { PlayerName := some (l.PlayerName.getD ""), Items := l.Items.map ActionButtonConfig.Stored }

/-- A record as the document stores it: null texts become empty, button names lower case. -/
def OgreClientConfig.Stored {Keys : Type} (r : OgreClientConfig Keys) : OgreClientConfig Keys :=
  { r with
    Resolution := some (r.Resolution.getD "")
    FSAA := some (r.FSAA.getD "")
    TextureFiltering := some (r.TextureFiltering.getD "")
    ImageBuilder := some (r.ImageBuilder.getD "")
    BitmapScaling := some (r.BitmapScaling.getD "")
    TextureQuality := some (r.TextureQuality.getD "")
    ActionButtonSets := r.ActionButtonSets.map ActionButtonList.Stored }

/-- Every button of the record has a name, so that WriteXml can lower-case it. -/
def NamesPresent {Keys : Type} (r : OgreClientConfig Keys) : Prop :=
  ∀ set ∈ r.ActionButtonSets, ∀ b ∈ set.Items, b.Name ≠ none

/-- The counts of the lists are values of `int`, as `Count` is. -/
def CountsFit {Keys : Type} (r : OgreClientConfig Keys) : Prop :=
  r.ActionButtonSets.length < 2147483648 ∧
    ∀ set ∈ r.ActionButtonSets, set.Items.length < 2147483648

/-- The element WriteXml emits for a button with a name. -/
def buttonElement (b : ActionButtonConfig) : XmlElement :=
  { Name := TAG_ACTIONBUTTON,
    Attributes := [(ATTRIB_NUM, Int32.ToString b.Num),
      (ATTRIB_TYPE, ToLower (ActionButtonType.ToString b.ButtonType)),
      (XMLATTRIB_NAME, ToLower (b.Name.getD "")),
      (ATTRIB_NUMOFSAMENAME, UInt32.ToString b.NumOfSameName)] }

/-- The reader calls made for one button: the element is sought, then its attributes
are read in the order in which the constructor arguments are evaluated. -/
def buttonCalls : List ReaderCall :=
  ReaderCall.ReadToFollowing TAG_ACTIONBUTTON ::
    ArgumentOrder.order.map (fun a => ReaderCall.GetAttribute a.Attribute)

/-- The element WriteXml emits at the start of a set. -/
def setElement (l : ActionButtonList) : XmlElement :=
  { Name := TAG_ACTIONBUTTONS,
    Attributes := [(ATTRIB_PLAYER, l.PlayerName.getD ""), (ATTRIB_COUNT, intToString l.Count)] }

/-- The elements WriteXml emits for a list of sets. -/
def setElements : List ActionButtonList → List XmlElement
  | [] => []
  | l :: ls => setElement l :: (l.Items.map buttonElement ++ setElements ls)

/-- The reader calls made for a list of buttons. -/
def buttonsCalls : List ActionButtonConfig → List ReaderCall
  | [] => []
  | _ :: bs => buttonCalls ++ buttonsCalls bs

/-- The reader calls made for a list of sets. -/
def setCalls : List ActionButtonList → List ReaderCall
  | [] => []
  | l :: ls =>
    [ReaderCall.ReadToFollowing TAG_ACTIONBUTTONS, ReaderCall.GetAttribute ATTRIB_PLAYER,
      ReaderCall.GetAttribute ATTRIB_COUNT] ++ (buttonsCalls l.Items ++ setCalls ls)

/-- No attribute is written right after an end tag: every attribute written belongs
to the element started last. -/
def attributesFollowStart : List XmlEvent → Bool
  | [] => true
  | XmlEvent.EndElement :: XmlEvent.Attribute _ _ :: _ => false
  | _ :: evs => attributesFollowStart evs

/-- An element of the document with the elements nested in it. -/
inductive XmlNode where
  | node (Name : String) (Attributes : List (String × String)) (Children : List XmlNode)

/-- The name of an element. -/
def XmlNode.Name : XmlNode → String
  | XmlNode.node n _ _ => n

/-- The attributes of an element, in the order written. -/
def XmlNode.Attributes : XmlNode → List (String × String)
  | XmlNode.node _ a _ => a

/-- The child elements of an element, in the order written. -/
def XmlNode.Children : XmlNode → List XmlNode
  | XmlNode.node _ _ c => c

/-- An element the writer has started and not yet ended: its name, the attributes and
the child elements written so far. -/
structure OpenElement where
  Name : String
  Attributes : List (String × String)
  Children : List XmlNode

/-- The trees a sequence of writer calls builds, given the elements open at its start
(innermost first) and the top-level elements finished before it.  The result is
`none` when the calls are not those of a well-formed document: an end tag or
an attribute with no element open, an attribute after a child element, or an
element left open at the end. -/
def buildNodes : List XmlEvent → List OpenElement → List XmlNode → Option (List XmlNode)
  | [], [], done => some done
  | [], _ :: _, _ => none
  | XmlEvent.StartElement n :: evs, stack, done =>
    buildNodes evs ({ Name := n, Attributes := [], Children := [] } :: stack) done
  | XmlEvent.Attribute _ _ :: _, [], _ => none
  | XmlEvent.Attribute a v :: evs, o :: stack, done =>
    match o.Children with
    | [] => buildNodes evs ({ o with Attributes := o.Attributes ++ [(a, v)] } :: stack) done
    | _ :: _ => none
  | XmlEvent.EndElement :: _, [], _ => none
  | XmlEvent.EndElement :: evs, [o], done =>
    buildNodes evs [] (done ++ [XmlNode.node o.Name o.Attributes o.Children])
  | XmlEvent.EndElement :: evs, o :: p :: stack, done =>
    buildNodes evs
      ({ p with Children := p.Children ++ [XmlNode.node o.Name o.Attributes o.Children] } ::
        stack) done

/-- The trees of a complete sequence of writer calls. -/
def nodesOf (evs : List XmlEvent) : Option (List XmlNode) := buildNodes evs [] []

/-- The tree WriteXml writes for a button. -/
def buttonNode (b : ActionButtonConfig) : XmlNode :=
  XmlNode.node TAG_ACTIONBUTTON (buttonElement b).Attributes []

/-- The tree WriteXml writes for a set. -/
def setNode (l : ActionButtonList) : XmlNode :=
  XmlNode.node TAG_ACTIONBUTTONS (setElement l).Attributes (l.Items.map buttonNode)

/-- The attributes of an element other than the type attribute. -/
def attributesButType (e : XmlElement) : List (String × String) :=
  e.Attributes.filter (fun a => decide (a.1 ≠ ATTRIB_TYPE))

/-- The element `e2` is the element `e` with, possibly, another type text: same
name, same attributes apart from the type attribute. -/
def Retyped (e e2 : XmlElement) : Prop :=
  e2.Name = e.Name ∧ attributesButType e2 = attributesButType e

/-- Two computations started in related states end alike: both return, with related
results and related states, or both throw the same exception, in related states. -/
def EndAlike {σ α : Type} (S : σ → σ → Prop) (R : α → α → Prop) (m m2 : Op σ α) : Prop :=
  ∀ s s2, S s s2 →
    (∃ a a2 t t2, m.run s = (Except.ok a, t) ∧ m2.run s2 = (Except.ok a2, t2) ∧
      R a a2 ∧ S t t2) ∨
    (∃ e t t2, m.run s = (Except.error e, t) ∧ m2.run s2 = (Except.error e, t2) ∧ S t t2)

/-- The record has all its texts: no string member and no player name is null. -/
def TextsPresent {Keys : Type} (r : OgreClientConfig Keys) : Prop :=
  r.Resolution ≠ none ∧ r.FSAA ≠ none ∧ r.TextureFiltering ≠ none ∧ r.ImageBuilder ≠ none ∧
    r.BitmapScaling ≠ none ∧ r.TextureQuality ≠ none ∧
    ∀ set ∈ r.ActionButtonSets, set.PlayerName ≠ none

/-- Every button name of the record is a text that is already in lower case. -/
def NamesLowercase {Keys : Type} (r : OgreClientConfig Keys) : Prop :=
  ∀ set ∈ r.ActionButtonSets, ∀ b ∈ set.Items, ∃ n, b.Name = some n ∧ ToLower n = n

/-- The writer calls WriteXml makes for a button whose name is `n`. -/
def buttonEvents (b : ActionButtonConfig) (n : String) : List XmlEvent :=
  [XmlEvent.StartElement TAG_ACTIONBUTTON,
    XmlEvent.Attribute ATTRIB_NUM (Int32.ToString b.Num),
    XmlEvent.Attribute ATTRIB_TYPE (ToLower (ActionButtonType.ToString b.ButtonType)),
    XmlEvent.Attribute XMLATTRIB_NAME (ToLower n),
    XmlEvent.Attribute ATTRIB_NUMOFSAMENAME (UInt32.ToString b.NumOfSameName),
    XmlEvent.EndElement]

/-- The (element tag, attribute name) pairs of a document, in document order. -/
def writtenPairs : List XmlElement → List (String × String)
  | [] => []
  | e :: es => e.Attributes.map (fun a => (e.Name, a.1)) ++ writtenPairs es

/-- The (tag sought, attribute read) pairs of a sequence of reader calls: each
read of an attribute is paired with the tag sought last; `tag` is the tag sought
before the sequence starts. -/
def readPairs : Option String → List ReaderCall → List (String × String)
  | _, [] => []
  | _, ReaderCall.ReadToFollowing n :: cs => readPairs (some n) cs
  | tag, ReaderCall.GetAttribute a :: cs => (tag.getD "", a) :: readPairs tag cs

/-! ## Sample data -/

/-- A small enumeration of keys standing for `System.Windows.Forms.Keys`. -/
inductive SampleKeys where
  | None
  | W
  | A
  | S
  | D
  deriving DecidableEq, Repr

/-- The name of a sample key. -/
def SampleKeys.ToString : SampleKeys → String
  | SampleKeys.None => "None"
  | SampleKeys.W => "W"
  | SampleKeys.A => "A"
  | SampleKeys.S => "S"
  | SampleKeys.D => "D"

/-- The sample key of a name; any other text, and null, is refused. -/
def SampleKeys.ConvertFrom (text : Option String) : Except Exception SampleKeys :=
  if text = some "None" then Except.ok SampleKeys.None
  else if text = some "W" then Except.ok SampleKeys.W
  else if text = some "A" then Except.ok SampleKeys.A
  else if text = some "S" then Except.ok SampleKeys.S
  else if text = some "D" then Except.ok SampleKeys.D
  else Except.error Exception.NotSupportedException

/-- A key binding with the movement keys on W, S, A and D. -/
def sampleKeyBinding : KeyBinding SampleKeys :=
  { RightClickAction := ⟨0, by decide⟩
    MoveForward := SampleKeys.W, MoveBackward := SampleKeys.S
    MoveLeft := SampleKeys.A, MoveRight := SampleKeys.D
    RotateLeft := SampleKeys.None, RotateRight := SampleKeys.None
    Walk := SampleKeys.None, AutoMove := SampleKeys.None
    NextTarget := SampleKeys.None, SelfTarget := SampleKeys.None
    ReqGo := SampleKeys.None, Close := SampleKeys.None
    ActionButton01 := SampleKeys.None, ActionButton02 := SampleKeys.None, ActionButton03 := SampleKeys.None, ActionButton04 := SampleKeys.None
    ActionButton05 := SampleKeys.None, ActionButton06 := SampleKeys.None, ActionButton07 := SampleKeys.None, ActionButton08 := SampleKeys.None
    ActionButton09 := SampleKeys.None, ActionButton10 := SampleKeys.None, ActionButton11 := SampleKeys.None, ActionButton12 := SampleKeys.None
    ActionButton13 := SampleKeys.None, ActionButton14 := SampleKeys.None, ActionButton15 := SampleKeys.None, ActionButton16 := SampleKeys.None
    ActionButton17 := SampleKeys.None, ActionButton18 := SampleKeys.None, ActionButton19 := SampleKeys.None, ActionButton20 := SampleKeys.None
    ActionButton21 := SampleKeys.None, ActionButton22 := SampleKeys.None, ActionButton23 := SampleKeys.None, ActionButton24 := SampleKeys.None
    ActionButton25 := SampleKeys.None, ActionButton26 := SampleKeys.None, ActionButton27 := SampleKeys.None, ActionButton28 := SampleKeys.None
    ActionButton29 := SampleKeys.None, ActionButton30 := SampleKeys.None, ActionButton31 := SampleKeys.None, ActionButton32 := SampleKeys.None
    ActionButton33 := SampleKeys.None, ActionButton34 := SampleKeys.None, ActionButton35 := SampleKeys.None, ActionButton36 := SampleKeys.None
    ActionButton37 := SampleKeys.None, ActionButton38 := SampleKeys.None, ActionButton39 := SampleKeys.None, ActionButton40 := SampleKeys.None
    ActionButton41 := SampleKeys.None, ActionButton42 := SampleKeys.None, ActionButton43 := SampleKeys.None, ActionButton44 := SampleKeys.None
    ActionButton45 := SampleKeys.None, ActionButton46 := SampleKeys.None, ActionButton47 := SampleKeys.None, ActionButton48 := SampleKeys.None }

/-- The sample collaborators. -/
def sampleApi : Collaborators SampleKeys :=
  { ToString := SampleKeys.ToString
    ConvertFrom := SampleKeys.ConvertFrom
    NewKeyBinding := sampleKeyBinding }

/-- The sets of two players: Alice with two buttons, Bob with one. -/
def sampleSets : List ActionButtonList :=
  [{ PlayerName := some "Alice",
     Items := [{ Num := ⟨1, by decide⟩, ButtonType := ActionButtonType.Spell,
                 Name := some "fireball", NumOfSameName := ⟨0, by decide⟩ },
               { Num := ⟨2, by decide⟩, ButtonType := ActionButtonType.Item,
                 Name := some "mace", NumOfSameName := ⟨1, by decide⟩ }] },
   { PlayerName := some "Bob",
     Items := [{ Num := ⟨7, by decide⟩, ButtonType := ActionButtonType.Action,
                 Name := some "rest", NumOfSameName := ⟨0, by decide⟩ }] }]

/-- A record in canonical case with all its texts. -/
def sampleConfig : OgreClientConfig SampleKeys :=
  { Display := ⟨2, by decide⟩, Resolution := some "1920x1080"
    WindowMode := true, WindowFrame := false, VSync := true
    FSAA := some "4", NoMipmaps := false
    TextureFiltering := some "Anisotropic", ImageBuilder := some "GDI"
    BitmapScaling := some "Default", TextureQuality := some "High"
    DecorationIntensity := ⟨100, by decide⟩, DecorationQuality := ⟨-1, by decide⟩
    DisableNewRoomTextures := false, Disable3DModels := false
    DisableNewSky := false, DisableWeatherEffects := false
    WeatherParticles := ⟨5000, by decide⟩, MusicVolume := ⟨10, by decide⟩
    DisableLoopSounds := false
    MouseAimSpeed := ⟨25, by decide⟩, KeyRotateSpeed := ⟨25, by decide⟩, InvertMouseY := true
    KeyBinding := sampleKeyBinding
    ActionButtonSets := sampleSets }

/-- A newly constructed record: no action button sets yet. -/
def freshConfig : OgreClientConfig SampleKeys :=
  { sampleConfig with Resolution := none, ActionButtonSets := [] }

/-- The sample record with null texts: no string member is set, and the one set has
no player name.  The button name is in lower case. -/
def nullTextsConfig : OgreClientConfig SampleKeys :=
  { sampleConfig with
    Resolution := none, FSAA := none, TextureFiltering := none, ImageBuilder := none
    BitmapScaling := none, TextureQuality := none
    ActionButtonSets :=
      [{ PlayerName := none,
         Items := [{ Num := ⟨1, by decide⟩, ButtonType := ActionButtonType.Spell,
                     Name := some "fireball", NumOfSameName := ⟨0, by decide⟩ }] }] }

/-- The sample record with one set of one button whose player name is null. -/
def nullPlayerConfig : OgreClientConfig SampleKeys :=
  { sampleConfig with
    ActionButtonSets :=
      [{ PlayerName := none,
         Items := [{ Num := ⟨1, by decide⟩, ButtonType := ActionButtonType.Spell,
                     Name := some "fireball", NumOfSameName := ⟨0, by decide⟩ }] }] }

/-- The button "FireBall" of type Spell. -/
def fireBallButton : ActionButtonConfig :=
  { Num := ⟨3, by decide⟩, ButtonType := ActionButtonType.Spell, Name := some "FireBall",
    NumOfSameName := ⟨0, by decide⟩ }

/-- The sample record with the one button "FireBall". -/
def fireBallConfig : OgreClientConfig SampleKeys :=
  { sampleConfig with
    ActionButtonSets := [{ PlayerName := some "Alice", Items := [fireBallButton] }] }

/-- The elements of the engine section of the sample record in a document where no
element of a string member (resolution, fsaa, texturefiltering, imagebuilder,
bitmapscaling, texturequality) has its value. -/
def engineWithoutTexts : List XmlElement :=
  [⟨TAG_ENGINE, []⟩,
    ⟨TAG_DISPLAY, [(ATTRIB_VALUE, Int32.ToString sampleConfig.Display)]⟩,
    ⟨TAG_RESOLUTION, []⟩,
    ⟨TAG_WINDOWMODE, [(ATTRIB_ENABLED, ToLower (Boolean.ToString sampleConfig.WindowMode))]⟩,
    ⟨TAG_WINDOWFRAME, [(ATTRIB_ENABLED, ToLower (Boolean.ToString sampleConfig.WindowFrame))]⟩,
    ⟨TAG_VSYNC, [(ATTRIB_ENABLED, ToLower (Boolean.ToString sampleConfig.VSync))]⟩,
    ⟨TAG_FSAA, []⟩,
    ⟨TAG_NOMIPMAPS, [(ATTRIB_VALUE, ToLower (Boolean.ToString sampleConfig.NoMipmaps))]⟩,
    ⟨TAG_TEXTUREFILTERING, []⟩,
    ⟨TAG_IMAGEBUILDER, []⟩,
    ⟨TAG_BITMAPSCALING, []⟩,
    ⟨TAG_TEXTUREQUALITY, []⟩,
    ⟨TAG_DECORATIONINTENSITY, [(ATTRIB_VALUE, Int32.ToString sampleConfig.DecorationIntensity)]⟩,
    ⟨TAG_DECORATIONQUALITY, [(ATTRIB_VALUE, Int32.ToString sampleConfig.DecorationQuality)]⟩,
    ⟨TAG_DISABLENEWROOMTEXTURES, [(ATTRIB_VALUE, ToLower (Boolean.ToString sampleConfig.DisableNewRoomTextures))]⟩,
    ⟨TAG_DISABLE3DMODELS, [(ATTRIB_VALUE, ToLower (Boolean.ToString sampleConfig.Disable3DModels))]⟩,
    ⟨TAG_DISABLENEWSKY, [(ATTRIB_VALUE, ToLower (Boolean.ToString sampleConfig.DisableNewSky))]⟩,
    ⟨TAG_DISABLEWEATHEREFFECTS, [(ATTRIB_VALUE, ToLower (Boolean.ToString sampleConfig.DisableWeatherEffects))]⟩,
    ⟨TAG_WEATHERPARTICLES, [(ATTRIB_VALUE, ToLower (Int32.ToString sampleConfig.WeatherParticles))]⟩,
    ⟨TAG_MUSICVOLUME, [(ATTRIB_VALUE, Int32.ToString sampleConfig.MusicVolume)]⟩,
    ⟨TAG_DISABLELOOPSOUNDS, [(ATTRIB_VALUE, ToLower (Boolean.ToString sampleConfig.DisableLoopSounds))]⟩]

/-- The elements of the one set of `nullTextsConfig` in a document where the
actionbuttons element names no player. -/
def setsWithoutPlayer : List XmlElement :=
  [⟨TAG_ACTIONBUTTONSETS, [(ATTRIB_COUNT, "1")]⟩, ⟨TAG_ACTIONBUTTONS, [(ATTRIB_COUNT, "1")]⟩,
    ⟨TAG_ACTIONBUTTON, [(ATTRIB_NUM, "1"), (ATTRIB_TYPE, "spell"), (XMLATTRIB_NAME, "fireball"),
      (ATTRIB_NUMOFSAMENAME, "0")]⟩]

/-- The elements WriteXml emits for the sample record between the engine section and
the action button sets. -/
def sampleInputElements : List XmlElement :=
  elementsOf (WriteXml_input sampleConfig).2 ++ (elementsOf (WriteXml_keybinding sampleConfig).2 ++
    (elementsOf (WriteXml_keys_movement sampleApi sampleConfig).2 ++
    (elementsOf (WriteXml_keys_modifiers sampleApi sampleConfig).2 ++
    (elementsOf (WriteXml_keys_targetting sampleApi sampleConfig).2 ++
    (elementsOf (WriteXml_keys_others sampleApi sampleConfig).2 ++
      elementsOf (WriteXml_keys_actions sampleApi sampleConfig).2)))))

/-- A document of the sample settings in which the elements of the string members
have no value and the one set names no player. -/
def absentTextsDocument : List XmlElement :=
  engineWithoutTexts ++ (sampleInputElements ++ setsWithoutPlayer)

/-- A document of the sample settings in which the one set names no player. -/
def absentPlayerDocument : List XmlElement :=
  elementsOf (WriteXml_engine sampleConfig).2 ++ (sampleInputElements ++ setsWithoutPlayer)

/-! ## Notions used for the single fields -/

/-- The text of the attribute `attrName` of the first element called `tag` among the
elements a sequence of writer calls produces; `none` when there is no such element
or it has no such attribute. -/
def writtenAttribute (evs : List XmlEvent) (tag attrName : String) : Option String :=
  match seekElement tag (elementsOf evs) with
  | some (e, _) => e.Attributes.lookup attrName
  | none => none

/-! ## Specifications of computations -/

/-- From every state that satisfies `P`, a normal return of `m` leaves a result and
a state that satisfy `Q`, and an exception leaves a state that satisfies `E`. -/
def Spec {σ α : Type} (P : σ → Prop) (m : Op σ α) (Q : α → σ → Prop)
    (E : Exception → σ → Prop) : Prop :=
  ∀ s, P s →
    (∀ a t, m.run s = (Except.ok a, t) → Q a t) ∧
    (∀ e t, m.run s = (Except.error e, t) → E e t)

/-- The computation `m` keeps `I`, whether it returns or throws. -/
def Keeps {σ α : Type} (I : σ → Prop) (m : Op σ α) : Prop :=
  Spec I m (fun _ => I) (fun _ => I)

/-- The value text of the display element of a document, as ReadXml finds it: the
first display element after the first engine element. -/
def displayValue (doc : List XmlElement) : Option String :=
  match seekElement TAG_ENGINE doc with
  | none => none
  | some (_, rest) =>
    match seekElement TAG_DISPLAY rest with
    | none => none
    | some (e, _) => e.Attributes.lookup ATTRIB_VALUE

/-! ## The fixed sequence of ReadXml -/

/-- The calls ReadXml makes on the reader for the engine section and the scalars of
the input section, in the order of the source. -/
def sectionCalls : List ReaderCall :=
  [ReaderCall.ReadToFollowing TAG_ENGINE, ReaderCall.ReadToFollowing TAG_DISPLAY,
    ReaderCall.GetAttribute ATTRIB_VALUE, ReaderCall.ReadToFollowing TAG_RESOLUTION,
    ReaderCall.GetAttribute ATTRIB_VALUE, ReaderCall.ReadToFollowing TAG_WINDOWMODE,
    ReaderCall.GetAttribute ATTRIB_ENABLED, ReaderCall.ReadToFollowing TAG_WINDOWFRAME,
    ReaderCall.GetAttribute ATTRIB_ENABLED, ReaderCall.ReadToFollowing TAG_VSYNC,
    ReaderCall.GetAttribute ATTRIB_ENABLED, ReaderCall.ReadToFollowing TAG_FSAA,
    ReaderCall.GetAttribute ATTRIB_VALUE, ReaderCall.ReadToFollowing TAG_NOMIPMAPS,
    ReaderCall.GetAttribute ATTRIB_VALUE, ReaderCall.ReadToFollowing TAG_TEXTUREFILTERING,
    ReaderCall.GetAttribute ATTRIB_VALUE, ReaderCall.ReadToFollowing TAG_IMAGEBUILDER,
    ReaderCall.GetAttribute ATTRIB_VALUE, ReaderCall.ReadToFollowing TAG_BITMAPSCALING,
    ReaderCall.GetAttribute ATTRIB_VALUE, ReaderCall.ReadToFollowing TAG_TEXTUREQUALITY,
    ReaderCall.GetAttribute ATTRIB_VALUE, ReaderCall.ReadToFollowing TAG_DECORATIONINTENSITY,
    ReaderCall.GetAttribute ATTRIB_VALUE, ReaderCall.ReadToFollowing TAG_DECORATIONQUALITY,
    ReaderCall.GetAttribute ATTRIB_VALUE, ReaderCall.ReadToFollowing TAG_DISABLENEWROOMTEXTURES,
    ReaderCall.GetAttribute ATTRIB_VALUE, ReaderCall.ReadToFollowing TAG_DISABLE3DMODELS,
    ReaderCall.GetAttribute ATTRIB_VALUE, ReaderCall.ReadToFollowing TAG_DISABLENEWSKY,
    ReaderCall.GetAttribute ATTRIB_VALUE, ReaderCall.ReadToFollowing TAG_DISABLEWEATHEREFFECTS,
    ReaderCall.GetAttribute ATTRIB_VALUE, ReaderCall.ReadToFollowing TAG_WEATHERPARTICLES,
    ReaderCall.GetAttribute ATTRIB_VALUE, ReaderCall.ReadToFollowing TAG_MUSICVOLUME,
    ReaderCall.GetAttribute ATTRIB_VALUE, ReaderCall.ReadToFollowing TAG_DISABLELOOPSOUNDS,
    ReaderCall.GetAttribute ATTRIB_VALUE, ReaderCall.ReadToFollowing TAG_INPUT,
    ReaderCall.ReadToFollowing TAG_MOUSEAIMSPEED, ReaderCall.GetAttribute ATTRIB_VALUE,
    ReaderCall.ReadToFollowing TAG_KEYROTATESPEED, ReaderCall.GetAttribute ATTRIB_VALUE,
    ReaderCall.ReadToFollowing TAG_INVERTMOUSEY, ReaderCall.GetAttribute ATTRIB_VALUE]

/-- The tags of the key elements ReadXml seeks after the keybinding element, in the
order of the source: twelve named keys and the keys of the 48 action buttons. -/
def keyTags : List String :=
  [TAG_MOVEFORWARD, TAG_MOVEBACKWARD, TAG_MOVELEFT, TAG_MOVERIGHT, TAG_ROTATELEFT,
    TAG_ROTATERIGHT, TAG_WALK, TAG_AUTOMOVE, TAG_NEXTTARGET, TAG_SELFTARGET, TAG_OPEN, TAG_CLOSE,
    TAG_ACTION01, TAG_ACTION02, TAG_ACTION03, TAG_ACTION04, TAG_ACTION05, TAG_ACTION06,
    TAG_ACTION07, TAG_ACTION08, TAG_ACTION09, TAG_ACTION10, TAG_ACTION11, TAG_ACTION12,
    TAG_ACTION13, TAG_ACTION14, TAG_ACTION15, TAG_ACTION16, TAG_ACTION17, TAG_ACTION18,
    TAG_ACTION19, TAG_ACTION20, TAG_ACTION21, TAG_ACTION22, TAG_ACTION23, TAG_ACTION24,
    TAG_ACTION25, TAG_ACTION26, TAG_ACTION27, TAG_ACTION28, TAG_ACTION29, TAG_ACTION30,
    TAG_ACTION31, TAG_ACTION32, TAG_ACTION33, TAG_ACTION34, TAG_ACTION35, TAG_ACTION36,
    TAG_ACTION37, TAG_ACTION38, TAG_ACTION39, TAG_ACTION40, TAG_ACTION41, TAG_ACTION42,
    TAG_ACTION43, TAG_ACTION44, TAG_ACTION45, TAG_ACTION46, TAG_ACTION47, TAG_ACTION48]

/-- The calls ReadXml makes on the reader for the key elements: each is sought and
its key attribute is read. -/
def keyCalls : List ReaderCall :=
  keyTags.flatMap (fun tag => [ReaderCall.ReadToFollowing tag, ReaderCall.GetAttribute ATTRIB_KEY])

/-- The tags ReadXml seeks before the action button sets, in the order of the source:
the two sections with their scalars, the keybinding element and the key elements. -/
def fixedTags : List String :=
  [TAG_ENGINE, TAG_DISPLAY, TAG_RESOLUTION, TAG_WINDOWMODE, TAG_WINDOWFRAME, TAG_VSYNC,
    TAG_FSAA, TAG_NOMIPMAPS, TAG_TEXTUREFILTERING, TAG_IMAGEBUILDER, TAG_BITMAPSCALING,
    TAG_TEXTUREQUALITY, TAG_DECORATIONINTENSITY, TAG_DECORATIONQUALITY,
    TAG_DISABLENEWROOMTEXTURES, TAG_DISABLE3DMODELS, TAG_DISABLENEWSKY,
    TAG_DISABLEWEATHEREFFECTS, TAG_WEATHERPARTICLES, TAG_MUSICVOLUME, TAG_DISABLELOOPSOUNDS,
    TAG_INPUT, TAG_MOUSEAIMSPEED, TAG_KEYROTATESPEED, TAG_INVERTMOUSEY] ++
    (TAG_KEYBINDING :: keyTags)

/-- The calls WriteXml makes for the keybinding element, from its start tag to its
end tag. -/
def keybindingEvents {Keys : Type} (api : Collaborators Keys) (r : OgreClientConfig Keys) :
    List XmlEvent :=
  (WriteXml_keybinding r).2 ++ ((WriteXml_keys_movement api r).2 ++
    ((WriteXml_keys_modifiers api r).2 ++ ((WriteXml_keys_targetting api r).2 ++
    ((WriteXml_keys_others api r).2 ++ ((WriteXml_keys_actions api r).2 ++
      [XmlEvent.EndElement])))))

/-! ## Documents in which an element is missing -/

/-- The reader is at the end of the document. -/
def AtEnd {Keys : Type} (s : ReadState Keys) : Prop :=
  s.Reader.Current = none ∧ s.Reader.Following = []

/-- The document has an element called `tag`. -/
def Present (doc : List XmlElement) (tag : String) : Prop :=
  ∃ el ∈ doc, el.Name = tag

/-- Every tag sought so far is the name of an element of the document. -/
def SoughtPresent {Keys : Type} (doc : List XmlElement) (s : ReadState Keys) : Prop :=
  ∀ tag, ReaderCall.ReadToFollowing tag ∈ s.Reader.Calls → Present doc tag

/-- The reader is inside the document `doc`, and it is at the end of it unless every
tag sought so far was found. -/
def Seeking {Keys : Type} (doc : List XmlElement) (s : ReadState Keys) : Prop :=
  (∀ el ∈ s.Reader.Following, el ∈ doc) ∧ (AtEnd s ∨ SoughtPresent doc s)

/-- Every tag of `fixedTags` sought so far is the name of an element of the document. -/
def FixedPresent {Keys : Type} (doc : List XmlElement) (s : ReadState Keys) : Prop :=
  ∀ tag ∈ fixedTags, ReaderCall.ReadToFollowing tag ∈ s.Reader.Calls → Present doc tag

/-- The elements WriteXml emits for a record before the action button sets: the
document of the record without its actionbuttonsets element. -/
def fixedElements {Keys : Type} (api : Collaborators Keys) (r : OgreClientConfig Keys) :
    List XmlElement :=
  elementsOf (WriteXml_engine r).2 ++ (elementsOf (WriteXml_input r).2 ++
    (elementsOf (WriteXml_keybinding r).2 ++ (elementsOf (WriteXml_keys_movement api r).2 ++
    (elementsOf (WriteXml_keys_modifiers api r).2 ++
    (elementsOf (WriteXml_keys_targetting api r).2 ++
    (elementsOf (WriteXml_keys_others api r).2 ++
      elementsOf (WriteXml_keys_actions api r).2))))))

/-! ## ReadXml as the sequence of its statements -/

/-- What a replay of the calls made on a reader has reached: the reader, the tag
sought last, and the attribute reads made, each with the tag sought before it, the
name of the attribute and the text returned (none for null). -/
structure Replay where
  Reader : XmlReader
  Tag : Option String
  Reads : List (String × String × Option String)

/-- Replay one call. -/
def replayCall (st : Replay) : ReaderCall → Replay
  | ReaderCall.ReadToFollowing tag =>
    { Reader := (st.Reader.ReadToFollowing tag).2, Tag := some tag, Reads := st.Reads }
  | ReaderCall.GetAttribute name =>
    { Reader := { st.Reader with Calls := st.Reader.Calls ++ [ReaderCall.GetAttribute name] },
      Tag := st.Tag,
      Reads := st.Reads ++ [(st.Tag.getD "", name, st.Reader.Item name)] }

/-- Replay a sequence of calls. -/
def replay (st : Replay) (calls : List ReaderCall) : Replay := calls.foldl replayCall st

/-- The attribute reads of the calls `calls` made on a reader that started on `cur`
with the document `doc` ahead. -/
def attributeReads (cur : Option XmlElement) (doc : List XmlElement)
    (calls : List ReaderCall) : List (String × String × Option String) :=
  (replay ⟨⟨cur, doc, []⟩, none, []⟩ calls).Reads

/-- The attributes read as an integer, each with the tag of its element: display,
decorationintensity, decorationquality, weatherparticles, musicvolume, mouseaimspeed,
keyrotatespeed, rightclickaction, the two counts, num and numofsamename. -/
def integerReads : List (String × String) :=
  [(TAG_DISPLAY, ATTRIB_VALUE), (TAG_DECORATIONINTENSITY, ATTRIB_VALUE),
    (TAG_DECORATIONQUALITY, ATTRIB_VALUE), (TAG_WEATHERPARTICLES, ATTRIB_VALUE),
    (TAG_MUSICVOLUME, ATTRIB_VALUE), (TAG_MOUSEAIMSPEED, ATTRIB_VALUE),
    (TAG_KEYROTATESPEED, ATTRIB_VALUE), (TAG_KEYBINDING, ATTRIB_RIGHTCLICKACTION),
    (TAG_ACTIONBUTTONSETS, ATTRIB_COUNT), (TAG_ACTIONBUTTONS, ATTRIB_COUNT),
    (TAG_ACTIONBUTTON, ATTRIB_NUM), (TAG_ACTIONBUTTON, ATTRIB_NUMOFSAMENAME)]

/-- The attributes read as a boolean, each with the tag of its element. -/
def booleanReads : List (String × String) :=
  [(TAG_WINDOWMODE, ATTRIB_ENABLED), (TAG_WINDOWFRAME, ATTRIB_ENABLED),
    (TAG_VSYNC, ATTRIB_ENABLED), (TAG_NOMIPMAPS, ATTRIB_VALUE),
    (TAG_DISABLENEWROOMTEXTURES, ATTRIB_VALUE), (TAG_DISABLE3DMODELS, ATTRIB_VALUE),
    (TAG_DISABLENEWSKY, ATTRIB_VALUE), (TAG_DISABLEWEATHEREFFECTS, ATTRIB_VALUE),
    (TAG_DISABLELOOPSOUNDS, ATTRIB_VALUE), (TAG_INVERTMOUSEY, ATTRIB_VALUE)]

/-- The text is one `Convert.ToBoolean` recognizes: `True` or `False`, whatever the
case, as it is or with the white space and null characters around it trimmed. -/
def RecognizedBoolean (text : String) : Prop :=
  booleanLiteral text.data ≠ none ∨ booleanLiteral (trimWhiteSpaceAndNull text.data) ≠ none

/-- The text read for the attribute `attrName` of an element `tag` is malformed: the
attribute is read as an integer and the text is not numeric, or it is read as a
boolean and the text is not a recognized boolean. -/
def Malformed (tag attrName text : String) : Prop :=
  ((tag, attrName) ∈ integerReads ∧ parseInteger text = none) ∨
    ((tag, attrName) ∈ booleanReads ∧ ¬ RecognizedBoolean text)

/-- The replay of the calls made so far, from the reader `init` the run started with. -/
def replayed {Keys : Type} (init : XmlReader) (s : ReadState Keys) : Replay :=
  replay ⟨init, none, []⟩ s.Reader.Calls

/-- The calls made so far account for the state of the reader, and no text read so
far is malformed. -/
def WellRead {Keys : Type} (init : XmlReader) (s : ReadState Keys) : Prop :=
  (replayed init s).Reader = s.Reader ∧
    ∀ tag attrName text, (tag, attrName, some text) ∈ (replayed init s).Reads →
      ¬ Malformed tag attrName text

/-- As `WellRead`, the tag sought last being `tag`. -/
def WellReadAt {Keys : Type} (init : XmlReader) (tag : String) (s : ReadState Keys) : Prop :=
  WellRead init s ∧ (replayed init s).Tag = some tag

/-- As `WellReadAt`, but for the last read, of the attribute `attrName`, whose text
`text` has not been converted yet. -/
def Pending {Keys : Type} (init : XmlReader) (tag attrName : String) (text : Option String)
    (s : ReadState Keys) : Prop :=
  (replayed init s).Reader = s.Reader ∧ (replayed init s).Tag = some tag ∧
    ∃ old, (replayed init s).Reads = old ++ [(tag, attrName, text)] ∧
      ∀ t a x, (t, a, some x) ∈ old → ¬ Malformed t a x

/-- If a text read so far is malformed, the exception is a FormatException. -/
def FailsAsFormat {Keys : Type} (init : XmlReader) (e : Exception) (s : ReadState Keys) :
    Prop :=
  ∀ tag attrName text, (tag, attrName, some text) ∈ (replayed init s).Reads →
    Malformed tag attrName text → e = Exception.FormatException

/-! ## The attributes of a document that ReadXml reads -/

/-- The reader after one call: a seek moves it, the read of an attribute leaves it
on its node. -/
def XmlReader.after (r : XmlReader) : ReaderCall → XmlReader
  | ReaderCall.ReadToFollowing tag => (r.ReadToFollowing tag).2
  | ReaderCall.GetAttribute name =>
    { r with Calls := r.Calls ++ [ReaderCall.GetAttribute name] }

/-- The calls ReadXml makes before the action button sets, whatever the document. -/
def fixedCalls : List ReaderCall :=
  sectionCalls ++ (ReaderCall.ReadToFollowing TAG_KEYBINDING ::
    ReaderCall.GetAttribute ATTRIB_RIGHTCLICKACTION :: keyCalls)

/-- The reader after the inner loop has read `n` buttons. -/
def readerAfterButtons : Nat → XmlReader → XmlReader
  | 0, r => r
  | n + 1, r => readerAfterButtons n (buttonCalls.foldl XmlReader.after r)

/-- The reader after the outer loop has read `n` sets, each with as many buttons as
its count attribute says; the loop ends where a count does not convert. -/
def readerAfterSets : Nat → XmlReader → XmlReader
  | 0, r => r
  | n + 1, r =>
    match Convert.ToInt32 (([ReaderCall.ReadToFollowing TAG_ACTIONBUTTONS,
        ReaderCall.GetAttribute ATTRIB_PLAYER,
        ReaderCall.GetAttribute ATTRIB_COUNT].foldl XmlReader.after r).Item ATTRIB_COUNT) with
    | Except.ok num =>
      readerAfterSets n (readerAfterButtons num.val.toNat
        ([ReaderCall.ReadToFollowing TAG_ACTIONBUTTONS, ReaderCall.GetAttribute ATTRIB_PLAYER,
          ReaderCall.GetAttribute ATTRIB_COUNT].foldl XmlReader.after r))
    | Except.error _ =>
      [ReaderCall.ReadToFollowing TAG_ACTIONBUTTONS, ReaderCall.GetAttribute ATTRIB_PLAYER,
        ReaderCall.GetAttribute ATTRIB_COUNT].foldl XmlReader.after r

/-- The reader after the statements on the action button sets. -/
def readerAfterSetsPart (r : XmlReader) : XmlReader :=
  match Convert.ToInt32 (([ReaderCall.ReadToFollowing TAG_ACTIONBUTTONSETS,
      ReaderCall.GetAttribute ATTRIB_COUNT].foldl XmlReader.after r).Item ATTRIB_COUNT) with
  | Except.ok count =>
    readerAfterSets count.val.toNat ([ReaderCall.ReadToFollowing TAG_ACTIONBUTTONSETS,
      ReaderCall.GetAttribute ATTRIB_COUNT].foldl XmlReader.after r)
  | Except.error _ =>
    [ReaderCall.ReadToFollowing TAG_ACTIONBUTTONSETS,
      ReaderCall.GetAttribute ATTRIB_COUNT].foldl XmlReader.after r

/-- The reader after all the seeks and reads of ReadXml on the document ahead of
`r`, were no conversion to throw: the calls of the fixed part, then those of the
sets, as many sets and buttons being read as the count attributes say. -/
def plannedReader (r : XmlReader) : XmlReader :=
  readerAfterSetsPart (fixedCalls.foldl XmlReader.after r)

/-- The attributes of the document `doc` that ReadXml reads, each with the tag of
its element, its name and its text: a function of the document alone. -/
def plannedReads (cur : Option XmlElement) (doc : List XmlElement) :
    List (String × String × Option String) :=
  attributeReads cur doc (plannedReader ⟨cur, doc, []⟩).Calls

/-- The exception is one a conversion throws: a FormatException or an
OverflowException of the `Convert` class, or what the key converter throws for some
text. -/
def ConversionFailure {Keys : Type} (api : Collaborators Keys) (e : Exception) : Prop :=
  e = Exception.FormatException ∨ e = Exception.OverflowException ∨
    ∃ text, api.ConvertFrom text = Except.error e

/-- A document in which the value of the display element is not numeric. -/
def refusedDisplayDocument : List XmlElement :=
  [XmlElement.mk TAG_ENGINE [], XmlElement.mk TAG_DISPLAY [(ATTRIB_VALUE, "two")]]

/-- A document in which the windowmode element holds "yes", which is no boolean. -/
def refusedBooleanDocument : List XmlElement :=
  [XmlElement.mk TAG_ENGINE [], XmlElement.mk TAG_DISPLAY [(ATTRIB_VALUE, "2")],
    XmlElement.mk TAG_RESOLUTION [(ATTRIB_VALUE, "1920x1080")],
    XmlElement.mk TAG_WINDOWMODE [(ATTRIB_ENABLED, "yes")]]

/-- The document of the sample record up to its key bindings, followed by one set of
one button whose num attribute is not numeric and whose numofsamename attribute is
too large for a `UInt32`. -/
def refusedNumDocument : List XmlElement :=
  fixedElements sampleApi sampleConfig ++
    [XmlElement.mk TAG_ACTIONBUTTONSETS [(ATTRIB_COUNT, "1")],
      XmlElement.mk TAG_ACTIONBUTTONS [(ATTRIB_PLAYER, "Alice"), (ATTRIB_COUNT, "1")],
      XmlElement.mk TAG_ACTIONBUTTON [(ATTRIB_NUM, "abc"), (ATTRIB_TYPE, "spell"),
        (XMLATTRIB_NAME, "fireball"), (ATTRIB_NUMOFSAMENAME, "99999999999")]]

/-! ## Documents with additional elements -/

/-- The tags ReadXml seeks: those of `fixedTags`, then actionbuttonsets, actionbuttons
and actionbutton. -/
def soughtTags : List String :=
  fixedTags ++ [TAG_ACTIONBUTTONSETS, TAG_ACTIONBUTTONS, TAG_ACTIONBUTTON]

/-- The document `doc2` is the document `doc` with additional elements inserted, at any
positions, none of them called by a tag ReadXml seeks. -/
inductive Extended : List XmlElement → List XmlElement → Prop
  | nil : Extended [] []
  | keep (e : XmlElement) {doc doc2 : List XmlElement} :
    Extended doc doc2 → Extended (e :: doc) (e :: doc2)
  | insert (e : XmlElement) {doc doc2 : List XmlElement} :
    e.Name ∉ soughtTags → Extended doc doc2 → Extended doc (e :: doc2)

/-- The second state is the first one, but for the reader being on a document with
additional elements. -/
def Alongside {Keys : Type} (s s2 : ReadState Keys) : Prop :=
  s2.This = s.This ∧ s2.Reader.Current = s.Reader.Current ∧
    s2.Reader.Calls = s.Reader.Calls ∧ Extended s.Reader.Following s2.Reader.Following

/-! ## A document whose first set has too large a count -/

/-- The document WriteXml writes for the record `r` with the sets `l1`, `l2` and then
those of `ls`, but for the count attribute of the first set, which exceeds the number
of its buttons by `k`. -/
def miscountedDocument {Keys : Type} (api : Collaborators Keys) (r : OgreClientConfig Keys)
    (l1 l2 : ActionButtonList) (ls : List ActionButtonList) (k : Nat) : List XmlElement :=
  fixedElements api r ++
    (XmlElement.mk TAG_ACTIONBUTTONSETS
        [(ATTRIB_COUNT, intToString ((ls.length + 2 : Nat) : Int))] ::
      XmlElement.mk TAG_ACTIONBUTTONS
        [(ATTRIB_PLAYER, l1.PlayerName.getD ""),
          (ATTRIB_COUNT, intToString ((l1.Items.length + k : Nat) : Int))] ::
      (l1.Items.map buttonElement ++ setElements (l2 :: ls)))

/-! ## Nesting of the writer calls -/

/-- The nesting depth after the writer calls `evs`, counted from the level at which the
sequence starts, when the depth before them is `d`: a start tag opens a level and an
end tag closes one.  The result is `none` when an end tag would take the depth below
the starting level. -/
def depthAfter : List XmlEvent → Nat → Option Nat
  | [], d => some d
  | XmlEvent.StartElement _ :: evs, d => depthAfter evs (d + 1)
  | XmlEvent.Attribute _ _ :: evs, d => depthAfter evs d
  | XmlEvent.EndElement :: _, 0 => none
  | XmlEvent.EndElement :: evs, d + 1 => depthAfter evs d

/-- The number of start tags written. -/
def startCount : List XmlEvent → Nat
  | [] => 0
  | XmlEvent.StartElement _ :: evs => startCount evs + 1
  | _ :: evs => startCount evs

/-- The number of end tags written. -/
def endCount : List XmlEvent → Nat
  | [] => 0
  | XmlEvent.EndElement :: evs => endCount evs + 1
  | _ :: evs => endCount evs

/-- Every attribute is written directly after the start tag of its element or after
another attribute of it, so before any child element: `atStart` tells whether the call
before the sequence was such a start tag or attribute. -/
def attributesAfterStart : List XmlEvent → Bool → Bool
  | [], _ => true
  | XmlEvent.StartElement _ :: evs, _ => attributesAfterStart evs true
  | XmlEvent.Attribute _ _ :: evs, atStart => atStart && attributesAfterStart evs atStart
  | XmlEvent.EndElement :: evs, _ => attributesAfterStart evs false

/-- The element at the top of the stack has no child yet. -/
def topHasNoChild : List OpenElement → Bool
  | [] => false
  | o :: _ => o.Children.isEmpty

/-! ## Reading into a record that already holds sets -/

/-- Two runs of ReadXml on the same document, the first into a record that held the
sets `base`, the second into one that held the sets `base2`: the readers are in the
same state, and each record holds the sets it held followed by the same sets read. -/
def SetsAfter {Keys : Type} (base base2 : List ActionButtonList) (s s2 : ReadState Keys) :
    Prop :=
  s2.Reader = s.Reader ∧
    ∃ news : List ActionButtonList, s.This.ActionButtonSets = base ++ news ∧
      s2.This.ActionButtonSets = base2 ++ news

/-! ## The constructor arguments -/

/-- The arguments `args` with the value of the argument `a` taken from the button
`source`. -/
def copyArgument (source : ActionButtonConfig) (args : ActionButtonConfig) :
    ButtonArgument → ActionButtonConfig
  | ButtonArgument.Num => { args with Num := source.Num }
  | ButtonArgument.ButtonType => { args with ButtonType := source.ButtonType }
  | ButtonArgument.Name => { args with Name := source.Name }
  | ButtonArgument.NumOfSameName => { args with NumOfSameName := source.NumOfSameName }

/-- The calls ReadXml makes on the reader for the document WriteXml writes for a
record: up to the last key binding they mirror the calls of the writer, a start tag
being sought and an attribute read; for the sets they are those of `setCalls`, in
which the attributes of a button come in the order in which the constructor
arguments are evaluated. -/
def readerCalls {Keys : Type} (api : Collaborators Keys) (r : OgreClientConfig Keys) :
    List ReaderCall :=
  callsOf (WriteXml_engine r).2 ++ (callsOf (WriteXml_input r).2 ++
    (callsOf (WriteXml_keybinding r).2 ++ (callsOf (WriteXml_keys_movement api r).2 ++
    (callsOf (WriteXml_keys_modifiers api r).2 ++
    (callsOf (WriteXml_keys_targetting api r).2 ++
    (callsOf (WriteXml_keys_others api r).2 ++ (callsOf (WriteXml_keys_actions api r).2 ++
      (ReaderCall.ReadToFollowing TAG_ACTIONBUTTONSETS ::
        ReaderCall.GetAttribute ATTRIB_COUNT :: setCalls r.ActionButtonSets))))))))

/-- The constructor arguments are evaluated in the order they are written. -/
def LeftToRight : Prop :=
  ArgumentOrder.order = [ButtonArgument.Num, ButtonArgument.ButtonType, ButtonArgument.Name,
    ButtonArgument.NumOfSameName]

/-- Every button type of the record is the type GetButtonType reads from the
lower-cased text WriteXml writes for it. -/
def TypesReadBack {Keys : Type} (r : OgreClientConfig Keys) : Prop :=
  ∀ set ∈ r.ActionButtonSets, ∀ b ∈ set.Items,
    GetButtonType (some (ToLower (ActionButtonType.ToString b.ButtonType))) = b.ButtonType

/-- The order in which WriteXml writes the attributes of a button. -/
def writtenOrder : List ButtonArgument :=
  [ButtonArgument.Num, ButtonArgument.ButtonType, ButtonArgument.Name,
    ButtonArgument.NumOfSameName]

/-- The (tag, attribute) pairs of one actionbutton element, its attributes taken in
the order `order`. -/
def buttonPairs (order : List ButtonArgument) : List (String × String) :=
  order.map (fun a => (TAG_ACTIONBUTTON, a.Attribute))

/-- The (tag, attribute) pairs of the actionbutton elements of a list of buttons. -/
def buttonsPairs (order : List ButtonArgument) : List ActionButtonConfig → List (String × String)
  | [] => []
  | _ :: bs => buttonPairs order ++ buttonsPairs order bs

/-- The (tag, attribute) pairs of the actionbuttons elements of a list of sets, each
followed by the pairs of its buttons. -/
def setPairs (order : List ButtonArgument) : List ActionButtonList → List (String × String)
  | [] => []
  | l :: ls =>
    (TAG_ACTIONBUTTONS, ATTRIB_PLAYER) :: (TAG_ACTIONBUTTONS, ATTRIB_COUNT) ::
      (buttonsPairs order l.Items ++ setPairs order ls)

/-- The calls WriteXml makes on the writer before the action button sets. -/
def fixedEvents {Keys : Type} (api : Collaborators Keys) (r : OgreClientConfig Keys) :
    List XmlEvent :=
  (WriteXml_engine r).2 ++ ((WriteXml_input r).2 ++ ((WriteXml_keybinding r).2 ++
    ((WriteXml_keys_movement api r).2 ++ ((WriteXml_keys_modifiers api r).2 ++
    ((WriteXml_keys_targetting api r).2 ++ ((WriteXml_keys_others api r).2 ++
      (WriteXml_keys_actions api r).2))))))

/-! ## Text conversions -/

theorem digitValue_digitChar (d : Nat) (h : d < 10) : digitValue (digitChar d) = some d := by
  interval_cases d <;> rfl

theorem isWhiteSpace_digitChar (d : Nat) (h : d < 10) : isWhiteSpace (digitChar d) = false := by
  interval_cases d <;> rfl

theorem toLower_digitChar (d : Nat) (h : d < 10) : Char.toLower (digitChar d) = digitChar d := by
  interval_cases d <;> rfl

theorem parseDigits_append (xs ys : List Char) (acc : Nat) :
    parseDigits acc (xs ++ ys) = (parseDigits acc xs).bind (fun a => parseDigits a ys) := by
  induction xs generalizing acc with
  | nil => simp [parseDigits]
  | cons c cs ih =>
    simp only [List.cons_append, parseDigits]
    cases digitValue c with
    | none => simp
    | some d => simp [ih]

theorem parseDigits_natDigits (fuel n : Nat) (h : n < fuel) :
    parseDigits 0 (natDigits fuel n) = some n := by
  induction fuel generalizing n with
  | zero => omega
  | succ f ih =>
    unfold natDigits
    split
    · rename_i h10
      simp [parseDigits, digitValue_digitChar n h10]
    · rename_i h10
      have hlt : n / 10 < f := by omega
      rw [parseDigits_append, ih _ hlt]
      simp [parseDigits, digitValue_digitChar (n % 10) (Nat.mod_lt _ (by decide))]
      omega

theorem natDigits_ne_nil (fuel n : Nat) (h : n < fuel) : natDigits fuel n ≠ [] := by
  cases fuel with
  | zero => omega
  | succ f =>
    unfold natDigits
    split <;> simp

/-- Every character `natDigits` produces is a decimal digit. -/
theorem natDigits_digit (fuel n : Nat) :
    ∀ c ∈ natDigits fuel n, ∃ d, d < 10 ∧ c = digitChar d := by
  induction fuel generalizing n with
  | zero => simp [natDigits]
  | succ f ih =>
    unfold natDigits
    split
    · rename_i h10
      intro c hc
      simp only [List.mem_singleton] at hc
      exact ⟨n, h10, hc⟩
    · intro c hc
      rw [List.mem_append] at hc
      rcases hc with hc | hc
      · exact ih _ c hc
      · simp only [List.mem_singleton] at hc
        exact ⟨n % 10, Nat.mod_lt _ (by decide), hc⟩

theorem parseNat_natDigits (n : Nat) : parseNat (natDigits (n + 1) n) = some n := by
  have h := parseDigits_natDigits (n + 1) n (Nat.lt_succ_self n)
  have hne := natDigits_ne_nil (n + 1) n (Nat.lt_succ_self n)
  cases hd : natDigits (n + 1) n with
  | nil => exact absurd hd hne
  | cons c cs => rw [hd] at h; simpa [parseNat] using h

theorem trim_eq_self (cs : List Char) (h : ∀ c ∈ cs, isWhiteSpace c = false) : trim cs = cs := by
  have key : ∀ l : List Char, (∀ c ∈ l, isWhiteSpace c = false) → l.dropWhile isWhiteSpace = l := by
    intro l hl
    cases l with
    | nil => rfl
    | cons a as => simp [List.dropWhile, hl a (List.mem_cons_self a as)]
  unfold trim
  rw [key cs h, key cs.reverse (fun c hc => h c (List.mem_reverse.mp hc)), List.reverse_reverse]

theorem natDigits_no_space (fuel n : Nat) : ∀ c ∈ natDigits fuel n, isWhiteSpace c = false := by
  intro c hc
  obtain ⟨d, hd, rfl⟩ := natDigits_digit fuel n c hc
  exact isWhiteSpace_digitChar d hd

theorem natDigits_head_ne (fuel n : Nat) (cs : List Char) (c : Char)
    (h : natDigits fuel n = c :: cs) : c ≠ '-' ∧ c ≠ '+' := by
  have hc : c ∈ natDigits fuel n := by rw [h]; exact List.mem_cons_self c cs
  obtain ⟨d, hd, rfl⟩ := natDigits_digit fuel n c hc
  interval_cases d <;> decide

theorem parseInteger_intToString (i : Int) : parseInteger (intToString i) = some i := by
  unfold parseInteger intToString
  by_cases hneg : i < 0
  · simp only [hneg, if_true]
    have hnw : ∀ c ∈ ('-' :: natDigits (i.natAbs + 1) i.natAbs), isWhiteSpace c = false := by
      intro c hc
      rcases List.mem_cons.mp hc with rfl | hc
      · rfl
      · exact natDigits_no_space _ _ c hc
    rw [trim_eq_self _ hnw]
    simp only [parseNat_natDigits, Option.map_some']
    have e : -(i.natAbs : Int) = i := by omega
    exact congrArg some e
  · simp only [hneg, if_false]
    rw [trim_eq_self _ (natDigits_no_space _ _)]
    have hp := parseNat_natDigits i.natAbs
    cases hd : natDigits (i.natAbs + 1) i.natAbs with
    | nil => rw [hd] at hp; simp [parseNat] at hp
    | cons c cs =>
      obtain ⟨h1, h2⟩ := natDigits_head_ne _ _ cs c hd
      rw [hd] at hp
      split
      · rename_i heq; exact absurd (List.cons.inj heq).1 h1
      · rename_i heq; exact absurd (List.cons.inj heq).1 h2
      · rw [hp]
        have e : (i.natAbs : Int) = i := by omega
        exact congrArg some e

theorem ToInt32_ToString (i : Int32) : Convert.ToInt32 (some (Int32.ToString i)) = Except.ok i := by
  unfold Convert.ToInt32 Int32.ToString
  simp only [parseInteger_intToString]
  rw [dif_pos i.property]

theorem ToUInt32_ToString (i : UInt32) : Convert.ToUInt32 (some (UInt32.ToString i)) = Except.ok i := by
  unfold Convert.ToUInt32 UInt32.ToString
  simp only [parseInteger_intToString]
  rw [dif_pos i.property]

/-- The count of a list, written by `ToString()` and read back by `Convert.ToInt32`. -/
theorem ToInt32_count (n : Nat) (h : n < 2147483648) :
    ∃ c : Int32, Convert.ToInt32 (some (intToString (n : Int))) = Except.ok c ∧ c.val.toNat = n := by
  have hr : (-2147483648 : Int) ≤ (n : Int) ∧ (n : Int) < 2147483648 := by omega
  refine ⟨⟨(n : Int), hr⟩, ?_, by simp⟩
  unfold Convert.ToInt32
  simp only [parseInteger_intToString]
  rw [dif_pos hr]

/-- On a text of ASCII characters other than `I`, `ToLower` maps the letters A to Z,
whatever the culture. -/
theorem ToLower_ascii (s : String) (h : ∀ c ∈ s.data, c.toNat < 128 ∧ c ≠ 'I') :
    ToLower s = String.mk (s.data.map Char.toLower) := by
  unfold ToLower
  congr 1
  apply List.map_congr_left
  intro c hc
  exact Globalization.lowerChar_ascii c (h c hc).1 (h c hc).2

theorem digitChar_ascii (d : Nat) (h : d < 10) :
    (digitChar d).toNat < 128 ∧ digitChar d ≠ 'I' := by
  interval_cases d <;> decide

theorem ToLower_intToString (i : Int) : ToLower (intToString i) = intToString i := by
  have key : ∀ l : List Char, (∀ c ∈ l, c.toLower = c) → l.map Char.toLower = l := by
    intro l hl
    induction l with
    | nil => rfl
    | cons a as ih =>
      simp only [List.map_cons, hl a (List.mem_cons_self a as)]
      rw [ih (fun c hc => hl c (List.mem_cons_of_mem a hc))]
  have hd : ∀ c ∈ natDigits (i.natAbs + 1) i.natAbs, c.toLower = c := by
    intro c hc
    obtain ⟨d, hd, rfl⟩ := natDigits_digit _ _ c hc
    exact toLower_digitChar d hd
  have hascii : ∀ c ∈ (intToString i).data, c.toNat < 128 ∧ c ≠ 'I' := by
    intro c hc
    unfold intToString at hc
    split at hc
    · rcases List.mem_cons.mp hc with rfl | hc
      · decide
      · obtain ⟨d, hd, rfl⟩ := natDigits_digit _ _ c hc
        exact digitChar_ascii d hd
    · obtain ⟨d, hd, rfl⟩ := natDigits_digit _ _ c hc
      exact digitChar_ascii d hd
  rw [ToLower_ascii _ hascii]
  unfold intToString
  split
  · congr 1
    apply key
    intro c hc
    rcases List.mem_cons.mp hc with rfl | hc
    · rfl
    · exact hd c hc
  · congr 1
    exact key _ hd

/-- The lower case of `True` and of `False` is the same in every culture. -/
theorem ToLower_Boolean_ToString (b : Bool) :
    ToLower (Boolean.ToString b) = if b then "true" else "false" := by
  cases b
  · exact ToLower_ascii "False" (by decide)
  · exact ToLower_ascii "True" (by decide)

theorem equalsIgnoreCase_ascii (a b : List Char) (ha : ∀ c ∈ a, c.toNat < 128)
    (hb : ∀ c ∈ b, c.toNat < 128) :
    equalsIgnoreCase a b = decide (a.map Char.toUpper = b.map Char.toUpper) := by
  unfold equalsIgnoreCase
  rw [List.map_congr_left (fun c hc => Globalization.upperChar_ascii c (ha c hc)),
    List.map_congr_left (fun c hc => Globalization.upperChar_ascii c (hb c hc))]

/-- On an ASCII text the comparison with `True` and `False` is that of the upper
cases of the letters a to z. -/
theorem booleanLiteral_ascii (cs : List Char) (h : ∀ c ∈ cs, c.toNat < 128) :
    booleanLiteral cs =
      if cs.map Char.toUpper = "TRUE".data then some true
      else if cs.map Char.toUpper = "FALSE".data then some false else none := by
  unfold booleanLiteral
  rw [equalsIgnoreCase_ascii cs _ h (by decide), equalsIgnoreCase_ascii cs _ h (by decide)]
  simp only [decide_eq_true_eq]
  rfl

theorem ToBoolean_of_literal (s : String) (b : Bool) (h : booleanLiteral s.data = some b) :
    Convert.ToBoolean (some s) = Except.ok b := by
  simp only [Convert.ToBoolean, Boolean.Parse, h]

theorem ToBoolean_ToString (b : Bool) :
    Convert.ToBoolean (some (Boolean.ToString b)) = Except.ok b := by
  cases b
  · refine ToBoolean_of_literal "False" false ?_
    rw [booleanLiteral_ascii _ (by decide)]
    decide
  · refine ToBoolean_of_literal "True" true ?_
    rw [booleanLiteral_ascii _ (by decide)]
    decide

theorem ToBoolean_ToLower_ToString (b : Bool) :
    Convert.ToBoolean (some (ToLower (Boolean.ToString b))) = Except.ok b := by
  rw [ToLower_Boolean_ToString]
  cases b
  · refine ToBoolean_of_literal "false" false ?_
    rw [booleanLiteral_ascii _ (by decide)]
    decide
  · refine ToBoolean_of_literal "true" true ?_
    rw [booleanLiteral_ascii _ (by decide)]
    decide

/-- The lower case of the name of the type Item, in the culture of the thread. -/
theorem ToLower_Item :
    ToLower (ActionButtonType.ToString ActionButtonType.Item) =
      String.mk [Globalization.lowerChar 'I', 't', 'e', 'm'] := by
  have ht : Globalization.lowerChar 't' = 't' :=
    Globalization.lowerChar_ascii 't' (by decide) (by decide)
  have he : Globalization.lowerChar 'e' = 'e' :=
    Globalization.lowerChar_ascii 'e' (by decide) (by decide)
  have hm : Globalization.lowerChar 'm' = 'm' :=
    Globalization.lowerChar_ascii 'm' (by decide) (by decide)
  show String.mk (List.map Globalization.lowerChar ['I', 't', 'e', 'm']) = _
  simp only [List.map_cons, List.map_nil, ht, he, hm]

/-- The type GetButtonType reads in the text WriteXml writes for the type Item: Item
when the culture lower-cases `I` to `i`, Unset in the others. -/
theorem GetButtonType_ToLower_Item :
    GetButtonType (some (ToLower (ActionButtonType.ToString ActionButtonType.Item))) =
      if Globalization.lowerChar 'I' = 'i' then ActionButtonType.Item
      else ActionButtonType.Unset := by
  rw [ToLower_Item]
  by_cases h : Globalization.lowerChar 'I' = 'i'
  · rw [if_pos h, h]
    decide
  · rw [if_neg h]
    have h1 : StringEquals (some (String.mk [Globalization.lowerChar 'I', 't', 'e', 'm']))
        (some BUTTONTYPE_SPELL) = false := by
      unfold StringEquals
      refine decide_eq_false (fun heq => ?_)
      have hlen := congrArg (fun t : Option String => t.map (fun x => x.data.length)) heq
      simp only [Option.map_some', List.length_cons, List.length_nil] at hlen
      exact absurd (Option.some.inj hlen) (by decide)
    have h2 : StringEquals (some (String.mk [Globalization.lowerChar 'I', 't', 'e', 'm']))
        (some BUTTONTYPE_ACTION) = false := by
      unfold StringEquals
      refine decide_eq_false (fun heq => ?_)
      have hlen := congrArg (fun t : Option String => t.map (fun x => x.data.length)) heq
      simp only [Option.map_some', List.length_cons, List.length_nil] at hlen
      exact absurd (Option.some.inj hlen) (by decide)
    have h3 : StringEquals (some (String.mk [Globalization.lowerChar 'I', 't', 'e', 'm']))
        (some BUTTONTYPE_ITEM) = false := by
      unfold StringEquals
      refine decide_eq_false (fun heq => ?_)
      have hd := congrArg (fun t : Option String => t.bind (fun x => x.data.head?)) heq
      exact h (Option.some.inj hd)
    unfold GetButtonType
    rw [h1, h2, h3]
    rfl

/-- The types other than Item are read back from the text WriteXml writes for them
in every culture; Item is when the culture lower-cases `I` to `i`. -/
theorem GetButtonType_ToLower_ToString (t : ActionButtonType)
    (h : t = ActionButtonType.Item → Globalization.lowerChar 'I' = 'i') :
    GetButtonType (some (ToLower (ActionButtonType.ToString t))) = t := by
  cases t with
  | Unset => rw [ToLower_ascii _ (by decide)]; decide
  | Spell => rw [ToLower_ascii _ (by decide)]; decide
  | Action => rw [ToLower_ascii _ (by decide)]; decide
  | Item => rw [GetButtonType_ToLower_Item, if_pos (h rfl)]

theorem Char_toLower_toLower (c : Char) : c.toLower.toLower = c.toLower := by
  by_cases h : c.toNat ≥ 65 ∧ c.toNat ≤ 90
  · obtain ⟨h1, h2⟩ := h
    have hc : c = Char.ofNat c.toNat := (Char.ofNat_toNat c).symm
    generalize c.toNat = n at hc h1 h2
    subst hc
    interval_cases n <;> rfl
  · have e : c.toLower = c := by simp [Char.toLower, h]
    rw [e, e]

/-- When lower-casing a lower-cased character changes nothing, so it is with texts. -/
theorem ToLower_ToLower
    (hidem : ∀ c : Char, Globalization.lowerChar (Globalization.lowerChar c) =
      Globalization.lowerChar c) (s : String) : ToLower (ToLower s) = ToLower s := by
  unfold ToLower
  simp [List.map_map, Function.comp_def, hidem]

/-! ## Running computations -/

theorem Op.run_bind_ok {σ α β : Type} (m : Op σ α) (f : α → Op σ β) (s s1 : σ) (a : α)
    (h : m.run s = (Except.ok a, s1)) : (m >>= f).run s = (f a).run s1 := by
  show Op.bind m f s = f a s1
  unfold Op.bind
  unfold Op.run at h
  rw [h]

theorem Op.run_bind_error {σ α β : Type} (m : Op σ α) (f : α → Op σ β) (s s1 : σ) (e : Exception)
    (h : m.run s = (Except.error e, s1)) : (m >>= f).run s = (Except.error e, s1) := by
  show Op.bind m f s = _
  unfold Op.bind
  unfold Op.run at h
  rw [h]

theorem Op.run_pure {σ α : Type} (a : α) (s : σ) : (pure a : Op σ α).run s = (Except.ok a, s) := rfl

theorem Emit.bind_fst_of_ok {ω α β : Type} (m : Emit ω α) (f : α → Emit ω β) (a : α)
    (h : m.1 = Except.ok a) : (m >>= f).1 = (f a).1 := by
  obtain ⟨r, out⟩ := m
  simp only at h
  subst h
  rfl

theorem Emit.bind_snd_of_ok {ω α β : Type} (m : Emit ω α) (f : α → Emit ω β) (a : α)
    (h : m.1 = Except.ok a) : (m >>= f).2 = m.2 ++ (f a).2 := by
  obtain ⟨r, out⟩ := m
  simp only at h
  subst h
  rfl

/-! ## The writer, statement by statement -/

theorem WriteStartElement_bind_fst {α : Type} (n : String) (f : Unit → Emit XmlEvent α) :
    (WriteStartElement n >>= f).1 = (f ()).1 := rfl

theorem WriteStartElement_bind_snd {α : Type} (n : String) (f : Unit → Emit XmlEvent α) :
    (WriteStartElement n >>= f).2 = XmlEvent.StartElement n :: (f ()).2 := rfl

theorem WriteAttributeString_bind_fst {α : Type} (n : String) (v : Option String)
    (f : Unit → Emit XmlEvent α) : (WriteAttributeString n v >>= f).1 = (f ()).1 := rfl

theorem WriteAttributeString_bind_snd {α : Type} (n : String) (v : Option String)
    (f : Unit → Emit XmlEvent α) :
    (WriteAttributeString n v >>= f).2 = XmlEvent.Attribute n (v.getD "") :: (f ()).2 := rfl

theorem WriteEndElement_bind_fst {α : Type} (f : Unit → Emit XmlEvent α) :
    (WriteEndElement >>= f).1 = (f ()).1 := rfl

theorem WriteEndElement_bind_snd {α : Type} (f : Unit → Emit XmlEvent α) :
    (WriteEndElement >>= f).2 = XmlEvent.EndElement :: (f ()).2 := rfl

theorem WriteEndElement_fst : WriteEndElement.1 = Except.ok () := rfl

theorem WriteEndElement_snd : WriteEndElement.2 = [XmlEvent.EndElement] := rfl

theorem WriteAttributeString_fst (n : String) (v : Option String) :
    (WriteAttributeString n v).1 = Except.ok () := rfl

theorem WriteAttributeString_snd (n : String) (v : Option String) :
    (WriteAttributeString n v).2 = [XmlEvent.Attribute n (v.getD "")] := rfl

theorem deref_some_bind_fst {α : Type} (v : String) (f : String → Emit XmlEvent α) :
    (deref (some v) >>= f).1 = (f v).1 := by
  show (Emit.bind (Except.ok v, []) f).1 = _
  unfold Emit.bind
  rfl

theorem deref_some_bind_snd {α : Type} (v : String) (f : String → Emit XmlEvent α) :
    (deref (some v) >>= f).2 = (f v).2 := by
  have h : ∀ p : Emit XmlEvent α,
      (match p with | (r, out2) => (r, ([] : List XmlEvent) ++ out2)).2 = p.2 := by
    intro p
    rcases p with ⟨r, out⟩
    rfl
  exact h (f v)

/-! ## From writer calls to element nodes -/

theorem leadingAttributes_append (a b : List XmlEvent) (h : leadingAttributes b = []) :
    leadingAttributes (a ++ b) = leadingAttributes a := by
  induction a with
  | nil => simpa [leadingAttributes] using h
  | cons e es ih =>
    cases e with
    | StartElement n => rfl
    | Attribute n v => simp [leadingAttributes, ih]
    | EndElement => rfl

theorem elementsOf_append (a b : List XmlEvent) (h : leadingAttributes b = []) :
    elementsOf (a ++ b) = elementsOf a ++ elementsOf b := by
  induction a with
  | nil => rfl
  | cons e es ih =>
    cases e with
    | StartElement n => simp [elementsOf, ih, leadingAttributes_append es b h]
    | Attribute n v => simpa [elementsOf] using ih
    | EndElement => simpa [elementsOf] using ih

theorem callsOf_append (a b : List XmlEvent) : callsOf (a ++ b) = callsOf a ++ callsOf b := by
  induction a with
  | nil => rfl
  | cons e es ih => cases e <;> simp [callsOf, ih]

theorem lastOr_append (a b : List XmlElement) (cur : Option XmlElement) :
    lastOr (a ++ b) cur = lastOr b (lastOr a cur) := by
  induction a generalizing cur with
  | nil => rfl
  | cons e es ih => simp [lastOr, ih]

/-! ## The reader, statement by statement -/

theorem ReadToFollowing_head_bind {Keys β : Type} (tag : String) (attrs : List (String × String))
    (f : Bool → Op (ReadState Keys) β) (this : OgreClientConfig Keys) (cur : Option XmlElement)
    (es : List XmlElement) (calls : List ReaderCall) :
    (ReadToFollowing tag >>= f).run ⟨this, ⟨cur, XmlElement.mk tag attrs :: es, calls⟩⟩ =
      (f true).run ⟨this, ⟨some (XmlElement.mk tag attrs), es,
        calls ++ [ReaderCall.ReadToFollowing tag]⟩⟩ := by
  apply Op.run_bind_ok
  simp [Op.run, ReadToFollowing, XmlReader.ReadToFollowing, seekElement]

theorem assign_bind {Keys β : Type} (g : OgreClientConfig Keys → OgreClientConfig Keys)
    (f : Unit → Op (ReadState Keys) β) (this : OgreClientConfig Keys) (rd : XmlReader) :
    (assign g >>= f).run ⟨this, rd⟩ = (f ()).run ⟨g this, rd⟩ := by
  apply Op.run_bind_ok
  rfl

theorem assignAttribute_run {Keys α : Type} (convert : Option String → Except Exception α)
    (attrName : String) (set : α → OgreClientConfig Keys → OgreClientConfig Keys)
    (this : OgreClientConfig Keys) (tag text : String) (es : List XmlElement)
    (calls : List ReaderCall) (v : α) (h : convert (some text) = Except.ok v) :
    (assignAttribute convert attrName set).run
        ⟨this, ⟨some (XmlElement.mk tag [(attrName, text)]), es, calls⟩⟩ =
      (Except.ok (), ⟨set v this, ⟨some (XmlElement.mk tag [(attrName, text)]), es,
        calls ++ [ReaderCall.GetAttribute attrName]⟩⟩) := by
  simp only [assignAttribute, Op.run, bind, Op.bind, ReaderItem, Op.ofExcept, assign,
    XmlReader.Item, List.lookup, beq_self_eq_true, h]

theorem readField_run {Keys α : Type} (convert : Option String → Except Exception α)
    (tag attrName : String) (set : α → OgreClientConfig Keys → OgreClientConfig Keys)
    (this : OgreClientConfig Keys) (cur : Option XmlElement) (text : String)
    (es : List XmlElement) (calls : List ReaderCall) (v : α)
    (h : convert (some text) = Except.ok v) :
    (readField convert tag attrName set).run
        ⟨this, ⟨cur, XmlElement.mk tag [(attrName, text)] :: es, calls⟩⟩ =
      (Except.ok (), ⟨set v this, ⟨some (XmlElement.mk tag [(attrName, text)]), es,
        calls ++ [ReaderCall.ReadToFollowing tag, ReaderCall.GetAttribute attrName]⟩⟩) := by
  unfold readField
  rw [ReadToFollowing_head_bind, assignAttribute_run convert attrName set this tag text es _ v h]
  simp

theorem readInt32_bind {Keys β : Type} (tag attrName : String)
    (set : Int32 → OgreClientConfig Keys → OgreClientConfig Keys)
    (f : Unit → Op (ReadState Keys) β) (this : OgreClientConfig Keys) (cur : Option XmlElement)
    (v : Int32) (es : List XmlElement) (calls : List ReaderCall) :
    (readField Convert.ToInt32 tag attrName set >>= f).run
        ⟨this, ⟨cur, XmlElement.mk tag [(attrName, Int32.ToString v)] :: es, calls⟩⟩ =
      (f ()).run ⟨set v this, ⟨some (XmlElement.mk tag [(attrName, Int32.ToString v)]), es,
        calls ++ [ReaderCall.ReadToFollowing tag, ReaderCall.GetAttribute attrName]⟩⟩ :=
  Op.run_bind_ok _ _ _ _ _ (readField_run _ _ _ _ _ _ _ _ _ _ (ToInt32_ToString v))

theorem readInt32_last {Keys : Type} (tag attrName : String)
    (set : Int32 → OgreClientConfig Keys → OgreClientConfig Keys)
    (this : OgreClientConfig Keys) (cur : Option XmlElement)
    (v : Int32) (es : List XmlElement) (calls : List ReaderCall) :
    (readField Convert.ToInt32 tag attrName set).run
        ⟨this, ⟨cur, XmlElement.mk tag [(attrName, Int32.ToString v)] :: es, calls⟩⟩ =
      (Except.ok (), ⟨set v this, ⟨some (XmlElement.mk tag [(attrName, Int32.ToString v)]), es,
        calls ++ [ReaderCall.ReadToFollowing tag, ReaderCall.GetAttribute attrName]⟩⟩) :=
  readField_run _ _ _ _ _ _ _ _ _ _ (ToInt32_ToString v)

theorem readBoolean_bind {Keys β : Type} (tag attrName : String)
    (set : Bool → OgreClientConfig Keys → OgreClientConfig Keys)
    (f : Unit → Op (ReadState Keys) β) (this : OgreClientConfig Keys) (cur : Option XmlElement)
    (v : Bool) (es : List XmlElement) (calls : List ReaderCall) :
    (readField Convert.ToBoolean tag attrName set >>= f).run
        ⟨this, ⟨cur, XmlElement.mk tag [(attrName, Boolean.ToString v)] :: es, calls⟩⟩ =
      (f ()).run ⟨set v this, ⟨some (XmlElement.mk tag [(attrName, Boolean.ToString v)]), es,
        calls ++ [ReaderCall.ReadToFollowing tag, ReaderCall.GetAttribute attrName]⟩⟩ :=
  Op.run_bind_ok _ _ _ _ _ (readField_run _ _ _ _ _ _ _ _ _ _ (ToBoolean_ToString v))

theorem readBoolean_last {Keys : Type} (tag attrName : String)
    (set : Bool → OgreClientConfig Keys → OgreClientConfig Keys)
    (this : OgreClientConfig Keys) (cur : Option XmlElement)
    (v : Bool) (es : List XmlElement) (calls : List ReaderCall) :
    (readField Convert.ToBoolean tag attrName set).run
        ⟨this, ⟨cur, XmlElement.mk tag [(attrName, Boolean.ToString v)] :: es, calls⟩⟩ =
      (Except.ok (), ⟨set v this, ⟨some (XmlElement.mk tag [(attrName, Boolean.ToString v)]), es,
        calls ++ [ReaderCall.ReadToFollowing tag, ReaderCall.GetAttribute attrName]⟩⟩) :=
  readField_run _ _ _ _ _ _ _ _ _ _ (ToBoolean_ToString v)

theorem readBooleanLower_bind {Keys β : Type} (tag attrName : String)
    (set : Bool → OgreClientConfig Keys → OgreClientConfig Keys)
    (f : Unit → Op (ReadState Keys) β) (this : OgreClientConfig Keys) (cur : Option XmlElement)
    (v : Bool) (es : List XmlElement) (calls : List ReaderCall) :
    (readField Convert.ToBoolean tag attrName set >>= f).run
        ⟨this, ⟨cur, XmlElement.mk tag [(attrName, ToLower (Boolean.ToString v))] :: es, calls⟩⟩ =
      (f ()).run ⟨set v this, ⟨some (XmlElement.mk tag [(attrName, ToLower (Boolean.ToString v))]), es,
        calls ++ [ReaderCall.ReadToFollowing tag, ReaderCall.GetAttribute attrName]⟩⟩ :=
  Op.run_bind_ok _ _ _ _ _ (readField_run _ _ _ _ _ _ _ _ _ _ (ToBoolean_ToLower_ToString v))

theorem readBooleanLower_last {Keys : Type} (tag attrName : String)
    (set : Bool → OgreClientConfig Keys → OgreClientConfig Keys)
    (this : OgreClientConfig Keys) (cur : Option XmlElement)
    (v : Bool) (es : List XmlElement) (calls : List ReaderCall) :
    (readField Convert.ToBoolean tag attrName set).run
        ⟨this, ⟨cur, XmlElement.mk tag [(attrName, ToLower (Boolean.ToString v))] :: es, calls⟩⟩ =
      (Except.ok (), ⟨set v this, ⟨some (XmlElement.mk tag [(attrName, ToLower (Boolean.ToString v))]), es,
        calls ++ [ReaderCall.ReadToFollowing tag, ReaderCall.GetAttribute attrName]⟩⟩) :=
  readField_run _ _ _ _ _ _ _ _ _ _ (ToBoolean_ToLower_ToString v)

theorem readString_bind {Keys β : Type} (tag attrName : String)
    (set : Option String → OgreClientConfig Keys → OgreClientConfig Keys)
    (f : Unit → Op (ReadState Keys) β) (this : OgreClientConfig Keys) (cur : Option XmlElement)
    (text : String) (es : List XmlElement) (calls : List ReaderCall) :
    (readField Except.ok tag attrName set >>= f).run
        ⟨this, ⟨cur, XmlElement.mk tag [(attrName, text)] :: es, calls⟩⟩ =
      (f ()).run ⟨set (some text) this, ⟨some (XmlElement.mk tag [(attrName, text)]), es,
        calls ++ [ReaderCall.ReadToFollowing tag, ReaderCall.GetAttribute attrName]⟩⟩ :=
  Op.run_bind_ok _ _ _ _ _ (readField_run _ _ _ _ _ _ _ _ _ _ (rfl))

theorem readString_last {Keys : Type} (tag attrName : String)
    (set : Option String → OgreClientConfig Keys → OgreClientConfig Keys)
    (this : OgreClientConfig Keys) (cur : Option XmlElement)
    (text : String) (es : List XmlElement) (calls : List ReaderCall) :
    (readField Except.ok tag attrName set).run
        ⟨this, ⟨cur, XmlElement.mk tag [(attrName, text)] :: es, calls⟩⟩ =
      (Except.ok (), ⟨set (some text) this, ⟨some (XmlElement.mk tag [(attrName, text)]), es,
        calls ++ [ReaderCall.ReadToFollowing tag, ReaderCall.GetAttribute attrName]⟩⟩) :=
  readField_run _ _ _ _ _ _ _ _ _ _ (rfl)

theorem readKey_bind {Keys β : Type} (api : Collaborators Keys) (hapi : KeysRoundTrip api) (tag attrName : String)
    (set : Keys → OgreClientConfig Keys → OgreClientConfig Keys)
    (f : Unit → Op (ReadState Keys) β) (this : OgreClientConfig Keys) (cur : Option XmlElement)
    (k : Keys) (es : List XmlElement) (calls : List ReaderCall) :
    (readField api.ConvertFrom tag attrName set >>= f).run
        ⟨this, ⟨cur, XmlElement.mk tag [(attrName, api.ToString k)] :: es, calls⟩⟩ =
      (f ()).run ⟨set k this, ⟨some (XmlElement.mk tag [(attrName, api.ToString k)]), es,
        calls ++ [ReaderCall.ReadToFollowing tag, ReaderCall.GetAttribute attrName]⟩⟩ :=
  Op.run_bind_ok _ _ _ _ _ (readField_run _ _ _ _ _ _ _ _ _ _ (hapi k))

theorem readKey_last {Keys : Type} (api : Collaborators Keys) (hapi : KeysRoundTrip api) (tag attrName : String)
    (set : Keys → OgreClientConfig Keys → OgreClientConfig Keys)
    (this : OgreClientConfig Keys) (cur : Option XmlElement)
    (k : Keys) (es : List XmlElement) (calls : List ReaderCall) :
    (readField api.ConvertFrom tag attrName set).run
        ⟨this, ⟨cur, XmlElement.mk tag [(attrName, api.ToString k)] :: es, calls⟩⟩ =
      (Except.ok (), ⟨set k this, ⟨some (XmlElement.mk tag [(attrName, api.ToString k)]), es,
        calls ++ [ReaderCall.ReadToFollowing tag, ReaderCall.GetAttribute attrName]⟩⟩) :=
  readField_run _ _ _ _ _ _ _ _ _ _ (hapi k)

theorem ToLower_Int32_ToString (v : Int32) : ToLower (Int32.ToString v) = Int32.ToString v :=
  ToLower_intToString v.val

theorem assignInt32_last {Keys : Type} (attrName : String)
    (set : Int32 → OgreClientConfig Keys → OgreClientConfig Keys)
    (this : OgreClientConfig Keys) (tag : String) (v : Int32) (es : List XmlElement)
    (calls : List ReaderCall) :
    (assignAttribute Convert.ToInt32 attrName set).run
        ⟨this, ⟨some (XmlElement.mk tag [(attrName, Int32.ToString v)]), es, calls⟩⟩ =
      (Except.ok (), ⟨set v this, ⟨some (XmlElement.mk tag [(attrName, Int32.ToString v)]), es,
        calls ++ [ReaderCall.GetAttribute attrName]⟩⟩) :=
  assignAttribute_run _ _ _ _ _ _ _ _ _ (ToInt32_ToString v)

theorem ReadXml_engine_WriteXml {Keys : Type}
    (r this : OgreClientConfig Keys) (cur : Option XmlElement) (rest : List XmlElement)
    (calls : List ReaderCall) :
    (ReadXml_engine).run ⟨this, ⟨cur, elementsOf (WriteXml_engine r).2 ++ rest, calls⟩⟩ =
      (Except.ok (), ⟨{ this with
          Display := r.Display,
          Resolution := some (r.Resolution.getD ""),
          WindowMode := r.WindowMode,
          WindowFrame := r.WindowFrame,
          VSync := r.VSync,
          FSAA := some (r.FSAA.getD ""),
          NoMipmaps := r.NoMipmaps,
          TextureFiltering := some (r.TextureFiltering.getD ""),
          ImageBuilder := some (r.ImageBuilder.getD ""),
          BitmapScaling := some (r.BitmapScaling.getD ""),
          TextureQuality := some (r.TextureQuality.getD ""),
          DecorationIntensity := r.DecorationIntensity,
          DecorationQuality := r.DecorationQuality,
          DisableNewRoomTextures := r.DisableNewRoomTextures,
          Disable3DModels := r.Disable3DModels,
          DisableNewSky := r.DisableNewSky,
          DisableWeatherEffects := r.DisableWeatherEffects,
          WeatherParticles := r.WeatherParticles,
          MusicVolume := r.MusicVolume,
          DisableLoopSounds := r.DisableLoopSounds },
        ⟨lastOr (elementsOf (WriteXml_engine r).2) cur, rest,
          calls ++ callsOf (WriteXml_engine r).2⟩⟩) := by
  simp only [WriteXml_engine, WriteStartElement_bind_snd, WriteAttributeString_bind_snd,
    WriteEndElement_bind_snd, WriteEndElement_snd, WriteAttributeString_snd, elementsOf,
    leadingAttributes, callsOf, lastOr, Option.getD_some, List.cons_append, List.nil_append,
    ToLower_Int32_ToString]
  simp only [ReadXml_engine, ReadToFollowing_head_bind, assign_bind, assignInt32_last,
    readInt32_bind, readInt32_last, readBoolean_bind, readBoolean_last, readBooleanLower_bind,
    readBooleanLower_last, readString_bind, readString_last, List.append_assoc, List.cons_append, List.nil_append]

theorem WriteXml_engine_fst {Keys : Type} (r : OgreClientConfig Keys) :
    (WriteXml_engine r).1 = Except.ok () := rfl

theorem WriteXml_engine_leading {Keys : Type} (r : OgreClientConfig Keys)
    (evs : List XmlEvent) : leadingAttributes ((WriteXml_engine r).2 ++ evs) = [] := rfl

theorem ReadXml_input_WriteXml {Keys : Type}
    (r this : OgreClientConfig Keys) (cur : Option XmlElement) (rest : List XmlElement)
    (calls : List ReaderCall) :
    (ReadXml_input).run ⟨this, ⟨cur, elementsOf (WriteXml_input r).2 ++ rest, calls⟩⟩ =
      (Except.ok (), ⟨{ this with
          MouseAimSpeed := r.MouseAimSpeed,
          KeyRotateSpeed := r.KeyRotateSpeed,
          InvertMouseY := r.InvertMouseY },
        ⟨lastOr (elementsOf (WriteXml_input r).2) cur, rest,
          calls ++ callsOf (WriteXml_input r).2⟩⟩) := by
  simp only [WriteXml_input, WriteStartElement_bind_snd, WriteAttributeString_bind_snd,
    WriteEndElement_bind_snd, WriteEndElement_snd, WriteAttributeString_snd, elementsOf,
    leadingAttributes, callsOf, lastOr, Option.getD_some, List.cons_append, List.nil_append,
    ToLower_Int32_ToString]
  simp only [ReadXml_input, ReadToFollowing_head_bind, assign_bind, assignInt32_last,
    readInt32_bind, readInt32_last, readBoolean_bind, readBoolean_last, readBooleanLower_bind,
    readBooleanLower_last, readString_bind, readString_last, List.append_assoc, List.cons_append, List.nil_append]

theorem WriteXml_input_fst {Keys : Type} (r : OgreClientConfig Keys) :
    (WriteXml_input r).1 = Except.ok () := rfl

theorem WriteXml_input_leading {Keys : Type} (r : OgreClientConfig Keys)
    (evs : List XmlEvent) : leadingAttributes ((WriteXml_input r).2 ++ evs) = [] := rfl

theorem ReadXml_keybinding_WriteXml {Keys : Type} (api : Collaborators Keys)
    (r this : OgreClientConfig Keys) (cur : Option XmlElement) (rest : List XmlElement)
    (calls : List ReaderCall) :
    (ReadXml_keybinding api).run ⟨this, ⟨cur, elementsOf (WriteXml_keybinding r).2 ++ rest, calls⟩⟩ =
      (Except.ok (), ⟨{ this with KeyBinding := { api.NewKeyBinding with RightClickAction := r.KeyBinding.RightClickAction } },
        ⟨lastOr (elementsOf (WriteXml_keybinding r).2) cur, rest,
          calls ++ callsOf (WriteXml_keybinding r).2⟩⟩) := by
  simp only [WriteXml_keybinding, WriteStartElement_bind_snd, WriteAttributeString_bind_snd,
    WriteEndElement_bind_snd, WriteEndElement_snd, WriteAttributeString_snd, elementsOf,
    leadingAttributes, callsOf, lastOr, Option.getD_some, List.cons_append, List.nil_append,
    ToLower_Int32_ToString]
  simp only [ReadXml_keybinding, ReadToFollowing_head_bind, assign_bind, assignInt32_last,
    readInt32_bind, readInt32_last, readBoolean_bind, readBoolean_last, readBooleanLower_bind,
    readBooleanLower_last, readString_bind, readString_last, List.append_assoc, List.cons_append, List.nil_append]

theorem WriteXml_keybinding_fst {Keys : Type} (r : OgreClientConfig Keys) :
    (WriteXml_keybinding r).1 = Except.ok () := rfl

theorem WriteXml_keybinding_leading {Keys : Type} (r : OgreClientConfig Keys)
    (evs : List XmlEvent) : leadingAttributes ((WriteXml_keybinding r).2 ++ evs) = [] := rfl

theorem ReadXml_keys_movement_WriteXml {Keys : Type} (api : Collaborators Keys) (hapi : KeysRoundTrip api)
    (r this : OgreClientConfig Keys) (cur : Option XmlElement) (rest : List XmlElement)
    (calls : List ReaderCall) :
    (ReadXml_keys_movement api).run ⟨this, ⟨cur, elementsOf (WriteXml_keys_movement api r).2 ++ rest, calls⟩⟩ =
      (Except.ok (), ⟨{ this with KeyBinding := { this.KeyBinding with
          MoveForward := r.KeyBinding.MoveForward,
          MoveBackward := r.KeyBinding.MoveBackward,
          MoveLeft := r.KeyBinding.MoveLeft,
          MoveRight := r.KeyBinding.MoveRight,
          RotateLeft := r.KeyBinding.RotateLeft,
          RotateRight := r.KeyBinding.RotateRight } },
        ⟨lastOr (elementsOf (WriteXml_keys_movement api r).2) cur, rest,
          calls ++ callsOf (WriteXml_keys_movement api r).2⟩⟩) := by
  simp only [WriteXml_keys_movement, WriteStartElement_bind_snd, WriteAttributeString_bind_snd,
    WriteEndElement_bind_snd, WriteEndElement_snd, WriteAttributeString_snd, elementsOf,
    leadingAttributes, callsOf, lastOr, Option.getD_some, List.cons_append, List.nil_append,
    ToLower_Int32_ToString]
  simp only [ReadXml_keys_movement, ReadToFollowing_head_bind, assign_bind, assignInt32_last,
    readInt32_bind, readInt32_last, readBoolean_bind, readBoolean_last, readBooleanLower_bind,
    readBooleanLower_last, readString_bind, readString_last, readKey_bind api hapi,
    readKey_last api hapi, List.append_assoc, List.cons_append, List.nil_append]

theorem WriteXml_keys_movement_fst {Keys : Type} (api : Collaborators Keys) (r : OgreClientConfig Keys) :
    (WriteXml_keys_movement api r).1 = Except.ok () := rfl

theorem WriteXml_keys_movement_leading {Keys : Type} (api : Collaborators Keys) (r : OgreClientConfig Keys)
    (evs : List XmlEvent) : leadingAttributes ((WriteXml_keys_movement api r).2 ++ evs) = [] := rfl

theorem ReadXml_keys_modifiers_WriteXml {Keys : Type} (api : Collaborators Keys) (hapi : KeysRoundTrip api)
    (r this : OgreClientConfig Keys) (cur : Option XmlElement) (rest : List XmlElement)
    (calls : List ReaderCall) :
    (ReadXml_keys_modifiers api).run ⟨this, ⟨cur, elementsOf (WriteXml_keys_modifiers api r).2 ++ rest, calls⟩⟩ =
      (Except.ok (), ⟨{ this with KeyBinding := { this.KeyBinding with
          Walk := r.KeyBinding.Walk,
          AutoMove := r.KeyBinding.AutoMove } },
        ⟨lastOr (elementsOf (WriteXml_keys_modifiers api r).2) cur, rest,
          calls ++ callsOf (WriteXml_keys_modifiers api r).2⟩⟩) := by
  simp only [WriteXml_keys_modifiers, WriteStartElement_bind_snd, WriteAttributeString_bind_snd,
    WriteEndElement_bind_snd, WriteEndElement_snd, WriteAttributeString_snd, elementsOf,
    leadingAttributes, callsOf, lastOr, Option.getD_some, List.cons_append, List.nil_append,
    ToLower_Int32_ToString]
  simp only [ReadXml_keys_modifiers, ReadToFollowing_head_bind, assign_bind, assignInt32_last,
    readInt32_bind, readInt32_last, readBoolean_bind, readBoolean_last, readBooleanLower_bind,
    readBooleanLower_last, readString_bind, readString_last, readKey_bind api hapi,
    readKey_last api hapi, List.append_assoc, List.cons_append, List.nil_append]

theorem WriteXml_keys_modifiers_fst {Keys : Type} (api : Collaborators Keys) (r : OgreClientConfig Keys) :
    (WriteXml_keys_modifiers api r).1 = Except.ok () := rfl

theorem WriteXml_keys_modifiers_leading {Keys : Type} (api : Collaborators Keys) (r : OgreClientConfig Keys)
    (evs : List XmlEvent) : leadingAttributes ((WriteXml_keys_modifiers api r).2 ++ evs) = [] := rfl

theorem ReadXml_keys_targetting_WriteXml {Keys : Type} (api : Collaborators Keys) (hapi : KeysRoundTrip api)
    (r this : OgreClientConfig Keys) (cur : Option XmlElement) (rest : List XmlElement)
    (calls : List ReaderCall) :
    (ReadXml_keys_targetting api).run ⟨this, ⟨cur, elementsOf (WriteXml_keys_targetting api r).2 ++ rest, calls⟩⟩ =
      (Except.ok (), ⟨{ this with KeyBinding := { this.KeyBinding with
          NextTarget := r.KeyBinding.NextTarget,
          SelfTarget := r.KeyBinding.SelfTarget } },
        ⟨lastOr (elementsOf (WriteXml_keys_targetting api r).2) cur, rest,
          calls ++ callsOf (WriteXml_keys_targetting api r).2⟩⟩) := by
  simp only [WriteXml_keys_targetting, WriteStartElement_bind_snd, WriteAttributeString_bind_snd,
    WriteEndElement_bind_snd, WriteEndElement_snd, WriteAttributeString_snd, elementsOf,
    leadingAttributes, callsOf, lastOr, Option.getD_some, List.cons_append, List.nil_append,
    ToLower_Int32_ToString]
  simp only [ReadXml_keys_targetting, ReadToFollowing_head_bind, assign_bind, assignInt32_last,
    readInt32_bind, readInt32_last, readBoolean_bind, readBoolean_last, readBooleanLower_bind,
    readBooleanLower_last, readString_bind, readString_last, readKey_bind api hapi,
    readKey_last api hapi, List.append_assoc, List.cons_append, List.nil_append]

theorem WriteXml_keys_targetting_fst {Keys : Type} (api : Collaborators Keys) (r : OgreClientConfig Keys) :
    (WriteXml_keys_targetting api r).1 = Except.ok () := rfl

theorem WriteXml_keys_targetting_leading {Keys : Type} (api : Collaborators Keys) (r : OgreClientConfig Keys)
    (evs : List XmlEvent) : leadingAttributes ((WriteXml_keys_targetting api r).2 ++ evs) = [] := rfl

theorem ReadXml_keys_others_WriteXml {Keys : Type} (api : Collaborators Keys) (hapi : KeysRoundTrip api)
    (r this : OgreClientConfig Keys) (cur : Option XmlElement) (rest : List XmlElement)
    (calls : List ReaderCall) :
    (ReadXml_keys_others api).run ⟨this, ⟨cur, elementsOf (WriteXml_keys_others api r).2 ++ rest, calls⟩⟩ =
      (Except.ok (), ⟨{ this with KeyBinding := { this.KeyBinding with
          ReqGo := r.KeyBinding.ReqGo,
          Close := r.KeyBinding.Close } },
        ⟨lastOr (elementsOf (WriteXml_keys_others api r).2) cur, rest,
          calls ++ callsOf (WriteXml_keys_others api r).2⟩⟩) := by
  simp only [WriteXml_keys_others, WriteStartElement_bind_snd, WriteAttributeString_bind_snd,
    WriteEndElement_bind_snd, WriteEndElement_snd, WriteAttributeString_snd, elementsOf,
    leadingAttributes, callsOf, lastOr, Option.getD_some, List.cons_append, List.nil_append,
    ToLower_Int32_ToString]
  simp only [ReadXml_keys_others, ReadToFollowing_head_bind, assign_bind, assignInt32_last,
    readInt32_bind, readInt32_last, readBoolean_bind, readBoolean_last, readBooleanLower_bind,
    readBooleanLower_last, readString_bind, readString_last, readKey_bind api hapi,
    readKey_last api hapi, List.append_assoc, List.cons_append, List.nil_append]

theorem WriteXml_keys_others_fst {Keys : Type} (api : Collaborators Keys) (r : OgreClientConfig Keys) :
    (WriteXml_keys_others api r).1 = Except.ok () := rfl

theorem WriteXml_keys_others_leading {Keys : Type} (api : Collaborators Keys) (r : OgreClientConfig Keys)
    (evs : List XmlEvent) : leadingAttributes ((WriteXml_keys_others api r).2 ++ evs) = [] := rfl

theorem ReadXml_keys_actions_WriteXml {Keys : Type} (api : Collaborators Keys) (hapi : KeysRoundTrip api)
    (r this : OgreClientConfig Keys) (cur : Option XmlElement) (rest : List XmlElement)
    (calls : List ReaderCall) :
    (ReadXml_keys_actions api).run ⟨this, ⟨cur, elementsOf (WriteXml_keys_actions api r).2 ++ rest, calls⟩⟩ =
      (Except.ok (), ⟨{ this with KeyBinding := { this.KeyBinding with
          ActionButton01 := r.KeyBinding.ActionButton01,
          ActionButton02 := r.KeyBinding.ActionButton02,
          ActionButton03 := r.KeyBinding.ActionButton03,
          ActionButton04 := r.KeyBinding.ActionButton04,
          ActionButton05 := r.KeyBinding.ActionButton05,
          ActionButton06 := r.KeyBinding.ActionButton06,
          ActionButton07 := r.KeyBinding.ActionButton07,
          ActionButton08 := r.KeyBinding.ActionButton08,
          ActionButton09 := r.KeyBinding.ActionButton09,
          ActionButton10 := r.KeyBinding.ActionButton10,
          ActionButton11 := r.KeyBinding.ActionButton11,
          ActionButton12 := r.KeyBinding.ActionButton12,
          ActionButton13 := r.KeyBinding.ActionButton13,
          ActionButton14 := r.KeyBinding.ActionButton14,
          ActionButton15 := r.KeyBinding.ActionButton15,
          ActionButton16 := r.KeyBinding.ActionButton16,
          ActionButton17 := r.KeyBinding.ActionButton17,
          ActionButton18 := r.KeyBinding.ActionButton18,
          ActionButton19 := r.KeyBinding.ActionButton19,
          ActionButton20 := r.KeyBinding.ActionButton20,
          ActionButton21 := r.KeyBinding.ActionButton21,
          ActionButton22 := r.KeyBinding.ActionButton22,
          ActionButton23 := r.KeyBinding.ActionButton23,
          ActionButton24 := r.KeyBinding.ActionButton24,
          ActionButton25 := r.KeyBinding.ActionButton25,
          ActionButton26 := r.KeyBinding.ActionButton26,
          ActionButton27 := r.KeyBinding.ActionButton27,
          ActionButton28 := r.KeyBinding.ActionButton28,
          ActionButton29 := r.KeyBinding.ActionButton29,
          ActionButton30 := r.KeyBinding.ActionButton30,
          ActionButton31 := r.KeyBinding.ActionButton31,
          ActionButton32 := r.KeyBinding.ActionButton32,
          ActionButton33 := r.KeyBinding.ActionButton33,
          ActionButton34 := r.KeyBinding.ActionButton34,
          ActionButton35 := r.KeyBinding.ActionButton35,
          ActionButton36 := r.KeyBinding.ActionButton36,
          ActionButton37 := r.KeyBinding.ActionButton37,
          ActionButton38 := r.KeyBinding.ActionButton38,
          ActionButton39 := r.KeyBinding.ActionButton39,
          ActionButton40 := r.KeyBinding.ActionButton40,
          ActionButton41 := r.KeyBinding.ActionButton41,
          ActionButton42 := r.KeyBinding.ActionButton42,
          ActionButton43 := r.KeyBinding.ActionButton43,
          ActionButton44 := r.KeyBinding.ActionButton44,
          ActionButton45 := r.KeyBinding.ActionButton45,
          ActionButton46 := r.KeyBinding.ActionButton46,
          ActionButton47 := r.KeyBinding.ActionButton47,
          ActionButton48 := r.KeyBinding.ActionButton48 } },
        ⟨lastOr (elementsOf (WriteXml_keys_actions api r).2) cur, rest,
          calls ++ callsOf (WriteXml_keys_actions api r).2⟩⟩) := by
  simp only [WriteXml_keys_actions, WriteStartElement_bind_snd, WriteAttributeString_bind_snd,
    WriteEndElement_bind_snd, WriteEndElement_snd, WriteAttributeString_snd, elementsOf,
    leadingAttributes, callsOf, lastOr, Option.getD_some, List.cons_append, List.nil_append,
    ToLower_Int32_ToString]
  simp only [ReadXml_keys_actions, ReadToFollowing_head_bind, assign_bind, assignInt32_last,
    readInt32_bind, readInt32_last, readBoolean_bind, readBoolean_last, readBooleanLower_bind,
    readBooleanLower_last, readString_bind, readString_last, readKey_bind api hapi,
    readKey_last api hapi, List.append_assoc, List.cons_append, List.nil_append]

theorem WriteXml_keys_actions_fst {Keys : Type} (api : Collaborators Keys) (r : OgreClientConfig Keys) :
    (WriteXml_keys_actions api r).1 = Except.ok () := rfl

theorem WriteXml_keys_actions_leading {Keys : Type} (api : Collaborators Keys) (r : OgreClientConfig Keys)
    (evs : List XmlEvent) : leadingAttributes ((WriteXml_keys_actions api r).2 ++ evs) = [] := rfl

/-! ## The loops over the action button sets -/

theorem WriteXml_actionbutton_cons (b : ActionButtonConfig) (n : String) (bs : List ActionButtonConfig)
    (hn : b.Name = some n) :
    (WriteXml_actionbutton (b :: bs)).1 = (WriteXml_actionbutton bs).1 ∧
    (WriteXml_actionbutton (b :: bs)).2 =
      XmlEvent.StartElement TAG_ACTIONBUTTON ::
      XmlEvent.Attribute ATTRIB_NUM (Int32.ToString b.Num) ::
      XmlEvent.Attribute ATTRIB_TYPE (ToLower (ActionButtonType.ToString b.ButtonType)) ::
      XmlEvent.Attribute XMLATTRIB_NAME (ToLower n) ::
      XmlEvent.Attribute ATTRIB_NUMOFSAMENAME (UInt32.ToString b.NumOfSameName) ::
      XmlEvent.EndElement :: (WriteXml_actionbutton bs).2 := by
  constructor
  · simp only [WriteXml_actionbutton, hn, WriteStartElement_bind_fst, WriteAttributeString_bind_fst,
      WriteEndElement_bind_fst, deref_some_bind_fst]
  · simp only [WriteXml_actionbutton, hn, WriteStartElement_bind_snd, WriteAttributeString_bind_snd,
      WriteEndElement_bind_snd, deref_some_bind_snd, Option.getD_some]

theorem WriteXml_actionbutton_fst (bs : List ActionButtonConfig) (hn : ∀ b ∈ bs, b.Name ≠ none) :
    (WriteXml_actionbutton bs).1 = Except.ok () := by
  induction bs with
  | nil => rfl
  | cons b bs ih =>
    obtain ⟨n, hb⟩ := Option.ne_none_iff_exists'.mp (hn b (List.mem_cons_self b bs))
    rw [(WriteXml_actionbutton_cons b n bs hb).1]
    exact ih (fun c hc => hn c (List.mem_cons_of_mem b hc))

theorem WriteXml_actionbutton_elements (bs : List ActionButtonConfig)
    (hn : ∀ b ∈ bs, b.Name ≠ none) (evs : List XmlEvent) :
    elementsOf ((WriteXml_actionbutton bs).2 ++ evs) = bs.map buttonElement ++ elementsOf evs := by
  induction bs with
  | nil => rfl
  | cons b bs ih =>
    obtain ⟨n, hb⟩ := Option.ne_none_iff_exists'.mp (hn b (List.mem_cons_self b bs))
    have e : ∀ X : List XmlEvent,
        elementsOf (XmlEvent.StartElement TAG_ACTIONBUTTON ::
          XmlEvent.Attribute ATTRIB_NUM (Int32.ToString b.Num) ::
          XmlEvent.Attribute ATTRIB_TYPE (ToLower (ActionButtonType.ToString b.ButtonType)) ::
          XmlEvent.Attribute XMLATTRIB_NAME (ToLower n) ::
          XmlEvent.Attribute ATTRIB_NUMOFSAMENAME (UInt32.ToString b.NumOfSameName) ::
          XmlEvent.EndElement :: X) = buttonElement b :: elementsOf X := by
      intro X
      simp [elementsOf, leadingAttributes, buttonElement, hb]
    rw [(WriteXml_actionbutton_cons b n bs hb).2]
    simp only [List.cons_append, List.map_cons]
    rw [e, ih (fun c hc => hn c (List.mem_cons_of_mem b hc))]

/-- When the constructor arguments are evaluated from left to right, the calls made
on the reader for the buttons mirror those made on the writer. -/
theorem WriteXml_actionbutton_calls (hord : LeftToRight) (bs : List ActionButtonConfig)
    (hn : ∀ b ∈ bs, b.Name ≠ none) : callsOf (WriteXml_actionbutton bs).2 = buttonsCalls bs := by
  induction bs with
  | nil => rfl
  | cons b bs ih =>
    obtain ⟨n, hb⟩ := Option.ne_none_iff_exists'.mp (hn b (List.mem_cons_self b bs))
    rw [(WriteXml_actionbutton_cons b n bs hb).2]
    unfold LeftToRight at hord
    simp only [callsOf, buttonsCalls, buttonCalls, hord, List.map_cons, List.map_nil,
      ButtonArgument.Attribute, List.cons_append, List.nil_append]
    rw [ih (fun c hc => hn c (List.mem_cons_of_mem b hc))]

theorem WriteXml_actionbutton_leading (bs : List ActionButtonConfig) (evs : List XmlEvent)
    (h : leadingAttributes evs = []) : leadingAttributes ((WriteXml_actionbutton bs).2 ++ evs) = [] := by
  cases bs with
  | nil => exact h
  | cons b bs =>
    show leadingAttributes ((Emit.bind (WriteStartElement TAG_ACTIONBUTTON) _).2 ++ evs) = []
    rw [show ∀ f : Unit → Emit XmlEvent Unit, (Emit.bind (WriteStartElement TAG_ACTIONBUTTON) f).2 =
      XmlEvent.StartElement TAG_ACTIONBUTTON :: (f ()).2 from fun f => rfl]
    rfl

theorem ReaderItem_bind {Keys β : Type} (name : String) (f : Option String → Op (ReadState Keys) β)
    (this : OgreClientConfig Keys) (e : XmlElement) (es : List XmlElement) (calls : List ReaderCall) :
    (ReaderItem name >>= f).run ⟨this, ⟨some e, es, calls⟩⟩ =
      (f (e.Attributes.lookup name)).run ⟨this, ⟨some e, es, calls ++ [ReaderCall.GetAttribute name]⟩⟩ := by
  apply Op.run_bind_ok
  rfl

theorem ofExcept_ok_bind {σ α β : Type} (v : α) (f : α → Op σ β) (s : σ) :
    (Op.ofExcept (Except.ok v) >>= f).run s = (f v).run s := by
  apply Op.run_bind_ok
  rfl

theorem buttonElement_num (b : ActionButtonConfig) :
    (buttonElement b).Attributes.lookup ATTRIB_NUM = some (Int32.ToString b.Num) := rfl

theorem buttonElement_type (b : ActionButtonConfig) :
    (buttonElement b).Attributes.lookup ATTRIB_TYPE =
      some (ToLower (ActionButtonType.ToString b.ButtonType)) := rfl

theorem buttonElement_name (b : ActionButtonConfig) :
    (buttonElement b).Attributes.lookup XMLATTRIB_NAME = some (ToLower (b.Name.getD "")) := rfl

theorem buttonElement_numofsamename (b : ActionButtonConfig) :
    (buttonElement b).Attributes.lookup ATTRIB_NUMOFSAMENAME =
      some (UInt32.ToString b.NumOfSameName) := rfl

theorem copyArgument_comm (source : ActionButtonConfig) (x y : ButtonArgument)
    (args : ActionButtonConfig) :
    copyArgument source (copyArgument source args x) y =
      copyArgument source (copyArgument source args y) x := by
  cases x <;> cases y <;> rfl

/-- Whatever the order of evaluation, once every argument has been evaluated the
arguments are those of the source. -/
theorem foldl_copyArgument_order (source args : ActionButtonConfig) :
    List.foldl (copyArgument source) args ArgumentOrder.order = source := by
  rw [List.Perm.foldl_eq' ArgumentOrder.complete
    (fun x _ y _ z => copyArgument_comm source x y z) args]
  rfl

/-- The evaluation of a constructor argument on the element of a button with a name:
it reads its attribute and gives the value stored for the button. -/
theorem evalArgument_buttonElement {Keys : Type} (a : ButtonArgument)
    (args b : ActionButtonConfig) (hb : b.Name ≠ none) (this : OgreClientConfig Keys)
    (es : List XmlElement) (calls : List ReaderCall) :
    (evalArgument a args).run ⟨this, ⟨some (buttonElement b), es, calls⟩⟩ =
      (Except.ok (copyArgument (ActionButtonConfig.Stored b) args a),
        ⟨this, ⟨some (buttonElement b), es,
          calls ++ [ReaderCall.GetAttribute a.Attribute]⟩⟩) := by
  obtain ⟨n, hn⟩ := Option.ne_none_iff_exists'.mp hb
  cases a with
  | Num =>
    simp only [evalArgument, ReaderItem_bind, buttonElement_num, ToInt32_ToString,
      ofExcept_ok_bind]
    rfl
  | ButtonType =>
    simp only [evalArgument, ReaderItem_bind, buttonElement_type]
    rfl
  | Name =>
    simp only [evalArgument, ReaderItem_bind, buttonElement_name, hn, Option.getD_some]
    simp only [copyArgument, ActionButtonConfig.Stored, hn, Option.map_some']
    rfl
  | NumOfSameName =>
    simp only [evalArgument, ReaderItem_bind, buttonElement_numofsamename, ToUInt32_ToString,
      ofExcept_ok_bind]
    rfl

theorem evalArguments_buttonElement {Keys : Type} (order : List ButtonArgument)
    (args b : ActionButtonConfig) (hb : b.Name ≠ none) (this : OgreClientConfig Keys)
    (es : List XmlElement) (calls : List ReaderCall) :
    (evalArguments order args).run ⟨this, ⟨some (buttonElement b), es, calls⟩⟩ =
      (Except.ok (List.foldl (copyArgument (ActionButtonConfig.Stored b)) args order),
        ⟨this, ⟨some (buttonElement b), es,
          calls ++ order.map (fun a => ReaderCall.GetAttribute a.Attribute)⟩⟩) := by
  induction order generalizing args calls with
  | nil =>
    simp only [evalArguments, List.foldl_nil, List.map_nil, List.append_nil]
    rfl
  | cons a rest ih =>
    simp only [evalArguments]
    rw [Op.run_bind_ok _ _ _ _ _ (evalArgument_buttonElement a args b hb this es calls), ih]
    simp only [List.foldl_cons, List.map_cons, List.append_assoc, List.singleton_append]

/-- One iteration of the inner loop on the element of a button with a name. -/
theorem ReadXml_actionbutton_succ_run {Keys : Type} (n : Nat) (b : ActionButtonConfig)
    (hb : b.Name ≠ none) (acc : ActionButtonList) (this : OgreClientConfig Keys)
    (cur : Option XmlElement) (rest : List XmlElement) (calls : List ReaderCall) :
    (ReadXml_actionbutton (n + 1) acc).run ⟨this, ⟨cur, buttonElement b :: rest, calls⟩⟩ =
      (ReadXml_actionbutton n (acc.Add (ActionButtonConfig.Stored b))).run
        ⟨this, ⟨some (buttonElement b), rest, calls ++ buttonCalls⟩⟩ := by
  simp only [ReadXml_actionbutton]
  rw [show buttonElement b = XmlElement.mk TAG_ACTIONBUTTON (buttonElement b).Attributes from rfl]
  rw [ReadToFollowing_head_bind]
  rw [← show buttonElement b = XmlElement.mk TAG_ACTIONBUTTON (buttonElement b).Attributes from rfl]
  rw [Op.run_bind_ok _ _ _ _ _ (evalArguments_buttonElement _ _ b hb this rest _),
    foldl_copyArgument_order]
  simp only [buttonCalls, List.append_assoc, List.singleton_append]

theorem ReadXml_actionbutton_run {Keys : Type} (bs : List ActionButtonConfig)
    (hn : ∀ b ∈ bs, b.Name ≠ none) (acc : ActionButtonList) (this : OgreClientConfig Keys)
    (cur : Option XmlElement) (rest : List XmlElement) (calls : List ReaderCall) :
    (ReadXml_actionbutton bs.length acc).run ⟨this, ⟨cur, bs.map buttonElement ++ rest, calls⟩⟩ =
      (Except.ok { acc with Items := acc.Items ++ bs.map ActionButtonConfig.Stored },
        ⟨this, ⟨lastOr (bs.map buttonElement) cur, rest, calls ++ buttonsCalls bs⟩⟩) := by
  induction bs generalizing acc cur calls with
  | nil =>
    simp only [List.length_nil, List.map_nil, List.nil_append, List.append_nil, lastOr,
      buttonsCalls, ReadXml_actionbutton]
    rfl
  | cons b bs ih =>
    simp only [List.length_cons, List.map_cons, List.cons_append]
    rw [ReadXml_actionbutton_succ_run _ b (hn b (List.mem_cons_self b bs)),
      ih (fun c hc => hn c (List.mem_cons_of_mem b hc))]
    simp [ActionButtonList.Add, lastOr, buttonsCalls]

theorem WriteXml_actionbuttons_cons (l : ActionButtonList) (ls : List ActionButtonList)
    (hn : ∀ b ∈ l.Items, b.Name ≠ none) :
    (WriteXml_actionbuttons (l :: ls)).1 = (WriteXml_actionbuttons ls).1 ∧
    (WriteXml_actionbuttons (l :: ls)).2 =
      XmlEvent.StartElement TAG_ACTIONBUTTONS ::
      XmlEvent.Attribute ATTRIB_PLAYER (l.PlayerName.getD "") ::
      XmlEvent.Attribute ATTRIB_COUNT (intToString l.Count) ::
      ((WriteXml_actionbutton l.Items).2 ++
        XmlEvent.EndElement :: (WriteXml_actionbuttons ls).2) := by
  have hok := WriteXml_actionbutton_fst l.Items hn
  constructor
  · simp only [WriteXml_actionbuttons, WriteStartElement_bind_fst, WriteAttributeString_bind_fst,
      Emit.bind_fst_of_ok _ _ () hok, WriteEndElement_bind_fst]
  · simp only [WriteXml_actionbuttons, WriteStartElement_bind_snd, WriteAttributeString_bind_snd,
      Emit.bind_snd_of_ok _ _ () hok, WriteEndElement_bind_snd, Option.getD_some]

theorem WriteXml_actionbuttons_fst (ls : List ActionButtonList)
    (hn : ∀ l ∈ ls, ∀ b ∈ l.Items, b.Name ≠ none) :
    (WriteXml_actionbuttons ls).1 = Except.ok () := by
  induction ls with
  | nil => rfl
  | cons l ls ih =>
    rw [(WriteXml_actionbuttons_cons l ls (hn l (List.mem_cons_self l ls))).1]
    exact ih (fun c hc => hn c (List.mem_cons_of_mem l hc))

theorem WriteXml_actionbuttons_elements (ls : List ActionButtonList)
    (hn : ∀ l ∈ ls, ∀ b ∈ l.Items, b.Name ≠ none) (evs : List XmlEvent) :
    elementsOf ((WriteXml_actionbuttons ls).2 ++ evs) = setElements ls ++ elementsOf evs := by
  induction ls with
  | nil => rfl
  | cons l ls ih =>
    have hl := hn l (List.mem_cons_self l ls)
    rw [(WriteXml_actionbuttons_cons l ls hl).2]
    simp only [List.cons_append, List.append_assoc]
    have e : ∀ X : List XmlEvent,
        elementsOf (XmlEvent.StartElement TAG_ACTIONBUTTONS ::
          XmlEvent.Attribute ATTRIB_PLAYER (l.PlayerName.getD "") ::
          XmlEvent.Attribute ATTRIB_COUNT (intToString l.Count) ::
          ((WriteXml_actionbutton l.Items).2 ++ XmlEvent.EndElement :: X)) =
        setElement l :: elementsOf ((WriteXml_actionbutton l.Items).2 ++ XmlEvent.EndElement :: X) := by
      intro X
      simp only [elementsOf, leadingAttributes,
        WriteXml_actionbutton_leading l.Items (XmlEvent.EndElement :: X) rfl, setElement]
    rw [e, WriteXml_actionbutton_elements l.Items hl]
    simp only [elementsOf, setElements, List.cons_append, List.append_assoc]
    rw [ih (fun c hc => hn c (List.mem_cons_of_mem l hc))]

theorem WriteXml_actionbuttons_calls (hord : LeftToRight) (ls : List ActionButtonList)
    (hn : ∀ l ∈ ls, ∀ b ∈ l.Items, b.Name ≠ none) :
    callsOf (WriteXml_actionbuttons ls).2 = setCalls ls := by
  induction ls with
  | nil => rfl
  | cons l ls ih =>
    have hl := hn l (List.mem_cons_self l ls)
    rw [(WriteXml_actionbuttons_cons l ls hl).2]
    simp only [callsOf, callsOf_append, setCalls, List.cons_append, List.nil_append,
      WriteXml_actionbutton_calls hord l.Items hl]
    rw [ih (fun c hc => hn c (List.mem_cons_of_mem l hc))]

theorem setElement_player (l : ActionButtonList) :
    (setElement l).Attributes.lookup ATTRIB_PLAYER = some (l.PlayerName.getD "") := rfl

theorem setElement_count (l : ActionButtonList) :
    (setElement l).Attributes.lookup ATTRIB_COUNT = some (intToString l.Count) := rfl

theorem ReadXml_actionbuttons_run {Keys : Type} (ls : List ActionButtonList)
    (hn : ∀ l ∈ ls, ∀ b ∈ l.Items, b.Name ≠ none)
    (hc : ∀ l ∈ ls, l.Items.length < 2147483648) (this : OgreClientConfig Keys)
    (cur : Option XmlElement) (rest : List XmlElement) (calls : List ReaderCall) :
    (ReadXml_actionbuttons ls.length).run ⟨this, ⟨cur, setElements ls ++ rest, calls⟩⟩ =
      (Except.ok (), ⟨{ this with
          ActionButtonSets := this.ActionButtonSets ++ ls.map ActionButtonList.Stored },
        ⟨lastOr (setElements ls) cur, rest, calls ++ setCalls ls⟩⟩) := by
  induction ls generalizing this cur calls with
  | nil =>
    simp only [List.length_nil, List.map_nil, List.nil_append, List.append_nil, lastOr,
      setCalls, setElements, ReadXml_actionbuttons]
    rfl
  | cons l ls ih =>
    have hl := hn l (List.mem_cons_self l ls)
    obtain ⟨c, hc1, hc2⟩ := ToInt32_count l.Items.length (hc l (List.mem_cons_self l ls))
    simp only [List.length_cons, setElements, List.cons_append, List.append_assoc,
      ReadXml_actionbuttons]
    rw [show setElement l = XmlElement.mk TAG_ACTIONBUTTONS (setElement l).Attributes from rfl]
    rw [ReadToFollowing_head_bind]
    rw [← show setElement l = XmlElement.mk TAG_ACTIONBUTTONS (setElement l).Attributes from rfl]
    simp only [ReaderItem_bind, setElement_player, setElement_count, ActionButtonList.Count, hc1,
      ofExcept_ok_bind, hc2]
    rw [Op.run_bind_ok _ _ _ _ _ (ReadXml_actionbutton_run l.Items hl _ this _ _ _)]
    rw [assign_bind]
    rw [ih (fun c hc => hn c (List.mem_cons_of_mem l hc))
      (fun c hc' => hc c (List.mem_cons_of_mem l hc'))]
    simp [ActionButtonList.Stored, lastOr, lastOr_append, setCalls]

/-! ## The whole document -/

theorem WriteXml_actionbuttonsets_fst {Keys : Type} (r : OgreClientConfig Keys)
    (hn : NamesPresent r) : (WriteXml_actionbuttonsets r).1 = Except.ok () := by
  have hok := WriteXml_actionbuttons_fst r.ActionButtonSets hn
  simp only [WriteXml_actionbuttonsets, WriteStartElement_bind_fst, WriteAttributeString_bind_fst,
    Emit.bind_fst_of_ok _ _ () hok, WriteEndElement_bind_fst, WriteEndElement_fst]

theorem WriteXml_actionbuttonsets_snd {Keys : Type} (r : OgreClientConfig Keys)
    (hn : NamesPresent r) :
    (WriteXml_actionbuttonsets r).2 =
      XmlEvent.StartElement TAG_ACTIONBUTTONSETS ::
      XmlEvent.Attribute ATTRIB_COUNT (intToString (r.ActionButtonSets.length : Int)) ::
      ((WriteXml_actionbuttons r.ActionButtonSets).2 ++ [XmlEvent.EndElement]) := by
  have hok := WriteXml_actionbuttons_fst r.ActionButtonSets hn
  simp only [WriteXml_actionbuttonsets, WriteStartElement_bind_snd, WriteAttributeString_bind_snd,
    Emit.bind_snd_of_ok _ _ () hok, WriteEndElement_bind_snd, WriteEndElement_snd,
    Option.getD_some]

theorem WriteXml_actionbuttons_leading (ls : List ActionButtonList) (evs : List XmlEvent)
    (h : leadingAttributes evs = []) :
    leadingAttributes ((WriteXml_actionbuttons ls).2 ++ evs) = [] := by
  cases ls with
  | nil => exact h
  | cons l ls =>
    show leadingAttributes ((Emit.bind (WriteStartElement TAG_ACTIONBUTTONS) _).2 ++ evs) = []
    rw [show ∀ f : Unit → Emit XmlEvent Unit,
      (Emit.bind (WriteStartElement TAG_ACTIONBUTTONS) f).2 =
        XmlEvent.StartElement TAG_ACTIONBUTTONS :: (f ()).2 from fun f => rfl]
    rfl

theorem ReadXml_actionbuttonsets_WriteXml {Keys : Type} (r this : OgreClientConfig Keys)
    (hn : NamesPresent r) (hc : CountsFit r) (cur : Option XmlElement)
    (rest : List XmlElement) (calls : List ReaderCall) :
    (ReadXml_actionbuttonsets).run
        ⟨this, ⟨cur, elementsOf (WriteXml_actionbuttonsets r).2 ++ rest, calls⟩⟩ =
      (Except.ok (), ⟨{ this with ActionButtonSets :=
            this.ActionButtonSets ++ r.ActionButtonSets.map ActionButtonList.Stored },
        ⟨lastOr (elementsOf (WriteXml_actionbuttonsets r).2) cur, rest,
          calls ++ (ReaderCall.ReadToFollowing TAG_ACTIONBUTTONSETS ::
            ReaderCall.GetAttribute ATTRIB_COUNT :: setCalls r.ActionButtonSets)⟩⟩) := by
  obtain ⟨c, hc1, hc2⟩ := ToInt32_count r.ActionButtonSets.length hc.1
  have he : elementsOf (WriteXml_actionbuttonsets r).2 =
      XmlElement.mk TAG_ACTIONBUTTONSETS
          [(ATTRIB_COUNT, intToString (r.ActionButtonSets.length : Int))] ::
        setElements r.ActionButtonSets := by
    rw [WriteXml_actionbuttonsets_snd r hn]
    simp only [elementsOf, leadingAttributes,
      WriteXml_actionbuttons_leading r.ActionButtonSets [XmlEvent.EndElement] rfl,
      WriteXml_actionbuttons_elements r.ActionButtonSets hn, List.append_nil]
  rw [he]
  simp only [ReadXml_actionbuttonsets, List.cons_append, ReadToFollowing_head_bind,
    ReaderItem_bind, List.lookup, beq_self_eq_true, hc1, ofExcept_ok_bind, hc2]
  rw [ReadXml_actionbuttons_run r.ActionButtonSets hn hc.2]
  simp [lastOr]

/-- When the constructor arguments are evaluated from left to right, the calls made
on the reader for the sets mirror those made on the writer. -/
theorem WriteXml_actionbuttonsets_calls {Keys : Type} (hord : LeftToRight)
    (r : OgreClientConfig Keys) (hn : NamesPresent r) :
    callsOf (WriteXml_actionbuttonsets r).2 =
      ReaderCall.ReadToFollowing TAG_ACTIONBUTTONSETS :: ReaderCall.GetAttribute ATTRIB_COUNT ::
        setCalls r.ActionButtonSets := by
  rw [WriteXml_actionbuttonsets_snd r hn]
  simp only [callsOf, callsOf_append, WriteXml_actionbuttons_calls hord r.ActionButtonSets hn,
    List.append_nil]

theorem WriteXml_snd {Keys : Type} (api : Collaborators Keys) (r : OgreClientConfig Keys)
    (hn : NamesPresent r) :
    (WriteXml api r).2 =
      (WriteXml_engine r).2 ++ ((WriteXml_input r).2 ++ ((WriteXml_keybinding r).2 ++
      ((WriteXml_keys_movement api r).2 ++ ((WriteXml_keys_modifiers api r).2 ++
      ((WriteXml_keys_targetting api r).2 ++ ((WriteXml_keys_others api r).2 ++
      ((WriteXml_keys_actions api r).2 ++
        (XmlEvent.EndElement ::
          ((WriteXml_actionbuttonsets r).2 ++ [XmlEvent.EndElement]))))))))) := by
  simp only [WriteXml, Emit.bind_snd_of_ok _ _ () (WriteXml_engine_fst r),
    Emit.bind_snd_of_ok _ _ () (WriteXml_input_fst r),
    Emit.bind_snd_of_ok _ _ () (WriteXml_keybinding_fst r),
    Emit.bind_snd_of_ok _ _ () (WriteXml_keys_movement_fst api r),
    Emit.bind_snd_of_ok _ _ () (WriteXml_keys_modifiers_fst api r),
    Emit.bind_snd_of_ok _ _ () (WriteXml_keys_targetting_fst api r),
    Emit.bind_snd_of_ok _ _ () (WriteXml_keys_others_fst api r),
    Emit.bind_snd_of_ok _ _ () (WriteXml_keys_actions_fst api r), WriteEndElement_bind_snd,
    Emit.bind_snd_of_ok _ _ () (WriteXml_actionbuttonsets_fst r hn), WriteEndElement_snd]

/-- WriteXml returns normally when every button has a name. -/
theorem WriteXml_ok {Keys : Type} (api : Collaborators Keys) (r : OgreClientConfig Keys)
    (hn : NamesPresent r) : (WriteXml api r).1 = Except.ok () := by
  simp only [WriteXml, Emit.bind_fst_of_ok _ _ () (WriteXml_engine_fst r),
    Emit.bind_fst_of_ok _ _ () (WriteXml_input_fst r),
    Emit.bind_fst_of_ok _ _ () (WriteXml_keybinding_fst r),
    Emit.bind_fst_of_ok _ _ () (WriteXml_keys_movement_fst api r),
    Emit.bind_fst_of_ok _ _ () (WriteXml_keys_modifiers_fst api r),
    Emit.bind_fst_of_ok _ _ () (WriteXml_keys_targetting_fst api r),
    Emit.bind_fst_of_ok _ _ () (WriteXml_keys_others_fst api r),
    Emit.bind_fst_of_ok _ _ () (WriteXml_keys_actions_fst api r), WriteEndElement_bind_fst,
    Emit.bind_fst_of_ok _ _ () (WriteXml_actionbuttonsets_fst r hn), WriteEndElement_fst]

theorem WriteXml_actionbuttonsets_leading {Keys : Type} (r : OgreClientConfig Keys)
    (evs : List XmlEvent) : leadingAttributes ((WriteXml_actionbuttonsets r).2 ++ evs) = [] := by
  show leadingAttributes ((Emit.bind (WriteStartElement TAG_ACTIONBUTTONSETS) _).2 ++ evs) = []
  rw [show ∀ f : Unit → Emit XmlEvent Unit,
    (Emit.bind (WriteStartElement TAG_ACTIONBUTTONSETS) f).2 =
      XmlEvent.StartElement TAG_ACTIONBUTTONSETS :: (f ()).2 from fun f => rfl]
  rfl

theorem WriteXml_elements {Keys : Type} (api : Collaborators Keys) (r : OgreClientConfig Keys)
    (hn : NamesPresent r) :
    elementsOf (WriteXml api r).2 =
      elementsOf (WriteXml_engine r).2 ++ (elementsOf (WriteXml_input r).2 ++
      (elementsOf (WriteXml_keybinding r).2 ++ (elementsOf (WriteXml_keys_movement api r).2 ++
      (elementsOf (WriteXml_keys_modifiers api r).2 ++
      (elementsOf (WriteXml_keys_targetting api r).2 ++
      (elementsOf (WriteXml_keys_others api r).2 ++ (elementsOf (WriteXml_keys_actions api r).2 ++
        elementsOf (WriteXml_actionbuttonsets r).2))))))) := by
  rw [WriteXml_snd api r hn]
  rw [elementsOf_append _ _ (WriteXml_input_leading r _),
    elementsOf_append _ _ (WriteXml_keybinding_leading r _),
    elementsOf_append _ _ (WriteXml_keys_movement_leading api r _),
    elementsOf_append _ _ (WriteXml_keys_modifiers_leading api r _),
    elementsOf_append _ _ (WriteXml_keys_targetting_leading api r _),
    elementsOf_append _ _ (WriteXml_keys_others_leading api r _),
    elementsOf_append _ _ (WriteXml_keys_actions_leading api r _),
    elementsOf_append _ _ (show leadingAttributes
      (XmlEvent.EndElement :: ((WriteXml_actionbuttonsets r).2 ++ [XmlEvent.EndElement])) = []
      from rfl)]
  have e : elementsOf (XmlEvent.EndElement ::
      ((WriteXml_actionbuttonsets r).2 ++ [XmlEvent.EndElement])) =
      elementsOf (WriteXml_actionbuttonsets r).2 := by
    show elementsOf ((WriteXml_actionbuttonsets r).2 ++ [XmlEvent.EndElement]) = _
    rw [elementsOf_append _ _ (show leadingAttributes [XmlEvent.EndElement] = [] from rfl)]
    exact List.append_nil _
  rw [e]

theorem WriteXml_calls {Keys : Type} (api : Collaborators Keys) (r : OgreClientConfig Keys)
    (hn : NamesPresent r) :
    callsOf (WriteXml api r).2 =
      callsOf (WriteXml_engine r).2 ++ (callsOf (WriteXml_input r).2 ++
      (callsOf (WriteXml_keybinding r).2 ++ (callsOf (WriteXml_keys_movement api r).2 ++
      (callsOf (WriteXml_keys_modifiers api r).2 ++
      (callsOf (WriteXml_keys_targetting api r).2 ++
      (callsOf (WriteXml_keys_others api r).2 ++ (callsOf (WriteXml_keys_actions api r).2 ++
        callsOf (WriteXml_actionbuttonsets r).2))))))) := by
  have e : callsOf (XmlEvent.EndElement ::
      ((WriteXml_actionbuttonsets r).2 ++ [XmlEvent.EndElement])) =
      callsOf (WriteXml_actionbuttonsets r).2 := by
    show callsOf ((WriteXml_actionbuttonsets r).2 ++ [XmlEvent.EndElement]) = _
    rw [callsOf_append]
    exact List.append_nil _
  rw [WriteXml_snd api r hn]
  simp only [callsOf_append]
  rw [e]

/-- When the constructor arguments are evaluated from left to right, the calls
ReadXml makes for the document of a record mirror those WriteXml made. -/
theorem WriteXml_calls_readerCalls {Keys : Type} (hord : LeftToRight)
    (api : Collaborators Keys) (r : OgreClientConfig Keys) (hn : NamesPresent r) :
    callsOf (WriteXml api r).2 = readerCalls api r := by
  rw [WriteXml_calls api r hn, WriteXml_actionbuttonsets_calls hord r hn]
  rfl

set_option maxHeartbeats 1000000 in
/-- Reading back what WriteXml wrote: every member holds the stored form of the value
written, the sets read are appended to the sets the object held, the reader has
moved through the whole document, and its calls are those of `readerCalls`. -/
theorem ReadXml_WriteXml {Keys : Type} (api : Collaborators Keys) (hapi : KeysRoundTrip api)
    (r this : OgreClientConfig Keys) (hn : NamesPresent r) (hc : CountsFit r)
    (cur : Option XmlElement) (rest : List XmlElement) (calls : List ReaderCall) :
    (ReadXml api).run ⟨this, ⟨cur, elementsOf (WriteXml api r).2 ++ rest, calls⟩⟩ =
      (Except.ok (), ⟨{ r.Stored with ActionButtonSets :=
            this.ActionButtonSets ++ r.Stored.ActionButtonSets },
        ⟨lastOr (elementsOf (WriteXml api r).2) cur, rest,
          calls ++ readerCalls api r⟩⟩) := by
  rw [WriteXml_elements api r hn]
  unfold readerCalls
  simp only [List.append_assoc, lastOr_append]
  unfold ReadXml
  rw [Op.run_bind_ok _ _ _ _ _ (ReadXml_engine_WriteXml r this cur _ calls)]
  rw [Op.run_bind_ok _ _ _ _ _ (ReadXml_input_WriteXml r _ _ _ _)]
  rw [Op.run_bind_ok _ _ _ _ _ (ReadXml_keybinding_WriteXml api r _ _ _ _)]
  rw [Op.run_bind_ok _ _ _ _ _ (ReadXml_keys_movement_WriteXml api hapi r _ _ _ _)]
  rw [Op.run_bind_ok _ _ _ _ _ (ReadXml_keys_modifiers_WriteXml api hapi r _ _ _ _)]
  rw [Op.run_bind_ok _ _ _ _ _ (ReadXml_keys_targetting_WriteXml api hapi r _ _ _ _)]
  rw [Op.run_bind_ok _ _ _ _ _ (ReadXml_keys_others_WriteXml api hapi r _ _ _ _)]
  rw [Op.run_bind_ok _ _ _ _ _ (ReadXml_keys_actions_WriteXml api hapi r _ _ _ _)]
  rw [ReadXml_actionbuttonsets_WriteXml r _ hn hc]
  simp only [List.append_assoc]
  rfl

/-! ## Consequences of the round trip -/

theorem some_getD_of_ne_none (s : Option String) (h : s ≠ none) : some (s.getD "") = s := by
  cases s with
  | none => exact absurd rfl h
  | some v => rfl

theorem Stored_button_of_lowercase (b : ActionButtonConfig)
    (h : ∃ n, b.Name = some n ∧ ToLower n = n)
    (ht : GetButtonType (some (ToLower (ActionButtonType.ToString b.ButtonType))) =
      b.ButtonType) : b.Stored = b := by
  obtain ⟨n, hn, hl⟩ := h
  cases b with
  | mk Num ButtonType Name NumOfSameName =>
    simp only at hn ht
    subst hn
    simp only [ActionButtonConfig.Stored, ht, Option.map_some', hl]

theorem map_eq_self_of_forall {α : Type} (f : α → α) (l : List α) (h : ∀ a ∈ l, f a = a) :
    l.map f = l := by
  induction l with
  | nil => rfl
  | cons a as ih =>
    rw [List.map_cons, h a (List.mem_cons_self a as),
      ih (fun c hc => h c (List.mem_cons_of_mem a hc))]

theorem Stored_eq_self {Keys : Type} (r : OgreClientConfig Keys) (ht : TextsPresent r)
    (hl : NamesLowercase r) (hty : TypesReadBack r) : r.Stored = r := by
  obtain ⟨h1, h2, h3, h4, h5, h6, h7⟩ := ht
  have hsets : r.ActionButtonSets.map ActionButtonList.Stored = r.ActionButtonSets := by
    apply map_eq_self_of_forall
    intro l hmem
    cases l with
    | mk PlayerName Items =>
      have hp := h7 _ hmem
      have hi := hl _ hmem
      have hy := hty _ hmem
      simp only at hp hi hy
      simp only [ActionButtonList.Stored, some_getD_of_ne_none PlayerName hp,
        map_eq_self_of_forall _ Items (fun b hb => Stored_button_of_lowercase b (hi b hb) (hy b hb))]
  cases r
  simp only [OgreClientConfig.Stored] at *
  simp only [some_getD_of_ne_none _ h1, some_getD_of_ne_none _ h2, some_getD_of_ne_none _ h3,
    some_getD_of_ne_none _ h4, some_getD_of_ne_none _ h5, some_getD_of_ne_none _ h6, hsets]

theorem NamesPresent_of_lowercase {Keys : Type} (r : OgreClientConfig Keys)
    (hl : NamesLowercase r) : NamesPresent r := by
  intro l hmem b hb
  obtain ⟨n, hn, _⟩ := hl l hmem b hb
  rw [hn]
  exact Option.some_ne_none n

/-- On the elements of a written record followed by other elements, ReadXml assigns
every scalar field and the key bindings and goes on with the action button sets on
the other elements. -/
theorem ReadXml_fixedElements_append {Keys : Type} (api : Collaborators Keys)
    (hapi : KeysRoundTrip api) (r this : OgreClientConfig Keys) (cur : Option XmlElement)
    (rest : List XmlElement) (calls : List ReaderCall) :
    ∃ (cur2 : Option XmlElement) (calls2 : List ReaderCall),
      (ReadXml api).run ⟨this, ⟨cur, fixedElements api r ++ rest, calls⟩⟩ =
        ReadXml_actionbuttonsets.run
          ⟨{ r.Stored with ActionButtonSets := this.ActionButtonSets }, ⟨cur2, rest, calls2⟩⟩ := by
  unfold ReadXml
  simp only [fixedElements, List.append_assoc]
  rw [Op.run_bind_ok _ _ _ _ _ (ReadXml_engine_WriteXml r this cur _ calls)]
  rw [Op.run_bind_ok _ _ _ _ _ (ReadXml_input_WriteXml r _ _ _ _)]
  rw [Op.run_bind_ok _ _ _ _ _ (ReadXml_keybinding_WriteXml api r _ _ _ _)]
  rw [Op.run_bind_ok _ _ _ _ _ (ReadXml_keys_movement_WriteXml api hapi r _ _ _ _)]
  rw [Op.run_bind_ok _ _ _ _ _ (ReadXml_keys_modifiers_WriteXml api hapi r _ _ _ _)]
  rw [Op.run_bind_ok _ _ _ _ _ (ReadXml_keys_targetting_WriteXml api hapi r _ _ _ _)]
  rw [Op.run_bind_ok _ _ _ _ _ (ReadXml_keys_others_WriteXml api hapi r _ _ _ _)]
  rw [Op.run_bind_ok _ _ _ _ _ (ReadXml_keys_actions_WriteXml api hapi r _ _ _ _)]
  exact ⟨_, _, rfl⟩

/-- The state ReadXml reaches on the document WriteXml wrote, with a fresh object. -/
theorem ReadXml_WriteXml_fresh {Keys : Type} (api : Collaborators Keys) (hapi : KeysRoundTrip api)
    (r fresh : OgreClientConfig Keys) (hn : NamesPresent r) (hc : CountsFit r)
    (hfresh : fresh.ActionButtonSets = []) (cur : Option XmlElement) (rest : List XmlElement)
    (calls : List ReaderCall) :
    (ReadXml api).run ⟨fresh, ⟨cur, elementsOf (WriteXml api r).2 ++ rest, calls⟩⟩ =
      (Except.ok (), ⟨r.Stored, ⟨lastOr (elementsOf (WriteXml api r).2) cur, rest,
          calls ++ readerCalls api r⟩⟩) := by
  rw [ReadXml_WriteXml api hapi r fresh hn hc cur rest calls, hfresh, List.nil_append]

/-! ## Documents in which a text is absent -/

theorem readString_absent_bind {Keys β : Type} (tag attrName : String)
    (set : Option String → OgreClientConfig Keys → OgreClientConfig Keys)
    (f : Unit → Op (ReadState Keys) β) (this : OgreClientConfig Keys) (cur : Option XmlElement)
    (es : List XmlElement) (calls : List ReaderCall) :
    (readField Except.ok tag attrName set >>= f).run
        ⟨this, ⟨cur, XmlElement.mk tag [] :: es, calls⟩⟩ =
      (f ()).run ⟨set none this, ⟨some (XmlElement.mk tag []), es,
        calls ++ [ReaderCall.ReadToFollowing tag, ReaderCall.GetAttribute attrName]⟩⟩ := by
  apply Op.run_bind_ok
  unfold readField
  rw [ReadToFollowing_head_bind]
  simp only [assignAttribute, Op.run, bind, Op.bind, ReaderItem, Op.ofExcept, assign,
    XmlReader.Item, List.lookup, List.append_assoc, List.cons_append, List.nil_append]

theorem ReadXml_engine_engineWithoutTexts (this : OgreClientConfig SampleKeys)
    (cur : Option XmlElement) (rest : List XmlElement) (calls : List ReaderCall) :
    ∃ (cur2 : Option XmlElement) (calls2 : List ReaderCall),
      (ReadXml_engine).run ⟨this, ⟨cur, engineWithoutTexts ++ rest, calls⟩⟩ =
        (Except.ok (), ⟨{ this with
            Display := sampleConfig.Display,
            Resolution := none,
            WindowMode := sampleConfig.WindowMode,
            WindowFrame := sampleConfig.WindowFrame,
            VSync := sampleConfig.VSync,
            FSAA := none,
            NoMipmaps := sampleConfig.NoMipmaps,
            TextureFiltering := none,
            ImageBuilder := none,
            BitmapScaling := none,
            TextureQuality := none,
            DecorationIntensity := sampleConfig.DecorationIntensity,
            DecorationQuality := sampleConfig.DecorationQuality,
            DisableNewRoomTextures := sampleConfig.DisableNewRoomTextures,
            Disable3DModels := sampleConfig.Disable3DModels,
            DisableNewSky := sampleConfig.DisableNewSky,
            DisableWeatherEffects := sampleConfig.DisableWeatherEffects,
            WeatherParticles := sampleConfig.WeatherParticles,
            MusicVolume := sampleConfig.MusicVolume,
            DisableLoopSounds := sampleConfig.DisableLoopSounds },
          ⟨cur2, rest, calls2⟩⟩) := by
  simp only [engineWithoutTexts, List.cons_append, List.nil_append, ToLower_Int32_ToString]
  simp only [ReadXml_engine, ReadToFollowing_head_bind, assign_bind, assignInt32_last,
    readInt32_bind, readInt32_last, readBoolean_bind, readBoolean_last, readBooleanLower_bind,
    readBooleanLower_last, readString_bind, readString_last, readString_absent_bind,
    List.append_assoc, List.cons_append, List.nil_append]
  exact ⟨_, _, rfl⟩

/-! ## The claims -/

/-- C1, as amended: in every culture and for every order in which the constructor
arguments of a button are evaluated, for every record whose string members and
player names are not null, whose button names are texts `ToLower()` leaves
unchanged and whose button types are the types GetButtonType reads from their
lower-cased names, WriteXml returns normally and ReadXml, run on a newly
constructed record over the elements WriteXml emitted (wherever the reader stands
before them and whatever follows them), returns normally and leaves a record equal
to the original, provided the key converter reads back what `Keys.ToString()`
prints and the counts are values of `int`. -/
theorem C1_roundtrip_of_present_lowercase {Keys : Type} (api : Collaborators Keys)
    (hapi : KeysRoundTrip api) (r fresh : OgreClientConfig Keys) (ht : TextsPresent r)
    (hl : NamesLowercase r) (hty : TypesReadBack r) (hc : CountsFit r)
    (hfresh : fresh.ActionButtonSets = [])
    (cur : Option XmlElement) (rest : List XmlElement) (calls : List ReaderCall) :
    (WriteXml api r).1 = Except.ok () ∧
    ((ReadXml api).run ⟨fresh, ⟨cur, elementsOf (WriteXml api r).2 ++ rest, calls⟩⟩).1 =
      Except.ok () ∧
    ((ReadXml api).run ⟨fresh, ⟨cur, elementsOf (WriteXml api r).2 ++ rest, calls⟩⟩).2.This =
      r := by
  have hn := NamesPresent_of_lowercase r hl
  rw [ReadXml_WriteXml_fresh api hapi r fresh hn hc hfresh cur rest calls]
  exact ⟨WriteXml_ok api r hn, rfl, Stored_eq_self r ht hl hty⟩

end

theorem sampleApi_roundtrip : KeysRoundTrip sampleApi := by
  intro k
  cases k <;> rfl

theorem ReadXml_actionbuttonsets_setsWithoutPlayer (this : OgreClientConfig SampleKeys)
    (cur : Option XmlElement) (rest : List XmlElement) (calls : List ReaderCall) :
    ∃ (cur2 : Option XmlElement) (calls2 : List ReaderCall),
      (ReadXml_actionbuttonsets).run ⟨this, ⟨cur, setsWithoutPlayer ++ rest, calls⟩⟩ =
        (Except.ok (), ⟨{ this with
            ActionButtonSets := this.ActionButtonSets ++ nullTextsConfig.ActionButtonSets },
          ⟨cur2, rest, calls2⟩⟩) := by
  have hcount : Convert.ToInt32 (some "1") = Except.ok ⟨1, by decide⟩ := by decide
  have hnum : Convert.ToUInt32 (some "0") = Except.ok ⟨0, by decide⟩ := by decide
  have l1 : List.lookup ATTRIB_COUNT [(ATTRIB_COUNT, "1")] = some "1" := by decide
  have l2 : List.lookup ATTRIB_PLAYER [(ATTRIB_COUNT, "1")] = none := by decide
  have b1 : List.lookup ATTRIB_NUM [(ATTRIB_NUM, "1"), (ATTRIB_TYPE, "spell"),
      (XMLATTRIB_NAME, "fireball"), (ATTRIB_NUMOFSAMENAME, "0")] = some "1" := by decide
  have b2 : List.lookup ATTRIB_TYPE [(ATTRIB_NUM, "1"), (ATTRIB_TYPE, "spell"),
      (XMLATTRIB_NAME, "fireball"), (ATTRIB_NUMOFSAMENAME, "0")] = some "spell" := by decide
  have b3 : List.lookup XMLATTRIB_NAME [(ATTRIB_NUM, "1"), (ATTRIB_TYPE, "spell"),
      (XMLATTRIB_NAME, "fireball"), (ATTRIB_NUMOFSAMENAME, "0")] = some "fireball" := by decide
  have b4 : List.lookup ATTRIB_NUMOFSAMENAME [(ATTRIB_NUM, "1"), (ATTRIB_TYPE, "spell"),
      (XMLATTRIB_NAME, "fireball"), (ATTRIB_NUMOFSAMENAME, "0")] = some "0" := by decide
  have htype : GetButtonType (some "spell") = ActionButtonType.Spell := by decide
  have hone : (1 : Int).toNat = 0 + 1 := rfl
  simp only [setsWithoutPlayer, List.cons_append, List.nil_append, ReadXml_actionbuttonsets,
    ReadToFollowing_head_bind, ReaderItem_bind, l1, hcount, ofExcept_ok_bind, hone,
    ReadXml_actionbuttons, l2, ReadXml_actionbutton, b1, b2, b3, b4, hnum, htype]
  exact ⟨_, _, rfl⟩

theorem ReadXml_actionbuttonsets_setsWithoutPlayer_This (T : OgreClientConfig SampleKeys)
    (C : Option XmlElement) (K : List ReaderCall) :
    ((ReadXml_actionbuttonsets).run ⟨T, ⟨C, setsWithoutPlayer, K⟩⟩).1 = Except.ok () ∧
    ((ReadXml_actionbuttonsets).run ⟨T, ⟨C, setsWithoutPlayer, K⟩⟩).2.This =
      { T with ActionButtonSets := T.ActionButtonSets ++ nullTextsConfig.ActionButtonSets } := by
  obtain ⟨_, _, h⟩ := ReadXml_actionbuttonsets_setsWithoutPlayer T C [] K
  rw [List.append_nil] at h
  rw [h]
  exact ⟨rfl, rfl⟩

/-- ReadXml returns normally on the document without texts and leaves
`nullTextsConfig`. -/
theorem ReadXml_absentTextsDocument :
    ((ReadXml sampleApi).run ⟨freshConfig, ⟨none, absentTextsDocument, []⟩⟩).1 = Except.ok () ∧
    ((ReadXml sampleApi).run ⟨freshConfig, ⟨none, absentTextsDocument, []⟩⟩).2.This =
      nullTextsConfig := by
  unfold ReadXml absentTextsDocument sampleInputElements
  simp only [List.append_assoc]
  obtain ⟨c1, k1, h1⟩ := ReadXml_engine_engineWithoutTexts freshConfig none
    (elementsOf (WriteXml_input sampleConfig).2 ++ (elementsOf (WriteXml_keybinding sampleConfig).2 ++
    (elementsOf (WriteXml_keys_movement sampleApi sampleConfig).2 ++
    (elementsOf (WriteXml_keys_modifiers sampleApi sampleConfig).2 ++
    (elementsOf (WriteXml_keys_targetting sampleApi sampleConfig).2 ++
    (elementsOf (WriteXml_keys_others sampleApi sampleConfig).2 ++
      (elementsOf (WriteXml_keys_actions sampleApi sampleConfig).2 ++ setsWithoutPlayer))))))) []
  rw [Op.run_bind_ok _ _ _ _ _ h1]
  rw [Op.run_bind_ok _ _ _ _ _ (ReadXml_input_WriteXml sampleConfig _ _ _ _)]
  rw [Op.run_bind_ok _ _ _ _ _ (ReadXml_keybinding_WriteXml sampleApi sampleConfig _ _ _ _)]
  rw [Op.run_bind_ok _ _ _ _ _
    (ReadXml_keys_movement_WriteXml sampleApi sampleApi_roundtrip sampleConfig _ _ _ _)]
  rw [Op.run_bind_ok _ _ _ _ _
    (ReadXml_keys_modifiers_WriteXml sampleApi sampleApi_roundtrip sampleConfig _ _ _ _)]
  rw [Op.run_bind_ok _ _ _ _ _
    (ReadXml_keys_targetting_WriteXml sampleApi sampleApi_roundtrip sampleConfig _ _ _ _)]
  rw [Op.run_bind_ok _ _ _ _ _
    (ReadXml_keys_others_WriteXml sampleApi sampleApi_roundtrip sampleConfig _ _ _ _)]
  rw [Op.run_bind_ok _ _ _ _ _
    (ReadXml_keys_actions_WriteXml sampleApi sampleApi_roundtrip sampleConfig _ _ _ _)]
  refine ⟨(ReadXml_actionbuttonsets_setsWithoutPlayer_This _ _ _).1, ?_⟩
  rw [(ReadXml_actionbuttonsets_setsWithoutPlayer_This _ _ _).2]
  rfl

/-- ReadXml returns normally on the document without a player and leaves
`nullPlayerConfig`. -/
theorem ReadXml_absentPlayerDocument :
    ((ReadXml sampleApi).run ⟨freshConfig, ⟨none, absentPlayerDocument, []⟩⟩).1 = Except.ok () ∧
    ((ReadXml sampleApi).run ⟨freshConfig, ⟨none, absentPlayerDocument, []⟩⟩).2.This =
      nullPlayerConfig := by
  unfold ReadXml absentPlayerDocument sampleInputElements
  simp only [List.append_assoc]
  rw [Op.run_bind_ok _ _ _ _ _ (ReadXml_engine_WriteXml sampleConfig _ _ _ _)]
  rw [Op.run_bind_ok _ _ _ _ _ (ReadXml_input_WriteXml sampleConfig _ _ _ _)]
  rw [Op.run_bind_ok _ _ _ _ _ (ReadXml_keybinding_WriteXml sampleApi sampleConfig _ _ _ _)]
  rw [Op.run_bind_ok _ _ _ _ _
    (ReadXml_keys_movement_WriteXml sampleApi sampleApi_roundtrip sampleConfig _ _ _ _)]
  rw [Op.run_bind_ok _ _ _ _ _
    (ReadXml_keys_modifiers_WriteXml sampleApi sampleApi_roundtrip sampleConfig _ _ _ _)]
  rw [Op.run_bind_ok _ _ _ _ _
    (ReadXml_keys_targetting_WriteXml sampleApi sampleApi_roundtrip sampleConfig _ _ _ _)]
  rw [Op.run_bind_ok _ _ _ _ _
    (ReadXml_keys_others_WriteXml sampleApi sampleApi_roundtrip sampleConfig _ _ _ _)]
  rw [Op.run_bind_ok _ _ _ _ _
    (ReadXml_keys_actions_WriteXml sampleApi sampleApi_roundtrip sampleConfig _ _ _ _)]
  refine ⟨(ReadXml_actionbuttonsets_setsWithoutPlayer_This _ _ _).1, ?_⟩
  rw [(ReadXml_actionbuttonsets_setsWithoutPlayer_This _ _ _).2]
  rfl

/-- Witness of C1: the sample record is restored by the round trip. -/
theorem C1_roundtrip_witness :
    KeysRoundTrip sampleApi ∧ TextsPresent sampleConfig ∧ NamesLowercase sampleConfig ∧
    TypesReadBack sampleConfig ∧ CountsFit sampleConfig ∧ freshConfig.ActionButtonSets = [] ∧
    ((ReadXml sampleApi).run
      ⟨freshConfig, ⟨none, elementsOf (WriteXml sampleApi sampleConfig).2 ++ [], []⟩⟩).2.This =
      sampleConfig :=
  ⟨sampleApi_roundtrip, by unfold TextsPresent; decide, by unfold NamesLowercase; decide,
    by unfold TypesReadBack; decide, by unfold CountsFit; decide, rfl,
    (C1_roundtrip_of_present_lowercase sampleApi sampleApi_roundtrip sampleConfig freshConfig
      (by unfold TextsPresent; decide) (by unfold NamesLowercase; decide)
      (by unfold TypesReadBack; decide) (by unfold CountsFit; decide) rfl none [] []).2.2⟩

set_option maxRecDepth 100000 in
set_option maxHeartbeats 4000000 in
/-- C1, counterexample: `nullTextsConfig` is a record ReadXml itself leaves (on a
document whose string elements have no value and whose set names no player); its
button names are lower-case texts and WriteXml and ReadXml both return normally on
it, yet the record read back differs from it: each string member and the player
name, which are null, are read back as the empty text.  And in the Turkish culture
the sample record, whose texts are all present and whose button names ToLower()
leaves unchanged, is not read back either: the type Item of its button "mace" is
written with the dotless i and read as Unset. -/
theorem C1_null_texts_read_back_empty :
    (((ReadXml sampleApi).run ⟨freshConfig, ⟨none, absentTextsDocument, []⟩⟩).1 =
        Except.ok () ∧
      ((ReadXml sampleApi).run ⟨freshConfig, ⟨none, absentTextsDocument, []⟩⟩).2.This =
        nullTextsConfig) ∧
    NamesLowercase nullTextsConfig ∧
    (WriteXml sampleApi nullTextsConfig).1 = Except.ok () ∧
    ((ReadXml sampleApi).run
      ⟨freshConfig, ⟨none, elementsOf (WriteXml sampleApi nullTextsConfig).2, []⟩⟩).1 =
      Except.ok () ∧
    (nullTextsConfig.Resolution = none ∧
      ((ReadXml sampleApi).run ⟨freshConfig, ⟨none,
        elementsOf (WriteXml sampleApi nullTextsConfig).2, []⟩⟩).2.This.Resolution =
        some "") ∧
    (nullTextsConfig.FSAA = none ∧
      ((ReadXml sampleApi).run ⟨freshConfig, ⟨none,
        elementsOf (WriteXml sampleApi nullTextsConfig).2, []⟩⟩).2.This.FSAA = some "") ∧
    (nullTextsConfig.TextureFiltering = none ∧
      ((ReadXml sampleApi).run ⟨freshConfig, ⟨none,
        elementsOf (WriteXml sampleApi nullTextsConfig).2, []⟩⟩).2.This.TextureFiltering =
        some "") ∧
    (nullTextsConfig.ImageBuilder = none ∧
      ((ReadXml sampleApi).run ⟨freshConfig, ⟨none,
        elementsOf (WriteXml sampleApi nullTextsConfig).2, []⟩⟩).2.This.ImageBuilder =
        some "") ∧
    (nullTextsConfig.BitmapScaling = none ∧
      ((ReadXml sampleApi).run ⟨freshConfig, ⟨none,
        elementsOf (WriteXml sampleApi nullTextsConfig).2, []⟩⟩).2.This.BitmapScaling =
        some "") ∧
    (nullTextsConfig.TextureQuality = none ∧
      ((ReadXml sampleApi).run ⟨freshConfig, ⟨none,
        elementsOf (WriteXml sampleApi nullTextsConfig).2, []⟩⟩).2.This.TextureQuality =
        some "") ∧
    (nullTextsConfig.ActionButtonSets.map (fun set => set.PlayerName) = [none] ∧
      ((ReadXml sampleApi).run ⟨freshConfig, ⟨none,
        elementsOf (WriteXml sampleApi nullTextsConfig).2,
        []⟩⟩).2.This.ActionButtonSets.map (fun set => set.PlayerName) = [some ""]) ∧
    ((ReadXml sampleApi).run
      ⟨freshConfig, ⟨none, elementsOf (WriteXml sampleApi nullTextsConfig).2,
        []⟩⟩).2.This ≠ nullTextsConfig ∧
    (TextsPresent sampleConfig ∧ @NamesLowercase turkishGlobalization SampleKeys sampleConfig ∧
      CountsFit sampleConfig ∧
      (@WriteXml turkishGlobalization SampleKeys sampleApi sampleConfig).1 = Except.ok () ∧
      ((@ReadXml turkishGlobalization leftToRight SampleKeys sampleApi).run
        ⟨freshConfig, ⟨none,
          elementsOf (@WriteXml turkishGlobalization SampleKeys sampleApi sampleConfig).2,
          []⟩⟩).1 = Except.ok () ∧
      ((@ReadXml turkishGlobalization leftToRight SampleKeys sampleApi).run
        ⟨freshConfig, ⟨none,
          elementsOf (@WriteXml turkishGlobalization SampleKeys sampleApi sampleConfig).2,
          []⟩⟩).2.This.ActionButtonSets.map
          (fun set => set.Items.map (fun b => b.ButtonType)) ≠
        sampleConfig.ActionButtonSets.map
          (fun set => set.Items.map (fun b => b.ButtonType))) := by
  have hT : TextsPresent sampleConfig ∧
      @NamesLowercase turkishGlobalization SampleKeys sampleConfig ∧
      CountsFit sampleConfig ∧
      (@WriteXml turkishGlobalization SampleKeys sampleApi sampleConfig).1 = Except.ok () ∧
      ((@ReadXml turkishGlobalization leftToRight SampleKeys sampleApi).run
        ⟨freshConfig, ⟨none,
          elementsOf (@WriteXml turkishGlobalization SampleKeys sampleApi sampleConfig).2,
          []⟩⟩).1 = Except.ok () ∧
      ((@ReadXml turkishGlobalization leftToRight SampleKeys sampleApi).run
        ⟨freshConfig, ⟨none,
          elementsOf (@WriteXml turkishGlobalization SampleKeys sampleApi sampleConfig).2,
          []⟩⟩).2.This.ActionButtonSets.map
          (fun set => set.Items.map (fun b => b.ButtonType)) ≠
        sampleConfig.ActionButtonSets.map
          (fun set => set.Items.map (fun b => b.ButtonType)) := by
    have hn : NamesPresent sampleConfig := by unfold NamesPresent; decide
    have hc : CountsFit sampleConfig := by unfold CountsFit; decide
    have hread := @ReadXml_WriteXml_fresh turkishGlobalization leftToRight SampleKeys sampleApi
      sampleApi_roundtrip sampleConfig freshConfig hn hc rfl none [] []
    rw [List.append_nil] at hread
    rw [hread]
    exact ⟨by unfold TextsPresent; decide, by unfold NamesLowercase; decide, hc,
      @WriteXml_ok turkishGlobalization leftToRight SampleKeys sampleApi sampleConfig hn,
      rfl, by decide⟩
  have hl : NamesLowercase nullTextsConfig := by unfold NamesLowercase; decide
  have hn := NamesPresent_of_lowercase _ hl
  have h := ReadXml_WriteXml_fresh sampleApi sampleApi_roundtrip nullTextsConfig freshConfig
    hn (by unfold CountsFit; decide) rfl none [] []
  rw [List.append_nil] at h
  rw [h]
  refine ⟨ReadXml_absentTextsDocument, hl, WriteXml_ok _ _ hn, rfl, ⟨rfl, rfl⟩, ⟨rfl, rfl⟩,
    ⟨rfl, rfl⟩, ⟨rfl, rfl⟩, ⟨rfl, rfl⟩, ⟨rfl, rfl⟩, ⟨rfl, rfl⟩, ?_, hT⟩
  intro hEq
  have hres := congrArg OgreClientConfig.Resolution hEq
  exact absurd hres (by decide)

section

variable [Globalization] [ArgumentOrder]

/-! ## When WriteXml throws -/

theorem Emit.bind_fst_of_error {ω α β : Type} (m : Emit ω α) (f : α → Emit ω β) (e : Exception)
    (h : m.1 = Except.error e) : (m >>= f).1 = Except.error e := by
  obtain ⟨r, out⟩ := m
  simp only at h
  subst h
  rfl

theorem Emit.bind_snd_of_error {ω α β : Type} (m : Emit ω α) (f : α → Emit ω β) (e : Exception)
    (h : m.1 = Except.error e) : (m >>= f).2 = m.2 := by
  obtain ⟨r, out⟩ := m
  simp only at h
  subst h
  rfl

theorem WriteXml_actionbutton_null (b : ActionButtonConfig) (bs : List ActionButtonConfig)
    (hb : b.Name = none) :
    (WriteXml_actionbutton (b :: bs)).1 = Except.error Exception.NullReferenceException := by
  simp only [WriteXml_actionbutton, hb, WriteStartElement_bind_fst, WriteAttributeString_bind_fst]
  rfl

theorem names_of_WriteXml_actionbutton (bs : List ActionButtonConfig)
    (h : (WriteXml_actionbutton bs).1 = Except.ok ()) : ∀ b ∈ bs, b.Name ≠ none := by
  induction bs with
  | nil => intro b hb; cases hb
  | cons a as ih =>
    cases hname : a.Name with
    | none =>
      rw [WriteXml_actionbutton_null a as hname] at h
      cases h
    | some n =>
      rw [(WriteXml_actionbutton_cons a n as hname).1] at h
      intro b hb
      rcases List.mem_cons.mp hb with rfl | hb
      · rw [hname]; exact Option.some_ne_none n
      · exact ih h b hb

theorem names_of_WriteXml_actionbuttons (ls : List ActionButtonList)
    (h : (WriteXml_actionbuttons ls).1 = Except.ok ()) :
    ∀ l ∈ ls, ∀ b ∈ l.Items, b.Name ≠ none := by
  induction ls with
  | nil => intro l hl; cases hl
  | cons a as ih =>
    cases hin : (WriteXml_actionbutton a.Items).1 with
    | error e =>
      have : (WriteXml_actionbuttons (a :: as)).1 = Except.error e := by
        simp only [WriteXml_actionbuttons, WriteStartElement_bind_fst,
          WriteAttributeString_bind_fst, Emit.bind_fst_of_error _ _ e hin]
      rw [this] at h
      cases h
    | ok u =>
      have hitems := names_of_WriteXml_actionbutton a.Items hin
      rw [(WriteXml_actionbuttons_cons a as hitems).1] at h
      intro l hl
      rcases List.mem_cons.mp hl with rfl | hl
      · exact hitems
      · exact ih h l hl

theorem WriteXml_fst_eq {Keys : Type} (api : Collaborators Keys) (r : OgreClientConfig Keys) :
    (WriteXml api r).1 = (WriteXml_actionbuttons r.ActionButtonSets).1 := by
  have hchain : (WriteXml api r).1 =
      (WriteXml_actionbuttonsets r >>= fun _ => WriteEndElement).1 := by
    simp only [WriteXml, Emit.bind_fst_of_ok _ _ () (WriteXml_engine_fst r),
      Emit.bind_fst_of_ok _ _ () (WriteXml_input_fst r),
      Emit.bind_fst_of_ok _ _ () (WriteXml_keybinding_fst r),
      Emit.bind_fst_of_ok _ _ () (WriteXml_keys_movement_fst api r),
      Emit.bind_fst_of_ok _ _ () (WriteXml_keys_modifiers_fst api r),
      Emit.bind_fst_of_ok _ _ () (WriteXml_keys_targetting_fst api r),
      Emit.bind_fst_of_ok _ _ () (WriteXml_keys_others_fst api r),
      Emit.bind_fst_of_ok _ _ () (WriteXml_keys_actions_fst api r), WriteEndElement_bind_fst]
  rw [hchain]
  cases hin : (WriteXml_actionbuttons r.ActionButtonSets).1 with
  | error e =>
    have hsets : (WriteXml_actionbuttonsets r).1 = Except.error e := by
      simp only [WriteXml_actionbuttonsets, WriteStartElement_bind_fst,
        WriteAttributeString_bind_fst, Emit.bind_fst_of_error _ _ e hin]
    exact Emit.bind_fst_of_error _ _ e hsets
  | ok u =>
    have hsets : (WriteXml_actionbuttonsets r).1 = Except.ok () := by
      simp only [WriteXml_actionbuttonsets, WriteStartElement_bind_fst,
        WriteAttributeString_bind_fst, Emit.bind_fst_of_ok _ _ () hin, WriteEndElement_bind_fst,
        WriteEndElement_fst]
    rw [Emit.bind_fst_of_ok _ _ () hsets]
    rfl

/-- WriteXml returns normally exactly when every button has a name. -/
theorem WriteXml_ok_iff {Keys : Type} (api : Collaborators Keys) (r : OgreClientConfig Keys) :
    (WriteXml api r).1 = Except.ok () ↔ NamesPresent r := by
  constructor
  · intro h
    rw [WriteXml_fst_eq] at h
    exact names_of_WriteXml_actionbuttons _ h
  · exact WriteXml_ok api r

theorem getElem?_map_Stored (ls : List ActionButtonList) (i : Nat) :
    (ls.map ActionButtonList.Stored)[i]? = (ls[i]?).map ActionButtonList.Stored := by
  simp

/-! ## The claims on the action button sets -/

/-- C2, as amended: when WriteXml returns normally on a record that holds N sets of
sizes m1 .. mN and whose player names are not null, ReadXml, run on a newly
constructed record over the elements WriteXml emitted, returns normally and leaves
exactly N sets, the i-th with the i-th player name and exactly mi buttons, whatever
the case of the names (the key converter reads back what `Keys.ToString()` prints,
the counts are values of `int`). -/
theorem C2_count_fidelity {Keys : Type} (api : Collaborators Keys) (hapi : KeysRoundTrip api)
    (r fresh : OgreClientConfig Keys) (hw : (WriteXml api r).1 = Except.ok ())
    (hp : ∀ set ∈ r.ActionButtonSets, set.PlayerName ≠ none) (hc : CountsFit r)
    (hfresh : fresh.ActionButtonSets = []) (cur : Option XmlElement) (rest : List XmlElement)
    (calls : List ReaderCall) :
    ((ReadXml api).run ⟨fresh, ⟨cur, elementsOf (WriteXml api r).2 ++ rest, calls⟩⟩).1 =
      Except.ok () ∧
    ((ReadXml api).run ⟨fresh, ⟨cur, elementsOf (WriteXml api r).2 ++ rest,
      calls⟩⟩).2.This.ActionButtonSets.length = r.ActionButtonSets.length ∧
    ((ReadXml api).run ⟨fresh, ⟨cur, elementsOf (WriteXml api r).2 ++ rest,
      calls⟩⟩).2.This.ActionButtonSets.map (fun set => set.PlayerName) =
      r.ActionButtonSets.map (fun set => set.PlayerName) ∧
    ((ReadXml api).run ⟨fresh, ⟨cur, elementsOf (WriteXml api r).2 ++ rest,
      calls⟩⟩).2.This.ActionButtonSets.map (fun set => set.Items.length) =
      r.ActionButtonSets.map (fun set => set.Items.length) := by
  have hn := (WriteXml_ok_iff api r).mp hw
  rw [ReadXml_WriteXml_fresh api hapi r fresh hn hc hfresh cur rest calls]
  refine ⟨rfl, ?_, ?_, ?_⟩
  · simp [OgreClientConfig.Stored]
  · simp only [OgreClientConfig.Stored, List.map_map]
    apply List.map_congr_left
    intro l hl
    simp [ActionButtonList.Stored, some_getD_of_ne_none _ (hp l hl)]
  · simp only [OgreClientConfig.Stored, List.map_map]
    apply List.map_congr_left
    intro l _
    simp [ActionButtonList.Stored]

/-- C3: when WriteXml returns normally, ReadXml, run on a newly constructed record
over the elements WriteXml emitted, returns normally and, in every set, the button
read at index j has the slot number and the NumOfSameName of the button written at
index j (the key converter reads back what `Keys.ToString()` prints, the counts are
values of `int`). -/
theorem C3_buttons_in_written_order {Keys : Type} (api : Collaborators Keys)
    (hapi : KeysRoundTrip api) (r fresh : OgreClientConfig Keys)
    (hw : (WriteXml api r).1 = Except.ok ()) (hc : CountsFit r)
    (hfresh : fresh.ActionButtonSets = []) (cur : Option XmlElement) (rest : List XmlElement)
    (calls : List ReaderCall) :
    ((ReadXml api).run ⟨fresh, ⟨cur, elementsOf (WriteXml api r).2 ++ rest, calls⟩⟩).1 =
      Except.ok () ∧
    ∀ (i j : Nat) (set : ActionButtonList) (b : ActionButtonConfig),
      r.ActionButtonSets[i]? = some set → set.Items[j]? = some b →
      ∃ (set2 : ActionButtonList) (b2 : ActionButtonConfig),
        ((ReadXml api).run ⟨fresh, ⟨cur, elementsOf (WriteXml api r).2 ++ rest,
          calls⟩⟩).2.This.ActionButtonSets[i]? = some set2 ∧
        set2.Items.length = set.Items.length ∧ set2.Items[j]? = some b2 ∧
        b2.Num = b.Num ∧ b2.NumOfSameName = b.NumOfSameName := by
  have hn := (WriteXml_ok_iff api r).mp hw
  rw [ReadXml_WriteXml_fresh api hapi r fresh hn hc hfresh cur rest calls]
  refine ⟨rfl, ?_⟩
  intro i j set b hi hj
  refine ⟨set.Stored, b.Stored, ?_, ?_, ?_, rfl, rfl⟩
  · simp [OgreClientConfig.Stored, hi]
  · simp [ActionButtonList.Stored]
  · simp [ActionButtonList.Stored, hj]

end

/-- Witness of C2: the two sample sets, of sizes 2 and 1, are read back as two sets
of those sizes under the same player names. -/
theorem C2_count_fidelity_witness :
    KeysRoundTrip sampleApi ∧ (WriteXml sampleApi sampleConfig).1 = Except.ok () ∧
    (∀ set ∈ sampleConfig.ActionButtonSets, set.PlayerName ≠ none) ∧ CountsFit sampleConfig ∧
    ((ReadXml sampleApi).run ⟨freshConfig, ⟨none,
      elementsOf (WriteXml sampleApi sampleConfig).2 ++ [],
      []⟩⟩).2.This.ActionButtonSets.map (fun set => set.Items.length) = [2, 1] :=
  ⟨sampleApi_roundtrip, WriteXml_ok _ _ (by unfold NamesPresent; decide), by decide,
    by unfold CountsFit; decide,
    (C2_count_fidelity sampleApi sampleApi_roundtrip sampleConfig freshConfig
      (WriteXml_ok _ _ (by unfold NamesPresent; decide)) (by decide)
      (by unfold CountsFit; decide) rfl none [] []).2.2.2⟩

/-- C2, counterexample: `nullPlayerConfig`, with one set of one button and a null
player name, is a record ReadXml itself leaves (on a document whose set names no
player); WriteXml and ReadXml both return normally on it, and one set of one button
is read back, but under the empty player name instead of the null one. -/
theorem C2_null_player_name_read_back_empty :
    (((ReadXml sampleApi).run ⟨freshConfig, ⟨none, absentPlayerDocument, []⟩⟩).1 =
        Except.ok () ∧
      ((ReadXml sampleApi).run ⟨freshConfig, ⟨none, absentPlayerDocument, []⟩⟩).2.This =
        nullPlayerConfig) ∧
    (WriteXml sampleApi nullPlayerConfig).1 = Except.ok () ∧
    ((ReadXml sampleApi).run ⟨freshConfig, ⟨none,
      elementsOf (WriteXml sampleApi nullPlayerConfig).2, []⟩⟩).1 = Except.ok () ∧
    nullPlayerConfig.ActionButtonSets.map (fun set => set.PlayerName) = [none] ∧
    ((ReadXml sampleApi).run ⟨freshConfig, ⟨none,
      elementsOf (WriteXml sampleApi nullPlayerConfig).2,
      []⟩⟩).2.This.ActionButtonSets.map (fun set => set.PlayerName) = [some ""] := by
  have hn : NamesPresent nullPlayerConfig := by unfold NamesPresent; decide
  have h := ReadXml_WriteXml_fresh sampleApi sampleApi_roundtrip nullPlayerConfig freshConfig
    hn (by unfold CountsFit; decide) rfl none [] []
  rw [List.append_nil] at h
  rw [h]
  exact ⟨ReadXml_absentPlayerDocument, WriteXml_ok _ _ hn, rfl, rfl, rfl⟩

/-- Witness of C3: in the sample record the second button of the first set keeps
its place. -/
theorem C3_buttons_in_written_order_witness :
    KeysRoundTrip sampleApi ∧ (WriteXml sampleApi sampleConfig).1 = Except.ok () ∧
    CountsFit sampleConfig ∧
    ∃ (set2 : ActionButtonList) (b2 : ActionButtonConfig),
      ((ReadXml sampleApi).run ⟨freshConfig, ⟨none,
        elementsOf (WriteXml sampleApi sampleConfig).2 ++ [],
        []⟩⟩).2.This.ActionButtonSets[0]? = some set2 ∧
      set2.Items.length = 2 ∧ set2.Items[1]? = some b2 ∧
      b2.Num = ⟨2, by decide⟩ ∧ b2.NumOfSameName = ⟨1, by decide⟩ :=
  ⟨sampleApi_roundtrip, WriteXml_ok _ _ (by unfold NamesPresent; decide),
    by unfold CountsFit; decide,
    (C3_buttons_in_written_order sampleApi sampleApi_roundtrip sampleConfig freshConfig
      (WriteXml_ok _ _ (by unfold NamesPresent; decide)) (by unfold CountsFit; decide) rfl
      none [] []).2 0 1 _ _ rfl rfl⟩

section

variable [Globalization] [ArgumentOrder]

/-! ## The lookups -/

theorem findActionButtonSet_eq_some (Name : Option String) (ls : List ActionButtonList)
    (set : ActionButtonList) :
    findActionButtonSet Name ls = some set ↔
      ∃ i : Nat, ls[i]? = some set ∧ set.PlayerName = Name ∧
        ∀ j : Nat, j < i → ∀ s : ActionButtonList, ls[j]? = some s → s.PlayerName ≠ Name := by
  induction ls with
  | nil => simp [findActionButtonSet]
  | cons a as ih =>
    unfold findActionButtonSet
    by_cases ha : a.PlayerName = Name
    · simp only [StringEquals, ha, decide_True, if_true, Option.some.injEq]
      constructor
      · intro h
        subst h
        exact ⟨0, by simp, ha, fun j hj => absurd hj (Nat.not_lt_zero j)⟩
      · rintro ⟨i, hi, _, hfirst⟩
        cases i with
        | zero => simpa using hi
        | succ k => exact absurd ha (hfirst 0 (Nat.succ_pos k) a (by simp))
    · simp only [StringEquals, ha, decide_False, if_false, Bool.false_eq_true]
      rw [ih]
      constructor
      · rintro ⟨i, hi, hname, hfirst⟩
        refine ⟨i + 1, by simpa using hi, hname, ?_⟩
        intro j hj s hs
        cases j with
        | zero =>
          simp only [List.getElem?_cons_zero, Option.some.injEq] at hs
          subst hs
          exact ha
        | succ k => exact hfirst k (Nat.lt_of_succ_lt_succ hj) s (by simpa using hs)
      · rintro ⟨i, hi, hname, hfirst⟩
        cases i with
        | zero =>
          simp only [List.getElem?_cons_zero, Option.some.injEq] at hi
          subst hi
          exact absurd hname ha
        | succ k =>
          refine ⟨k, by simpa using hi, hname, ?_⟩
          intro j hj s hs
          exact hfirst (j + 1) (Nat.succ_lt_succ hj) s (by simpa using hs)

theorem findActionButtonSet_eq_none (Name : Option String) (ls : List ActionButtonList) :
    findActionButtonSet Name ls = none ↔ ∀ s ∈ ls, s.PlayerName ≠ Name := by
  induction ls with
  | nil => simp [findActionButtonSet]
  | cons a as ih =>
    unfold findActionButtonSet
    by_cases ha : a.PlayerName = Name
    · simp [StringEquals, ha]
    · simp [StringEquals, ha, ih]

/-- C4: GetActionButtonSetByName returns a set exactly when that set stands at some
index of the list, its PlayerName equals the argument (ordinal equality of the
texts, so "alice" does not find "Alice"), and no set at a smaller index has that
PlayerName: the first match is returned and a later set of the same name never is. -/
theorem C4_GetActionButtonSetByName_first_match {Keys : Type} :
    (∀ (this : OgreClientConfig Keys) (Name : Option String) (set : ActionButtonList),
      this.GetActionButtonSetByName Name = some set ↔
        ∃ i : Nat, this.ActionButtonSets[i]? = some set ∧ set.PlayerName = Name ∧
          ∀ j : Nat, j < i → ∀ s : ActionButtonList, this.ActionButtonSets[j]? = some s → s.PlayerName ≠ Name) ∧
    (∀ (this : OgreClientConfig Keys) (a b : ActionButtonList),
      this.ActionButtonSets = [a, b] → a.PlayerName = some "Alice" →
      b.PlayerName = some "Alice" →
        this.GetActionButtonSetByName (some "Alice") = some a ∧
        this.GetActionButtonSetByName (some "alice") = none) := by
  constructor
  · intro this Name set
    exact findActionButtonSet_eq_some Name this.ActionButtonSets set
  · intro this a b hsets ha hb
    unfold OgreClientConfig.GetActionButtonSetByName
    rw [hsets]
    simp [findActionButtonSet, StringEquals, ha, hb]

/-- C5: GetActionButtonSetByName returns `nullptr` exactly when no set of the list
has a PlayerName equal to the argument; on sets named "Alice" and "Bob" the query
"Bob" returns the set of Bob and the query "Carol" returns `nullptr`. -/
theorem C5_GetActionButtonSetByName_not_found {Keys : Type} :
    (∀ (this : OgreClientConfig Keys) (Name : Option String),
      this.GetActionButtonSetByName Name = none ↔
        ∀ s ∈ this.ActionButtonSets, s.PlayerName ≠ Name) ∧
    (∀ (this : OgreClientConfig Keys) (a b : ActionButtonList),
      this.ActionButtonSets = [a, b] → a.PlayerName = some "Alice" →
      b.PlayerName = some "Bob" →
        this.GetActionButtonSetByName (some "Bob") = some b ∧
        this.GetActionButtonSetByName (some "Carol") = none) := by
  constructor
  · intro this Name
    exact findActionButtonSet_eq_none Name this.ActionButtonSets
  · intro this a b hsets ha hb
    unfold OgreClientConfig.GetActionButtonSetByName
    rw [hsets]
    simp [findActionButtonSet, StringEquals, ha, hb]

/-- C6: GetButtonType is a total function of the (possibly null) text: it returns
Spell exactly for "spell", Action exactly for "action", Item exactly for "item" and
Unset for everything else, among them "Spell", the empty text and null. -/
theorem C6_GetButtonType_total :
    (∀ s : Option String,
      (GetButtonType s = ActionButtonType.Spell ↔ s = some "spell") ∧
      (GetButtonType s = ActionButtonType.Action ↔ s = some "action") ∧
      (GetButtonType s = ActionButtonType.Item ↔ s = some "item") ∧
      (GetButtonType s = ActionButtonType.Unset ↔
        s ≠ some "spell" ∧ s ≠ some "action" ∧ s ≠ some "item")) ∧
    GetButtonType (some "Spell") = ActionButtonType.Unset ∧
    GetButtonType (some "") = ActionButtonType.Unset ∧
    GetButtonType none = ActionButtonType.Unset := by
  refine ⟨?_, by decide, by decide, by decide⟩
  intro s
  unfold GetButtonType StringEquals BUTTONTYPE_SPELL BUTTONTYPE_ACTION BUTTONTYPE_ITEM
  by_cases h1 : s = some "spell"
  · subst h1
    decide
  · by_cases h2 : s = some "action"
    · subst h2
      decide
    · by_cases h3 : s = some "item"
      · subst h3
        decide
      · simp [h1, h2, h3]

/-! ## Where a button is written -/

theorem WriteXml_actionbutton_block (bs : List ActionButtonConfig)
    (hn : ∀ b ∈ bs, b.Name ≠ none) (b : ActionButtonConfig) (hb : b ∈ bs) :
    ∃ (n : String) (before after : List XmlEvent), b.Name = some n ∧
      (WriteXml_actionbutton bs).2 = before ++ buttonEvents b n ++ after := by
  induction bs with
  | nil => cases hb
  | cons a as ih =>
    obtain ⟨m, ha⟩ := Option.ne_none_iff_exists'.mp (hn a (List.mem_cons_self a as))
    rcases List.mem_cons.mp hb with rfl | hmem
    · exact ⟨m, [], (WriteXml_actionbutton as).2, ha,
        by rw [(WriteXml_actionbutton_cons b m as ha).2]; rfl⟩
    · obtain ⟨n, before, after, hname, hev⟩ :=
        ih (fun c hc => hn c (List.mem_cons_of_mem a hc)) hmem
      refine ⟨n, buttonEvents a m ++ before, after, hname, ?_⟩
      rw [(WriteXml_actionbutton_cons a m as ha).2, hev]
      simp [buttonEvents]

theorem WriteXml_actionbuttons_block (ls : List ActionButtonList)
    (hn : ∀ l ∈ ls, ∀ b ∈ l.Items, b.Name ≠ none) (l : ActionButtonList) (hl : l ∈ ls) :
    ∃ before after : List XmlEvent,
      (WriteXml_actionbuttons ls).2 = before ++ (WriteXml_actionbutton l.Items).2 ++ after := by
  induction ls with
  | nil => cases hl
  | cons a as ih =>
    have ha := hn a (List.mem_cons_self a as)
    rcases List.mem_cons.mp hl with rfl | hmem
    · refine ⟨[XmlEvent.StartElement TAG_ACTIONBUTTONS,
        XmlEvent.Attribute ATTRIB_PLAYER (l.PlayerName.getD ""),
        XmlEvent.Attribute ATTRIB_COUNT (intToString l.Count)],
        XmlEvent.EndElement :: (WriteXml_actionbuttons as).2, ?_⟩
      rw [(WriteXml_actionbuttons_cons l as ha).2]
      simp
    · obtain ⟨before, after, hev⟩ := ih (fun c hc => hn c (List.mem_cons_of_mem a hc)) hmem
      refine ⟨[XmlEvent.StartElement TAG_ACTIONBUTTONS,
        XmlEvent.Attribute ATTRIB_PLAYER (a.PlayerName.getD ""),
        XmlEvent.Attribute ATTRIB_COUNT (intToString a.Count)] ++
        (WriteXml_actionbutton a.Items).2 ++ [XmlEvent.EndElement] ++ before, after, ?_⟩
      rw [(WriteXml_actionbuttons_cons a as ha).2, hev]
      simp

theorem WriteXml_sets_block {Keys : Type} (api : Collaborators Keys) (r : OgreClientConfig Keys)
    (hn : NamesPresent r) :
    ∃ before after : List XmlEvent,
      (WriteXml api r).2 = before ++ (WriteXml_actionbuttonsets r).2 ++ after := by
  refine ⟨(WriteXml_engine r).2 ++ ((WriteXml_input r).2 ++ ((WriteXml_keybinding r).2 ++
      ((WriteXml_keys_movement api r).2 ++ ((WriteXml_keys_modifiers api r).2 ++
      ((WriteXml_keys_targetting api r).2 ++ ((WriteXml_keys_others api r).2 ++
      ((WriteXml_keys_actions api r).2 ++ [XmlEvent.EndElement]))))))),
    [XmlEvent.EndElement], ?_⟩
  rw [WriteXml_snd api r hn]
  simp only [List.append_assoc, List.singleton_append, List.cons_append, List.nil_append]

/-- C8: when WriteXml returns normally, for every button of every set of the record
the calls WriteXml makes contain, one after the other, the start of an actionbutton
element, its num attribute, its type attribute holding the lower case of the name
of the button type, its name attribute holding the lower case of the Name of the
button, its numofsamename attribute and the end of the element. -/
theorem C8_lowercase_on_write {Keys : Type} (api : Collaborators Keys)
    (r : OgreClientConfig Keys) (hw : (WriteXml api r).1 = Except.ok ())
    (set : ActionButtonList) (hset : set ∈ r.ActionButtonSets)
    (b : ActionButtonConfig) (hb : b ∈ set.Items) :
    ∃ (n : String) (before after : List XmlEvent), b.Name = some n ∧
      (WriteXml api r).2 = before ++
        [XmlEvent.StartElement TAG_ACTIONBUTTON,
          XmlEvent.Attribute ATTRIB_NUM (Int32.ToString b.Num),
          XmlEvent.Attribute ATTRIB_TYPE (ToLower (ActionButtonType.ToString b.ButtonType)),
          XmlEvent.Attribute XMLATTRIB_NAME (ToLower n),
          XmlEvent.Attribute ATTRIB_NUMOFSAMENAME (UInt32.ToString b.NumOfSameName),
          XmlEvent.EndElement] ++ after := by
  have hn := (WriteXml_ok_iff api r).mp hw
  obtain ⟨n, b1, a1, hname, h1⟩ := WriteXml_actionbutton_block set.Items (hn set hset) b hb
  obtain ⟨b2, a2, h2⟩ := WriteXml_actionbuttons_block r.ActionButtonSets hn set hset
  obtain ⟨b3, a3, h3⟩ := WriteXml_sets_block api r hn
  refine ⟨n, b3 ++ ([XmlEvent.StartElement TAG_ACTIONBUTTONSETS,
      XmlEvent.Attribute ATTRIB_COUNT (intToString (r.ActionButtonSets.length : Int))] ++
      (b2 ++ b1)), a1 ++ (a2 ++ ([XmlEvent.EndElement] ++ a3)), hname, ?_⟩
  rw [h3, WriteXml_actionbuttonsets_snd r hn, h2, h1]
  simp [buttonEvents]

/-! ## The calls of the reader and of the writer -/

theorem readPairs_callsOf (evs : List XmlEvent) (h : attributesFollowStart evs = true)
    (n : String) :
    readPairs (some n) (callsOf evs) =
      (leadingAttributes evs).map (fun a => (n, a.1)) ++ writtenPairs (elementsOf evs) := by
  induction evs generalizing n with
  | nil => rfl
  | cons e es ih =>
    cases e with
    | StartElement m =>
      have hes : attributesFollowStart es = true := by simpa [attributesFollowStart] using h
      simp only [callsOf, readPairs, leadingAttributes, elementsOf, writtenPairs, List.map_nil,
        List.nil_append]
      exact ih hes m
    | Attribute a v =>
      have hes : attributesFollowStart es = true := by simpa [attributesFollowStart] using h
      simp only [callsOf, readPairs, leadingAttributes, elementsOf, List.map_cons,
        List.cons_append, Option.getD_some]
      rw [ih hes n]
    | EndElement =>
      cases es with
      | nil => rfl
      | cons e2 es2 =>
        cases e2 with
        | Attribute a v => simp [attributesFollowStart] at h
        | StartElement m =>
          have hes : attributesFollowStart (XmlEvent.StartElement m :: es2) = true := by
            simpa [attributesFollowStart] using h
          have := ih hes n
          simpa [callsOf, leadingAttributes, elementsOf] using this
        | EndElement =>
          have hes : attributesFollowStart (XmlEvent.EndElement :: es2) = true := by
            simpa [attributesFollowStart] using h
          have := ih hes n
          simpa [callsOf, leadingAttributes, elementsOf] using this

theorem attributesFollowStart_append (a b : List XmlEvent) (ha : attributesFollowStart a = true)
    (hb : attributesFollowStart b = true) (hlead : leadingAttributes b = []) :
    attributesFollowStart (a ++ b) = true := by
  induction a with
  | nil => exact hb
  | cons e es ih =>
    cases e with
    | StartElement m =>
      have hes : attributesFollowStart es = true := by simpa [attributesFollowStart] using ha
      simpa [attributesFollowStart] using ih hes
    | Attribute n v =>
      have hes : attributesFollowStart es = true := by simpa [attributesFollowStart] using ha
      simpa [attributesFollowStart] using ih hes
    | EndElement =>
      cases es with
      | nil =>
        cases b with
        | nil => rfl
        | cons e2 es2 =>
          cases e2 with
          | Attribute n v => simp [leadingAttributes] at hlead
          | StartElement m => simpa [attributesFollowStart] using hb
          | EndElement => simpa [attributesFollowStart] using hb
      | cons e2 es2 =>
        cases e2 with
        | Attribute n v => simp [attributesFollowStart] at ha
        | StartElement m =>
          have hes : attributesFollowStart (XmlEvent.StartElement m :: es2) = true := by
            simpa [attributesFollowStart] using ha
          simpa [attributesFollowStart] using ih hes
        | EndElement =>
          have hes : attributesFollowStart (XmlEvent.EndElement :: es2) = true := by
            simpa [attributesFollowStart] using ha
          simpa [attributesFollowStart] using ih hes

end

/-- Witness of C8: the button "FireBall" of type Spell is written with
type="spell" and name="fireball". -/
theorem C8_lowercase_on_write_witness :
    (WriteXml sampleApi fireBallConfig).1 = Except.ok () ∧
    ∃ before after : List XmlEvent,
      (WriteXml sampleApi fireBallConfig).2 = before ++
        [XmlEvent.StartElement "actionbutton", XmlEvent.Attribute "num" "3",
          XmlEvent.Attribute "type" "spell", XmlEvent.Attribute "name" "fireball",
          XmlEvent.Attribute "numofsamename" "0", XmlEvent.EndElement] ++ after := by
  have hw : (WriteXml sampleApi fireBallConfig).1 = Except.ok () :=
    WriteXml_ok _ _ (by unfold NamesPresent; decide)
  obtain ⟨n, before, after, hname, hev⟩ :=
    C8_lowercase_on_write sampleApi fireBallConfig hw
      { PlayerName := some "Alice", Items := [fireBallButton] } (by decide) fireBallButton
      (by decide)
  have hn : n = "FireBall" := by
    have h : some "FireBall" = some n := hname
    exact (Option.some.inj h).symm
  subst hn
  exact ⟨hw, before, after, hev⟩

section

variable [Globalization] [ArgumentOrder]

theorem WriteXml_actionbutton_regular (bs : List ActionButtonConfig)
    (hn : ∀ b ∈ bs, b.Name ≠ none) :
    attributesFollowStart (WriteXml_actionbutton bs).2 = true := by
  induction bs with
  | nil => rfl
  | cons b bs ih =>
    obtain ⟨n, hb⟩ := Option.ne_none_iff_exists'.mp (hn b (List.mem_cons_self b bs))
    rw [(WriteXml_actionbutton_cons b n bs hb).2]
    have hrest := ih (fun c hc => hn c (List.mem_cons_of_mem b hc))
    exact attributesFollowStart_append (buttonEvents b n) _ rfl hrest
      (WriteXml_actionbutton_leading bs [] rfl ▸ by rw [List.append_nil])

theorem WriteXml_actionbuttons_regular (ls : List ActionButtonList)
    (hn : ∀ l ∈ ls, ∀ b ∈ l.Items, b.Name ≠ none) :
    attributesFollowStart (WriteXml_actionbuttons ls).2 = true := by
  induction ls with
  | nil => rfl
  | cons l ls ih =>
    have hl := hn l (List.mem_cons_self l ls)
    rw [(WriteXml_actionbuttons_cons l ls hl).2]
    have hrest := ih (fun c hc => hn c (List.mem_cons_of_mem l hc))
    have h1 : attributesFollowStart
        ((WriteXml_actionbutton l.Items).2 ++
          XmlEvent.EndElement :: (WriteXml_actionbuttons ls).2) = true := by
      apply attributesFollowStart_append _ _ (WriteXml_actionbutton_regular l.Items hl)
      · have hlead := WriteXml_actionbuttons_leading ls [] rfl
        rw [List.append_nil] at hlead
        cases hls : (WriteXml_actionbuttons ls).2 with
        | nil => rfl
        | cons e es =>
          rw [hls] at hlead hrest
          cases e with
          | Attribute n v => simp [leadingAttributes] at hlead
          | StartElement m => simpa [attributesFollowStart] using hrest
          | EndElement => simpa [attributesFollowStart] using hrest
      · rfl
    simpa [attributesFollowStart] using h1

theorem WriteXml_actionbuttonsets_regular {Keys : Type} (r : OgreClientConfig Keys)
    (hn : NamesPresent r) : attributesFollowStart (WriteXml_actionbuttonsets r).2 = true := by
  rw [WriteXml_actionbuttonsets_snd r hn]
  have h1 : attributesFollowStart
      ((WriteXml_actionbuttons r.ActionButtonSets).2 ++ [XmlEvent.EndElement]) = true :=
    attributesFollowStart_append _ _ (WriteXml_actionbuttons_regular _ hn) rfl rfl
  simpa [attributesFollowStart] using h1

theorem WriteXml_regular {Keys : Type} (api : Collaborators Keys) (r : OgreClientConfig Keys)
    (hn : NamesPresent r) : attributesFollowStart (WriteXml api r).2 = true := by
  rw [WriteXml_snd api r hn]
  have h9 : attributesFollowStart (XmlEvent.EndElement ::
      ((WriteXml_actionbuttonsets r).2 ++ [XmlEvent.EndElement])) = true := by
    have h := attributesFollowStart_append _ [XmlEvent.EndElement]
      (WriteXml_actionbuttonsets_regular r hn) rfl rfl
    have hlead := WriteXml_actionbuttonsets_leading r [XmlEvent.EndElement]
    cases hev : (WriteXml_actionbuttonsets r).2 ++ [XmlEvent.EndElement] with
    | nil => rfl
    | cons e es =>
      rw [hev] at h hlead
      cases e with
      | Attribute n v => simp [leadingAttributes] at hlead
      | StartElement m => simpa [attributesFollowStart] using h
      | EndElement => simpa [attributesFollowStart] using h
  exact attributesFollowStart_append _ _ rfl
    (attributesFollowStart_append _ _ rfl
      (attributesFollowStart_append _ _ rfl
        (attributesFollowStart_append _ _ rfl
          (attributesFollowStart_append _ _ rfl
            (attributesFollowStart_append _ _ rfl
              (attributesFollowStart_append _ _ rfl
                (attributesFollowStart_append _ _ rfl h9 rfl)
                (WriteXml_keys_actions_leading api r _))
              (WriteXml_keys_others_leading api r _))
            (WriteXml_keys_targetting_leading api r _))
          (WriteXml_keys_modifiers_leading api r _))
        (WriteXml_keys_movement_leading api r _))
      (WriteXml_keybinding_leading r _))
    (WriteXml_input_leading r _)

theorem WriteXml_snd_head {Keys : Type} (api : Collaborators Keys) (r : OgreClientConfig Keys)
    (hn : NamesPresent r) :
    ∃ evs, (WriteXml api r).2 = XmlEvent.StartElement TAG_ENGINE :: evs := by
  rw [WriteXml_snd api r hn]
  exact ⟨_, rfl⟩

/-! ## The pairs read and the pairs written -/

theorem readPairs_append_seek (a cs : List ReaderCall) (n : String) (t : Option String) :
    readPairs t (a ++ ReaderCall.ReadToFollowing n :: cs) =
      readPairs t a ++ readPairs (some n) cs := by
  induction a generalizing t with
  | nil => rfl
  | cons c a ih =>
    cases c with
    | ReadToFollowing m => exact ih (some m)
    | GetAttribute x =>
      show (t.getD "", x) :: readPairs t (a ++ ReaderCall.ReadToFollowing n :: cs) = _
      rw [ih t]
      rfl

theorem readPairs_attributes (order : List ButtonArgument) (rest : List ReaderCall) :
    readPairs (some TAG_ACTIONBUTTON)
        (order.map (fun a => ReaderCall.GetAttribute a.Attribute) ++ rest) =
      buttonPairs order ++ readPairs (some TAG_ACTIONBUTTON) rest := by
  induction order with
  | nil => rfl
  | cons a order ih =>
    show ((some TAG_ACTIONBUTTON).getD "", a.Attribute) :: readPairs (some TAG_ACTIONBUTTON)
        (order.map (fun a => ReaderCall.GetAttribute a.Attribute) ++ rest) = _
    rw [ih]
    rfl

theorem readPairs_buttonsCalls (bs : List ActionButtonConfig) (X : List ReaderCall)
    (hX : ∀ t, readPairs t X = readPairs none X) (t : Option String) :
    readPairs t (buttonsCalls bs ++ X) =
      buttonsPairs ArgumentOrder.order bs ++ readPairs none X := by
  induction bs generalizing t with
  | nil => exact hX t
  | cons b bs ih =>
    show readPairs t ((ReaderCall.ReadToFollowing TAG_ACTIONBUTTON ::
      ArgumentOrder.order.map (fun a => ReaderCall.GetAttribute a.Attribute)) ++
        buttonsCalls bs ++ X) = _
    rw [List.append_assoc, List.cons_append]
    show readPairs (some TAG_ACTIONBUTTON)
      (ArgumentOrder.order.map (fun a => ReaderCall.GetAttribute a.Attribute) ++
        (buttonsCalls bs ++ X)) = _
    rw [readPairs_attributes, ih]
    show _ = (buttonPairs ArgumentOrder.order ++ buttonsPairs ArgumentOrder.order bs) ++ _
    rw [List.append_assoc]

theorem readPairs_setCalls (ls : List ActionButtonList) (t : Option String) :
    readPairs t (setCalls ls) = setPairs ArgumentOrder.order ls := by
  induction ls generalizing t with
  | nil => rfl
  | cons l ls ih =>
    show (TAG_ACTIONBUTTONS, ATTRIB_PLAYER) :: (TAG_ACTIONBUTTONS, ATTRIB_COUNT) ::
      readPairs (some TAG_ACTIONBUTTONS) (buttonsCalls l.Items ++ setCalls ls) = _
    rw [readPairs_buttonsCalls l.Items (setCalls ls) (fun t => by rw [ih t, ih none]), ih none]
    rfl

theorem writtenPairs_append (a b : List XmlElement) :
    writtenPairs (a ++ b) = writtenPairs a ++ writtenPairs b := by
  induction a with
  | nil => rfl
  | cons e es ih =>
    show _ ++ writtenPairs (es ++ b) = (_ ++ writtenPairs es) ++ _
    rw [ih, List.append_assoc]

theorem writtenPairs_buttons (bs : List ActionButtonConfig) :
    writtenPairs (bs.map buttonElement) = buttonsPairs writtenOrder bs := by
  induction bs with
  | nil => rfl
  | cons b bs ih =>
    show _ ++ writtenPairs (bs.map buttonElement) = _ ++ buttonsPairs writtenOrder bs
    rw [ih]
    rfl

theorem writtenPairs_setElements (ls : List ActionButtonList) :
    writtenPairs (setElements ls) = setPairs writtenOrder ls := by
  induction ls with
  | nil => rfl
  | cons l ls ih =>
    show _ ++ writtenPairs (l.Items.map buttonElement ++ setElements ls) = _
    rw [writtenPairs_append, ih, writtenPairs_buttons]
    rfl

theorem elementsOf_fixedEvents {Keys : Type} (api : Collaborators Keys)
    (r : OgreClientConfig Keys) : elementsOf (fixedEvents api r) = fixedElements api r := by
  have h8 := WriteXml_keys_actions_leading api r []
  rw [List.append_nil] at h8
  have h7 := WriteXml_keys_others_leading api r (WriteXml_keys_actions api r).2
  unfold fixedEvents fixedElements
  rw [elementsOf_append _ _ (WriteXml_input_leading r _),
    elementsOf_append _ _ (WriteXml_keybinding_leading r _),
    elementsOf_append _ _ (WriteXml_keys_movement_leading api r _),
    elementsOf_append _ _ (WriteXml_keys_modifiers_leading api r _),
    elementsOf_append _ _ (WriteXml_keys_targetting_leading api r _),
    elementsOf_append _ _ (WriteXml_keys_others_leading api r _),
    elementsOf_append _ _ h8]

theorem fixedEvents_regular {Keys : Type} (api : Collaborators Keys)
    (r : OgreClientConfig Keys) : attributesFollowStart (fixedEvents api r) = true := by
  have h8 := WriteXml_keys_actions_leading api r []
  rw [List.append_nil] at h8
  exact attributesFollowStart_append _ _ rfl
    (attributesFollowStart_append _ _ rfl
      (attributesFollowStart_append _ _ rfl
        (attributesFollowStart_append _ _ rfl
          (attributesFollowStart_append _ _ rfl
            (attributesFollowStart_append _ _ rfl
              (attributesFollowStart_append _ _ rfl rfl h8)
              (WriteXml_keys_others_leading api r _))
            (WriteXml_keys_targetting_leading api r _))
          (WriteXml_keys_modifiers_leading api r _))
        (WriteXml_keys_movement_leading api r _))
      (WriteXml_keybinding_leading r _))
    (WriteXml_input_leading r _)

/-- Up to the last key binding the pairs read are the pairs written. -/
theorem readPairs_fixedEvents {Keys : Type} (api : Collaborators Keys)
    (r : OgreClientConfig Keys) :
    readPairs none (callsOf (fixedEvents api r)) = writtenPairs (fixedElements api r) := by
  rw [← elementsOf_fixedEvents]
  have hreg := fixedEvents_regular api r
  obtain ⟨evs, hev⟩ : ∃ evs, fixedEvents api r = XmlEvent.StartElement TAG_ENGINE :: evs :=
    ⟨_, rfl⟩
  rw [hev] at hreg ⊢
  have hevs : attributesFollowStart evs = true := by simpa [attributesFollowStart] using hreg
  simp only [callsOf, readPairs, elementsOf, writtenPairs]
  exact readPairs_callsOf evs hevs TAG_ENGINE

theorem readerCalls_eq {Keys : Type} (api : Collaborators Keys) (r : OgreClientConfig Keys) :
    readerCalls api r = callsOf (fixedEvents api r) ++
      ReaderCall.ReadToFollowing TAG_ACTIONBUTTONSETS ::
        ReaderCall.GetAttribute ATTRIB_COUNT :: setCalls r.ActionButtonSets := by
  simp only [readerCalls, fixedEvents, callsOf_append, List.append_assoc]

/-- The pairs ReadXml reads on the document of a record. -/
theorem readPairs_readerCalls {Keys : Type} (api : Collaborators Keys)
    (r : OgreClientConfig Keys) :
    readPairs none (readerCalls api r) =
      writtenPairs (fixedElements api r) ++ (TAG_ACTIONBUTTONSETS, ATTRIB_COUNT) ::
        setPairs ArgumentOrder.order r.ActionButtonSets := by
  rw [readerCalls_eq, readPairs_append_seek, readPairs_fixedEvents]
  show _ ++ (TAG_ACTIONBUTTONSETS, ATTRIB_COUNT) ::
    readPairs (some TAG_ACTIONBUTTONSETS) (setCalls r.ActionButtonSets) = _
  rw [readPairs_setCalls]

/-- The pairs of the document WriteXml writes for a record. -/
theorem writtenPairs_WriteXml {Keys : Type} (api : Collaborators Keys)
    (r : OgreClientConfig Keys) (hn : NamesPresent r) :
    writtenPairs (elementsOf (WriteXml api r).2) =
      writtenPairs (fixedElements api r) ++ (TAG_ACTIONBUTTONSETS, ATTRIB_COUNT) ::
        setPairs writtenOrder r.ActionButtonSets := by
  have he : elementsOf (WriteXml_actionbuttonsets r).2 =
      XmlElement.mk TAG_ACTIONBUTTONSETS
          [(ATTRIB_COUNT, intToString (r.ActionButtonSets.length : Int))] ::
        setElements r.ActionButtonSets := by
    rw [WriteXml_actionbuttonsets_snd r hn]
    simp only [elementsOf, leadingAttributes,
      WriteXml_actionbuttons_leading r.ActionButtonSets [XmlEvent.EndElement] rfl,
      WriteXml_actionbuttons_elements r.ActionButtonSets hn, List.append_nil]
  have hfix : elementsOf (WriteXml api r).2 =
      fixedElements api r ++ elementsOf (WriteXml_actionbuttonsets r).2 := by
    rw [WriteXml_elements api r hn]
    simp only [fixedElements, List.append_assoc]
  rw [hfix, he, writtenPairs_append]
  show _ ++ (_ ++ writtenPairs (setElements r.ActionButtonSets)) = _
  rw [writtenPairs_setElements]
  rfl

/-! ## The claim on the order of the reads -/

/-- C10, as amended: when WriteXml returns normally, ReadXml, run on the elements
WriteXml emitted, returns normally and makes on the reader the calls of
`readerCalls`; its (tag sought, attribute read) pairs and the (element tag,
attribute name) pairs of the document both start with the pairs of the scalar and
key-binding fields, in the same order, followed by the pair of the count of the
sets; after that both name the same elements in the same order, but the four
attributes of an actionbutton element are read in the order in which the arguments
of the constructor are evaluated, which is a permutation of the order in which they
are written; and when that order is the one written, the calls of ReadXml mirror
those of WriteXml one for one and the two sequences of pairs are identical (in
every culture; the key converter reads back what `Keys.ToString()` prints, the
counts are values of `int`). -/
theorem C10_reads_follow_evaluation_order {Keys : Type} (api : Collaborators Keys)
    (hapi : KeysRoundTrip api) (r this : OgreClientConfig Keys)
    (hw : (WriteXml api r).1 = Except.ok ()) (hc : CountsFit r) (cur : Option XmlElement)
    (rest : List XmlElement) :
    ((ReadXml api).run ⟨this, ⟨cur, elementsOf (WriteXml api r).2 ++ rest, []⟩⟩).1 =
      Except.ok () ∧
    ((ReadXml api).run ⟨this, ⟨cur, elementsOf (WriteXml api r).2 ++ rest,
      []⟩⟩).2.Reader.Calls = readerCalls api r ∧
    readPairs none ((ReadXml api).run ⟨this, ⟨cur, elementsOf (WriteXml api r).2 ++ rest,
      []⟩⟩).2.Reader.Calls =
      writtenPairs (fixedElements api r) ++ (TAG_ACTIONBUTTONSETS, ATTRIB_COUNT) ::
        setPairs ArgumentOrder.order r.ActionButtonSets ∧
    writtenPairs (elementsOf (WriteXml api r).2) =
      writtenPairs (fixedElements api r) ++ (TAG_ACTIONBUTTONSETS, ATTRIB_COUNT) ::
        setPairs writtenOrder r.ActionButtonSets ∧
    ArgumentOrder.order.Perm writtenOrder ∧
    (ArgumentOrder.order = writtenOrder →
      ((ReadXml api).run ⟨this, ⟨cur, elementsOf (WriteXml api r).2 ++ rest,
        []⟩⟩).2.Reader.Calls = callsOf (WriteXml api r).2 ∧
      readPairs none ((ReadXml api).run ⟨this, ⟨cur, elementsOf (WriteXml api r).2 ++ rest,
        []⟩⟩).2.Reader.Calls = writtenPairs (elementsOf (WriteXml api r).2)) := by
  have hn := (WriteXml_ok_iff api r).mp hw
  rw [ReadXml_WriteXml api hapi r this hn hc cur rest []]
  simp only [List.nil_append]
  refine ⟨trivial, trivial, readPairs_readerCalls api r, writtenPairs_WriteXml api r hn,
    ArgumentOrder.complete, ?_⟩
  intro hord
  refine ⟨(WriteXml_calls_readerCalls hord api r hn).symm, ?_⟩
  rw [readPairs_readerCalls, writtenPairs_WriteXml api r hn, hord]

end

/-- Witness of C10: on the sample record, with the arguments evaluated in the order
written. -/
theorem C10_reads_follow_evaluation_order_witness :
    KeysRoundTrip sampleApi ∧ (WriteXml sampleApi sampleConfig).1 = Except.ok () ∧
    CountsFit sampleConfig ∧
    ((ReadXml sampleApi).run ⟨freshConfig, ⟨none,
      elementsOf (WriteXml sampleApi sampleConfig).2 ++ [], []⟩⟩).2.Reader.Calls =
      readerCalls sampleApi sampleConfig :=
  ⟨sampleApi_roundtrip, WriteXml_ok _ _ (by unfold NamesPresent; decide),
    by unfold CountsFit; decide,
    (C10_reads_follow_evaluation_order sampleApi sampleApi_roundtrip sampleConfig freshConfig
      (WriteXml_ok _ _ (by unfold NamesPresent; decide)) (by unfold CountsFit; decide)
      none []).2.1⟩

/-- C10, counterexample: with the arguments of the constructor evaluated from right
to left, ReadXml returns normally on the document WriteXml wrote for the sample
record, but the 88th pair it reads, the first of the first button, is (actionbutton,
numofsamename) while the 88th pair written is (actionbutton, num): neither the pairs
read nor the calls on the reader are, in the same order, those of WriteXml. -/
theorem C10_right_to_left_reads_differ :
    (WriteXml sampleApi sampleConfig).1 = Except.ok () ∧
    ((@ReadXml sampleGlobalization rightToLeft SampleKeys sampleApi).run ⟨freshConfig, ⟨none,
      elementsOf (WriteXml sampleApi sampleConfig).2, []⟩⟩).1 = Except.ok () ∧
    (readPairs none ((@ReadXml sampleGlobalization rightToLeft SampleKeys sampleApi).run
      ⟨freshConfig, ⟨none, elementsOf (WriteXml sampleApi sampleConfig).2,
        []⟩⟩).2.Reader.Calls)[87]? = some (TAG_ACTIONBUTTON, ATTRIB_NUMOFSAMENAME) ∧
    (writtenPairs (elementsOf (WriteXml sampleApi sampleConfig).2))[87]? =
      some (TAG_ACTIONBUTTON, ATTRIB_NUM) ∧
    readPairs none ((@ReadXml sampleGlobalization rightToLeft SampleKeys sampleApi).run
      ⟨freshConfig, ⟨none, elementsOf (WriteXml sampleApi sampleConfig).2,
        []⟩⟩).2.Reader.Calls ≠ writtenPairs (elementsOf (WriteXml sampleApi sampleConfig).2) ∧
    ((@ReadXml sampleGlobalization rightToLeft SampleKeys sampleApi).run
      ⟨freshConfig, ⟨none, elementsOf (WriteXml sampleApi sampleConfig).2,
        []⟩⟩).2.Reader.Calls ≠ callsOf (WriteXml sampleApi sampleConfig).2 := by
  have hn : NamesPresent sampleConfig := by unfold NamesPresent; decide
  have h := @ReadXml_WriteXml sampleGlobalization rightToLeft SampleKeys sampleApi
    sampleApi_roundtrip sampleConfig freshConfig hn (by unfold CountsFit; decide) none [] []
  rw [List.append_nil] at h
  rw [h]
  simp only [List.nil_append]
  have hr : (readPairs none (@readerCalls sampleGlobalization rightToLeft SampleKeys sampleApi
      sampleConfig))[87]? = some (TAG_ACTIONBUTTON, ATTRIB_NUMOFSAMENAME) := by
    rw [@readPairs_readerCalls sampleGlobalization rightToLeft]
    decide
  have hwr : (writtenPairs (elementsOf (WriteXml sampleApi sampleConfig).2))[87]? =
      some (TAG_ACTIONBUTTON, ATTRIB_NUM) := by
    rw [writtenPairs_WriteXml sampleApi sampleConfig hn]
    decide
  have hne : readPairs none (@readerCalls sampleGlobalization rightToLeft SampleKeys sampleApi
      sampleConfig) ≠ writtenPairs (elementsOf (WriteXml sampleApi sampleConfig).2) := by
    intro heq
    rw [heq, hwr] at hr
    exact absurd hr (by decide)
  refine ⟨WriteXml_ok _ _ hn, trivial, hr, hwr, hne, ?_⟩
  intro heq
  apply hne
  rw [heq]
  obtain ⟨evs, hev⟩ := WriteXml_snd_head sampleApi sampleConfig hn
  have hreg := WriteXml_regular sampleApi sampleConfig hn
  rw [hev] at hreg ⊢
  have hevs : attributesFollowStart evs = true := by simpa [attributesFollowStart] using hreg
  simp only [callsOf, readPairs, elementsOf, writtenPairs]
  exact readPairs_callsOf evs hevs TAG_ENGINE

section

variable [Globalization] [ArgumentOrder]

/-! ## The tree of the action button sets -/

theorem buildNodes_actionbutton (bs : List ActionButtonConfig) (hn : ∀ b ∈ bs, b.Name ≠ none)
    (evs : List XmlEvent) (o : OpenElement) (stack : List OpenElement) (done : List XmlNode) :
    buildNodes ((WriteXml_actionbutton bs).2 ++ evs) (o :: stack) done =
      buildNodes evs ({ o with Children := o.Children ++ bs.map buttonNode } :: stack) done := by
  induction bs generalizing o with
  | nil => simp [WriteXml_actionbutton, pure, Emit.pure]
  | cons b bs ih =>
    obtain ⟨n, hb⟩ := Option.ne_none_iff_exists'.mp (hn b (List.mem_cons_self b bs))
    rw [(WriteXml_actionbutton_cons b n bs hb).2]
    simp only [List.cons_append]
    simp only [buildNodes, List.nil_append]
    rw [ih (fun c hc => hn c (List.mem_cons_of_mem b hc))]
    simp [buttonNode, buttonElement, hb]

theorem buildNodes_actionbuttons (ls : List ActionButtonList)
    (hn : ∀ l ∈ ls, ∀ b ∈ l.Items, b.Name ≠ none)
    (evs : List XmlEvent) (o : OpenElement) (stack : List OpenElement) (done : List XmlNode) :
    buildNodes ((WriteXml_actionbuttons ls).2 ++ evs) (o :: stack) done =
      buildNodes evs ({ o with Children := o.Children ++ ls.map setNode } :: stack) done := by
  induction ls generalizing o with
  | nil => simp [WriteXml_actionbuttons, pure, Emit.pure]
  | cons l ls ih =>
    have hl := hn l (List.mem_cons_self l ls)
    rw [(WriteXml_actionbuttons_cons l ls hl).2]
    simp only [List.cons_append, List.append_assoc]
    simp only [buildNodes, List.nil_append]
    rw [buildNodes_actionbutton l.Items hl]
    simp only [buildNodes, List.nil_append]
    rw [ih (fun c hc => hn c (List.mem_cons_of_mem l hc))]
    simp [setNode, setElement]

theorem nodesOf_actionbuttonsets {Keys : Type} (r : OgreClientConfig Keys)
    (hn : NamesPresent r) :
    nodesOf (WriteXml_actionbuttonsets r).2 =
      some [XmlNode.node TAG_ACTIONBUTTONSETS
        [(ATTRIB_COUNT, intToString (r.ActionButtonSets.length : Int))]
        (r.ActionButtonSets.map setNode)] := by
  rw [WriteXml_actionbuttonsets_snd r hn]
  simp only [nodesOf, buildNodes, List.nil_append]
  rw [buildNodes_actionbuttons r.ActionButtonSets hn]
  simp [buildNodes]

/-- C9: when WriteXml returns normally, the calls it makes for the action button
sets form one actionbuttonsets element whose only attribute is a count equal to
the number of its child elements, one child per set; the child of a set is an
actionbuttons element whose attributes are player, the PlayerName of the set (the
empty text when it is null), and count, equal to the number of its child elements,
one per button of the set; each of those is an actionbutton element without
children that carries exactly the attributes num, type, name and numofsamename. -/
theorem C9_counts_match_children {Keys : Type} (api : Collaborators Keys)
    (r : OgreClientConfig Keys) (hw : (WriteXml api r).1 = Except.ok ()) :
    ∃ (before after : List XmlEvent) (root : XmlNode),
      (WriteXml api r).2 = before ++ (WriteXml_actionbuttonsets r).2 ++ after ∧
      nodesOf (WriteXml_actionbuttonsets r).2 = some [root] ∧
      root.Name = TAG_ACTIONBUTTONSETS ∧
      root.Attributes = [(ATTRIB_COUNT, intToString (root.Children.length : Int))] ∧
      root.Children.length = r.ActionButtonSets.length ∧
      ∀ (i : Nat) (set : ActionButtonList), r.ActionButtonSets[i]? = some set →
        ∃ child : XmlNode, root.Children[i]? = some child ∧
          child.Name = TAG_ACTIONBUTTONS ∧
          child.Attributes = [(ATTRIB_PLAYER, set.PlayerName.getD ""),
            (ATTRIB_COUNT, intToString (child.Children.length : Int))] ∧
          child.Children.length = set.Items.length ∧
          ∀ button ∈ child.Children, button.Name = TAG_ACTIONBUTTON ∧
            button.Attributes.map (fun a => a.1) =
              [ATTRIB_NUM, ATTRIB_TYPE, XMLATTRIB_NAME, ATTRIB_NUMOFSAMENAME] ∧
            button.Children = [] := by
  have hn := (WriteXml_ok_iff api r).mp hw
  obtain ⟨before, after, hev⟩ := WriteXml_sets_block api r hn
  refine ⟨before, after, _, hev, nodesOf_actionbuttonsets r hn, rfl, ?_, ?_, ?_⟩
  · simp [XmlNode.Attributes, XmlNode.Children]
  · simp [XmlNode.Children]
  · intro i set hi
    refine ⟨setNode set, ?_, rfl, ?_, ?_, ?_⟩
    · simp [XmlNode.Children, hi]
    · simp [setNode, setElement, XmlNode.Attributes, XmlNode.Children, ActionButtonList.Count]
    · simp [setNode, XmlNode.Children]
    · intro button hbutton
      simp only [setNode, XmlNode.Children, List.mem_map] at hbutton
      obtain ⟨b, _, rfl⟩ := hbutton
      exact ⟨rfl, rfl, rfl⟩

end

/-- Witness of C9: the sample record, with two sets of two and one button. -/
theorem C9_counts_match_children_witness :
    (WriteXml sampleApi sampleConfig).1 = Except.ok () ∧
    ∃ root : XmlNode, nodesOf (WriteXml_actionbuttonsets sampleConfig).2 = some [root] ∧
      root.Attributes = [("count", "2")] ∧ root.Children.length = 2 := by
  have hw : (WriteXml sampleApi sampleConfig).1 = Except.ok () :=
    WriteXml_ok _ _ (by unfold NamesPresent; decide)
  obtain ⟨_, _, root, _, hnodes, _, hattrs, hlen, _⟩ :=
    C9_counts_match_children sampleApi sampleConfig hw
  refine ⟨hw, root, hnodes, ?_, hlen⟩
  rw [hattrs, hlen]
  decide

section

variable [Globalization] [ArgumentOrder]

/-! ## ReadXml does not look at the type texts -/

theorem EndAlike.bind {σ α β : Type} {S : σ → σ → Prop} {R : α → α → Prop}
    {R2 : β → β → Prop} {m m2 : Op σ α} {f f2 : α → Op σ β} (hm : EndAlike S R m m2)
    (hf : ∀ a a2, R a a2 → EndAlike S R2 (f a) (f2 a2)) :
    EndAlike S R2 (m >>= f) (m2 >>= f2) := by
  intro s s2 hs
  rcases hm s s2 hs with ⟨a, a2, t, t2, h1, h2, hr, ht⟩ | ⟨e, t, t2, h1, h2, ht⟩
  · rw [Op.run_bind_ok _ _ _ _ _ h1, Op.run_bind_ok _ _ _ _ _ h2]
    exact hf a a2 hr t t2 ht
  · right
    exact ⟨e, t, t2, Op.run_bind_error _ _ _ _ _ h1, Op.run_bind_error _ _ _ _ _ h2, ht⟩

theorem EndAlike.seq {σ α β : Type} {S : σ → σ → Prop} {R : α → α → Prop}
    {R2 : β → β → Prop} {m : Op σ α} {k : Op σ β} (hm : EndAlike S R m m)
    (hk : EndAlike S R2 k k) : EndAlike S R2 (m >>= fun _ => k) (m >>= fun _ => k) :=
  EndAlike.bind hm (fun _ _ _ => hk)

theorem EndAlike.bind_eq {σ α β : Type} {S : σ → σ → Prop} {R2 : β → β → Prop}
    {m : Op σ α} {f : α → Op σ β} (hm : EndAlike S Eq m m)
    (hf : ∀ a, EndAlike S R2 (f a) (f a)) : EndAlike S R2 (m >>= f) (m >>= f) :=
  EndAlike.bind hm (fun a _ h => h ▸ hf a)

theorem EndAlike.ofExcept {σ α : Type} {S : σ → σ → Prop} (x : Except Exception α) :
    EndAlike S Eq (Op.ofExcept x : Op σ α) (Op.ofExcept x) := by
  intro s s2 hs
  cases x with
  | ok a => exact Or.inl ⟨a, a, s, s2, rfl, rfl, rfl, hs⟩
  | error e => exact Or.inr ⟨e, s, s2, rfl, rfl, hs⟩

theorem lookup_attributesButType (e : XmlElement) (a : String) (ha : a ≠ ATTRIB_TYPE) :
    (attributesButType e).lookup a = e.Attributes.lookup a := by
  unfold attributesButType
  induction e.Attributes with
  | nil => rfl
  | cons p ps ih =>
    obtain ⟨k, v⟩ := p
    by_cases hk : k = ATTRIB_TYPE
    · subst hk
      have hne : (a == ATTRIB_TYPE) = false := by simpa using ha
      rw [List.filter_cons_of_neg (by simp), List.lookup_cons, hne]
      exact ih
    · rw [List.filter_cons_of_pos (by simpa using hk), List.lookup_cons, List.lookup_cons, ih]

theorem EndAlike.pure_alike {σ α : Type} {S : σ → σ → Prop} {R : α → α → Prop} (a a2 : α)
    (h : R a a2) : EndAlike S R (pure a : Op σ α) (pure a2) := by
  intro s s2 hs
  exact Or.inl ⟨a, a2, s, s2, rfl, rfl, h, hs⟩

/-- Whatever relates the states, if reading an attribute keeps them related and
gives the same text, evaluating a constructor argument does. -/
theorem evalArgument_alike_of {Keys : Type} {S : ReadState Keys → ReadState Keys → Prop}
    (hitem : ∀ a : ButtonArgument,
      EndAlike S Eq (ReaderItem a.Attribute : Op (ReadState Keys) (Option String))
        (ReaderItem a.Attribute))
    (a : ButtonArgument) (args : ActionButtonConfig) :
    EndAlike S Eq (evalArgument a args : Op (ReadState Keys) ActionButtonConfig)
      (evalArgument a args) := by
  cases a with
  | Num =>
    unfold evalArgument
    exact EndAlike.bind_eq (hitem ButtonArgument.Num) (fun _ =>
      EndAlike.bind_eq (EndAlike.ofExcept _) (fun _ => EndAlike.pure_alike _ _ rfl))
  | ButtonType =>
    unfold evalArgument
    exact EndAlike.bind_eq (hitem ButtonArgument.ButtonType) (fun _ => EndAlike.pure_alike _ _ rfl)
  | Name =>
    unfold evalArgument
    exact EndAlike.bind_eq (hitem ButtonArgument.Name) (fun _ => EndAlike.pure_alike _ _ rfl)
  | NumOfSameName =>
    unfold evalArgument
    exact EndAlike.bind_eq (hitem ButtonArgument.NumOfSameName) (fun _ =>
      EndAlike.bind_eq (EndAlike.ofExcept _) (fun _ => EndAlike.pure_alike _ _ rfl))

theorem evalArguments_alike_of {Keys : Type} {S : ReadState Keys → ReadState Keys → Prop}
    (hitem : ∀ a : ButtonArgument,
      EndAlike S Eq (ReaderItem a.Attribute : Op (ReadState Keys) (Option String))
        (ReaderItem a.Attribute))
    (order : List ButtonArgument) (args : ActionButtonConfig) :
    EndAlike S Eq (evalArguments order args : Op (ReadState Keys) ActionButtonConfig)
      (evalArguments order args) := by
  induction order generalizing args with
  | nil => exact EndAlike.pure_alike _ _ rfl
  | cons a rest ih =>
    unfold evalArguments
    exact EndAlike.bind_eq (evalArgument_alike_of hitem a args) (fun r => ih r)

theorem Retyped.lookup {e e2 : XmlElement} (h : Retyped e e2) (a : String)
    (ha : a ≠ ATTRIB_TYPE) : e2.Attributes.lookup a = e.Attributes.lookup a := by
  rw [← lookup_attributesButType e2 a ha, ← lookup_attributesButType e a ha, h.2]

end

section

variable [Globalization] [ArgumentOrder]

/-! ## The calls WriteXml makes whatever it throws later -/

/-- The calls of WriteXml up to the start of the action button sets are made
whether or not a button without name makes it throw afterwards. -/
theorem WriteXml_snd_fixed {Keys : Type} (api : Collaborators Keys) (r : OgreClientConfig Keys) :
    (WriteXml api r).2 =
      (WriteXml_engine r).2 ++ ((WriteXml_input r).2 ++ ((WriteXml_keybinding r).2 ++
      ((WriteXml_keys_movement api r).2 ++ ((WriteXml_keys_modifiers api r).2 ++
      ((WriteXml_keys_targetting api r).2 ++ ((WriteXml_keys_others api r).2 ++
      ((WriteXml_keys_actions api r).2 ++
        (XmlEvent.EndElement ::
          (WriteXml_actionbuttonsets r >>= fun _ => WriteEndElement).2)))))))) := by
  simp only [WriteXml, Emit.bind_snd_of_ok _ _ () (WriteXml_engine_fst r),
    Emit.bind_snd_of_ok _ _ () (WriteXml_input_fst r),
    Emit.bind_snd_of_ok _ _ () (WriteXml_keybinding_fst r),
    Emit.bind_snd_of_ok _ _ () (WriteXml_keys_movement_fst api r),
    Emit.bind_snd_of_ok _ _ () (WriteXml_keys_modifiers_fst api r),
    Emit.bind_snd_of_ok _ _ () (WriteXml_keys_targetting_fst api r),
    Emit.bind_snd_of_ok _ _ () (WriteXml_keys_others_fst api r),
    Emit.bind_snd_of_ok _ _ () (WriteXml_keys_actions_fst api r), WriteEndElement_bind_snd]

theorem WriteXml_elements_fixed {Keys : Type} (api : Collaborators Keys)
    (r : OgreClientConfig Keys) :
    ∃ tail : List XmlElement, elementsOf (WriteXml api r).2 =
      elementsOf (WriteXml_engine r).2 ++ (elementsOf (WriteXml_input r).2 ++
      (elementsOf (WriteXml_keybinding r).2 ++ (elementsOf (WriteXml_keys_movement api r).2 ++
      (elementsOf (WriteXml_keys_modifiers api r).2 ++
      (elementsOf (WriteXml_keys_targetting api r).2 ++
      (elementsOf (WriteXml_keys_others api r).2 ++
      (elementsOf (WriteXml_keys_actions api r).2 ++ tail))))))) := by
  refine ⟨elementsOf (WriteXml_actionbuttonsets r >>= fun _ => WriteEndElement).2, ?_⟩
  rw [WriteXml_snd_fixed api r]
  rw [elementsOf_append _ _ (WriteXml_input_leading r _),
    elementsOf_append _ _ (WriteXml_keybinding_leading r _),
    elementsOf_append _ _ (WriteXml_keys_movement_leading api r _),
    elementsOf_append _ _ (WriteXml_keys_modifiers_leading api r _),
    elementsOf_append _ _ (WriteXml_keys_targetting_leading api r _),
    elementsOf_append _ _ (WriteXml_keys_others_leading api r _),
    elementsOf_append _ _ (WriteXml_keys_actions_leading api r _),
    elementsOf_append _ _ (show leadingAttributes
      (XmlEvent.EndElement :: (WriteXml_actionbuttonsets r >>= fun _ => WriteEndElement).2) = []
      from rfl)]
  rfl

theorem seekElement_append_of_some (tag : String) (l rest : List XmlElement) (e : XmlElement)
    (es : List XmlElement) (h : seekElement tag l = some (e, es)) :
    seekElement tag (l ++ rest) = some (e, es ++ rest) := by
  induction l with
  | nil => cases h
  | cons a as ih =>
    simp only [List.cons_append, seekElement] at h ⊢
    by_cases ha : a.Name = tag
    · simp only [ha, if_true, Option.some.injEq, Prod.mk.injEq] at h ⊢
      exact ⟨h.1, by rw [h.2]; rfl⟩
    · simp only [ha, if_false] at h ⊢
      exact ih h

theorem seekElement_append_of_none (tag : String) (l rest : List XmlElement)
    (h : seekElement tag l = none) : seekElement tag (l ++ rest) = seekElement tag rest := by
  induction l with
  | nil => rfl
  | cons a as ih =>
    simp only [List.cons_append, seekElement] at h ⊢
    by_cases ha : a.Name = tag
    · simp [ha] at h
    · simp only [ha, if_false] at h ⊢
      exact ih h

/-! ## The elements of the fixed part of the document -/

theorem WriteXml_engine_elements {Keys : Type} (r : OgreClientConfig Keys) :
    elementsOf (WriteXml_engine r).2 =
      [XmlElement.mk TAG_ENGINE [],
      XmlElement.mk TAG_DISPLAY [(ATTRIB_VALUE, Int32.ToString r.Display)],
      XmlElement.mk TAG_RESOLUTION [(ATTRIB_VALUE, r.Resolution.getD "")],
      XmlElement.mk TAG_WINDOWMODE [(ATTRIB_ENABLED, ToLower (Boolean.ToString r.WindowMode))],
      XmlElement.mk TAG_WINDOWFRAME [(ATTRIB_ENABLED, ToLower (Boolean.ToString r.WindowFrame))],
      XmlElement.mk TAG_VSYNC [(ATTRIB_ENABLED, ToLower (Boolean.ToString r.VSync))],
      XmlElement.mk TAG_FSAA [(ATTRIB_VALUE, r.FSAA.getD "")],
      XmlElement.mk TAG_NOMIPMAPS [(ATTRIB_VALUE, ToLower (Boolean.ToString r.NoMipmaps))],
      XmlElement.mk TAG_TEXTUREFILTERING [(ATTRIB_VALUE, r.TextureFiltering.getD "")],
      XmlElement.mk TAG_IMAGEBUILDER [(ATTRIB_VALUE, r.ImageBuilder.getD "")],
      XmlElement.mk TAG_BITMAPSCALING [(ATTRIB_VALUE, r.BitmapScaling.getD "")],
      XmlElement.mk TAG_TEXTUREQUALITY [(ATTRIB_VALUE, r.TextureQuality.getD "")],
      XmlElement.mk TAG_DECORATIONINTENSITY [(ATTRIB_VALUE, Int32.ToString r.DecorationIntensity)],
      XmlElement.mk TAG_DECORATIONQUALITY [(ATTRIB_VALUE, Int32.ToString r.DecorationQuality)],
      XmlElement.mk TAG_DISABLENEWROOMTEXTURES [(ATTRIB_VALUE, ToLower (Boolean.ToString r.DisableNewRoomTextures))],
      XmlElement.mk TAG_DISABLE3DMODELS [(ATTRIB_VALUE, ToLower (Boolean.ToString r.Disable3DModels))],
      XmlElement.mk TAG_DISABLENEWSKY [(ATTRIB_VALUE, ToLower (Boolean.ToString r.DisableNewSky))],
      XmlElement.mk TAG_DISABLEWEATHEREFFECTS [(ATTRIB_VALUE, ToLower (Boolean.ToString r.DisableWeatherEffects))],
      XmlElement.mk TAG_WEATHERPARTICLES [(ATTRIB_VALUE, ToLower (Int32.ToString r.WeatherParticles))],
      XmlElement.mk TAG_MUSICVOLUME [(ATTRIB_VALUE, Int32.ToString r.MusicVolume)],
      XmlElement.mk TAG_DISABLELOOPSOUNDS [(ATTRIB_VALUE, ToLower (Boolean.ToString r.DisableLoopSounds))]] := by
  simp only [WriteXml_engine, WriteStartElement_bind_snd, WriteAttributeString_bind_snd,
    WriteEndElement_bind_snd, WriteEndElement_snd, WriteAttributeString_snd, elementsOf,
    leadingAttributes, Option.getD_some, List.cons_append, List.nil_append]

theorem WriteXml_input_elements {Keys : Type} (r : OgreClientConfig Keys) :
    elementsOf (WriteXml_input r).2 =
      [XmlElement.mk TAG_INPUT [],
      XmlElement.mk TAG_MOUSEAIMSPEED [(ATTRIB_VALUE, Int32.ToString r.MouseAimSpeed)],
      XmlElement.mk TAG_KEYROTATESPEED [(ATTRIB_VALUE, Int32.ToString r.KeyRotateSpeed)],
      XmlElement.mk TAG_INVERTMOUSEY [(ATTRIB_VALUE, Boolean.ToString r.InvertMouseY)]] := by
  simp only [WriteXml_input, WriteStartElement_bind_snd, WriteAttributeString_bind_snd,
    WriteEndElement_bind_snd, WriteEndElement_snd, WriteAttributeString_snd, elementsOf,
    leadingAttributes, Option.getD_some, List.cons_append, List.nil_append]

theorem WriteXml_keybinding_elements {Keys : Type} (r : OgreClientConfig Keys) :
    elementsOf (WriteXml_keybinding r).2 =
      [XmlElement.mk TAG_KEYBINDING [(ATTRIB_RIGHTCLICKACTION, Int32.ToString r.KeyBinding.RightClickAction)]] := by
  simp only [WriteXml_keybinding, WriteStartElement_bind_snd, WriteAttributeString_bind_snd,
    WriteEndElement_bind_snd, WriteEndElement_snd, WriteAttributeString_snd, elementsOf,
    leadingAttributes, Option.getD_some, List.cons_append, List.nil_append]

theorem WriteXml_keys_movement_elements {Keys : Type} (api : Collaborators Keys) (r : OgreClientConfig Keys) :
    elementsOf (WriteXml_keys_movement api r).2 =
      [XmlElement.mk TAG_MOVEFORWARD [(ATTRIB_KEY, api.ToString r.KeyBinding.MoveForward)],
      XmlElement.mk TAG_MOVEBACKWARD [(ATTRIB_KEY, api.ToString r.KeyBinding.MoveBackward)],
      XmlElement.mk TAG_MOVELEFT [(ATTRIB_KEY, api.ToString r.KeyBinding.MoveLeft)],
      XmlElement.mk TAG_MOVERIGHT [(ATTRIB_KEY, api.ToString r.KeyBinding.MoveRight)],
      XmlElement.mk TAG_ROTATELEFT [(ATTRIB_KEY, api.ToString r.KeyBinding.RotateLeft)],
      XmlElement.mk TAG_ROTATERIGHT [(ATTRIB_KEY, api.ToString r.KeyBinding.RotateRight)]] := by
  simp only [WriteXml_keys_movement, WriteStartElement_bind_snd, WriteAttributeString_bind_snd,
    WriteEndElement_bind_snd, WriteEndElement_snd, WriteAttributeString_snd, elementsOf,
    leadingAttributes, Option.getD_some, List.cons_append, List.nil_append]

theorem WriteXml_keys_modifiers_elements {Keys : Type} (api : Collaborators Keys) (r : OgreClientConfig Keys) :
    elementsOf (WriteXml_keys_modifiers api r).2 =
      [XmlElement.mk TAG_WALK [(ATTRIB_KEY, api.ToString r.KeyBinding.Walk)],
      XmlElement.mk TAG_AUTOMOVE [(ATTRIB_KEY, api.ToString r.KeyBinding.AutoMove)]] := by
  simp only [WriteXml_keys_modifiers, WriteStartElement_bind_snd, WriteAttributeString_bind_snd,
    WriteEndElement_bind_snd, WriteEndElement_snd, WriteAttributeString_snd, elementsOf,
    leadingAttributes, Option.getD_some, List.cons_append, List.nil_append]

theorem WriteXml_keys_targetting_elements {Keys : Type} (api : Collaborators Keys) (r : OgreClientConfig Keys) :
    elementsOf (WriteXml_keys_targetting api r).2 =
      [XmlElement.mk TAG_NEXTTARGET [(ATTRIB_KEY, api.ToString r.KeyBinding.NextTarget)],
      XmlElement.mk TAG_SELFTARGET [(ATTRIB_KEY, api.ToString r.KeyBinding.SelfTarget)]] := by
  simp only [WriteXml_keys_targetting, WriteStartElement_bind_snd, WriteAttributeString_bind_snd,
    WriteEndElement_bind_snd, WriteEndElement_snd, WriteAttributeString_snd, elementsOf,
    leadingAttributes, Option.getD_some, List.cons_append, List.nil_append]

theorem WriteXml_keys_others_elements {Keys : Type} (api : Collaborators Keys) (r : OgreClientConfig Keys) :
    elementsOf (WriteXml_keys_others api r).2 =
      [XmlElement.mk TAG_OPEN [(ATTRIB_KEY, api.ToString r.KeyBinding.ReqGo)],
      XmlElement.mk TAG_CLOSE [(ATTRIB_KEY, api.ToString r.KeyBinding.Close)]] := by
  simp only [WriteXml_keys_others, WriteStartElement_bind_snd, WriteAttributeString_bind_snd,
    WriteEndElement_bind_snd, WriteEndElement_snd, WriteAttributeString_snd, elementsOf,
    leadingAttributes, Option.getD_some, List.cons_append, List.nil_append]

theorem WriteXml_keys_actions_elements {Keys : Type} (api : Collaborators Keys) (r : OgreClientConfig Keys) :
    elementsOf (WriteXml_keys_actions api r).2 =
      [XmlElement.mk TAG_ACTION01 [(ATTRIB_KEY, api.ToString r.KeyBinding.ActionButton01)],
      XmlElement.mk TAG_ACTION02 [(ATTRIB_KEY, api.ToString r.KeyBinding.ActionButton02)],
      XmlElement.mk TAG_ACTION03 [(ATTRIB_KEY, api.ToString r.KeyBinding.ActionButton03)],
      XmlElement.mk TAG_ACTION04 [(ATTRIB_KEY, api.ToString r.KeyBinding.ActionButton04)],
      XmlElement.mk TAG_ACTION05 [(ATTRIB_KEY, api.ToString r.KeyBinding.ActionButton05)],
      XmlElement.mk TAG_ACTION06 [(ATTRIB_KEY, api.ToString r.KeyBinding.ActionButton06)],
      XmlElement.mk TAG_ACTION07 [(ATTRIB_KEY, api.ToString r.KeyBinding.ActionButton07)],
      XmlElement.mk TAG_ACTION08 [(ATTRIB_KEY, api.ToString r.KeyBinding.ActionButton08)],
      XmlElement.mk TAG_ACTION09 [(ATTRIB_KEY, api.ToString r.KeyBinding.ActionButton09)],
      XmlElement.mk TAG_ACTION10 [(ATTRIB_KEY, api.ToString r.KeyBinding.ActionButton10)],
      XmlElement.mk TAG_ACTION11 [(ATTRIB_KEY, api.ToString r.KeyBinding.ActionButton11)],
      XmlElement.mk TAG_ACTION12 [(ATTRIB_KEY, api.ToString r.KeyBinding.ActionButton12)],
      XmlElement.mk TAG_ACTION13 [(ATTRIB_KEY, api.ToString r.KeyBinding.ActionButton13)],
      XmlElement.mk TAG_ACTION14 [(ATTRIB_KEY, api.ToString r.KeyBinding.ActionButton14)],
      XmlElement.mk TAG_ACTION15 [(ATTRIB_KEY, api.ToString r.KeyBinding.ActionButton15)],
      XmlElement.mk TAG_ACTION16 [(ATTRIB_KEY, api.ToString r.KeyBinding.ActionButton16)],
      XmlElement.mk TAG_ACTION17 [(ATTRIB_KEY, api.ToString r.KeyBinding.ActionButton17)],
      XmlElement.mk TAG_ACTION18 [(ATTRIB_KEY, api.ToString r.KeyBinding.ActionButton18)],
      XmlElement.mk TAG_ACTION19 [(ATTRIB_KEY, api.ToString r.KeyBinding.ActionButton19)],
      XmlElement.mk TAG_ACTION20 [(ATTRIB_KEY, api.ToString r.KeyBinding.ActionButton20)],
      XmlElement.mk TAG_ACTION21 [(ATTRIB_KEY, api.ToString r.KeyBinding.ActionButton21)],
      XmlElement.mk TAG_ACTION22 [(ATTRIB_KEY, api.ToString r.KeyBinding.ActionButton22)],
      XmlElement.mk TAG_ACTION23 [(ATTRIB_KEY, api.ToString r.KeyBinding.ActionButton23)],
      XmlElement.mk TAG_ACTION24 [(ATTRIB_KEY, api.ToString r.KeyBinding.ActionButton24)],
      XmlElement.mk TAG_ACTION25 [(ATTRIB_KEY, api.ToString r.KeyBinding.ActionButton25)],
      XmlElement.mk TAG_ACTION26 [(ATTRIB_KEY, api.ToString r.KeyBinding.ActionButton26)],
      XmlElement.mk TAG_ACTION27 [(ATTRIB_KEY, api.ToString r.KeyBinding.ActionButton27)],
      XmlElement.mk TAG_ACTION28 [(ATTRIB_KEY, api.ToString r.KeyBinding.ActionButton28)],
      XmlElement.mk TAG_ACTION29 [(ATTRIB_KEY, api.ToString r.KeyBinding.ActionButton29)],
      XmlElement.mk TAG_ACTION30 [(ATTRIB_KEY, api.ToString r.KeyBinding.ActionButton30)],
      XmlElement.mk TAG_ACTION31 [(ATTRIB_KEY, api.ToString r.KeyBinding.ActionButton31)],
      XmlElement.mk TAG_ACTION32 [(ATTRIB_KEY, api.ToString r.KeyBinding.ActionButton32)],
      XmlElement.mk TAG_ACTION33 [(ATTRIB_KEY, api.ToString r.KeyBinding.ActionButton33)],
      XmlElement.mk TAG_ACTION34 [(ATTRIB_KEY, api.ToString r.KeyBinding.ActionButton34)],
      XmlElement.mk TAG_ACTION35 [(ATTRIB_KEY, api.ToString r.KeyBinding.ActionButton35)],
      XmlElement.mk TAG_ACTION36 [(ATTRIB_KEY, api.ToString r.KeyBinding.ActionButton36)],
      XmlElement.mk TAG_ACTION37 [(ATTRIB_KEY, api.ToString r.KeyBinding.ActionButton37)],
      XmlElement.mk TAG_ACTION38 [(ATTRIB_KEY, api.ToString r.KeyBinding.ActionButton38)],
      XmlElement.mk TAG_ACTION39 [(ATTRIB_KEY, api.ToString r.KeyBinding.ActionButton39)],
      XmlElement.mk TAG_ACTION40 [(ATTRIB_KEY, api.ToString r.KeyBinding.ActionButton40)],
      XmlElement.mk TAG_ACTION41 [(ATTRIB_KEY, api.ToString r.KeyBinding.ActionButton41)],
      XmlElement.mk TAG_ACTION42 [(ATTRIB_KEY, api.ToString r.KeyBinding.ActionButton42)],
      XmlElement.mk TAG_ACTION43 [(ATTRIB_KEY, api.ToString r.KeyBinding.ActionButton43)],
      XmlElement.mk TAG_ACTION44 [(ATTRIB_KEY, api.ToString r.KeyBinding.ActionButton44)],
      XmlElement.mk TAG_ACTION45 [(ATTRIB_KEY, api.ToString r.KeyBinding.ActionButton45)],
      XmlElement.mk TAG_ACTION46 [(ATTRIB_KEY, api.ToString r.KeyBinding.ActionButton46)],
      XmlElement.mk TAG_ACTION47 [(ATTRIB_KEY, api.ToString r.KeyBinding.ActionButton47)],
      XmlElement.mk TAG_ACTION48 [(ATTRIB_KEY, api.ToString r.KeyBinding.ActionButton48)]] := by
  simp only [WriteXml_keys_actions, WriteStartElement_bind_snd, WriteAttributeString_bind_snd,
    WriteEndElement_bind_snd, WriteEndElement_snd, WriteAttributeString_snd, elementsOf,
    leadingAttributes, Option.getD_some, List.cons_append, List.nil_append]

/-- The text WriteXml writes for a field of the engine or of the input section is
the text found in the elements of these two sections. -/
theorem writtenAttribute_sections {Keys : Type} (api : Collaborators Keys)
    (r : OgreClientConfig Keys) (tag attrName : String) (e : XmlElement) (es : List XmlElement)
    (h : seekElement tag (elementsOf (WriteXml_engine r).2 ++ elementsOf (WriteXml_input r).2) =
      some (e, es)) :
    writtenAttribute (WriteXml api r).2 tag attrName = e.Attributes.lookup attrName := by
  obtain ⟨tail, ht⟩ := WriteXml_elements_fixed api r
  unfold writtenAttribute
  rw [ht, ← List.append_assoc, seekElement_append_of_some _ _ _ _ _ h]

end

/-- C11: for every record, WriteXml writes the nine boolean members WindowMode,
WindowFrame, VSync, NoMipmaps, DisableNewRoomTextures, Disable3DModels, DisableNewSky,
DisableWeatherEffects and DisableLoopSounds as the lower-case texts "true" and
"false", but writes InvertMouseY, the one member whose `ToString()` is not followed
by `ToLower()`, as "True" or "False"; for the sample record, whose InvertMouseY is
true, the text written is "True", which is neither "true" nor "false". -/
theorem C11_InvertMouseY_written_capitalised :
    (∀ (Keys : Type) (api : Collaborators Keys) (r : OgreClientConfig Keys),
      writtenAttribute (WriteXml api r).2 TAG_WINDOWMODE ATTRIB_ENABLED =
        some (if r.WindowMode then "true" else "false") ∧
      writtenAttribute (WriteXml api r).2 TAG_WINDOWFRAME ATTRIB_ENABLED =
        some (if r.WindowFrame then "true" else "false") ∧
      writtenAttribute (WriteXml api r).2 TAG_VSYNC ATTRIB_ENABLED =
        some (if r.VSync then "true" else "false") ∧
      writtenAttribute (WriteXml api r).2 TAG_NOMIPMAPS ATTRIB_VALUE =
        some (if r.NoMipmaps then "true" else "false") ∧
      writtenAttribute (WriteXml api r).2 TAG_DISABLENEWROOMTEXTURES ATTRIB_VALUE =
        some (if r.DisableNewRoomTextures then "true" else "false") ∧
      writtenAttribute (WriteXml api r).2 TAG_DISABLE3DMODELS ATTRIB_VALUE =
        some (if r.Disable3DModels then "true" else "false") ∧
      writtenAttribute (WriteXml api r).2 TAG_DISABLENEWSKY ATTRIB_VALUE =
        some (if r.DisableNewSky then "true" else "false") ∧
      writtenAttribute (WriteXml api r).2 TAG_DISABLEWEATHEREFFECTS ATTRIB_VALUE =
        some (if r.DisableWeatherEffects then "true" else "false") ∧
      writtenAttribute (WriteXml api r).2 TAG_DISABLELOOPSOUNDS ATTRIB_VALUE =
        some (if r.DisableLoopSounds then "true" else "false") ∧
      writtenAttribute (WriteXml api r).2 TAG_INVERTMOUSEY ATTRIB_VALUE =
        some (if r.InvertMouseY then "True" else "False")) ∧
    sampleConfig.InvertMouseY = true ∧
    writtenAttribute (WriteXml sampleApi sampleConfig).2 TAG_INVERTMOUSEY ATTRIB_VALUE =
      some "True" ∧
    "True" ≠ "true" ∧ "True" ≠ "false" := by
  have key : ∀ (Keys : Type) (api : Collaborators Keys) (r : OgreClientConfig Keys)
      (tag attrName : String) (e : XmlElement) (es : List XmlElement),
      seekElement tag
        (elementsOf (WriteXml_engine r).2 ++ elementsOf (WriteXml_input r).2) = some (e, es) →
      writtenAttribute (WriteXml api r).2 tag attrName = e.Attributes.lookup attrName :=
    fun Keys api r => writtenAttribute_sections api r
  refine ⟨?_, rfl, ?_, by decide, by decide⟩
  · intro Keys api r
    simp only [← ToLower_Boolean_ToString]
    have hin : (if r.InvertMouseY then "True" else "False") = Boolean.ToString r.InvertMouseY :=
      rfl
    rw [hin]
    refine ⟨?_, ?_, ?_, ?_, ?_, ?_, ?_, ?_, ?_, ?_⟩ <;>
    · rw [key Keys api r _ _ _ _
        (by rw [WriteXml_engine_elements, WriteXml_input_elements]; rfl)]
      rfl
  · rw [key _ sampleApi sampleConfig _ _ _ _
      (by rw [WriteXml_engine_elements, WriteXml_input_elements]; rfl)]
    rfl

/-- C15: there is a record with a button named "FireBall" on which WriteXml returns
normally and on whose document ReadXml, run on a newly constructed record, returns
normally and leaves a record different from the original: the name read back is
"fireball", the lower case of "FireBall". -/
theorem C15_mixed_case_name_not_restored :
    ∃ (r fresh : OgreClientConfig SampleKeys) (set : ActionButtonList) (b : ActionButtonConfig),
      r.ActionButtonSets = [set] ∧ set.Items = [b] ∧ b.Name = some "FireBall" ∧
      fresh.ActionButtonSets = [] ∧
      (WriteXml sampleApi r).1 = Except.ok () ∧
      ((ReadXml sampleApi).run ⟨fresh, ⟨none, elementsOf (WriteXml sampleApi r).2, []⟩⟩).1 =
        Except.ok () ∧
      ((ReadXml sampleApi).run ⟨fresh, ⟨none, elementsOf (WriteXml sampleApi r).2,
        []⟩⟩).2.This ≠ r ∧
      ((ReadXml sampleApi).run ⟨fresh, ⟨none, elementsOf (WriteXml sampleApi r).2,
        []⟩⟩).2.This.ActionButtonSets =
        [{ set with Items := [{ b with Name := some "fireball" }] }] ∧
      ToLower "FireBall" = "fireball" := by
  have hn : NamesPresent fireBallConfig := by unfold NamesPresent; decide
  have h := ReadXml_WriteXml_fresh sampleApi sampleApi_roundtrip fireBallConfig freshConfig
    hn (by unfold CountsFit; decide) rfl none [] []
  rw [List.append_nil] at h
  refine ⟨fireBallConfig, freshConfig, ⟨some "Alice", [fireBallButton]⟩, fireBallButton,
    rfl, rfl, rfl, rfl, WriteXml_ok _ _ hn, ?_, ?_, ?_, by decide⟩
  · rw [h]
  · rw [h]
    intro hEq
    have hsets := congrArg OgreClientConfig.ActionButtonSets hEq
    exact absurd hsets (by decide)
  · rw [h]
    decide

section

variable [Globalization] [ArgumentOrder]

/-! ## The button type texts -/

/-- C20, as amended: in every culture WriteXml writes as type attribute of a button
the lower case, by the culture of the thread, of the name of its type; for Unset,
Spell and Action that text is "unset", "spell" and "action" and GetButtonType
applied to it returns the type; for Item, GetButtonType returns Item exactly when
the culture lower-cases the letter `I` to `i` (the text is then "item"), and
returns Unset in the cultures that do not. -/
theorem C20_GetButtonType_of_written_type :
    (∀ (t : ActionButtonType) (Num : Int32) (n : String) (NumOfSameName : UInt32),
      (WriteXml_actionbutton [⟨Num, t, some n, NumOfSameName⟩]).2 =
        [XmlEvent.StartElement TAG_ACTIONBUTTON,
          XmlEvent.Attribute ATTRIB_NUM (Int32.ToString Num),
          XmlEvent.Attribute ATTRIB_TYPE (ToLower (ActionButtonType.ToString t)),
          XmlEvent.Attribute XMLATTRIB_NAME (ToLower n),
          XmlEvent.Attribute ATTRIB_NUMOFSAMENAME (UInt32.ToString NumOfSameName),
          XmlEvent.EndElement]) ∧
    (∀ t : ActionButtonType, t ≠ ActionButtonType.Item →
      GetButtonType (some (ToLower (ActionButtonType.ToString t))) = t) ∧
    (GetButtonType (some (ToLower (ActionButtonType.ToString ActionButtonType.Item))) =
      ActionButtonType.Item ↔ Globalization.lowerChar 'I' = 'i') ∧
    (Globalization.lowerChar 'I' ≠ 'i' →
      GetButtonType (some (ToLower (ActionButtonType.ToString ActionButtonType.Item))) =
        ActionButtonType.Unset) ∧
    ToLower (ActionButtonType.ToString ActionButtonType.Unset) = "unset" ∧
    ToLower (ActionButtonType.ToString ActionButtonType.Spell) = "spell" ∧
    ToLower (ActionButtonType.ToString ActionButtonType.Action) = "action" ∧
    (Globalization.lowerChar 'I' = 'i' →
      ToLower (ActionButtonType.ToString ActionButtonType.Item) = "item") := by
  refine ⟨fun t Num n NumOfSameName => rfl, ?_, ?_, ?_, ?_, ?_, ?_, ?_⟩
  · intro t ht
    exact GetButtonType_ToLower_ToString t (fun h => absurd h ht)
  · rw [GetButtonType_ToLower_Item]
    by_cases h : Globalization.lowerChar 'I' = 'i'
    · simp [h]
    · simp [h]
  · intro h
    rw [GetButtonType_ToLower_Item, if_neg h]
  · rw [ToLower_ascii _ (by decide)]
    decide
  · rw [ToLower_ascii _ (by decide)]
    decide
  · rw [ToLower_ascii _ (by decide)]
    decide
  · intro h
    rw [ToLower_Item, h]

end

/-- C20, counterexample: in the Turkish culture the lower case of `I` is the dotless
i (U+0131), so the type attribute WriteXml writes for a button of type Item is not
"item", and GetButtonType applied to the text written returns Unset, not Item. -/
theorem C20_Turkish_Item_read_as_Unset :
    (@WriteXml_actionbutton turkishGlobalization
      [⟨⟨2, by decide⟩, ActionButtonType.Item, some "mace", ⟨1, by decide⟩⟩]).2 =
      [XmlEvent.StartElement TAG_ACTIONBUTTON,
        XmlEvent.Attribute ATTRIB_NUM "2",
        XmlEvent.Attribute ATTRIB_TYPE (String.mk [Char.ofNat 305, 't', 'e', 'm']),
        XmlEvent.Attribute XMLATTRIB_NAME "mace",
        XmlEvent.Attribute ATTRIB_NUMOFSAMENAME "1",
        XmlEvent.EndElement] ∧
    @ToLower turkishGlobalization (ActionButtonType.ToString ActionButtonType.Item) =
      String.mk [Char.ofNat 305, 't', 'e', 'm'] ∧
    @ToLower turkishGlobalization (ActionButtonType.ToString ActionButtonType.Item) ≠ "item" ∧
    GetButtonType (some (@ToLower turkishGlobalization
      (ActionButtonType.ToString ActionButtonType.Item))) = ActionButtonType.Unset ∧
    GetButtonType (some (@ToLower turkishGlobalization
      (ActionButtonType.ToString ActionButtonType.Item))) ≠ ActionButtonType.Item := by
  refine ⟨by decide, by decide, by decide, by decide, by decide⟩

section

variable [Globalization] [ArgumentOrder]

/-! ## Rules for specifications -/

theorem Spec.bind_rule {σ α β : Type} {P : σ → Prop} {Q : α → σ → Prop} {R : β → σ → Prop}
    {E : Exception → σ → Prop} {m : Op σ α} {f : α → Op σ β} (hm : Spec P m Q E)
    (hf : ∀ a, Spec (Q a) (f a) R E) : Spec P (m >>= f) R E := by
  intro s hs
  rcases hrun : m.run s with ⟨out, t⟩
  cases out with
  | ok a =>
    rw [Op.run_bind_ok _ _ _ _ _ hrun]
    exact hf a t ((hm s hs).1 a t hrun)
  | error e =>
    rw [Op.run_bind_error _ _ _ _ _ hrun]
    constructor
    · intro a t2 h
      cases h
    · intro e2 t2 h
      cases h
      exact (hm s hs).2 e t hrun

theorem Spec.seq_rule {σ α β : Type} {P Q : σ → Prop} {R : β → σ → Prop}
    {E : Exception → σ → Prop} {m : Op σ α} {k : Op σ β} (hm : Spec P m (fun _ => Q) E)
    (hk : Spec Q k R E) : Spec P (m >>= fun _ => k) R E :=
  Spec.bind_rule hm (fun _ => hk)

theorem Spec.weaken {σ α : Type} {P P2 : σ → Prop} {Q Q2 : α → σ → Prop}
    {E E2 : Exception → σ → Prop} {m : Op σ α} (h : Spec P m Q E) (hP : ∀ s, P2 s → P s)
    (hQ : ∀ a s, Q a s → Q2 a s) (hE : ∀ e s, E e s → E2 e s) : Spec P2 m Q2 E2 := by
  intro s hs
  exact ⟨fun a t hr => hQ a t ((h s (hP s hs)).1 a t hr),
    fun e t hr => hE e t ((h s (hP s hs)).2 e t hr)⟩

theorem Spec.of_false {σ α : Type} (m : Op σ α) (Q : α → σ → Prop)
    (E : Exception → σ → Prop) : Spec (fun _ => False) m Q E :=
  fun _ h => nomatch h

theorem Spec.pure_rule {σ α : Type} (a : α) (P : σ → Prop) (E : Exception → σ → Prop) :
    Spec P (pure a : Op σ α) (fun _ => P) E := by
  intro s hs
  constructor
  · intro b t h
    cases h
    exact hs
  · intro e t h
    cases h

theorem ofExcept_spec {σ α : Type} (x : Except Exception α) (P : σ → Prop) :
    Spec P (Op.ofExcept x : Op σ α) (fun a s => P s ∧ x = Except.ok a)
      (fun e s => P s ∧ x = Except.error e) := by
  intro s hs
  constructor
  · intro a t h
    cases x with
    | ok b =>
      cases h
      exact ⟨hs, rfl⟩
    | error e => cases h
  · intro e t h
    cases x with
    | ok b => cases h
    | error e2 =>
      cases h
      exact ⟨hs, rfl⟩

theorem ReadToFollowing_spec {Keys : Type} (tag : String) (P : ReadState Keys → Prop)
    (E : Exception → ReadState Keys → Prop) :
    Spec P (ReadToFollowing tag)
      (fun found t => ∃ s, P s ∧ t = { s with Reader := (s.Reader.ReadToFollowing tag).2 } ∧
        found = (s.Reader.ReadToFollowing tag).1) E := by
  intro s hs
  constructor
  · intro a t h
    cases h
    exact ⟨s, hs, rfl, rfl⟩
  · intro e t h
    cases h

theorem ReaderItem_spec {Keys : Type} (name : String) (P : ReadState Keys → Prop)
    (E : Exception → ReadState Keys → Prop) :
    Spec P (ReaderItem name)
      (fun text t => ∃ s, P s ∧ text = s.Reader.Item name ∧
        t = { s with Reader := { s.Reader with
          Calls := s.Reader.Calls ++ [ReaderCall.GetAttribute name] } }) E := by
  intro s hs
  constructor
  · intro a t h
    cases h
    exact ⟨s, hs, rfl, rfl⟩
  · intro e t h
    cases h

theorem assign_spec {Keys : Type} (f : OgreClientConfig Keys → OgreClientConfig Keys)
    (P : ReadState Keys → Prop) (E : Exception → ReadState Keys → Prop) :
    Spec P (assign f) (fun _ t => ∃ s, P s ∧ t = { s with This := f s.This }) E := by
  intro s hs
  constructor
  · intro a t h
    cases h
    exact ⟨s, hs, rfl⟩
  · intro e t h
    cases h

/-- A field whose element is ahead and whose text converts is assigned the value. -/
theorem readField_found_spec {Keys α : Type} (convert : Option String → Except Exception α)
    (tag attrName : String) (set : α → OgreClientConfig Keys → OgreClientConfig Keys)
    (P : ReadState Keys → Prop) (Q : ReadState Keys → Prop)
    (E : Exception → ReadState Keys → Prop)
    (h : ∀ s, P s → ∃ e es v, seekElement tag s.Reader.Following = some (e, es) ∧
      convert (e.Attributes.lookup attrName) = Except.ok v ∧
      Q ⟨set v s.This, ⟨some e, es, s.Reader.Calls ++
        [ReaderCall.ReadToFollowing tag, ReaderCall.GetAttribute attrName]⟩⟩) :
    Spec P (readField convert tag attrName set) (fun _ t => Q t) E := by
  intro s hs
  obtain ⟨e, es, v, hseek, hconv, hq⟩ := h s hs
  have hrun : (readField convert tag attrName set).run s =
      (Except.ok (), ⟨set v s.This, ⟨some e, es, s.Reader.Calls ++
        [ReaderCall.ReadToFollowing tag, ReaderCall.GetAttribute attrName]⟩⟩) := by
    obtain ⟨this, ⟨cur, fol, calls⟩⟩ := s
    simp only at hseek
    simp only [readField, assignAttribute, Op.run, bind, Op.bind, ReadToFollowing,
      XmlReader.ReadToFollowing, hseek, ReaderItem, XmlReader.Item, hconv, Op.ofExcept, assign,
      List.append_assoc, List.cons_append, List.nil_append]
  rw [hrun]
  constructor
  · intro a t h2
    cases h2
    exact hq
  · intro e2 t h2
    cases h2

/-! ## What the statements of ReadXml keep -/

theorem Keeps.run {σ α : Type} {I : σ → Prop} {m : Op σ α} (h : Keeps I m) (s : σ) (hs : I s) :
    I (m.run s).2 := by
  rcases hrun : m.run s with ⟨out, t⟩
  cases out with
  | ok a => exact (h s hs).1 a t hrun
  | error e => exact (h s hs).2 e t hrun

theorem Keeps.bind_keeps {σ α β : Type} {I : σ → Prop} {m : Op σ α} {f : α → Op σ β}
    (hm : Keeps I m) (hf : ∀ a, Keeps I (f a)) : Keeps I (m >>= f) :=
  Spec.bind_rule hm hf

theorem Keeps.seq_keeps {σ α β : Type} {I : σ → Prop} {m : Op σ α} {k : Op σ β}
    (hm : Keeps I m) (hk : Keeps I k) : Keeps I (m >>= fun _ => k) :=
  Spec.bind_rule hm (fun _ => hk)

theorem Keeps.pure_keeps {σ α : Type} (I : σ → Prop) (a : α) : Keeps I (pure a : Op σ α) :=
  Spec.pure_rule a I _

theorem ofExcept_keeps {σ α : Type} (I : σ → Prop) (x : Except Exception α) :
    Keeps I (Op.ofExcept x : Op σ α) :=
  Spec.weaken (ofExcept_spec x I) (fun _ h => h) (fun _ _ h => h.1) (fun _ _ h => h.1)

/-- What every read of an attribute keeps, the evaluation of a constructor argument
keeps. -/
theorem evalArgument_keeps_of {Keys : Type} (I : ReadState Keys → Prop)
    (hitem : ∀ a : ButtonArgument,
      Keeps I (ReaderItem a.Attribute : Op (ReadState Keys) (Option String)))
    (a : ButtonArgument) (args : ActionButtonConfig) :
    Keeps I (evalArgument a args : Op (ReadState Keys) ActionButtonConfig) := by
  cases a with
  | Num =>
    unfold evalArgument
    exact Keeps.bind_keeps (hitem ButtonArgument.Num) (fun _ =>
      Keeps.bind_keeps (ofExcept_keeps _ _) (fun _ => Keeps.pure_keeps _ _))
  | ButtonType =>
    unfold evalArgument
    exact Keeps.bind_keeps (hitem ButtonArgument.ButtonType) (fun _ => Keeps.pure_keeps _ _)
  | Name =>
    unfold evalArgument
    exact Keeps.bind_keeps (hitem ButtonArgument.Name) (fun _ => Keeps.pure_keeps _ _)
  | NumOfSameName =>
    unfold evalArgument
    exact Keeps.bind_keeps (hitem ButtonArgument.NumOfSameName) (fun _ =>
      Keeps.bind_keeps (ofExcept_keeps _ _) (fun _ => Keeps.pure_keeps _ _))

theorem evalArguments_keeps_of {Keys : Type} (I : ReadState Keys → Prop)
    (hitem : ∀ a : ButtonArgument,
      Keeps I (ReaderItem a.Attribute : Op (ReadState Keys) (Option String)))
    (order : List ButtonArgument) (args : ActionButtonConfig) :
    Keeps I (evalArguments order args : Op (ReadState Keys) ActionButtonConfig) := by
  induction order generalizing args with
  | nil => exact Keeps.pure_keeps _ _
  | cons a rest ih =>
    unfold evalArguments
    exact Keeps.bind_keeps (evalArgument_keeps_of I hitem a args) (fun r => ih r)

/-- A property of the object alone is kept by a move of the reader. -/
theorem ReadToFollowing_keeps {Keys : Type} (I : OgreClientConfig Keys → Prop) (tag : String) :
    Keeps (fun s : ReadState Keys => I s.This) (ReadToFollowing tag) :=
  Spec.weaken (ReadToFollowing_spec tag _ _) (fun _ h => h)
    (fun _ _ h => by obtain ⟨s, hs, rfl, _⟩ := h; exact hs) (fun _ _ h => h)

theorem ReaderItem_keeps {Keys : Type} (I : OgreClientConfig Keys → Prop) (name : String) :
    Keeps (fun s : ReadState Keys => I s.This) (ReaderItem name) :=
  Spec.weaken (ReaderItem_spec name _ _) (fun _ h => h)
    (fun _ _ h => by obtain ⟨s, hs, _, rfl⟩ := h; exact hs) (fun _ _ h => h)

theorem assign_keeps {Keys : Type} (I : OgreClientConfig Keys → Prop)
    (f : OgreClientConfig Keys → OgreClientConfig Keys) (hf : ∀ r, I r → I (f r)) :
    Keeps (fun s : ReadState Keys => I s.This) (assign f) :=
  Spec.weaken (assign_spec f _ _) (fun _ h => h)
    (fun _ _ h => by obtain ⟨s, hs, rfl⟩ := h; exact hf _ hs) (fun _ _ h => h)

theorem assignAttribute_keeps {Keys α : Type} (I : OgreClientConfig Keys → Prop)
    (convert : Option String → Except Exception α) (attrName : String)
    (set : α → OgreClientConfig Keys → OgreClientConfig Keys)
    (hset : ∀ v r, I r → I (set v r)) :
    Keeps (fun s : ReadState Keys => I s.This) (assignAttribute convert attrName set) := by
  unfold assignAttribute
  refine Keeps.bind_keeps (ReaderItem_keeps I _) (fun text => ?_)
  refine Keeps.bind_keeps (ofExcept_keeps _ _) (fun v => ?_)
  exact assign_keeps I _ (hset v)

theorem readField_keeps {Keys α : Type} (I : OgreClientConfig Keys → Prop)
    (convert : Option String → Except Exception α) (tag attrName : String)
    (set : α → OgreClientConfig Keys → OgreClientConfig Keys)
    (hset : ∀ v r, I r → I (set v r)) :
    Keeps (fun s : ReadState Keys => I s.This) (readField convert tag attrName set) := by
  unfold readField
  exact Keeps.seq_keeps (ReadToFollowing_keeps I _) (assignAttribute_keeps I convert attrName set hset)

theorem ReadXml_actionbutton_keeps {Keys : Type} (I : OgreClientConfig Keys → Prop) (n : Nat)
    (acc : ActionButtonList) :
    Keeps (fun s : ReadState Keys => I s.This) (ReadXml_actionbutton n acc) := by
  induction n generalizing acc with
  | zero => exact Keeps.pure_keeps _ _
  | succ k ih =>
    unfold ReadXml_actionbutton
    refine Keeps.bind_keeps (ReadToFollowing_keeps I _) (fun _ => ?_)
    refine Keeps.bind_keeps (evalArguments_keeps_of _ (fun a => ReaderItem_keeps I a.Attribute) _ _) (fun _ => ?_)
    exact ih _

theorem ReadXml_actionbuttons_keeps {Keys : Type} (I : OgreClientConfig Keys → Prop)
    (hI : ∀ (r : OgreClientConfig Keys) (X : List ActionButtonList),
      I r → I { r with ActionButtonSets := X }) (n : Nat) :
    Keeps (fun s : ReadState Keys => I s.This) (ReadXml_actionbuttons n) := by
  induction n with
  | zero => exact Keeps.pure_keeps _ _
  | succ k ih =>
    unfold ReadXml_actionbuttons
    refine Keeps.bind_keeps (ReadToFollowing_keeps I _) (fun _ => ?_)
    refine Keeps.bind_keeps (ReaderItem_keeps I _) (fun _ => ?_)
    refine Keeps.bind_keeps (ReaderItem_keeps I _) (fun _ => ?_)
    refine Keeps.bind_keeps (ofExcept_keeps _ _) (fun _ => ?_)
    refine Keeps.bind_keeps (ReadXml_actionbutton_keeps I _ _) (fun _ => ?_)
    refine Keeps.bind_keeps (assign_keeps I _ (fun r hr => hI r _ hr)) (fun _ => ?_)
    exact ih

theorem ReadXml_actionbuttonsets_keeps {Keys : Type} (I : OgreClientConfig Keys → Prop)
    (hI : ∀ (r : OgreClientConfig Keys) (X : List ActionButtonList),
      I r → I { r with ActionButtonSets := X }) :
    Keeps (fun s : ReadState Keys => I s.This) ReadXml_actionbuttonsets := by
  unfold ReadXml_actionbuttonsets
  refine Keeps.bind_keeps (ReadToFollowing_keeps I _) (fun _ => ?_)
  refine Keeps.bind_keeps (ReaderItem_keeps I _) (fun _ => ?_)
  refine Keeps.bind_keeps (ofExcept_keeps _ _) (fun _ => ?_)
  exact ReadXml_actionbuttons_keeps I hI _

/-! ## The display value -/

/-- ReadXml leaves in Display the value of the display element it finds. -/
theorem ReadXml_Display {Keys : Type} (api : Collaborators Keys) (v : Int32)
    (doc : List XmlElement) (e1 e2 : XmlElement) (rest1 rest2 : List XmlElement)
    (hengine : seekElement TAG_ENGINE doc = some (e1, rest1))
    (hdisplay : seekElement TAG_DISPLAY rest1 = some (e2, rest2))
    (hvalue : e2.Attributes.lookup ATTRIB_VALUE = some (Int32.ToString v)) :
    Spec (fun s : ReadState Keys => s.Reader.Following = doc) (ReadXml api)
      (fun _ t => t.This.Display = v) (fun _ t => t.This.Display = v) := by
  have hI : ∀ (r : OgreClientConfig Keys) (X : List ActionButtonList),
      r.Display = v → ({ r with ActionButtonSets := X } : OgreClientConfig Keys).Display = v :=
    fun _ _ h => h
  have hengineChunk : Spec (fun s : ReadState Keys => s.Reader.Following = doc) ReadXml_engine
      (fun _ t => t.This.Display = v) (fun _ t => t.This.Display = v) := by
    unfold ReadXml_engine
    refine Spec.seq_rule (Q := fun t => t.Reader.Following = rest1)
      (Spec.weaken (ReadToFollowing_spec TAG_ENGINE _ _) (fun _ h => h) ?_ (fun _ _ h => h)) ?_
    · rintro _ t ⟨s, hs, rfl, _⟩
      simp only [XmlReader.ReadToFollowing, hs, hengine]
    refine Spec.seq_rule (Q := fun t => t.This.Display = v)
      (readField_found_spec _ _ _ _ _ _ _ ?_) ?_
    · intro s hs
      refine ⟨e2, rest2, v, by rw [hs]; exact hdisplay, by rw [hvalue]; exact ToInt32_ToString v,
        rfl⟩
    repeat (first
      | refine Keeps.seq_keeps (readField_keeps (fun r => r.Display = v) _ _ _ _ (fun _ _ h => h)) ?_
      | exact readField_keeps (fun r => r.Display = v) _ _ _ _ (fun _ _ h => h))
  have hinput : Keeps (fun s : ReadState Keys => s.This.Display = v) ReadXml_input := by
    unfold ReadXml_input
    refine Keeps.seq_keeps (ReadToFollowing_keeps (fun r => r.Display = v) _) ?_
    repeat (first
      | refine Keeps.seq_keeps (readField_keeps (fun r => r.Display = v) _ _ _ _ (fun _ _ h => h)) ?_
      | exact readField_keeps (fun r => r.Display = v) _ _ _ _ (fun _ _ h => h))
  have hkeybinding : Keeps (fun s : ReadState Keys => s.This.Display = v)
      (ReadXml_keybinding api) := by
    unfold ReadXml_keybinding
    refine Keeps.seq_keeps (ReadToFollowing_keeps (fun r => r.Display = v) _) ?_
    refine Keeps.seq_keeps (assign_keeps (fun r => r.Display = v) _ (fun _ h => h)) ?_
    exact assignAttribute_keeps (fun r => r.Display = v) _ _ _ (fun _ _ h => h)
  have hmovement : Keeps (fun s : ReadState Keys => s.This.Display = v)
      (ReadXml_keys_movement api) := by
    unfold ReadXml_keys_movement
    repeat (first
      | refine Keeps.seq_keeps (readField_keeps (fun r => r.Display = v) _ _ _ _ (fun _ _ h => h)) ?_
      | exact readField_keeps (fun r => r.Display = v) _ _ _ _ (fun _ _ h => h))
  have hmodifiers : Keeps (fun s : ReadState Keys => s.This.Display = v)
      (ReadXml_keys_modifiers api) := by
    unfold ReadXml_keys_modifiers
    repeat (first
      | refine Keeps.seq_keeps (readField_keeps (fun r => r.Display = v) _ _ _ _ (fun _ _ h => h)) ?_
      | exact readField_keeps (fun r => r.Display = v) _ _ _ _ (fun _ _ h => h))
  have htargetting : Keeps (fun s : ReadState Keys => s.This.Display = v)
      (ReadXml_keys_targetting api) := by
    unfold ReadXml_keys_targetting
    repeat (first
      | refine Keeps.seq_keeps (readField_keeps (fun r => r.Display = v) _ _ _ _ (fun _ _ h => h)) ?_
      | exact readField_keeps (fun r => r.Display = v) _ _ _ _ (fun _ _ h => h))
  have hothers : Keeps (fun s : ReadState Keys => s.This.Display = v)
      (ReadXml_keys_others api) := by
    unfold ReadXml_keys_others
    repeat (first
      | refine Keeps.seq_keeps (readField_keeps (fun r => r.Display = v) _ _ _ _ (fun _ _ h => h)) ?_
      | exact readField_keeps (fun r => r.Display = v) _ _ _ _ (fun _ _ h => h))
  have hactions : Keeps (fun s : ReadState Keys => s.This.Display = v)
      (ReadXml_keys_actions api) := by
    unfold ReadXml_keys_actions
    repeat (first
      | refine Keeps.seq_keeps (readField_keeps (fun r => r.Display = v) _ _ _ _ (fun _ _ h => h)) ?_
      | exact readField_keeps (fun r => r.Display = v) _ _ _ _ (fun _ _ h => h))
  unfold ReadXml
  refine Spec.seq_rule hengineChunk ?_
  refine Keeps.seq_keeps hinput ?_
  refine Keeps.seq_keeps hkeybinding ?_
  refine Keeps.seq_keeps hmovement ?_
  refine Keeps.seq_keeps hmodifiers ?_
  refine Keeps.seq_keeps htargetting ?_
  refine Keeps.seq_keeps hothers ?_
  refine Keeps.seq_keeps hactions ?_
  exact ReadXml_actionbuttonsets_keeps (fun r => r.Display = v) hI

theorem writtenAttribute_display {Keys : Type} (api : Collaborators Keys)
    (r : OgreClientConfig Keys) :
    writtenAttribute (WriteXml api r).2 TAG_DISPLAY ATTRIB_VALUE =
      some (Int32.ToString r.Display) := by
  rw [writtenAttribute_sections api r _ _ _ _
    (by rw [WriteXml_engine_elements, WriteXml_input_elements]; rfl)]
  rfl

/-- C16: when the display element of a document (the first display element after
the first engine element) has as value the decimal text `s` of an `int`, then
WriteXml, applied to the record ReadXml leaves after reading the document, writes a
display element whose value is exactly `s`.  Nothing else is required of the
document: Display is assigned before any later statement can throw. -/
theorem C16_display_value_reproduced {Keys : Type} (api : Collaborators Keys)
    (this : OgreClientConfig Keys) (cur : Option XmlElement) (doc : List XmlElement)
    (calls : List ReaderCall) (v : Int32)
    (hdisplay : displayValue doc = some (Int32.ToString v)) :
    writtenAttribute (WriteXml api ((ReadXml api).run ⟨this, ⟨cur, doc, calls⟩⟩).2.This).2
      TAG_DISPLAY ATTRIB_VALUE = some (Int32.ToString v) := by
  rw [writtenAttribute_display]
  unfold displayValue at hdisplay
  rcases hengine : seekElement TAG_ENGINE doc with _ | ⟨e1, rest1⟩
  · simp only [hengine] at hdisplay
    cases hdisplay
  · rcases hseek : seekElement TAG_DISPLAY rest1 with _ | ⟨e2, rest2⟩
    · simp only [hengine, hseek] at hdisplay
      cases hdisplay
    · simp only [hengine, hseek] at hdisplay
      have hspec := ReadXml_Display api v doc e1 e2 rest1 rest2 hengine hseek hdisplay
      have hrun : ∀ (out : Except Exception Unit) (t : ReadState Keys),
          (ReadXml api).run ⟨this, ⟨cur, doc, calls⟩⟩ = (out, t) → t.This.Display = v := by
        intro out t h
        cases out with
        | ok a => exact (hspec _ rfl).1 a t h
        | error e => exact (hspec _ rfl).2 e t h
      exact congrArg (fun d => some (Int32.ToString d)) (hrun _ _ rfl)

end

/-- Witness of C16: the document WriteXml wrote for the sample record has the
display value "2"; ReadXml reads it without an exception, and WriteXml writes "2"
again for the record read. -/
theorem C16_display_value_reproduced_witness :
    displayValue (elementsOf (WriteXml sampleApi sampleConfig).2) =
      some (Int32.ToString ⟨2, by decide⟩) ∧
    Int32.ToString ⟨2, by decide⟩ = "2" ∧
    ((ReadXml sampleApi).run
      ⟨freshConfig, ⟨none, elementsOf (WriteXml sampleApi sampleConfig).2, []⟩⟩).1 =
      Except.ok () ∧
    writtenAttribute (WriteXml sampleApi ((ReadXml sampleApi).run
      ⟨freshConfig, ⟨none, elementsOf (WriteXml sampleApi sampleConfig).2, []⟩⟩).2.This).2
      TAG_DISPLAY ATTRIB_VALUE = some "2" := by
  have hd : displayValue (elementsOf (WriteXml sampleApi sampleConfig).2) =
      some (Int32.ToString ⟨2, by decide⟩) := by
    obtain ⟨tail, ht⟩ := WriteXml_elements_fixed sampleApi sampleConfig
    rw [ht, WriteXml_engine_elements]
    rfl
  have hread := ReadXml_WriteXml_fresh sampleApi sampleApi_roundtrip sampleConfig freshConfig
    (by unfold NamesPresent; decide) (by unfold CountsFit; decide) rfl none [] []
  rw [List.append_nil] at hread
  refine ⟨hd, by decide, by rw [hread], ?_⟩
  exact C16_display_value_reproduced sampleApi freshConfig none _ [] ⟨2, by decide⟩ hd

section

variable [Globalization] [ArgumentOrder]

/-! ## Properties of the state that the loops over the sets keep -/

/- The loops seek only the three tags of the sets, none of which is in `fixedTags`,
and read no key attribute. -/

theorem ReadToFollowing_keeps_state {Keys : Type} (J : ReadState Keys → Prop) (tag : String)
    (h : ∀ s, J s → J { s with Reader := (s.Reader.ReadToFollowing tag).2 }) :
    Keeps J (ReadToFollowing tag) :=
  Spec.weaken (ReadToFollowing_spec tag _ _) (fun _ hs => hs)
    (fun _ _ hq => by obtain ⟨s, hs, rfl, _⟩ := hq; exact h s hs) (fun _ _ he => he)

theorem ReaderItem_keeps_state {Keys : Type} (J : ReadState Keys → Prop) (name : String)
    (h : ∀ s, J s → J { s with Reader := { s.Reader with
      Calls := s.Reader.Calls ++ [ReaderCall.GetAttribute name] } }) :
    Keeps J (ReaderItem name) :=
  Spec.weaken (ReaderItem_spec name _ _) (fun _ hs => hs)
    (fun _ _ hq => by obtain ⟨s, hs, _, rfl⟩ := hq; exact h s hs) (fun _ _ he => he)

theorem assign_keeps_state {Keys : Type} (J : ReadState Keys → Prop)
    (f : OgreClientConfig Keys → OgreClientConfig Keys)
    (h : ∀ s, J s → J { s with This := f s.This }) : Keeps J (assign f) :=
  Spec.weaken (assign_spec f _ _) (fun _ hs => hs)
    (fun _ _ hq => by obtain ⟨s, hs, rfl⟩ := hq; exact h s hs) (fun _ _ he => he)

theorem ReadXml_actionbutton_keeps_state {Keys : Type} (J : ReadState Keys → Prop)
    (hseek : ∀ tag, tag ∉ fixedTags → ∀ s,
      J s → J { s with Reader := (s.Reader.ReadToFollowing tag).2 })
    (hitem : ∀ name, name ≠ ATTRIB_KEY → ∀ s, J s → J { s with Reader := { s.Reader with
      Calls := s.Reader.Calls ++ [ReaderCall.GetAttribute name] } })
    (n : Nat) (acc : ActionButtonList) : Keeps J (ReadXml_actionbutton n acc) := by
  induction n generalizing acc with
  | zero => exact Keeps.pure_keeps _ _
  | succ k ih =>
    unfold ReadXml_actionbutton
    refine Keeps.bind_keeps (ReadToFollowing_keeps_state J _ (hseek _ (by decide))) (fun _ => ?_)
    refine Keeps.bind_keeps (evalArguments_keeps_of J (fun a =>
      ReaderItem_keeps_state J _ (hitem _ (by cases a <;> decide))) _ _) (fun _ => ?_)
    exact ih _

theorem ReadXml_actionbuttons_keeps_state {Keys : Type} (J : ReadState Keys → Prop)
    (hseek : ∀ tag, tag ∉ fixedTags → ∀ s,
      J s → J { s with Reader := (s.Reader.ReadToFollowing tag).2 })
    (hitem : ∀ name, name ≠ ATTRIB_KEY → ∀ s, J s → J { s with Reader := { s.Reader with
      Calls := s.Reader.Calls ++ [ReaderCall.GetAttribute name] } })
    (hassign : ∀ (f : OgreClientConfig Keys → OgreClientConfig Keys) s,
      J s → J { s with This := f s.This })
    (n : Nat) : Keeps J (ReadXml_actionbuttons n) := by
  induction n with
  | zero => exact Keeps.pure_keeps _ _
  | succ k ih =>
    unfold ReadXml_actionbuttons
    refine Keeps.bind_keeps (ReadToFollowing_keeps_state J _ (hseek _ (by decide))) (fun _ => ?_)
    refine Keeps.bind_keeps (ReaderItem_keeps_state J _ (hitem _ (by decide))) (fun _ => ?_)
    refine Keeps.bind_keeps (ReaderItem_keeps_state J _ (hitem _ (by decide))) (fun _ => ?_)
    refine Keeps.bind_keeps (ofExcept_keeps _ _) (fun _ => ?_)
    refine Keeps.bind_keeps (ReadXml_actionbutton_keeps_state J hseek hitem _ _)
      (fun buttonSet => ?_)
    refine Keeps.bind_keeps (assign_keeps_state J _ (hassign (fun this =>
      { this with ActionButtonSets := this.ActionButtonSets ++ [buttonSet] }))) (fun _ => ?_)
    exact ih

theorem ReadXml_actionbuttonsets_keeps_state {Keys : Type} (J : ReadState Keys → Prop)
    (hseek : ∀ tag, tag ∉ fixedTags → ∀ s,
      J s → J { s with Reader := (s.Reader.ReadToFollowing tag).2 })
    (hitem : ∀ name, name ≠ ATTRIB_KEY → ∀ s, J s → J { s with Reader := { s.Reader with
      Calls := s.Reader.Calls ++ [ReaderCall.GetAttribute name] } })
    (hassign : ∀ (f : OgreClientConfig Keys → OgreClientConfig Keys) s,
      J s → J { s with This := f s.This }) :
    Keeps J (ReadXml_actionbuttonsets : Op (ReadState Keys) Unit) := by
  unfold ReadXml_actionbuttonsets
  refine Keeps.bind_keeps (ReadToFollowing_keeps_state J _ (hseek _ (by decide))) (fun _ => ?_)
  refine Keeps.bind_keeps (ReaderItem_keeps_state J _ (hitem _ (by decide))) (fun _ => ?_)
  refine Keeps.bind_keeps (ofExcept_keeps _ _) (fun _ => ?_)
  exact ReadXml_actionbuttons_keeps_state J hseek hitem hassign _

/-! ## The calls ReadXml makes, whatever the document -/

/-- A field read makes two calls: the seek and the read of the attribute.  `todo`
are the calls still to come and `final` all the calls of the run. -/
theorem readField_calls_spec {Keys α : Type} (convert : Option String → Except Exception α)
    (tag attrName : String) (set : α → OgreClientConfig Keys → OgreClientConfig Keys)
    (todo final : List ReaderCall) :
    Spec (fun s : ReadState Keys => s.Reader.Calls ++ (ReaderCall.ReadToFollowing tag ::
        ReaderCall.GetAttribute attrName :: todo) = final)
      (readField convert tag attrName set)
      (fun _ t => t.Reader.Calls ++ todo = final) (fun _ _ => True) := by
  unfold readField assignAttribute
  refine Spec.bind_rule (Q := fun _ t => t.Reader.Calls ++ (ReaderCall.GetAttribute attrName ::
      todo) = final) (Spec.weaken (ReadToFollowing_spec tag _ _) (fun _ h => h) ?_
      (fun _ _ h => h)) (fun _ => ?_)
  · rintro _ t ⟨s, hs, rfl, _⟩
    rw [← hs]
    simp only [XmlReader.ReadToFollowing]
    split <;> simp
  refine Spec.bind_rule (Q := fun _ t => t.Reader.Calls ++ todo = final)
    (Spec.weaken (ReaderItem_spec attrName _ _) (fun _ h => h) ?_ (fun _ _ h => h))
    (fun text => ?_)
  · rintro _ t ⟨s, hs, _, rfl⟩
    rw [← hs]
    simp
  refine Spec.bind_rule (Q := fun _ t => t.Reader.Calls ++ todo = final)
    (Spec.weaken (ofExcept_spec _ _) (fun _ h => h) (fun _ _ h => h.1) (fun _ _ _ => trivial))
    (fun v => ?_)
  refine Spec.weaken (assign_spec _ _ _) (fun _ h => h) ?_ (fun _ _ h => h)
  rintro _ t ⟨s, hs, rfl⟩
  exact hs


theorem ReadToFollowing_calls_spec {Keys : Type} (tag : String) (todo final : List ReaderCall) :
    Spec (fun s : ReadState Keys =>
        s.Reader.Calls ++ (ReaderCall.ReadToFollowing tag :: todo) = final)
      (ReadToFollowing tag) (fun _ t => t.Reader.Calls ++ todo = final) (fun _ _ => True) := by
  refine Spec.weaken (ReadToFollowing_spec tag _ _) (fun _ h => h) ?_ (fun _ _ h => h)
  rintro _ t ⟨s, hs, rfl, _⟩
  rw [← hs]
  simp only [XmlReader.ReadToFollowing]
  split <;> simp

theorem assign_calls_spec {Keys : Type} (f : OgreClientConfig Keys → OgreClientConfig Keys)
    (todo final : List ReaderCall) :
    Spec (fun s : ReadState Keys => s.Reader.Calls ++ todo = final) (assign f)
      (fun _ t => t.Reader.Calls ++ todo = final) (fun _ _ => True) := by
  refine Spec.weaken (assign_spec f _ _) (fun _ h => h) ?_ (fun _ _ h => h)
  rintro _ t ⟨s, hs, rfl⟩
  exact hs

theorem assignAttribute_calls_spec {Keys α : Type}
    (convert : Option String → Except Exception α) (attrName : String)
    (set : α → OgreClientConfig Keys → OgreClientConfig Keys) (todo final : List ReaderCall) :
    Spec (fun s : ReadState Keys =>
        s.Reader.Calls ++ (ReaderCall.GetAttribute attrName :: todo) = final)
      (assignAttribute convert attrName set)
      (fun _ t => t.Reader.Calls ++ todo = final) (fun _ _ => True) := by
  unfold assignAttribute
  refine Spec.bind_rule (Q := fun _ t => t.Reader.Calls ++ todo = final)
    (Spec.weaken (ReaderItem_spec attrName _ _) (fun _ h => h) ?_ (fun _ _ h => h))
    (fun text => ?_)
  · rintro _ t ⟨s, hs, _, rfl⟩
    rw [← hs]
    simp
  refine Spec.bind_rule (Q := fun _ t => t.Reader.Calls ++ todo = final)
    (Spec.weaken (ofExcept_spec _ _) (fun _ h => h) (fun _ _ h => h.1) (fun _ _ _ => trivial))
    (fun v => ?_)
  exact assign_calls_spec _ _ _

/-- The calls of the fixed part of ReadXml do not depend on the document, and the
loops over the sets never read a key attribute. -/
theorem ReadXml_calls_of_final {Keys : Type} (api : Collaborators Keys)
    (final : List ReaderCall) :
    Spec (fun s : ReadState Keys => s.Reader.Calls ++ (sectionCalls ++
        (ReaderCall.ReadToFollowing TAG_KEYBINDING ::
          ReaderCall.GetAttribute ATTRIB_RIGHTCLICKACTION :: (keyCalls ++ []))) = final)
      (ReadXml api)
      (fun _ t => ∃ ext, t.Reader.Calls = final ++ ext ∧
        ReaderCall.GetAttribute ATTRIB_KEY ∉ ext) (fun _ _ => True) := by
  unfold ReadXml
  apply Spec.seq_rule
  · unfold ReadXml_engine
    refine Spec.seq_rule (ReadToFollowing_calls_spec _ _ _) ?_
    repeat (first
      | refine Spec.seq_rule (readField_calls_spec _ _ _ _ _ _) ?_
      | exact readField_calls_spec _ _ _ _ _ _)
  apply Spec.seq_rule
  · unfold ReadXml_input
    refine Spec.seq_rule (ReadToFollowing_calls_spec _ _ _) ?_
    repeat (first
      | refine Spec.seq_rule (readField_calls_spec _ _ _ _ _ _) ?_
      | exact readField_calls_spec _ _ _ _ _ _)
  apply Spec.seq_rule
  · unfold ReadXml_keybinding
    refine Spec.seq_rule (ReadToFollowing_calls_spec _ _ _) ?_
    refine Spec.seq_rule (assign_calls_spec _ _ _) ?_
    exact assignAttribute_calls_spec _ _ _ _ _
  apply Spec.seq_rule
  · unfold ReadXml_keys_movement
    repeat (first
      | refine Spec.seq_rule (readField_calls_spec _ _ _ _ _ _) ?_
      | exact readField_calls_spec _ _ _ _ _ _)
  apply Spec.seq_rule
  · unfold ReadXml_keys_modifiers
    repeat (first
      | refine Spec.seq_rule (readField_calls_spec _ _ _ _ _ _) ?_
      | exact readField_calls_spec _ _ _ _ _ _)
  apply Spec.seq_rule
  · unfold ReadXml_keys_targetting
    repeat (first
      | refine Spec.seq_rule (readField_calls_spec _ _ _ _ _ _) ?_
      | exact readField_calls_spec _ _ _ _ _ _)
  apply Spec.seq_rule
  · unfold ReadXml_keys_others
    repeat (first
      | refine Spec.seq_rule (readField_calls_spec _ _ _ _ _ _) ?_
      | exact readField_calls_spec _ _ _ _ _ _)
  apply Spec.seq_rule
  · unfold ReadXml_keys_actions
    repeat (first
      | refine Spec.seq_rule (readField_calls_spec _ _ _ _ _ _) ?_
      | exact readField_calls_spec _ _ _ _ _ _)
  refine Spec.weaken (ReadXml_actionbuttonsets_keeps_state
    (fun s => ∃ ext, s.Reader.Calls = final ++ ext ∧ ReaderCall.GetAttribute ATTRIB_KEY ∉ ext)
    ?_ ?_ ?_) ?_ (fun _ _ h => h) (fun _ _ _ => trivial)
  · rintro tag _ s ⟨ext, hext, hkey⟩
    refine ⟨ext ++ [ReaderCall.ReadToFollowing tag], ?_, ?_⟩
    · simp only [XmlReader.ReadToFollowing]
      split <;> simp [hext]
    · simp [hkey]
  · rintro name hname s ⟨ext, hext, hkey⟩
    refine ⟨ext ++ [ReaderCall.GetAttribute name], by simp [hext], ?_⟩
    simp only [List.mem_append, List.mem_singleton, ReaderCall.GetAttribute.injEq, not_or]
    exact ⟨hkey, fun h => hname h.symm⟩
  · rintro f s ⟨ext, hext, hkey⟩
    exact ⟨ext, hext, hkey⟩
  · intro s hs
    exact ⟨[], by rw [← hs]; simp, by simp⟩

theorem ReadXml_calls {Keys : Type} (api : Collaborators Keys) (this : OgreClientConfig Keys)
    (cur : Option XmlElement) (doc : List XmlElement) (calls : List ReaderCall)
    (hok : ((ReadXml api).run ⟨this, ⟨cur, doc, calls⟩⟩).1 = Except.ok ()) :
    ∃ ext, ((ReadXml api).run ⟨this, ⟨cur, doc, calls⟩⟩).2.Reader.Calls =
        calls ++ (sectionCalls ++ (ReaderCall.ReadToFollowing TAG_KEYBINDING ::
          ReaderCall.GetAttribute ATTRIB_RIGHTCLICKACTION :: (keyCalls ++ ext))) ∧
      ReaderCall.GetAttribute ATTRIB_KEY ∉ ext := by
  have hspec := ReadXml_calls_of_final api _ ⟨this, ⟨cur, doc, calls⟩⟩ rfl
  rcases hrun : (ReadXml api).run ⟨this, ⟨cur, doc, calls⟩⟩ with ⟨out, t⟩
  rw [hrun] at hok
  simp only at hok
  subst hok
  obtain ⟨ext, hext, hkey⟩ := hspec.1 () t hrun
  refine ⟨ext, ?_, hkey⟩
  rw [hext]
  simp only [List.append_assoc, List.cons_append, List.append_nil]

/-! ## The keybinding element -/

theorem buildNodes_start (n : String) (evs : List XmlEvent) (stack : List OpenElement)
    (done : List XmlNode) :
    buildNodes (XmlEvent.StartElement n :: evs) stack done =
      buildNodes evs (⟨n, [], []⟩ :: stack) done := rfl

theorem buildNodes_attribute (n a v : String) (attrs : List (String × String))
    (evs : List XmlEvent) (stack : List OpenElement) (done : List XmlNode) :
    buildNodes (XmlEvent.Attribute a v :: evs) (⟨n, attrs, []⟩ :: stack) done =
      buildNodes evs (⟨n, attrs ++ [(a, v)], []⟩ :: stack) done := rfl

theorem buildNodes_end (o p : OpenElement) (evs : List XmlEvent) (stack : List OpenElement)
    (done : List XmlNode) :
    buildNodes (XmlEvent.EndElement :: evs) (o :: p :: stack) done =
      buildNodes evs (⟨p.Name, p.Attributes,
        p.Children ++ [XmlNode.node o.Name o.Attributes o.Children]⟩ :: stack) done := rfl

theorem buildNodes_end_top (o : OpenElement) (evs : List XmlEvent) (done : List XmlNode) :
    buildNodes (XmlEvent.EndElement :: evs) [o] done =
      buildNodes evs [] (done ++ [XmlNode.node o.Name o.Attributes o.Children]) := rfl

theorem nodesOf_keybindingEvents {Keys : Type} (api : Collaborators Keys)
    (r : OgreClientConfig Keys) :
    ∃ root : XmlNode, nodesOf (keybindingEvents api r) = some [root] ∧
      root.Name = TAG_KEYBINDING ∧
      root.Attributes = [(ATTRIB_RIGHTCLICKACTION, Int32.ToString r.KeyBinding.RightClickAction)] ∧
      root.Children.map XmlNode.Name = keyTags ∧
      root.Children.map (fun c => c.Attributes.map (fun a => a.1)) =
        keyTags.map (fun _ => [ATTRIB_KEY]) ∧
      root.Children.map XmlNode.Children = keyTags.map (fun _ => []) := by
  simp only [keybindingEvents, WriteXml_keybinding, WriteXml_keys_movement,
    WriteXml_keys_modifiers, WriteXml_keys_targetting, WriteXml_keys_others,
    WriteXml_keys_actions, WriteStartElement_bind_snd, WriteAttributeString_bind_snd,
    WriteEndElement_bind_snd, WriteEndElement_snd, WriteAttributeString_snd, Option.getD_some,
    List.cons_append, List.nil_append]
  simp only [nodesOf, buildNodes_start, buildNodes_attribute, buildNodes_end,
    buildNodes_end_top, List.nil_append, List.append_assoc, List.cons_append]
  refine ⟨_, rfl, rfl, rfl, ?_, ?_, ?_⟩
  · simp only [XmlNode.Children, List.map_cons, List.map_nil, XmlNode.Name]
    rfl
  · simp only [XmlNode.Children, List.map_cons, List.map_nil, XmlNode.Attributes]
    rfl
  · simp only [XmlNode.Children, List.map_cons, List.map_nil]
    rfl

theorem WriteXml_snd_keybinding {Keys : Type} (api : Collaborators Keys)
    (r : OgreClientConfig Keys) :
    ∃ before after : List XmlEvent,
      (WriteXml api r).2 = before ++ keybindingEvents api r ++ after := by
  refine ⟨(WriteXml_engine r).2 ++ (WriteXml_input r).2,
    (WriteXml_actionbuttonsets r >>= fun _ => WriteEndElement).2, ?_⟩
  rw [WriteXml_snd_fixed api r]
  simp only [keybindingEvents, List.append_assoc, List.singleton_append]

theorem count_key_reads (calls ext : List ReaderCall)
    (hext : ReaderCall.GetAttribute ATTRIB_KEY ∉ ext) :
    (calls ++ (sectionCalls ++ (ReaderCall.ReadToFollowing TAG_KEYBINDING ::
      ReaderCall.GetAttribute ATTRIB_RIGHTCLICKACTION :: (keyCalls ++ ext)))).count
        (ReaderCall.GetAttribute ATTRIB_KEY) =
      calls.count (ReaderCall.GetAttribute ATTRIB_KEY) + 60 := by
  have h1 : sectionCalls.count (ReaderCall.GetAttribute ATTRIB_KEY) = 0 := by decide
  have h2 : keyCalls.count (ReaderCall.GetAttribute ATTRIB_KEY) = 60 := by decide
  have h3 : ext.count (ReaderCall.GetAttribute ATTRIB_KEY) = 0 := List.count_eq_zero.mpr hext
  have h4 : (ReaderCall.ReadToFollowing TAG_KEYBINDING == ReaderCall.GetAttribute ATTRIB_KEY) =
      false := by decide
  have h5 : (ReaderCall.GetAttribute ATTRIB_RIGHTCLICKACTION ==
      ReaderCall.GetAttribute ATTRIB_KEY) = false := by decide
  rw [List.count_append, List.count_append, List.count_cons, List.count_cons,
    List.count_append, h1, h2, h3, h4, h5]
  simp

/-- C17, as amended: for every record, the calls WriteXml makes contain the
keybinding element with exactly 60 child elements, named by `keyTags` (the twelve
named keys and the keys of the 48 action buttons), each with the one attribute key
and no child; and in every run of ReadXml that returns normally, whatever the
document, the calls ReadXml makes after it has sought the keybinding element and
read rightclickaction are first the 60 pairs (seek a key element, read its key
attribute), and no key attribute is read before or after them. -/
theorem C17_keybinding_has_sixty_keys {Keys : Type} (api : Collaborators Keys)
    (r this : OgreClientConfig Keys) (cur : Option XmlElement) (doc : List XmlElement)
    (calls : List ReaderCall)
    (hok : ((ReadXml api).run ⟨this, ⟨cur, doc, calls⟩⟩).1 = Except.ok ()) :
    keyTags.length = 60 ∧ keyTags.Nodup ∧
    (∃ (before after : List XmlEvent) (root : XmlNode),
      (WriteXml api r).2 = before ++ keybindingEvents api r ++ after ∧
      nodesOf (keybindingEvents api r) = some [root] ∧
      root.Name = TAG_KEYBINDING ∧
      root.Children.length = 60 ∧
      root.Children.map XmlNode.Name = keyTags ∧
      ∀ child ∈ root.Children,
        child.Attributes.map (fun a => a.1) = [ATTRIB_KEY] ∧ child.Children = []) ∧
    (∃ ext : List ReaderCall,
      ((ReadXml api).run ⟨this, ⟨cur, doc, calls⟩⟩).2.Reader.Calls =
        calls ++ (sectionCalls ++ (ReaderCall.ReadToFollowing TAG_KEYBINDING ::
          ReaderCall.GetAttribute ATTRIB_RIGHTCLICKACTION :: (keyCalls ++ ext))) ∧
      ReaderCall.GetAttribute ATTRIB_KEY ∉ sectionCalls ∧
      ReaderCall.GetAttribute ATTRIB_KEY ∉ ext) ∧
    ((ReadXml api).run ⟨this, ⟨cur, doc, calls⟩⟩).2.Reader.Calls.count
      (ReaderCall.GetAttribute ATTRIB_KEY) =
      calls.count (ReaderCall.GetAttribute ATTRIB_KEY) + 60 := by
  obtain ⟨before, after, hev⟩ := WriteXml_snd_keybinding api r
  obtain ⟨root, hroot, hname, _, hnames, hattrs, hchildren⟩ := nodesOf_keybindingEvents api r
  obtain ⟨ext, hcalls, hext⟩ := ReadXml_calls api this cur doc calls hok
  have hlen : root.Children.length = 60 := by
    have h := congrArg List.length hnames
    rw [List.length_map] at h
    exact h
  refine ⟨rfl, by decide, ⟨before, after, root, hev, hroot, hname, hlen, hnames, ?_⟩,
    ⟨ext, hcalls, by decide, hext⟩, ?_⟩
  · intro child hchild
    obtain ⟨i, hi, rfl⟩ := List.getElem_of_mem hchild
    have h1 := congrArg (fun l => l[i]?) hattrs
    have h2 := congrArg (fun l => l[i]?) hchildren
    have hk : i < keyTags.length := by
      have h60 : keyTags.length = 60 := rfl
      omega
    simp only [List.getElem?_map, List.getElem?_eq_getElem hi, List.getElem?_eq_getElem hk,
      Option.map_some', Option.some.injEq] at h1 h2
    exact ⟨h1, h2⟩
  · rw [hcalls]
    exact count_key_reads calls ext hext

end

/-- Witness of C17: the sample record and the run of ReadXml on its document. -/
theorem C17_keybinding_has_sixty_keys_witness :
    ((ReadXml sampleApi).run
      ⟨freshConfig, ⟨none, elementsOf (WriteXml sampleApi sampleConfig).2, []⟩⟩).1 =
      Except.ok () ∧
    ((ReadXml sampleApi).run ⟨freshConfig, ⟨none,
      elementsOf (WriteXml sampleApi sampleConfig).2, []⟩⟩).2.Reader.Calls.count
      (ReaderCall.GetAttribute ATTRIB_KEY) = 60 := by
  have hread := ReadXml_WriteXml_fresh sampleApi sampleApi_roundtrip sampleConfig freshConfig
    (by unfold NamesPresent; decide) (by unfold CountsFit; decide) rfl none [] []
  rw [List.append_nil] at hread
  have hok : ((ReadXml sampleApi).run
      ⟨freshConfig, ⟨none, elementsOf (WriteXml sampleApi sampleConfig).2, []⟩⟩).1 =
      Except.ok () := by rw [hread]
  exact ⟨hok, (C17_keybinding_has_sixty_keys sampleApi sampleConfig freshConfig none _ []
    hok).2.2.2.2⟩

/-- C17, counterexample: the keybinding element WriteXml writes for the sample
record has 60 child elements, all of which carry a key attribute, not 48; and
ReadXml, reading the document of the sample record, reads 60 key attributes. -/
theorem C17_sample_has_sixty_key_elements :
    (∃ root : XmlNode, nodesOf (keybindingEvents sampleApi sampleConfig) = some [root] ∧
      (root.Children.filter
        (fun child => decide (child.Attributes.map (fun a => a.1) = [ATTRIB_KEY]))).length =
        60) ∧
    ((ReadXml sampleApi).run ⟨freshConfig, ⟨none,
      elementsOf (WriteXml sampleApi sampleConfig).2 ++ [], []⟩⟩).2.Reader.Calls.count
      (ReaderCall.GetAttribute ATTRIB_KEY) = 60 ∧
    60 ≠ 48 := by
  obtain ⟨root, hroot, _, _, hnames, hattrs, _⟩ :=
    nodesOf_keybindingEvents sampleApi sampleConfig
  have hread := ReadXml_WriteXml_fresh sampleApi sampleApi_roundtrip sampleConfig freshConfig
    (by unfold NamesPresent; decide) (by unfold CountsFit; decide) rfl none [] []
  have hok : ((ReadXml sampleApi).run ⟨freshConfig, ⟨none,
      elementsOf (WriteXml sampleApi sampleConfig).2 ++ [], []⟩⟩).1 = Except.ok () := by
    rw [hread]
  obtain ⟨ext, hcalls, hext⟩ := ReadXml_calls sampleApi freshConfig none _ [] hok
  refine ⟨⟨root, hroot, ?_⟩, ?_, by decide⟩
  · have hall : ∀ child ∈ root.Children,
        decide (child.Attributes.map (fun a => a.1) = [ATTRIB_KEY]) = true := by
      intro child hchild
      obtain ⟨i, hi, rfl⟩ := List.getElem_of_mem hchild
      have h1 := congrArg (fun l => l[i]?) hattrs
      have hlen : root.Children.length = keyTags.length := by
        have h := congrArg List.length hnames
        rw [List.length_map] at h
        exact h
      have hk : i < keyTags.length := by omega
      simp only [List.getElem?_map, List.getElem?_eq_getElem hi, List.getElem?_eq_getElem hk,
        Option.map_some', Option.some.injEq] at h1
      exact decide_eq_true h1
    rw [List.filter_eq_self.mpr hall]
    have h := congrArg List.length hnames
    rw [List.length_map] at h
    exact h
  · rw [hcalls]
    exact count_key_reads [] ext hext

section

variable [Globalization] [ArgumentOrder]

/-! ## Seeking an element that is missing -/

theorem seekElement_some_mem (tag : String) (l : List XmlElement) (e : XmlElement)
    (es : List XmlElement) (h : seekElement tag l = some (e, es)) :
    e ∈ l ∧ e.Name = tag ∧ ∀ el ∈ es, el ∈ l := by
  induction l with
  | nil => cases h
  | cons a as ih =>
    unfold seekElement at h
    by_cases ha : a.Name = tag
    · rw [if_pos ha] at h
      simp only [Option.some.injEq, Prod.mk.injEq] at h
      obtain ⟨rfl, rfl⟩ := h
      exact ⟨List.mem_cons_self _ _, ha, fun el hel => List.mem_cons_of_mem _ hel⟩
    · rw [if_neg ha] at h
      obtain ⟨h1, h2, h3⟩ := ih h
      exact ⟨List.mem_cons_of_mem a h1, h2, fun el hel => List.mem_cons_of_mem a (h3 el hel)⟩

theorem seek_seeking {Keys : Type} (doc : List XmlElement) (tag : String) :
    Spec (Seeking doc) (ReadToFollowing tag : Op (ReadState Keys) Bool)
      (fun _ => Seeking doc) (fun _ _ => True) := by
  refine Spec.weaken (ReadToFollowing_spec tag _ _) (fun _ h => h) ?_ (fun _ _ h => h)
  rintro _ t ⟨s, ⟨hsub, hcase⟩, rfl, _⟩
  rcases hseek : seekElement tag s.Reader.Following with _ | ⟨e, es⟩
  · refine ⟨?_, Or.inl ?_⟩
    · simp [XmlReader.ReadToFollowing, hseek]
    · simp [AtEnd, XmlReader.ReadToFollowing, hseek]
  · obtain ⟨hmem, hname, hrest⟩ := seekElement_some_mem _ _ _ _ hseek
    refine ⟨?_, ?_⟩
    · simp only [XmlReader.ReadToFollowing, hseek]
      exact fun el hel => hsub el (hrest el hel)
    · rcases hcase with hend | hgood
      · rw [hend.2] at hseek
        cases hseek
      · right
        intro X hX
        simp only [XmlReader.ReadToFollowing, hseek, List.mem_append, List.mem_singleton,
          ReaderCall.ReadToFollowing.injEq] at hX
        rcases hX with hX | rfl
        · exact hgood X hX
        · exact ⟨e, hsub e hmem, hname⟩

theorem assign_seeking {Keys : Type} (doc : List XmlElement)
    (f : OgreClientConfig Keys → OgreClientConfig Keys) :
    Spec (Seeking doc) (assign f) (fun _ => Seeking doc) (fun _ _ => True) :=
  Spec.weaken (assign_spec f _ _) (fun _ h => h)
    (fun _ _ hq => by obtain ⟨s, hs, rfl⟩ := hq; exact hs) (fun _ _ h => h)

theorem item_seeking {Keys : Type} (doc : List XmlElement) (name : String)
    (s : ReadState Keys) (hs : Seeking doc s) :
    Seeking doc { s with Reader := { s.Reader with
      Calls := s.Reader.Calls ++ [ReaderCall.GetAttribute name] } } := by
  obtain ⟨hsub, hcase⟩ := hs
  refine ⟨hsub, ?_⟩
  rcases hcase with hend | hgood
  · exact Or.inl hend
  · right
    intro X hX
    simp only [List.mem_append, List.mem_singleton] at hX
    rcases hX with hX | hX
    · exact hgood X hX
    · cases hX

theorem assignAttribute_seeking {Keys α : Type} (doc : List XmlElement)
    (convert : Option String → Except Exception α) (attrName : String)
    (set : α → OgreClientConfig Keys → OgreClientConfig Keys) :
    Spec (Seeking doc) (assignAttribute convert attrName set) (fun _ => Seeking doc)
      (fun _ _ => True) := by
  unfold assignAttribute
  refine Spec.bind_rule (Q := fun _ => Seeking doc)
    (Spec.weaken (ReaderItem_spec attrName _ _) (fun _ h => h)
      (fun _ _ hq => by obtain ⟨s, hs, _, rfl⟩ := hq; exact item_seeking doc _ s hs)
      (fun _ _ h => h)) (fun _ => ?_)
  refine Spec.bind_rule (Q := fun _ => Seeking doc)
    (Spec.weaken (ofExcept_spec _ _) (fun _ h => h) (fun _ _ h => h.1) (fun _ _ _ => trivial))
    (fun v => ?_)
  exact assign_seeking doc _

theorem readField_seeking {Keys α : Type} (doc : List XmlElement)
    (convert : Option String → Except Exception α) (tag attrName : String)
    (set : α → OgreClientConfig Keys → OgreClientConfig Keys) :
    Spec (Seeking doc) (readField convert tag attrName set) (fun _ => Seeking doc)
      (fun _ _ => True) := by
  unfold readField
  exact Spec.seq_rule (seek_seeking doc tag) (assignAttribute_seeking doc convert attrName set)

/-- A key read returns normally only when the reader is on an element: at the end of
the document the attribute reads as null, which the key converter refuses. -/
theorem assignAttribute_key_seeking {Keys : Type} (api : Collaborators Keys) (e : Exception)
    (hnull : api.ConvertFrom none = Except.error e) (doc : List XmlElement)
    (attrName : String) (set : Keys → OgreClientConfig Keys → OgreClientConfig Keys) :
    Spec (Seeking doc) (assignAttribute api.ConvertFrom attrName set)
      (fun _ => SoughtPresent doc) (fun _ _ => True) := by
  unfold assignAttribute
  refine Spec.bind_rule (Q := fun text t => Seeking doc t ∧ (AtEnd t → text = none))
    (Spec.weaken (ReaderItem_spec attrName _ _) (fun _ h => h) ?_ (fun _ _ h => h))
    (fun text => ?_)
  · rintro text t ⟨s, hs, rfl, rfl⟩
    refine ⟨item_seeking doc _ s hs, ?_⟩
    intro hend
    simp only [XmlReader.Item]
    rw [show s.Reader.Current = none from hend.1]
  refine Spec.bind_rule (Q := fun _ => SoughtPresent doc)
    (Spec.weaken (ofExcept_spec _ _) (fun _ h => h) ?_ (fun _ _ _ => trivial)) (fun v => ?_)
  · rintro v t ⟨⟨⟨_, hcase⟩, htext⟩, hv⟩
    rcases hcase with hend | hgood
    · rw [htext hend, hnull] at hv
      cases hv
    · exact hgood
  refine Spec.weaken (assign_spec _ _ _) (fun _ h => h) ?_ (fun _ _ h => h)
  rintro _ t ⟨s, hs, rfl⟩
  exact hs

theorem readKey_seeking {Keys : Type} (api : Collaborators Keys) (e : Exception)
    (hnull : api.ConvertFrom none = Except.error e) (doc : List XmlElement)
    (tag attrName : String) (set : Keys → OgreClientConfig Keys → OgreClientConfig Keys) :
    Spec (Seeking doc) (readField api.ConvertFrom tag attrName set)
      (fun _ => SoughtPresent doc) (fun _ _ => True) := by
  unfold readField
  exact Spec.seq_rule (seek_seeking doc tag) (assignAttribute_key_seeking api e hnull doc attrName set)

theorem fixedTags_sought :
    ∀ tag ∈ fixedTags, ReaderCall.ReadToFollowing tag ∈ sectionCalls ++
      (ReaderCall.ReadToFollowing TAG_KEYBINDING ::
        ReaderCall.GetAttribute ATTRIB_RIGHTCLICKACTION :: keyCalls) := by
  decide

/-- When the key converter refuses null, a run of ReadXml that returns normally has
found every element it sought before the action button sets. -/
theorem ReadXml_seeking {Keys : Type} (api : Collaborators Keys) (e : Exception)
    (hnull : api.ConvertFrom none = Except.error e) (doc : List XmlElement) :
    Spec (Seeking doc) (ReadXml api) (fun _ => FixedPresent doc) (fun _ _ => True) := by
  unfold ReadXml
  apply Spec.seq_rule
  · unfold ReadXml_engine
    refine Spec.seq_rule (seek_seeking _ _) ?_
    repeat (first
      | refine Spec.seq_rule (readField_seeking _ _ _ _ _) ?_
      | exact readField_seeking _ _ _ _ _)
  apply Spec.seq_rule
  · unfold ReadXml_input
    refine Spec.seq_rule (seek_seeking _ _) ?_
    repeat (first
      | refine Spec.seq_rule (readField_seeking _ _ _ _ _) ?_
      | exact readField_seeking _ _ _ _ _)
  apply Spec.seq_rule
  · unfold ReadXml_keybinding
    refine Spec.seq_rule (seek_seeking _ _) ?_
    refine Spec.seq_rule (assign_seeking _ _) ?_
    exact assignAttribute_seeking _ _ _ _
  apply Spec.seq_rule
  · unfold ReadXml_keys_movement
    repeat (first
      | refine Spec.seq_rule (readField_seeking _ _ _ _ _) ?_
      | exact readField_seeking _ _ _ _ _)
  apply Spec.seq_rule
  · unfold ReadXml_keys_modifiers
    repeat (first
      | refine Spec.seq_rule (readField_seeking _ _ _ _ _) ?_
      | exact readField_seeking _ _ _ _ _)
  apply Spec.seq_rule
  · unfold ReadXml_keys_targetting
    repeat (first
      | refine Spec.seq_rule (readField_seeking _ _ _ _ _) ?_
      | exact readField_seeking _ _ _ _ _)
  apply Spec.seq_rule
  · unfold ReadXml_keys_others
    repeat (first
      | refine Spec.seq_rule (readField_seeking _ _ _ _ _) ?_
      | exact readField_seeking _ _ _ _ _)
  apply Spec.seq_rule
  · unfold ReadXml_keys_actions
    repeat (first
      | refine Spec.seq_rule (readField_seeking _ _ _ _ _) ?_
      | exact readKey_seeking api e hnull _ _ _ _)
  refine Spec.weaken (ReadXml_actionbuttonsets_keeps_state (FixedPresent doc) ?_ ?_ ?_)
    (fun s hs tag _ htag => hs tag htag) (fun _ _ h => h) (fun _ _ _ => trivial)
  · intro tag htag s hs X hX hmem
    refine hs X hX ?_
    simp only [XmlReader.ReadToFollowing] at hmem
    split at hmem <;>
    · simp only [List.mem_append, List.mem_singleton, ReaderCall.ReadToFollowing.injEq] at hmem
      rcases hmem with hmem | rfl
      · exact hmem
      · exact absurd hX htag
  · intro name _ s hs X hX hmem
    refine hs X hX ?_
    simp only [List.mem_append, List.mem_singleton] at hmem
    rcases hmem with hmem | hmem
    · exact hmem
    · cases hmem
  · intro f s hs
    exact hs

theorem ReadXml_ok_present {Keys : Type} (api : Collaborators Keys) (e : Exception)
    (hnull : api.ConvertFrom none = Except.error e) (this : OgreClientConfig Keys)
    (cur : Option XmlElement) (doc : List XmlElement)
    (hok : ((ReadXml api).run ⟨this, ⟨cur, doc, []⟩⟩).1 = Except.ok ()) :
    ∀ tag ∈ fixedTags, Present doc tag := by
  have hstart : Seeking doc (⟨this, ⟨cur, doc, []⟩⟩ : ReadState Keys) :=
    ⟨fun _ h => h, Or.inr (fun _ h => nomatch h)⟩
  have hspec := ReadXml_seeking api e hnull doc _ hstart
  obtain ⟨ext, hcalls, _⟩ := ReadXml_calls api this cur doc [] hok
  rcases hrun : (ReadXml api).run ⟨this, ⟨cur, doc, []⟩⟩ with ⟨out, t⟩
  rw [hrun] at hok hcalls
  simp only at hok hcalls
  subst hok
  have hfixed := hspec.1 () t hrun
  intro tag htag
  refine hfixed tag htag ?_
  rw [hcalls]
  have hs := fixedTags_sought tag htag
  simp only [List.nil_append, List.mem_append, List.mem_cons] at hs ⊢
  tauto

theorem fixedElements_names {Keys : Type} (api : Collaborators Keys)
    (r : OgreClientConfig Keys) :
    (fixedElements api r).map XmlElement.Name = fixedTags := by
  unfold fixedElements
  rw [WriteXml_engine_elements, WriteXml_input_elements, WriteXml_keybinding_elements,
    WriteXml_keys_movement_elements, WriteXml_keys_modifiers_elements,
    WriteXml_keys_targetting_elements, WriteXml_keys_others_elements,
    WriteXml_keys_actions_elements]
  rfl

theorem fixedElements_not_present {Keys : Type} (api : Collaborators Keys)
    (r : OgreClientConfig Keys) (tag : String) (h : tag ∉ fixedTags) :
    ¬ Present (fixedElements api r) tag := by
  rintro ⟨el, hmem, hname⟩
  apply h
  rw [← fixedElements_names api r, ← hname]
  exact List.mem_map_of_mem _ hmem

/-- At the end of the document the count of the action button sets reads as null,
that is 0, and no set is read. -/
theorem ReadXml_actionbuttonsets_nil {Keys : Type} (this : OgreClientConfig Keys)
    (cur : Option XmlElement) (calls : List ReaderCall) :
    (ReadXml_actionbuttonsets).run ⟨this, ⟨cur, [], calls⟩⟩ =
      (Except.ok (), ⟨this, ⟨none, [], calls ++ [ReaderCall.ReadToFollowing TAG_ACTIONBUTTONSETS,
        ReaderCall.GetAttribute ATTRIB_COUNT]⟩⟩) := by
  simp [ReadXml_actionbuttonsets, Op.run, bind, Op.bind, ReadToFollowing,
    XmlReader.ReadToFollowing, seekElement, ReaderItem, XmlReader.Item, Op.ofExcept,
    Convert.ToInt32, ReadXml_actionbuttons, pure, Op.pure]

/-- ReadXml reads the document of a record without its actionbuttonsets element
normally: every field but the sets is assigned, and no set is added. -/
theorem ReadXml_fixedElements {Keys : Type} (api : Collaborators Keys)
    (hapi : KeysRoundTrip api) (r this : OgreClientConfig Keys) (cur : Option XmlElement)
    (calls : List ReaderCall) :
    ((ReadXml api).run ⟨this, ⟨cur, fixedElements api r, calls⟩⟩).1 = Except.ok () ∧
    ((ReadXml api).run ⟨this, ⟨cur, fixedElements api r, calls⟩⟩).2.This =
      { r.Stored with ActionButtonSets := this.ActionButtonSets } := by
  unfold ReadXml fixedElements
  rw [← List.append_nil (elementsOf (WriteXml_keys_actions api r).2)]
  rw [Op.run_bind_ok _ _ _ _ _ (ReadXml_engine_WriteXml r this cur _ calls)]
  rw [Op.run_bind_ok _ _ _ _ _ (ReadXml_input_WriteXml r _ _ _ _)]
  rw [Op.run_bind_ok _ _ _ _ _ (ReadXml_keybinding_WriteXml api r _ _ _ _)]
  rw [Op.run_bind_ok _ _ _ _ _ (ReadXml_keys_movement_WriteXml api hapi r _ _ _ _)]
  rw [Op.run_bind_ok _ _ _ _ _ (ReadXml_keys_modifiers_WriteXml api hapi r _ _ _ _)]
  rw [Op.run_bind_ok _ _ _ _ _ (ReadXml_keys_targetting_WriteXml api hapi r _ _ _ _)]
  rw [Op.run_bind_ok _ _ _ _ _ (ReadXml_keys_others_WriteXml api hapi r _ _ _ _)]
  rw [Op.run_bind_ok _ _ _ _ _ (ReadXml_keys_actions_WriteXml api hapi r _ _ _ _)]
  rw [ReadXml_actionbuttonsets_nil]
  exact ⟨rfl, rfl⟩

/-- C12, as amended: when the key converter refuses a null text, ReadXml fails on
every document that lacks one of the elements it seeks before the action button
sets (the engine and input sections with their scalars, the keybinding element, the
60 key elements): the seek runs to the end of the document and the next key read
finds nothing to convert.  A missing actionbuttonsets element does not make ReadXml
fail: on the document of a record without that element ReadXml returns normally,
assigns every other field, reads the count as 0 and adds no set. -/
theorem C12_missing_element_before_sets_fails {Keys : Type} (api : Collaborators Keys)
    (hapi : KeysRoundTrip api) (e : Exception)
    (hnull : api.ConvertFrom none = Except.error e) (r this : OgreClientConfig Keys)
    (cur : Option XmlElement) (calls : List ReaderCall) :
    (∀ (doc : List XmlElement) (tag : String), tag ∈ fixedTags → ¬ Present doc tag →
      ((ReadXml api).run ⟨this, ⟨cur, doc, []⟩⟩).1 ≠ Except.ok ()) ∧
    ¬ Present (fixedElements api r) TAG_ACTIONBUTTONSETS ∧
    ((ReadXml api).run ⟨this, ⟨cur, fixedElements api r, calls⟩⟩).1 = Except.ok () ∧
    ((ReadXml api).run ⟨this, ⟨cur, fixedElements api r, calls⟩⟩).2.This =
      { r.Stored with ActionButtonSets := this.ActionButtonSets } := by
  refine ⟨?_, fixedElements_not_present api r _ (by decide),
    (ReadXml_fixedElements api hapi r this cur calls).1,
    (ReadXml_fixedElements api hapi r this cur calls).2⟩
  intro doc tag htag habsent hok
  exact habsent (ReadXml_ok_present api e hnull this cur doc hok tag htag)

end

/-- Witness of C12: the sample key converter refuses null; ReadXml fails on the
empty document, which has no engine element. -/
theorem C12_missing_element_before_sets_fails_witness :
    KeysRoundTrip sampleApi ∧
    sampleApi.ConvertFrom none = Except.error Exception.NotSupportedException ∧
    TAG_ENGINE ∈ fixedTags ∧ ¬ Present [] TAG_ENGINE ∧
    ((ReadXml sampleApi).run ⟨freshConfig, ⟨none, [], []⟩⟩).1 ≠ Except.ok () := by
  have habsent : ¬ Present [] TAG_ENGINE := by
    rintro ⟨_, hmem, _⟩
    cases hmem
  exact ⟨sampleApi_roundtrip, rfl, by decide, habsent,
    (C12_missing_element_before_sets_fails sampleApi sampleApi_roundtrip
      Exception.NotSupportedException rfl sampleConfig freshConfig none []).1 [] TAG_ENGINE
      (by decide) habsent⟩

/-- C12, counterexample: the document of the sample record without its
actionbuttonsets element lacks an element ReadXml seeks, yet ReadXml returns
normally on it: the count is read as 0 and the record is left without sets. -/
theorem C12_missing_actionbuttonsets_is_read :
    ¬ Present (fixedElements sampleApi sampleConfig) TAG_ACTIONBUTTONSETS ∧
    ((ReadXml sampleApi).run
      ⟨freshConfig, ⟨none, fixedElements sampleApi sampleConfig, []⟩⟩).1 = Except.ok () ∧
    ((ReadXml sampleApi).run
      ⟨freshConfig, ⟨none, fixedElements sampleApi sampleConfig, []⟩⟩).2.This.ActionButtonSets =
      [] ∧
    Convert.ToInt32 none = Except.ok ⟨0, by decide⟩ := by
  have h := ReadXml_fixedElements sampleApi sampleApi_roundtrip sampleConfig freshConfig none []
  refine ⟨fixedElements_not_present sampleApi sampleConfig _ (by decide), h.1, ?_, rfl⟩
  rw [h.2]
  rfl

section

variable [Globalization] [ArgumentOrder]

/-! ## A failure leaves the fields already assigned -/

end

section

variable [Globalization] [ArgumentOrder]

/-! ## A malformed text makes ReadXml fail -/

theorem replay_append (st : Replay) (calls : List ReaderCall) (c : ReaderCall) :
    replay st (calls ++ [c]) = replayCall (replay st calls) c := by
  simp [replay, List.foldl_append]

theorem malformed_int32 (tag attrName : String) (h : (tag, attrName) ∉ booleanReads)
    (text : String) (hm : Malformed tag attrName text) :
    Convert.ToInt32 (some text) = Except.error Exception.FormatException := by
  rcases hm with ⟨_, hparse⟩ | ⟨hmem, _⟩
  · simp [Convert.ToInt32, hparse]
  · exact absurd hmem h

theorem malformed_uint32 (tag attrName : String) (h : (tag, attrName) ∉ booleanReads)
    (text : String) (hm : Malformed tag attrName text) :
    Convert.ToUInt32 (some text) = Except.error Exception.FormatException := by
  rcases hm with ⟨_, hparse⟩ | ⟨hmem, _⟩
  · simp [Convert.ToUInt32, hparse]
  · exact absurd hmem h

theorem malformed_boolean (tag attrName : String) (h : (tag, attrName) ∉ integerReads)
    (text : String) (hm : Malformed tag attrName text) :
    Convert.ToBoolean (some text) = Except.error Exception.FormatException := by
  rcases hm with ⟨hmem, _⟩ | ⟨_, hbool⟩
  · exact absurd hmem h
  · unfold RecognizedBoolean at hbool
    simp only [not_or, ne_eq, not_not] at hbool
    simp only [Convert.ToBoolean, Boolean.Parse, hbool.1, hbool.2]

theorem malformed_other {α : Type} (convert : Option String → Except Exception α)
    (tag attrName : String) (h1 : (tag, attrName) ∉ integerReads)
    (h2 : (tag, attrName) ∉ booleanReads) (text : String) (hm : Malformed tag attrName text) :
    convert (some text) = Except.error Exception.FormatException := by
  rcases hm with ⟨hmem, _⟩ | ⟨hmem, _⟩
  · exact absurd hmem h1
  · exact absurd hmem h2

theorem seek_wellRead {Keys : Type} (init : XmlReader) (tag : String) :
    Spec (WellRead init) (ReadToFollowing tag : Op (ReadState Keys) Bool)
      (fun _ => WellReadAt init tag) (FailsAsFormat init) := by
  refine Spec.weaken (ReadToFollowing_spec tag _ _) (fun _ h => h) ?_ (fun _ _ h => h)
  rintro _ t ⟨s, ⟨hreader, hreads⟩, rfl, _⟩
  have hcalls : (s.Reader.ReadToFollowing tag).2.Calls =
      s.Reader.Calls ++ [ReaderCall.ReadToFollowing tag] := by
    simp only [XmlReader.ReadToFollowing]
    split <;> rfl
  have hrep : replayed init ({ s with Reader := (s.Reader.ReadToFollowing tag).2 } :
      ReadState Keys) = replayCall (replayed init s) (ReaderCall.ReadToFollowing tag) := by
    unfold replayed
    rw [hcalls, replay_append]
  refine ⟨⟨?_, ?_⟩, ?_⟩
  · rw [hrep]
    simp only [replayCall, hreader]
  · rw [hrep]
    exact hreads
  · rw [hrep]
    rfl

theorem assign_wellReadAt {Keys : Type} (init : XmlReader) (tag : String)
    (f : OgreClientConfig Keys → OgreClientConfig Keys) :
    Spec (WellReadAt init tag) (assign f) (fun _ => WellReadAt init tag)
      (FailsAsFormat init) :=
  Spec.weaken (assign_spec f _ _) (fun _ h => h)
    (fun _ _ hq => by obtain ⟨s, hs, rfl⟩ := hq; exact hs) (fun _ _ h => h)

theorem assign_wellRead {Keys : Type} (init : XmlReader)
    (f : OgreClientConfig Keys → OgreClientConfig Keys) :
    Spec (WellRead init) (assign f) (fun _ => WellRead init) (FailsAsFormat init) :=
  Spec.weaken (assign_spec f _ _) (fun _ h => h)
    (fun _ _ hq => by obtain ⟨s, hs, rfl⟩ := hq; exact hs) (fun _ _ h => h)

theorem item_pending {Keys : Type} (init : XmlReader) (tag name : String) :
    Spec (WellReadAt init tag) (ReaderItem name : Op (ReadState Keys) (Option String))
      (fun text => Pending init tag name text) (FailsAsFormat init) := by
  refine Spec.weaken (ReaderItem_spec name _ _) (fun _ h => h) ?_ (fun _ _ h => h)
  rintro text t ⟨s, ⟨⟨hreader, hreads⟩, htag⟩, rfl, rfl⟩
  have hrep : replayed init ({ s with Reader := { s.Reader with
      Calls := s.Reader.Calls ++ [ReaderCall.GetAttribute name] } } : ReadState Keys) =
      replayCall (replayed init s) (ReaderCall.GetAttribute name) := by
    unfold replayed
    exact replay_append _ _ _
  refine ⟨?_, ?_, (replayed init s).Reads, ?_, hreads⟩
  · rw [hrep]
    simp only [replayCall, hreader]
  · rw [hrep]
    exact htag
  · rw [hrep]
    simp only [replayCall, htag, hreader, Option.getD_some]

theorem convert_pending {Keys α : Type} (init : XmlReader) (tag name : String)
    (text : Option String) (convert : Option String → Except Exception α)
    (hconv : ∀ x, Malformed tag name x →
      convert (some x) = Except.error Exception.FormatException) :
    Spec (Pending init tag name text) (Op.ofExcept (convert text) : Op (ReadState Keys) α)
      (fun _ => WellReadAt init tag) (FailsAsFormat init) := by
  refine Spec.weaken (ofExcept_spec _ _) (fun _ h => h) ?_ ?_
  · rintro v s ⟨⟨hreader, htag, old, hold, hwell⟩, hv⟩
    refine ⟨⟨hreader, ?_⟩, htag⟩
    intro t a x hmem hbad
    rw [hold] at hmem
    simp only [List.mem_append, List.mem_singleton, Prod.mk.injEq] at hmem
    rcases hmem with hmem | ⟨rfl, rfl, htext⟩
    · exact hwell t a x hmem hbad
    · rw [← htext, hconv x hbad] at hv
      cases hv
  · rintro e s ⟨⟨_, _, old, hold, hwell⟩, he⟩
    intro t a x hmem hbad
    rw [hold] at hmem
    simp only [List.mem_append, List.mem_singleton, Prod.mk.injEq] at hmem
    rcases hmem with hmem | ⟨rfl, rfl, htext⟩
    · exact absurd hbad (hwell t a x hmem)
    · rw [← htext, hconv x hbad] at he
      cases he
      rfl

theorem item_plain {Keys : Type} (init : XmlReader) (tag name : String)
    (h1 : (tag, name) ∉ integerReads) (h2 : (tag, name) ∉ booleanReads) :
    Spec (WellReadAt init tag) (ReaderItem name : Op (ReadState Keys) (Option String))
      (fun _ => WellReadAt init tag) (FailsAsFormat init) := by
  refine Spec.weaken (item_pending init tag name) (fun _ h => h) ?_ (fun _ _ h => h)
  rintro text s ⟨hreader, htag, old, hold, hwell⟩
  refine ⟨⟨hreader, ?_⟩, htag⟩
  intro t a x hmem hbad
  rw [hold] at hmem
  simp only [List.mem_append, List.mem_singleton, Prod.mk.injEq] at hmem
  rcases hmem with hmem | ⟨rfl, rfl, _⟩
  · exact hwell t a x hmem hbad
  · rcases hbad with ⟨hin, _⟩ | ⟨hin, _⟩
    · exact h1 hin
    · exact h2 hin

theorem assignAttribute_wellRead {Keys α : Type} (init : XmlReader) (tag : String)
    (convert : Option String → Except Exception α) (attrName : String)
    (set : α → OgreClientConfig Keys → OgreClientConfig Keys)
    (hconv : ∀ x, Malformed tag attrName x →
      convert (some x) = Except.error Exception.FormatException) :
    Spec (WellReadAt init tag) (assignAttribute convert attrName set)
      (fun _ => WellRead init) (FailsAsFormat init) := by
  unfold assignAttribute
  refine Spec.bind_rule (item_pending init tag attrName) (fun text => ?_)
  refine Spec.bind_rule (convert_pending init tag attrName text convert hconv) (fun v => ?_)
  exact Spec.weaken (assign_wellReadAt init tag _) (fun _ h => h) (fun _ _ h => h.1)
    (fun _ _ h => h)

theorem readField_wellRead {Keys α : Type} (init : XmlReader)
    (convert : Option String → Except Exception α) (tag attrName : String)
    (set : α → OgreClientConfig Keys → OgreClientConfig Keys)
    (hconv : ∀ x, Malformed tag attrName x →
      convert (some x) = Except.error Exception.FormatException) :
    Spec (WellRead init) (readField convert tag attrName set)
      (fun _ => WellRead init) (FailsAsFormat init) := by
  unfold readField
  exact Spec.seq_rule (seek_wellRead init tag)
    (assignAttribute_wellRead init tag convert attrName set hconv)

theorem evalArgument_wellRead {Keys : Type} (init : XmlReader) (a : ButtonArgument)
    (args : ActionButtonConfig) :
    Spec (WellReadAt init TAG_ACTIONBUTTON)
      (evalArgument a args : Op (ReadState Keys) ActionButtonConfig)
      (fun _ => WellReadAt init TAG_ACTIONBUTTON) (FailsAsFormat init) := by
  cases a with
  | Num =>
    unfold evalArgument
    refine Spec.bind_rule (item_pending init _ _) (fun _ => ?_)
    refine Spec.bind_rule (convert_pending init _ _ _ Convert.ToInt32
      (malformed_int32 _ _ (by decide))) (fun _ => ?_)
    exact Spec.pure_rule _ _ _
  | ButtonType =>
    unfold evalArgument
    refine Spec.bind_rule (item_plain init _ _ (by decide) (by decide)) (fun _ => ?_)
    exact Spec.pure_rule _ _ _
  | Name =>
    unfold evalArgument
    refine Spec.bind_rule (item_plain init _ _ (by decide) (by decide)) (fun _ => ?_)
    exact Spec.pure_rule _ _ _
  | NumOfSameName =>
    unfold evalArgument
    refine Spec.bind_rule (item_pending init _ _) (fun _ => ?_)
    refine Spec.bind_rule (convert_pending init _ _ _ Convert.ToUInt32
      (malformed_uint32 _ _ (by decide))) (fun _ => ?_)
    exact Spec.pure_rule _ _ _

theorem evalArguments_wellRead {Keys : Type} (init : XmlReader) (order : List ButtonArgument)
    (args : ActionButtonConfig) :
    Spec (WellReadAt init TAG_ACTIONBUTTON)
      (evalArguments order args : Op (ReadState Keys) ActionButtonConfig)
      (fun _ => WellReadAt init TAG_ACTIONBUTTON) (FailsAsFormat init) := by
  induction order generalizing args with
  | nil => exact Spec.pure_rule _ _ _
  | cons a rest ih =>
    unfold evalArguments
    exact Spec.bind_rule (evalArgument_wellRead init a args) (fun r => ih r)

theorem ReadXml_actionbutton_wellRead {Keys : Type} (init : XmlReader) (n : Nat)
    (acc : ActionButtonList) :
    Spec (WellRead init) (ReadXml_actionbutton n acc : Op (ReadState Keys) ActionButtonList)
      (fun _ => WellRead init) (FailsAsFormat init) := by
  induction n generalizing acc with
  | zero => exact Spec.pure_rule _ _ _
  | succ k ih =>
    unfold ReadXml_actionbutton
    refine Spec.bind_rule (seek_wellRead init _) (fun _ => ?_)
    refine Spec.bind_rule (evalArguments_wellRead init _ _) (fun _ => ?_)
    exact Spec.weaken (ih _) (fun _ h => h.1) (fun _ _ h => h) (fun _ _ h => h)

theorem ReadXml_actionbuttons_wellRead {Keys : Type} (init : XmlReader) (n : Nat) :
    Spec (WellRead init) (ReadXml_actionbuttons n : Op (ReadState Keys) Unit)
      (fun _ => WellRead init) (FailsAsFormat init) := by
  induction n with
  | zero => exact Spec.pure_rule _ _ _
  | succ k ih =>
    unfold ReadXml_actionbuttons
    refine Spec.bind_rule (seek_wellRead init _) (fun _ => ?_)
    refine Spec.bind_rule (item_plain init _ _ (by decide) (by decide)) (fun _ => ?_)
    refine Spec.bind_rule (item_pending init _ _) (fun _ => ?_)
    refine Spec.bind_rule (convert_pending init _ _ _ Convert.ToInt32
      (malformed_int32 _ _ (by decide))) (fun _ => ?_)
    refine Spec.bind_rule (Spec.weaken (ReadXml_actionbutton_wellRead init _ _) (fun _ h => h.1)
      (fun _ _ h => h) (fun _ _ h => h)) (fun _ => ?_)
    refine Spec.bind_rule (assign_wellRead init _) (fun _ => ?_)
    exact ih

theorem ReadXml_actionbuttonsets_wellRead {Keys : Type} (init : XmlReader) :
    Spec (WellRead init) (ReadXml_actionbuttonsets : Op (ReadState Keys) Unit)
      (fun _ => WellRead init) (FailsAsFormat init) := by
  unfold ReadXml_actionbuttonsets
  refine Spec.bind_rule (seek_wellRead init _) (fun _ => ?_)
  refine Spec.bind_rule (item_pending init _ _) (fun _ => ?_)
  refine Spec.bind_rule (convert_pending init _ _ _ Convert.ToInt32
    (malformed_int32 _ _ (by decide))) (fun _ => ?_)
  exact Spec.weaken (ReadXml_actionbuttons_wellRead init _) (fun _ h => h.1)
    (fun _ _ h => h) (fun _ _ h => h)

/-- Along a run of ReadXml every text read converts, or the run ends there with the
exception of the conversion: a FormatException when the text is malformed. -/
theorem ReadXml_wellRead {Keys : Type} (api : Collaborators Keys) (init : XmlReader) :
    Spec (WellRead init) (ReadXml api) (fun _ => WellRead init) (FailsAsFormat init) := by
  unfold ReadXml
  refine Spec.seq_rule (Q := WellRead init) ?_ ?_
  · unfold ReadXml_engine
    refine Spec.seq_rule (Spec.weaken (seek_wellRead init _) (fun _ h => h) (fun _ _ h => h.1)
      (fun _ _ h => h)) ?_
    repeat (first
      | refine Spec.seq_rule (readField_wellRead init Convert.ToInt32 _ _ _
          (malformed_int32 _ _ (by decide))) ?_
      | refine Spec.seq_rule (readField_wellRead init Convert.ToBoolean _ _ _
          (malformed_boolean _ _ (by decide))) ?_
      | refine Spec.seq_rule (readField_wellRead init _ _ _ _
          (malformed_other _ _ _ (by decide) (by decide))) ?_
      | exact readField_wellRead init Convert.ToInt32 _ _ _ (malformed_int32 _ _ (by decide))
      | exact readField_wellRead init Convert.ToBoolean _ _ _
          (malformed_boolean _ _ (by decide))
      | exact readField_wellRead init _ _ _ _ (malformed_other _ _ _ (by decide) (by decide)))
  refine Spec.seq_rule (Q := WellRead init) ?_ ?_
  · unfold ReadXml_input
    refine Spec.seq_rule (Spec.weaken (seek_wellRead init _) (fun _ h => h) (fun _ _ h => h.1)
      (fun _ _ h => h)) ?_
    repeat (first
      | refine Spec.seq_rule (readField_wellRead init Convert.ToInt32 _ _ _
          (malformed_int32 _ _ (by decide))) ?_
      | refine Spec.seq_rule (readField_wellRead init Convert.ToBoolean _ _ _
          (malformed_boolean _ _ (by decide))) ?_
      | refine Spec.seq_rule (readField_wellRead init _ _ _ _
          (malformed_other _ _ _ (by decide) (by decide))) ?_
      | exact readField_wellRead init Convert.ToInt32 _ _ _ (malformed_int32 _ _ (by decide))
      | exact readField_wellRead init Convert.ToBoolean _ _ _
          (malformed_boolean _ _ (by decide))
      | exact readField_wellRead init _ _ _ _ (malformed_other _ _ _ (by decide) (by decide)))
  refine Spec.seq_rule (Q := WellRead init) ?_ ?_
  · unfold ReadXml_keybinding
    refine Spec.seq_rule (seek_wellRead init _) ?_
    refine Spec.seq_rule (assign_wellReadAt init _ _) ?_
    exact assignAttribute_wellRead init _ Convert.ToInt32 _ _ (malformed_int32 _ _ (by decide))
  refine Spec.seq_rule (Q := WellRead init) ?_ ?_
  · unfold ReadXml_keys_movement
    repeat (first
      | refine Spec.seq_rule (readField_wellRead init _ _ _ _
          (malformed_other _ _ _ (by decide) (by decide))) ?_
      | exact readField_wellRead init _ _ _ _ (malformed_other _ _ _ (by decide) (by decide)))
  refine Spec.seq_rule (Q := WellRead init) ?_ ?_
  · unfold ReadXml_keys_modifiers
    repeat (first
      | refine Spec.seq_rule (readField_wellRead init _ _ _ _
          (malformed_other _ _ _ (by decide) (by decide))) ?_
      | exact readField_wellRead init _ _ _ _ (malformed_other _ _ _ (by decide) (by decide)))
  refine Spec.seq_rule (Q := WellRead init) ?_ ?_
  · unfold ReadXml_keys_targetting
    repeat (first
      | refine Spec.seq_rule (readField_wellRead init _ _ _ _
          (malformed_other _ _ _ (by decide) (by decide))) ?_
      | exact readField_wellRead init _ _ _ _ (malformed_other _ _ _ (by decide) (by decide)))
  refine Spec.seq_rule (Q := WellRead init) ?_ ?_
  · unfold ReadXml_keys_others
    repeat (first
      | refine Spec.seq_rule (readField_wellRead init _ _ _ _
          (malformed_other _ _ _ (by decide) (by decide))) ?_
      | exact readField_wellRead init _ _ _ _ (malformed_other _ _ _ (by decide) (by decide)))
  refine Spec.seq_rule (Q := WellRead init) ?_ ?_
  · unfold ReadXml_keys_actions
    repeat (first
      | refine Spec.seq_rule (readField_wellRead init _ _ _ _
          (malformed_other _ _ _ (by decide) (by decide))) ?_
      | exact readField_wellRead init _ _ _ _ (malformed_other _ _ _ (by decide) (by decide)))
  exact ReadXml_actionbuttonsets_wellRead init

/-! ## A run that returns has made the planned calls -/

theorem ReadToFollowing_reader_spec {Keys : Type} (tag : String) (todo : List ReaderCall)
    (final : XmlReader) :
    Spec (fun s : ReadState Keys =>
        List.foldl XmlReader.after s.Reader (ReaderCall.ReadToFollowing tag :: todo) = final)
      (ReadToFollowing tag)
      (fun _ t => List.foldl XmlReader.after t.Reader todo = final) (fun _ _ => True) := by
  refine Spec.weaken (ReadToFollowing_spec tag _ _) (fun _ h => h) ?_ (fun _ _ h => h)
  rintro _ t ⟨s, hs, rfl, _⟩
  exact hs

theorem ReaderItem_reader_spec {Keys : Type} (name : String) (todo : List ReaderCall)
    (final : XmlReader) :
    Spec (fun s : ReadState Keys =>
        List.foldl XmlReader.after s.Reader (ReaderCall.GetAttribute name :: todo) = final)
      (ReaderItem name)
      (fun _ t => List.foldl XmlReader.after t.Reader todo = final) (fun _ _ => True) := by
  refine Spec.weaken (ReaderItem_spec name _ _) (fun _ h => h) ?_ (fun _ _ h => h)
  rintro _ t ⟨s, hs, _, rfl⟩
  exact hs

theorem assign_reader_spec {Keys : Type} (f : OgreClientConfig Keys → OgreClientConfig Keys)
    (todo : List ReaderCall) (final : XmlReader) :
    Spec (fun s : ReadState Keys => List.foldl XmlReader.after s.Reader todo = final)
      (assign f) (fun _ t => List.foldl XmlReader.after t.Reader todo = final)
      (fun _ _ => True) := by
  refine Spec.weaken (assign_spec f _ _) (fun _ h => h) ?_ (fun _ _ h => h)
  rintro _ t ⟨s, hs, rfl⟩
  exact hs

theorem ofExcept_reader_spec {Keys α : Type} (x : Except Exception α) (todo : List ReaderCall)
    (final : XmlReader) :
    Spec (fun s : ReadState Keys => List.foldl XmlReader.after s.Reader todo = final)
      (Op.ofExcept x : Op (ReadState Keys) α)
      (fun _ t => List.foldl XmlReader.after t.Reader todo = final) (fun _ _ => True) :=
  Spec.weaken (ofExcept_spec _ _) (fun _ h => h) (fun _ _ h => h.1) (fun _ _ _ => trivial)

theorem assignAttribute_reader_spec {Keys α : Type}
    (convert : Option String → Except Exception α) (attrName : String)
    (set : α → OgreClientConfig Keys → OgreClientConfig Keys) (todo : List ReaderCall)
    (final : XmlReader) :
    Spec (fun s : ReadState Keys =>
        List.foldl XmlReader.after s.Reader (ReaderCall.GetAttribute attrName :: todo) = final)
      (assignAttribute convert attrName set)
      (fun _ t => List.foldl XmlReader.after t.Reader todo = final) (fun _ _ => True) := by
  unfold assignAttribute
  refine Spec.bind_rule (ReaderItem_reader_spec attrName todo final) (fun text => ?_)
  refine Spec.bind_rule (ofExcept_reader_spec _ todo final) (fun v => ?_)
  exact assign_reader_spec _ todo final

theorem readField_reader_spec {Keys α : Type} (convert : Option String → Except Exception α)
    (tag attrName : String) (set : α → OgreClientConfig Keys → OgreClientConfig Keys)
    (todo : List ReaderCall) (final : XmlReader) :
    Spec (fun s : ReadState Keys =>
        List.foldl XmlReader.after s.Reader (ReaderCall.ReadToFollowing tag ::
          ReaderCall.GetAttribute attrName :: todo) = final)
      (readField convert tag attrName set)
      (fun _ t => List.foldl XmlReader.after t.Reader todo = final) (fun _ _ => True) := by
  unfold readField
  exact Spec.seq_rule (ReadToFollowing_reader_spec tag _ final)
    (assignAttribute_reader_spec convert attrName set todo final)

theorem evalArgument_reader_spec {Keys : Type} (a : ButtonArgument) (args : ActionButtonConfig)
    (todo : List ReaderCall) (final : XmlReader) :
    Spec (fun s : ReadState Keys =>
        List.foldl XmlReader.after s.Reader (ReaderCall.GetAttribute a.Attribute :: todo) =
          final)
      (evalArgument a args)
      (fun _ t => List.foldl XmlReader.after t.Reader todo = final) (fun _ _ => True) := by
  cases a with
  | Num =>
    unfold evalArgument
    refine Spec.bind_rule (ReaderItem_reader_spec _ todo final) (fun _ => ?_)
    refine Spec.bind_rule (ofExcept_reader_spec _ todo final) (fun _ => ?_)
    exact Spec.pure_rule _ _ _
  | ButtonType =>
    unfold evalArgument
    refine Spec.bind_rule (ReaderItem_reader_spec _ todo final) (fun _ => ?_)
    exact Spec.pure_rule _ _ _
  | Name =>
    unfold evalArgument
    refine Spec.bind_rule (ReaderItem_reader_spec _ todo final) (fun _ => ?_)
    exact Spec.pure_rule _ _ _
  | NumOfSameName =>
    unfold evalArgument
    refine Spec.bind_rule (ReaderItem_reader_spec _ todo final) (fun _ => ?_)
    refine Spec.bind_rule (ofExcept_reader_spec _ todo final) (fun _ => ?_)
    exact Spec.pure_rule _ _ _

theorem evalArguments_reader_spec {Keys : Type} (order : List ButtonArgument)
    (args : ActionButtonConfig) (todo : List ReaderCall) (final : XmlReader) :
    Spec (fun s : ReadState Keys =>
        List.foldl XmlReader.after s.Reader
          (order.map (fun a => ReaderCall.GetAttribute a.Attribute) ++ todo) = final)
      (evalArguments order args)
      (fun _ t => List.foldl XmlReader.after t.Reader todo = final) (fun _ _ => True) := by
  induction order generalizing args with
  | nil => exact Spec.pure_rule _ _ _
  | cons a rest ih =>
    unfold evalArguments
    exact Spec.bind_rule (evalArgument_reader_spec a args _ final) (fun r => ih r)

theorem ReadXml_actionbutton_reader {Keys : Type} (n : Nat) (acc : ActionButtonList)
    (r : XmlReader) :
    Spec (fun s : ReadState Keys => s.Reader = r) (ReadXml_actionbutton n acc)
      (fun _ t => t.Reader = readerAfterButtons n r) (fun _ _ => True) := by
  induction n generalizing acc r with
  | zero => exact Spec.pure_rule _ _ _
  | succ k ih =>
    unfold ReadXml_actionbutton
    refine Spec.bind_rule (Spec.weaken (ReadToFollowing_reader_spec TAG_ACTIONBUTTON
      (ArgumentOrder.order.map (fun a => ReaderCall.GetAttribute a.Attribute) ++ [])
      (buttonCalls.foldl XmlReader.after r)) ?_ (fun _ _ h => h) (fun _ _ h => h))
      (fun _ => ?_)
    · intro s hs
      rw [hs, List.append_nil]
      rfl
    refine Spec.bind_rule (evalArguments_reader_spec _ _ [] _) (fun _ => ?_)
    exact ih _ _

theorem Spec.assume {σ α : Type} {P : σ → Prop} {C : Prop} {Q : α → σ → Prop}
    {E : Exception → σ → Prop} {m : Op σ α} (h : C → Spec P m Q E) :
    Spec (fun s => P s ∧ C) m Q E :=
  fun s hs => h hs.2 s hs.1

theorem readerAfterSets_succ (k : Nat) (r : XmlReader) (num : Int32)
    (h : Convert.ToInt32 (([ReaderCall.ReadToFollowing TAG_ACTIONBUTTONS,
      ReaderCall.GetAttribute ATTRIB_PLAYER,
      ReaderCall.GetAttribute ATTRIB_COUNT].foldl XmlReader.after r).Item ATTRIB_COUNT) =
      Except.ok num) :
    readerAfterSets (k + 1) r = readerAfterSets k (readerAfterButtons num.val.toNat
      ([ReaderCall.ReadToFollowing TAG_ACTIONBUTTONS, ReaderCall.GetAttribute ATTRIB_PLAYER,
        ReaderCall.GetAttribute ATTRIB_COUNT].foldl XmlReader.after r)) := by
  rw [readerAfterSets, h]

theorem readerAfterSetsPart_ok (r : XmlReader) (count : Int32)
    (h : Convert.ToInt32 (([ReaderCall.ReadToFollowing TAG_ACTIONBUTTONSETS,
      ReaderCall.GetAttribute ATTRIB_COUNT].foldl XmlReader.after r).Item ATTRIB_COUNT) =
      Except.ok count) :
    readerAfterSetsPart r = readerAfterSets count.val.toNat
      ([ReaderCall.ReadToFollowing TAG_ACTIONBUTTONSETS,
        ReaderCall.GetAttribute ATTRIB_COUNT].foldl XmlReader.after r) := by
  rw [readerAfterSetsPart, h]

theorem ReadXml_actionbuttons_reader {Keys : Type} (n : Nat) (r : XmlReader) :
    Spec (fun s : ReadState Keys => s.Reader = r) (ReadXml_actionbuttons n)
      (fun _ t => t.Reader = readerAfterSets n r) (fun _ _ => True) := by
  induction n generalizing r with
  | zero => exact Spec.pure_rule _ _ _
  | succ k ih =>
    unfold ReadXml_actionbuttons
    refine Spec.bind_rule (Q := fun _ t => t.Reader = r.after
      (ReaderCall.ReadToFollowing TAG_ACTIONBUTTONS))
      (Spec.weaken (ReadToFollowing_spec _ _ (fun _ _ => True)) (fun _ h => h) ?_
        (fun _ _ h => h)) (fun _ => ?_)
    · rintro _ t ⟨s, hs, rfl, _⟩
      rw [← hs]
      rfl
    refine Spec.bind_rule (Q := fun _ t => t.Reader = (r.after
      (ReaderCall.ReadToFollowing TAG_ACTIONBUTTONS)).after
        (ReaderCall.GetAttribute ATTRIB_PLAYER))
      (Spec.weaken (ReaderItem_spec _ _ (fun _ _ => True)) (fun _ h => h) ?_
        (fun _ _ h => h)) (fun PlayerName => ?_)
    · rintro _ t ⟨s, hs, _, rfl⟩
      rw [← hs]
      rfl
    refine Spec.bind_rule (Q := fun text t => t.Reader =
        [ReaderCall.ReadToFollowing TAG_ACTIONBUTTONS, ReaderCall.GetAttribute ATTRIB_PLAYER,
          ReaderCall.GetAttribute ATTRIB_COUNT].foldl XmlReader.after r ∧
        text = ([ReaderCall.ReadToFollowing TAG_ACTIONBUTTONS,
          ReaderCall.GetAttribute ATTRIB_PLAYER,
          ReaderCall.GetAttribute ATTRIB_COUNT].foldl XmlReader.after r).Item ATTRIB_COUNT)
      (Spec.weaken (ReaderItem_spec _ _ (fun _ _ => True)) (fun _ h => h) ?_
        (fun _ _ h => h)) (fun text => ?_)
    · rintro _ t ⟨s, hs, rfl, rfl⟩
      obtain ⟨this, rd⟩ := s
      have hrd : rd = _ := hs
      subst hrd
      exact ⟨rfl, rfl⟩
    refine Spec.bind_rule (Q := fun num t => t.Reader =
        [ReaderCall.ReadToFollowing TAG_ACTIONBUTTONS, ReaderCall.GetAttribute ATTRIB_PLAYER,
          ReaderCall.GetAttribute ATTRIB_COUNT].foldl XmlReader.after r ∧
        Convert.ToInt32 (([ReaderCall.ReadToFollowing TAG_ACTIONBUTTONS,
          ReaderCall.GetAttribute ATTRIB_PLAYER,
          ReaderCall.GetAttribute ATTRIB_COUNT].foldl XmlReader.after r).Item ATTRIB_COUNT) =
          Except.ok num)
      (Spec.weaken (ofExcept_spec _ _) (fun _ h => h) ?_ (fun _ _ _ => trivial))
      (fun num => ?_)
    · rintro num t ⟨⟨ht, htext⟩, hconv⟩
      rw [htext] at hconv
      exact ⟨ht, hconv⟩
    refine Spec.assume (fun hconv => ?_)
    rw [readerAfterSets_succ k r num hconv]
    refine Spec.bind_rule (ReadXml_actionbutton_reader num.val.toNat _ _) (fun set => ?_)
    refine Spec.bind_rule (Q := fun _ t => t.Reader = readerAfterButtons num.val.toNat
        ([ReaderCall.ReadToFollowing TAG_ACTIONBUTTONS, ReaderCall.GetAttribute ATTRIB_PLAYER,
          ReaderCall.GetAttribute ATTRIB_COUNT].foldl XmlReader.after r))
      (Spec.weaken (assign_spec _ _ (fun _ _ => True)) (fun _ h => h) ?_ (fun _ _ h => h))
      (fun _ => ?_)
    · rintro _ t ⟨s, hs, rfl⟩
      exact hs
    exact ih _

theorem ReadXml_actionbuttonsets_reader {Keys : Type} (r : XmlReader) :
    Spec (fun s : ReadState Keys => s.Reader = r) ReadXml_actionbuttonsets
      (fun _ t => t.Reader = readerAfterSetsPart r) (fun _ _ => True) := by
  unfold ReadXml_actionbuttonsets
  refine Spec.bind_rule (Q := fun _ t => t.Reader = r.after
    (ReaderCall.ReadToFollowing TAG_ACTIONBUTTONSETS))
    (Spec.weaken (ReadToFollowing_spec _ _ (fun _ _ => True)) (fun _ h => h) ?_
      (fun _ _ h => h)) (fun _ => ?_)
  · rintro _ t ⟨s, hs, rfl, _⟩
    rw [← hs]
    rfl
  refine Spec.bind_rule (Q := fun text t => t.Reader =
      [ReaderCall.ReadToFollowing TAG_ACTIONBUTTONSETS,
        ReaderCall.GetAttribute ATTRIB_COUNT].foldl XmlReader.after r ∧
      text = ([ReaderCall.ReadToFollowing TAG_ACTIONBUTTONSETS,
        ReaderCall.GetAttribute ATTRIB_COUNT].foldl XmlReader.after r).Item ATTRIB_COUNT)
    (Spec.weaken (ReaderItem_spec _ _ (fun _ _ => True)) (fun _ h => h) ?_
      (fun _ _ h => h)) (fun text => ?_)
  · rintro _ t ⟨s, hs, rfl, rfl⟩
    obtain ⟨this, rd⟩ := s
    have hrd : rd = _ := hs
    subst hrd
    exact ⟨rfl, rfl⟩
  refine Spec.bind_rule (Q := fun count t => t.Reader =
      [ReaderCall.ReadToFollowing TAG_ACTIONBUTTONSETS,
        ReaderCall.GetAttribute ATTRIB_COUNT].foldl XmlReader.after r ∧
      Convert.ToInt32 (([ReaderCall.ReadToFollowing TAG_ACTIONBUTTONSETS,
        ReaderCall.GetAttribute ATTRIB_COUNT].foldl XmlReader.after r).Item ATTRIB_COUNT) =
        Except.ok count)
    (Spec.weaken (ofExcept_spec _ _) (fun _ h => h) ?_ (fun _ _ _ => trivial))
    (fun count => ?_)
  · rintro count t ⟨⟨ht, htext⟩, hconv⟩
    rw [htext] at hconv
    exact ⟨ht, hconv⟩
  refine Spec.assume (fun hconv => ?_)
  rw [readerAfterSetsPart_ok r count hconv]
  exact ReadXml_actionbuttons_reader _ _

/-- A run of ReadXml that returns leaves the reader where the plan for the document
says: the seeks and reads do not depend on the values converted, the counts
apart. -/
theorem ReadXml_reader {Keys : Type} (api : Collaborators Keys) (r : XmlReader) :
    Spec (fun s : ReadState Keys => s.Reader = r) (ReadXml api)
      (fun _ t => t.Reader = plannedReader r) (fun _ _ => True) := by
  refine Spec.weaken (P := fun s : ReadState Keys => List.foldl XmlReader.after s.Reader
      (sectionCalls ++ (ReaderCall.ReadToFollowing TAG_KEYBINDING ::
        ReaderCall.GetAttribute ATTRIB_RIGHTCLICKACTION :: (keyCalls ++ []))) =
      fixedCalls.foldl XmlReader.after r) ?_ ?_ (fun _ _ h => h) (fun _ _ h => h)
  · unfold ReadXml
    apply Spec.seq_rule
    · unfold ReadXml_engine
      refine Spec.seq_rule (ReadToFollowing_reader_spec _ _ _) ?_
      repeat (first
        | refine Spec.seq_rule (readField_reader_spec _ _ _ _ _ _) ?_
        | exact readField_reader_spec _ _ _ _ _ _)
    apply Spec.seq_rule
    · unfold ReadXml_input
      refine Spec.seq_rule (ReadToFollowing_reader_spec _ _ _) ?_
      repeat (first
        | refine Spec.seq_rule (readField_reader_spec _ _ _ _ _ _) ?_
        | exact readField_reader_spec _ _ _ _ _ _)
    apply Spec.seq_rule
    · unfold ReadXml_keybinding
      refine Spec.seq_rule (ReadToFollowing_reader_spec _ _ _) ?_
      refine Spec.seq_rule (assign_reader_spec _ _ _) ?_
      exact assignAttribute_reader_spec _ _ _ _ _
    apply Spec.seq_rule
    · unfold ReadXml_keys_movement
      repeat (first
        | refine Spec.seq_rule (readField_reader_spec _ _ _ _ _ _) ?_
        | exact readField_reader_spec _ _ _ _ _ _)
    apply Spec.seq_rule
    · unfold ReadXml_keys_modifiers
      repeat (first
        | refine Spec.seq_rule (readField_reader_spec _ _ _ _ _ _) ?_
        | exact readField_reader_spec _ _ _ _ _ _)
    apply Spec.seq_rule
    · unfold ReadXml_keys_targetting
      repeat (first
        | refine Spec.seq_rule (readField_reader_spec _ _ _ _ _ _) ?_
        | exact readField_reader_spec _ _ _ _ _ _)
    apply Spec.seq_rule
    · unfold ReadXml_keys_others
      repeat (first
        | refine Spec.seq_rule (readField_reader_spec _ _ _ _ _ _) ?_
        | exact readField_reader_spec _ _ _ _ _ _)
    apply Spec.seq_rule
    · unfold ReadXml_keys_actions
      repeat (first
        | refine Spec.seq_rule (readField_reader_spec _ _ _ _ _ _) ?_
        | exact readField_reader_spec _ _ _ _ _ _)
    exact Spec.weaken (ReadXml_actionbuttonsets_reader (fixedCalls.foldl XmlReader.after r))
      (fun _ h => h) (fun _ _ h => h) (fun _ _ h => h)
  · intro s hs
    rw [hs, List.append_nil]
    rfl

/-! ## What ReadXml throws -/

theorem ToInt32_throws {Keys : Type} (api : Collaborators Keys) (text : Option String)
    (e : Exception) (h : Convert.ToInt32 text = Except.error e) : ConversionFailure api e := by
  unfold Convert.ToInt32 at h
  split at h
  · cases h
  · split at h
    · cases h
      exact Or.inl rfl
    · split at h
      · cases h
      · cases h
        exact Or.inr (Or.inl rfl)

theorem ToUInt32_throws {Keys : Type} (api : Collaborators Keys) (text : Option String)
    (e : Exception) (h : Convert.ToUInt32 text = Except.error e) : ConversionFailure api e := by
  unfold Convert.ToUInt32 at h
  split at h
  · cases h
  · split at h
    · cases h
      exact Or.inl rfl
    · split at h
      · cases h
      · cases h
        exact Or.inr (Or.inl rfl)

theorem ToBoolean_throws {Keys : Type} (api : Collaborators Keys) (text : Option String)
    (e : Exception) (h : Convert.ToBoolean text = Except.error e) : ConversionFailure api e := by
  unfold Convert.ToBoolean at h
  split at h
  · cases h
  · unfold Boolean.Parse at h
    split at h
    · cases h
    · split at h
      · cases h
      · cases h
        exact Or.inl rfl

theorem ok_throws {Keys : Type} (api : Collaborators Keys) (text : Option String)
    (e : Exception) (h : (Except.ok text : Except Exception (Option String)) = Except.error e) :
    ConversionFailure api e := by
  cases h

theorem ConvertFrom_throws {Keys : Type} (api : Collaborators Keys) (text : Option String)
    (e : Exception) (h : api.ConvertFrom text = Except.error e) : ConversionFailure api e :=
  Or.inr (Or.inr ⟨text, h⟩)

theorem ReadToFollowing_throws {Keys : Type} (api : Collaborators Keys) (tag : String) :
    Spec (fun _ : ReadState Keys => True) (ReadToFollowing tag) (fun _ _ => True)
      (fun e _ => ConversionFailure api e) :=
  Spec.weaken (ReadToFollowing_spec tag _ _) (fun _ h => h) (fun _ _ _ => trivial)
    (fun _ _ h => h)

theorem ReaderItem_throws {Keys : Type} (api : Collaborators Keys) (name : String) :
    Spec (fun _ : ReadState Keys => True) (ReaderItem name) (fun _ _ => True)
      (fun e _ => ConversionFailure api e) :=
  Spec.weaken (ReaderItem_spec name _ _) (fun _ h => h) (fun _ _ _ => trivial)
    (fun _ _ h => h)

theorem assign_throws {Keys : Type} (api : Collaborators Keys)
    (f : OgreClientConfig Keys → OgreClientConfig Keys) :
    Spec (fun _ : ReadState Keys => True) (assign f) (fun _ _ => True)
      (fun e _ => ConversionFailure api e) :=
  Spec.weaken (assign_spec f _ _) (fun _ h => h) (fun _ _ _ => trivial) (fun _ _ h => h)

theorem ofExcept_throws {Keys α : Type} (api : Collaborators Keys) (x : Except Exception α)
    (h : ∀ e, x = Except.error e → ConversionFailure api e) :
    Spec (fun _ : ReadState Keys => True) (Op.ofExcept x : Op (ReadState Keys) α)
      (fun _ _ => True) (fun e _ => ConversionFailure api e) :=
  Spec.weaken (ofExcept_spec x _) (fun _ h => h) (fun _ _ _ => trivial)
    (fun e _ he => h e he.2)

theorem assignAttribute_throws {Keys α : Type} (api : Collaborators Keys)
    (convert : Option String → Except Exception α) (attrName : String)
    (set : α → OgreClientConfig Keys → OgreClientConfig Keys)
    (h : ∀ text e, convert text = Except.error e → ConversionFailure api e) :
    Spec (fun _ : ReadState Keys => True) (assignAttribute convert attrName set)
      (fun _ _ => True) (fun e _ => ConversionFailure api e) := by
  unfold assignAttribute
  refine Spec.bind_rule (ReaderItem_throws api attrName) (fun text => ?_)
  refine Spec.bind_rule (ofExcept_throws api _ (h text)) (fun v => ?_)
  exact assign_throws api _

theorem readField_throws {Keys α : Type} (api : Collaborators Keys)
    (convert : Option String → Except Exception α) (tag attrName : String)
    (set : α → OgreClientConfig Keys → OgreClientConfig Keys)
    (h : ∀ text e, convert text = Except.error e → ConversionFailure api e) :
    Spec (fun _ : ReadState Keys => True) (readField convert tag attrName set)
      (fun _ _ => True) (fun e _ => ConversionFailure api e) := by
  unfold readField
  exact Spec.seq_rule (ReadToFollowing_throws api tag)
    (assignAttribute_throws api convert attrName set h)

theorem evalArgument_throws {Keys : Type} (api : Collaborators Keys) (a : ButtonArgument)
    (args : ActionButtonConfig) :
    Spec (fun _ : ReadState Keys => True) (evalArgument a args) (fun _ _ => True)
      (fun e _ => ConversionFailure api e) := by
  cases a with
  | Num =>
    unfold evalArgument
    refine Spec.bind_rule (ReaderItem_throws api _) (fun text => ?_)
    refine Spec.bind_rule (ofExcept_throws api _ (ToInt32_throws api text)) (fun _ => ?_)
    exact Spec.pure_rule _ _ _
  | ButtonType =>
    unfold evalArgument
    refine Spec.bind_rule (ReaderItem_throws api _) (fun _ => ?_)
    exact Spec.pure_rule _ _ _
  | Name =>
    unfold evalArgument
    refine Spec.bind_rule (ReaderItem_throws api _) (fun _ => ?_)
    exact Spec.pure_rule _ _ _
  | NumOfSameName =>
    unfold evalArgument
    refine Spec.bind_rule (ReaderItem_throws api _) (fun text => ?_)
    refine Spec.bind_rule (ofExcept_throws api _ (ToUInt32_throws api text)) (fun _ => ?_)
    exact Spec.pure_rule _ _ _

theorem evalArguments_throws {Keys : Type} (api : Collaborators Keys)
    (order : List ButtonArgument) (args : ActionButtonConfig) :
    Spec (fun _ : ReadState Keys => True) (evalArguments order args) (fun _ _ => True)
      (fun e _ => ConversionFailure api e) := by
  induction order generalizing args with
  | nil => exact Spec.pure_rule _ _ _
  | cons a rest ih =>
    unfold evalArguments
    exact Spec.bind_rule (evalArgument_throws api a args) (fun r => ih r)

theorem ReadXml_actionbutton_throws {Keys : Type} (api : Collaborators Keys) (n : Nat)
    (acc : ActionButtonList) :
    Spec (fun _ : ReadState Keys => True) (ReadXml_actionbutton n acc) (fun _ _ => True)
      (fun e _ => ConversionFailure api e) := by
  induction n generalizing acc with
  | zero => exact Spec.pure_rule _ _ _
  | succ k ih =>
    unfold ReadXml_actionbutton
    refine Spec.bind_rule (ReadToFollowing_throws api _) (fun _ => ?_)
    refine Spec.bind_rule (evalArguments_throws api _ _) (fun _ => ?_)
    exact ih _

theorem ReadXml_actionbuttons_throws {Keys : Type} (api : Collaborators Keys) (n : Nat) :
    Spec (fun _ : ReadState Keys => True) (ReadXml_actionbuttons n) (fun _ _ => True)
      (fun e _ => ConversionFailure api e) := by
  induction n with
  | zero => exact Spec.pure_rule _ _ _
  | succ k ih =>
    unfold ReadXml_actionbuttons
    refine Spec.bind_rule (ReadToFollowing_throws api _) (fun _ => ?_)
    refine Spec.bind_rule (ReaderItem_throws api _) (fun _ => ?_)
    refine Spec.bind_rule (ReaderItem_throws api _) (fun text => ?_)
    refine Spec.bind_rule (ofExcept_throws api _ (ToInt32_throws api text)) (fun _ => ?_)
    refine Spec.bind_rule (ReadXml_actionbutton_throws api _ _) (fun _ => ?_)
    refine Spec.bind_rule (assign_throws api _) (fun _ => ?_)
    exact ih

theorem ReadXml_actionbuttonsets_throws {Keys : Type} (api : Collaborators Keys) :
    Spec (fun _ : ReadState Keys => True) ReadXml_actionbuttonsets (fun _ _ => True)
      (fun e _ => ConversionFailure api e) := by
  unfold ReadXml_actionbuttonsets
  refine Spec.bind_rule (ReadToFollowing_throws api _) (fun _ => ?_)
  refine Spec.bind_rule (ReaderItem_throws api _) (fun text => ?_)
  refine Spec.bind_rule (ofExcept_throws api _ (ToInt32_throws api text)) (fun _ => ?_)
  exact ReadXml_actionbuttons_throws api _

/-- Every exception ReadXml throws is the exception of a conversion. -/
theorem ReadXml_throws {Keys : Type} (api : Collaborators Keys) :
    Spec (fun _ : ReadState Keys => True) (ReadXml api) (fun _ _ => True)
      (fun e _ => ConversionFailure api e) := by
  unfold ReadXml
  refine Spec.seq_rule (Q := fun _ => True) ?_ ?_
  · unfold ReadXml_engine
    refine Spec.seq_rule (ReadToFollowing_throws api _) ?_
    repeat (first
      | refine Spec.seq_rule (readField_throws api Convert.ToInt32 _ _ _
          (ToInt32_throws api)) ?_
      | refine Spec.seq_rule (readField_throws api Convert.ToBoolean _ _ _
          (ToBoolean_throws api)) ?_
      | refine Spec.seq_rule (readField_throws api Except.ok _ _ _ (ok_throws api)) ?_
      | exact readField_throws api Convert.ToInt32 _ _ _ (ToInt32_throws api)
      | exact readField_throws api Convert.ToBoolean _ _ _ (ToBoolean_throws api)
      | exact readField_throws api Except.ok _ _ _ (ok_throws api))
  refine Spec.seq_rule (Q := fun _ => True) ?_ ?_
  · unfold ReadXml_input
    refine Spec.seq_rule (ReadToFollowing_throws api _) ?_
    repeat (first
      | refine Spec.seq_rule (readField_throws api Convert.ToInt32 _ _ _
          (ToInt32_throws api)) ?_
      | refine Spec.seq_rule (readField_throws api Convert.ToBoolean _ _ _
          (ToBoolean_throws api)) ?_
      | refine Spec.seq_rule (readField_throws api Except.ok _ _ _ (ok_throws api)) ?_
      | exact readField_throws api Convert.ToInt32 _ _ _ (ToInt32_throws api)
      | exact readField_throws api Convert.ToBoolean _ _ _ (ToBoolean_throws api)
      | exact readField_throws api Except.ok _ _ _ (ok_throws api))
  refine Spec.seq_rule (Q := fun _ => True) ?_ ?_
  · unfold ReadXml_keybinding
    refine Spec.seq_rule (ReadToFollowing_throws api _) ?_
    refine Spec.seq_rule (assign_throws api _) ?_
    exact assignAttribute_throws api Convert.ToInt32 _ _ (ToInt32_throws api)
  refine Spec.seq_rule (Q := fun _ => True) ?_ ?_
  · unfold ReadXml_keys_movement
    repeat (first
      | refine Spec.seq_rule (readField_throws api api.ConvertFrom _ _ _
          (ConvertFrom_throws api)) ?_
      | exact readField_throws api api.ConvertFrom _ _ _ (ConvertFrom_throws api))
  refine Spec.seq_rule (Q := fun _ => True) ?_ ?_
  · unfold ReadXml_keys_modifiers
    repeat (first
      | refine Spec.seq_rule (readField_throws api api.ConvertFrom _ _ _
          (ConvertFrom_throws api)) ?_
      | exact readField_throws api api.ConvertFrom _ _ _ (ConvertFrom_throws api))
  refine Spec.seq_rule (Q := fun _ => True) ?_ ?_
  · unfold ReadXml_keys_targetting
    repeat (first
      | refine Spec.seq_rule (readField_throws api api.ConvertFrom _ _ _
          (ConvertFrom_throws api)) ?_
      | exact readField_throws api api.ConvertFrom _ _ _ (ConvertFrom_throws api))
  refine Spec.seq_rule (Q := fun _ => True) ?_ ?_
  · unfold ReadXml_keys_others
    repeat (first
      | refine Spec.seq_rule (readField_throws api api.ConvertFrom _ _ _
          (ConvertFrom_throws api)) ?_
      | exact readField_throws api api.ConvertFrom _ _ _ (ConvertFrom_throws api))
  refine Spec.seq_rule (Q := fun _ => True) ?_ ?_
  · unfold ReadXml_keys_actions
    repeat (first
      | refine Spec.seq_rule (readField_throws api api.ConvertFrom _ _ _
          (ConvertFrom_throws api)) ?_
      | exact readField_throws api api.ConvertFrom _ _ _ (ConvertFrom_throws api))
  exact ReadXml_actionbuttonsets_throws api

/-- C14: take any document and any object.  The attributes ReadXml reads in the
document are those of `plannedReads`, a function of the document alone: the
elements its seeks reach, in the fixed order of the source and then set by set and
button by button as the count attributes say.  When one of them is an attribute read
as an integer (display, decorationintensity, decorationquality, weatherparticles,
musicvolume, mouseaimspeed, keyrotatespeed, rightclickaction, the two counts, num,
numofsamename) with a text that is not numeric, or an attribute read as a boolean
with a text that is not a recognized boolean, then, in every culture and for every
order of evaluation of the constructor arguments, ReadXml does not return: it throws
the exception of a conversion (a FormatException or an OverflowException of
`Convert`, or what the key converter throws, whichever conversion fails first), and
that exception is a FormatException whenever the run gets as far as reading the
malformed text. -/
theorem C14_malformed_text_fails {Keys : Type} (api : Collaborators Keys)
    (this : OgreClientConfig Keys) (cur : Option XmlElement) (doc : List XmlElement)
    (tag attrName text : String)
    (hread : (tag, attrName, some text) ∈ plannedReads cur doc)
    (hbad : Malformed tag attrName text) :
    (∃ e, ((ReadXml api).run ⟨this, ⟨cur, doc, []⟩⟩).1 = Except.error e ∧
      ConversionFailure api e) ∧
    ((tag, attrName, some text) ∈ attributeReads cur doc
        ((ReadXml api).run ⟨this, ⟨cur, doc, []⟩⟩).2.Reader.Calls →
      ((ReadXml api).run ⟨this, ⟨cur, doc, []⟩⟩).1 =
        Except.error Exception.FormatException) := by
  have hstart : WellRead ⟨cur, doc, []⟩ (⟨this, ⟨cur, doc, []⟩⟩ : ReadState Keys) :=
    ⟨rfl, fun _ _ _ h => nomatch h⟩
  have hspec := ReadXml_wellRead api ⟨cur, doc, []⟩ _ hstart
  have hplan := ReadXml_reader api ⟨cur, doc, []⟩ (⟨this, ⟨cur, doc, []⟩⟩ : ReadState Keys) rfl
  have hthrows := ReadXml_throws api (⟨this, ⟨cur, doc, []⟩⟩ : ReadState Keys) trivial
  rcases hrun : (ReadXml api).run ⟨this, ⟨cur, doc, []⟩⟩ with ⟨out, t⟩
  cases out with
  | ok a =>
    have hreader := hplan.1 a t hrun
    have hmem : (tag, attrName, some text) ∈ attributeReads cur doc t.Reader.Calls := by
      rw [hreader]
      exact hread
    exact absurd hbad ((hspec.1 a t hrun).2 tag attrName text hmem)
  | error e =>
    refine ⟨⟨e, rfl, hthrows.2 e t hrun⟩, ?_⟩
    intro hmem
    have he := hspec.2 e t hrun tag attrName text hmem hbad
    rw [he]

end

/-- The exception depends on the order in which the arguments of the constructor
are evaluated.  On a document whose only button has the num "abc" and the
numofsamename "99999999999", ReadXml throws a FormatException when the arguments
are evaluated from left to right, num being converted first, and an
OverflowException when they are evaluated from right to left, numofsamename being
converted first. -/
theorem ReadXml_refusedNumDocument :
    ((@ReadXml sampleGlobalization leftToRight SampleKeys sampleApi).run
      ⟨freshConfig, ⟨none, refusedNumDocument, []⟩⟩).1 =
      Except.error Exception.FormatException ∧
    ((@ReadXml sampleGlobalization rightToLeft SampleKeys sampleApi).run
      ⟨freshConfig, ⟨none, refusedNumDocument, []⟩⟩).1 =
      Except.error Exception.OverflowException := by
  constructor
  · obtain ⟨c, k, h⟩ := @ReadXml_fixedElements_append sampleGlobalization leftToRight SampleKeys
      sampleApi sampleApi_roundtrip sampleConfig freshConfig none
      [XmlElement.mk TAG_ACTIONBUTTONSETS [(ATTRIB_COUNT, "1")],
        XmlElement.mk TAG_ACTIONBUTTONS [(ATTRIB_PLAYER, "Alice"), (ATTRIB_COUNT, "1")],
        XmlElement.mk TAG_ACTIONBUTTON [(ATTRIB_NUM, "abc"), (ATTRIB_TYPE, "spell"),
          (XMLATTRIB_NAME, "fireball"), (ATTRIB_NUMOFSAMENAME, "99999999999")]] []
    unfold refusedNumDocument
    rw [h]
    rfl
  · obtain ⟨c, k, h⟩ := @ReadXml_fixedElements_append sampleGlobalization rightToLeft SampleKeys
      sampleApi sampleApi_roundtrip sampleConfig freshConfig none
      [XmlElement.mk TAG_ACTIONBUTTONSETS [(ATTRIB_COUNT, "1")],
        XmlElement.mk TAG_ACTIONBUTTONS [(ATTRIB_PLAYER, "Alice"), (ATTRIB_COUNT, "1")],
        XmlElement.mk TAG_ACTIONBUTTON [(ATTRIB_NUM, "abc"), (ATTRIB_TYPE, "spell"),
          (XMLATTRIB_NAME, "fireball"), (ATTRIB_NUMOFSAMENAME, "99999999999")]] []
    unfold refusedNumDocument
    rw [h]
    rfl

set_option maxRecDepth 100000 in
set_option maxHeartbeats 4000000 in
/-- Witness of C14, on three documents: one in which the value of the display
element is "two", one in which the windowmode element holds "yes", and one in which,
inside the loops, the num attribute of a button is "abc"; each text is among the
attributes ReadXml reads in its document, and each run ends with the exception of a
conversion.  On the third document, whose button also has a numofsamename too large
for a `UInt32`, the exception is a FormatException when the constructor arguments
are evaluated from left to right and an OverflowException when they are evaluated
from right to left. -/
theorem C14_malformed_text_fails_witness :
    ((TAG_DISPLAY, ATTRIB_VALUE, some "two") ∈ plannedReads none refusedDisplayDocument ∧
      Malformed TAG_DISPLAY ATTRIB_VALUE "two" ∧
      ∃ e, ((ReadXml sampleApi).run ⟨freshConfig, ⟨none, refusedDisplayDocument, []⟩⟩).1 =
        Except.error e ∧ ConversionFailure sampleApi e) ∧
    ((TAG_WINDOWMODE, ATTRIB_ENABLED, some "yes") ∈ plannedReads none refusedBooleanDocument ∧
      Malformed TAG_WINDOWMODE ATTRIB_ENABLED "yes" ∧
      ∃ e, ((ReadXml sampleApi).run ⟨freshConfig, ⟨none, refusedBooleanDocument, []⟩⟩).1 =
        Except.error e ∧ ConversionFailure sampleApi e) ∧
    ((TAG_ACTIONBUTTON, ATTRIB_NUM, some "abc") ∈ plannedReads none refusedNumDocument ∧
      Malformed TAG_ACTIONBUTTON ATTRIB_NUM "abc" ∧
      ∃ e, ((ReadXml sampleApi).run ⟨freshConfig, ⟨none, refusedNumDocument, []⟩⟩).1 =
        Except.error e ∧ ConversionFailure sampleApi e) ∧
    (((@ReadXml sampleGlobalization leftToRight SampleKeys sampleApi).run
        ⟨freshConfig, ⟨none, refusedNumDocument, []⟩⟩).1 =
        Except.error Exception.FormatException ∧
      ((@ReadXml sampleGlobalization rightToLeft SampleKeys sampleApi).run
        ⟨freshConfig, ⟨none, refusedNumDocument, []⟩⟩).1 =
        Except.error Exception.OverflowException) := by
  have h1 : (TAG_DISPLAY, ATTRIB_VALUE, some "two") ∈
      plannedReads none refusedDisplayDocument := by decide
  have b1 : Malformed TAG_DISPLAY ATTRIB_VALUE "two" := Or.inl ⟨by decide, by decide⟩
  have h2 : (TAG_WINDOWMODE, ATTRIB_ENABLED, some "yes") ∈
      plannedReads none refusedBooleanDocument := by decide
  have b2 : Malformed TAG_WINDOWMODE ATTRIB_ENABLED "yes" :=
    Or.inr ⟨by decide, by unfold RecognizedBoolean; decide⟩
  have h3 : (TAG_ACTIONBUTTON, ATTRIB_NUM, some "abc") ∈
      plannedReads none refusedNumDocument := by decide
  have b3 : Malformed TAG_ACTIONBUTTON ATTRIB_NUM "abc" := Or.inl ⟨by decide, by decide⟩
  exact ⟨⟨h1, b1, (C14_malformed_text_fails sampleApi freshConfig none
      refusedDisplayDocument _ _ _ h1 b1).1⟩,
    ⟨h2, b2, (C14_malformed_text_fails sampleApi freshConfig none
      refusedBooleanDocument _ _ _ h2 b2).1⟩,
    ⟨h3, b3, (C14_malformed_text_fails sampleApi freshConfig none
      refusedNumDocument _ _ _ h3 b3).1⟩, ReadXml_refusedNumDocument⟩

section

variable [Globalization] [ArgumentOrder]

/-! ## ReadXml tolerates additional elements -/

theorem seekElement_extended (tag : String) (htag : tag ∈ soughtTags)
    (es es2 : List XmlElement) (h : Extended es es2) :
    (seekElement tag es = none ∧ seekElement tag es2 = none) ∨
    ∃ e rest rest2, seekElement tag es = some (e, rest) ∧
      seekElement tag es2 = some (e, rest2) ∧ Extended rest rest2 := by
  induction h with
  | nil => exact Or.inl ⟨rfl, rfl⟩
  | keep e htail ih =>
    rename_i l1 l2
    by_cases hname : e.Name = tag
    · right
      refine ⟨e, l1, l2, ?_, ?_, htail⟩
      · simp only [seekElement, hname, if_true]
      · simp only [seekElement, hname, if_true]
    · simp only [seekElement, hname, if_false]
      exact ih
  | insert e hnot htail ih =>
    have hname : ¬ e.Name = tag := fun h => hnot (h ▸ htag)
    simp only [seekElement, hname, if_false]
    exact ih

theorem ReadToFollowing_extended {Keys : Type} (tag : String) (htag : tag ∈ soughtTags) :
    EndAlike Alongside Eq (ReadToFollowing tag : Op (ReadState Keys) Bool)
      (ReadToFollowing tag) := by
  intro s s2 hs
  obtain ⟨hthis, hcur, hcalls, hfol⟩ := hs
  left
  rcases seekElement_extended tag htag _ _ hfol with ⟨h1, h2⟩ | ⟨e, rest, rest2, h1, h2, hrest⟩
  · have hr1 : (ReadToFollowing tag).run s = (Except.ok false, { s with Reader :=
        ⟨none, [], s.Reader.Calls ++ [ReaderCall.ReadToFollowing tag]⟩ }) := by
      simp only [Op.run, ReadToFollowing, XmlReader.ReadToFollowing, h1]
    have hr2 : (ReadToFollowing tag).run s2 = (Except.ok false, { s2 with Reader :=
        ⟨none, [], s2.Reader.Calls ++ [ReaderCall.ReadToFollowing tag]⟩ }) := by
      simp only [Op.run, ReadToFollowing, XmlReader.ReadToFollowing, h2]
    refine ⟨false, false, _, _, hr1, hr2, rfl, ?_⟩
    have hc : s2.Reader.Calls ++ [ReaderCall.ReadToFollowing tag] =
        s.Reader.Calls ++ [ReaderCall.ReadToFollowing tag] := by rw [hcalls]
    exact And.intro hthis (And.intro rfl (And.intro hc Extended.nil))
  · have hr1 : (ReadToFollowing tag).run s = (Except.ok true, { s with Reader :=
        ⟨some e, rest, s.Reader.Calls ++ [ReaderCall.ReadToFollowing tag]⟩ }) := by
      simp only [Op.run, ReadToFollowing, XmlReader.ReadToFollowing, h1]
    have hr2 : (ReadToFollowing tag).run s2 = (Except.ok true, { s2 with Reader :=
        ⟨some e, rest2, s2.Reader.Calls ++ [ReaderCall.ReadToFollowing tag]⟩ }) := by
      simp only [Op.run, ReadToFollowing, XmlReader.ReadToFollowing, h2]
    refine ⟨true, true, _, _, hr1, hr2, rfl, ?_⟩
    have hc : s2.Reader.Calls ++ [ReaderCall.ReadToFollowing tag] =
        s.Reader.Calls ++ [ReaderCall.ReadToFollowing tag] := by rw [hcalls]
    exact And.intro hthis (And.intro rfl (And.intro hc hrest))

theorem ReaderItem_extended {Keys : Type} (name : String) :
    EndAlike Alongside Eq (ReaderItem name : Op (ReadState Keys) (Option String))
      (ReaderItem name) := by
  intro s s2 hs
  obtain ⟨hthis, hcur, hcalls, hfol⟩ := hs
  left
  have hc : s2.Reader.Calls ++ [ReaderCall.GetAttribute name] =
      s.Reader.Calls ++ [ReaderCall.GetAttribute name] := by rw [hcalls]
  refine ⟨_, _, _, _, rfl, rfl, ?_, And.intro hthis (And.intro hcur (And.intro hc hfol))⟩
  simp only [XmlReader.Item, hcur]

theorem assign_extended {Keys : Type} (g : OgreClientConfig Keys → OgreClientConfig Keys) :
    EndAlike Alongside Eq (assign g) (assign g) := by
  intro s s2 hs
  obtain ⟨hthis, hcur, hcalls, hfol⟩ := hs
  left
  refine ⟨(), (), _, _, rfl, rfl, rfl, And.intro ?_ (And.intro hcur (And.intro hcalls hfol))⟩
  show g s2.This = g s.This
  rw [hthis]

theorem assignAttribute_extended {Keys α : Type}
    (convert : Option String → Except Exception α) (attrName : String)
    (set : α → OgreClientConfig Keys → OgreClientConfig Keys) :
    EndAlike Alongside Eq (assignAttribute convert attrName set)
      (assignAttribute convert attrName set) := by
  unfold assignAttribute
  refine EndAlike.bind_eq (ReaderItem_extended attrName) (fun text => ?_)
  refine EndAlike.bind_eq (EndAlike.ofExcept _) (fun v => ?_)
  exact assign_extended (set v)

theorem readField_extended {Keys α : Type}
    (convert : Option String → Except Exception α) (tag attrName : String)
    (set : α → OgreClientConfig Keys → OgreClientConfig Keys) (htag : tag ∈ soughtTags) :
    EndAlike Alongside Eq (readField convert tag attrName set)
      (readField convert tag attrName set) := by
  unfold readField
  exact EndAlike.seq (ReadToFollowing_extended tag htag)
    (assignAttribute_extended convert attrName set)

theorem ReadXml_engine_extended {Keys : Type} :
    EndAlike Alongside Eq (ReadXml_engine : Op (ReadState Keys) Unit) ReadXml_engine := by
  unfold ReadXml_engine
  refine EndAlike.seq (ReadToFollowing_extended _ (by decide)) ?_
  repeat (first
    | refine EndAlike.seq (readField_extended _ _ _ _ (by decide)) ?_
    | exact readField_extended _ _ _ _ (by decide))

theorem ReadXml_input_extended {Keys : Type} :
    EndAlike Alongside Eq (ReadXml_input : Op (ReadState Keys) Unit) ReadXml_input := by
  unfold ReadXml_input
  refine EndAlike.seq (ReadToFollowing_extended _ (by decide)) ?_
  repeat (first
    | refine EndAlike.seq (readField_extended _ _ _ _ (by decide)) ?_
    | exact readField_extended _ _ _ _ (by decide))

theorem ReadXml_keybinding_extended {Keys : Type} (api : Collaborators Keys) :
    EndAlike Alongside Eq (ReadXml_keybinding api) (ReadXml_keybinding api) := by
  unfold ReadXml_keybinding
  refine EndAlike.seq (ReadToFollowing_extended _ (by decide)) ?_
  refine EndAlike.seq (assign_extended _) ?_
  exact assignAttribute_extended _ _ _

theorem ReadXml_keys_movement_extended {Keys : Type} (api : Collaborators Keys) :
    EndAlike Alongside Eq (ReadXml_keys_movement api) (ReadXml_keys_movement api) := by
  unfold ReadXml_keys_movement
  repeat (first
    | refine EndAlike.seq (readField_extended _ _ _ _ (by decide)) ?_
    | exact readField_extended _ _ _ _ (by decide))

theorem ReadXml_keys_modifiers_extended {Keys : Type} (api : Collaborators Keys) :
    EndAlike Alongside Eq (ReadXml_keys_modifiers api) (ReadXml_keys_modifiers api) := by
  unfold ReadXml_keys_modifiers
  repeat (first
    | refine EndAlike.seq (readField_extended _ _ _ _ (by decide)) ?_
    | exact readField_extended _ _ _ _ (by decide))

theorem ReadXml_keys_targetting_extended {Keys : Type} (api : Collaborators Keys) :
    EndAlike Alongside Eq (ReadXml_keys_targetting api) (ReadXml_keys_targetting api) := by
  unfold ReadXml_keys_targetting
  repeat (first
    | refine EndAlike.seq (readField_extended _ _ _ _ (by decide)) ?_
    | exact readField_extended _ _ _ _ (by decide))

theorem ReadXml_keys_others_extended {Keys : Type} (api : Collaborators Keys) :
    EndAlike Alongside Eq (ReadXml_keys_others api) (ReadXml_keys_others api) := by
  unfold ReadXml_keys_others
  repeat (first
    | refine EndAlike.seq (readField_extended _ _ _ _ (by decide)) ?_
    | exact readField_extended _ _ _ _ (by decide))

theorem ReadXml_keys_actions_extended {Keys : Type} (api : Collaborators Keys) :
    EndAlike Alongside Eq (ReadXml_keys_actions api) (ReadXml_keys_actions api) := by
  unfold ReadXml_keys_actions
  repeat (first
    | refine EndAlike.seq (readField_extended _ _ _ _ (by decide)) ?_
    | exact readField_extended _ _ _ _ (by decide))

theorem ReadXml_actionbutton_extended {Keys : Type} (n : Nat) (acc : ActionButtonList) :
    EndAlike Alongside Eq (ReadXml_actionbutton n acc : Op (ReadState Keys) ActionButtonList)
      (ReadXml_actionbutton n acc) := by
  induction n generalizing acc with
  | zero =>
    intro s s2 hs
    exact Or.inl ⟨acc, acc, s, s2, rfl, rfl, rfl, hs⟩
  | succ k ih =>
    unfold ReadXml_actionbutton
    refine EndAlike.bind_eq (ReadToFollowing_extended _ (by decide)) (fun _ => ?_)
    refine EndAlike.bind_eq (evalArguments_alike_of (fun a => ReaderItem_extended a.Attribute) _ _)
      (fun _ => ?_)
    exact ih _

theorem ReadXml_actionbuttons_extended {Keys : Type} (n : Nat) :
    EndAlike Alongside Eq (ReadXml_actionbuttons n : Op (ReadState Keys) Unit)
      (ReadXml_actionbuttons n) := by
  induction n with
  | zero =>
    intro s s2 hs
    exact Or.inl ⟨(), (), s, s2, rfl, rfl, rfl, hs⟩
  | succ k ih =>
    unfold ReadXml_actionbuttons
    refine EndAlike.bind_eq (ReadToFollowing_extended _ (by decide)) (fun _ => ?_)
    refine EndAlike.bind_eq (ReaderItem_extended _) (fun PlayerName => ?_)
    refine EndAlike.bind_eq (ReaderItem_extended _) (fun _ => ?_)
    refine EndAlike.bind_eq (EndAlike.ofExcept _) (fun num => ?_)
    refine EndAlike.bind_eq (ReadXml_actionbutton_extended _ _) (fun set => ?_)
    exact EndAlike.bind_eq (assign_extended _) (fun _ => ih)

theorem ReadXml_actionbuttonsets_extended {Keys : Type} :
    EndAlike Alongside Eq (ReadXml_actionbuttonsets : Op (ReadState Keys) Unit)
      ReadXml_actionbuttonsets := by
  unfold ReadXml_actionbuttonsets
  refine EndAlike.bind_eq (ReadToFollowing_extended _ (by decide)) (fun _ => ?_)
  refine EndAlike.bind_eq (ReaderItem_extended _) (fun _ => ?_)
  refine EndAlike.bind_eq (EndAlike.ofExcept _) (fun count => ?_)
  exact ReadXml_actionbuttons_extended _

/-- On a document with additional elements, none of them called by a tag ReadXml
seeks, ReadXml ends as on the document without them. -/
theorem ReadXml_extended {Keys : Type} (api : Collaborators Keys) :
    EndAlike Alongside Eq (ReadXml api) (ReadXml api) := by
  unfold ReadXml
  refine EndAlike.seq ReadXml_engine_extended ?_
  refine EndAlike.seq ReadXml_input_extended ?_
  refine EndAlike.seq (ReadXml_keybinding_extended api) ?_
  refine EndAlike.seq (ReadXml_keys_movement_extended api) ?_
  refine EndAlike.seq (ReadXml_keys_modifiers_extended api) ?_
  refine EndAlike.seq (ReadXml_keys_targetting_extended api) ?_
  refine EndAlike.seq (ReadXml_keys_others_extended api) ?_
  refine EndAlike.seq (ReadXml_keys_actions_extended api) ?_
  exact ReadXml_actionbuttonsets_extended

theorem Extended.refl (doc : List XmlElement) : Extended doc doc := by
  induction doc with
  | nil => exact Extended.nil
  | cons e es ih => exact Extended.keep e ih

/-- C18: when ReadXml returns normally on a document, it returns normally on every
document obtained from it by inserting, at any positions, additional elements whose
names are none of the tags ReadXml seeks, and it leaves the same record. -/
theorem C18_ReadXml_tolerates_extension {Keys : Type} (api : Collaborators Keys)
    (this : OgreClientConfig Keys) (cur : Option XmlElement) (doc doc2 : List XmlElement)
    (calls : List ReaderCall) (t : ReadState Keys) (hext : Extended doc doc2)
    (hok : (ReadXml api).run ⟨this, ⟨cur, doc, calls⟩⟩ = (Except.ok (), t)) :
    ∃ t2, (ReadXml api).run ⟨this, ⟨cur, doc2, calls⟩⟩ = (Except.ok (), t2) ∧
      t2.This = t.This := by
  have hstart : Alongside (⟨this, ⟨cur, doc, calls⟩⟩ : ReadState Keys)
      ⟨this, ⟨cur, doc2, calls⟩⟩ := ⟨rfl, rfl, rfl, hext⟩
  rcases ReadXml_extended api _ _ hstart with ⟨a, a2, u, u2, h1, h2, _, hu⟩ | ⟨e, u, u2, h1, _, _⟩
  · rw [hok] at h1
    have htu : t = u := (Prod.mk.inj h1).2
    subst htu
    exact ⟨u2, h2, hu.1⟩
  · rw [hok] at h1
    exact nomatch (Prod.mk.inj h1).1

end

/-- Witness of C18: the document written for the sample record, with an element
called comment put in front of it, is read to the same record. -/
theorem C18_ReadXml_tolerates_extension_witness :
    Extended (elementsOf (WriteXml sampleApi sampleConfig).2)
      (⟨"comment", [("text", "saved by hand")]⟩ ::
        elementsOf (WriteXml sampleApi sampleConfig).2) ∧
    ((ReadXml sampleApi).run
      ⟨freshConfig, ⟨none, elementsOf (WriteXml sampleApi sampleConfig).2, []⟩⟩).1 =
      Except.ok () ∧
    ∃ t2, (ReadXml sampleApi).run ⟨freshConfig, ⟨none,
        ⟨"comment", [("text", "saved by hand")]⟩ ::
          elementsOf (WriteXml sampleApi sampleConfig).2, []⟩⟩ = (Except.ok (), t2) ∧
      t2.This = ((ReadXml sampleApi).run
        ⟨freshConfig, ⟨none, elementsOf (WriteXml sampleApi sampleConfig).2, []⟩⟩).2.This := by
  have hext : Extended (elementsOf (WriteXml sampleApi sampleConfig).2)
      (⟨"comment", [("text", "saved by hand")]⟩ ::
        elementsOf (WriteXml sampleApi sampleConfig).2) :=
    Extended.insert _ (by decide) (Extended.refl _)
  have hread := ReadXml_WriteXml_fresh sampleApi sampleApi_roundtrip sampleConfig freshConfig
    (by unfold NamesPresent; decide) (by unfold CountsFit; decide) rfl none [] []
  rw [List.append_nil] at hread
  refine ⟨hext, by rw [hread], ?_⟩
  rw [hread]
  exact C18_ReadXml_tolerates_extension sampleApi freshConfig none _ _ [] _ hext hread

section

variable [Globalization] [ArgumentOrder]

/-! ## ReadXml on a document whose first set has too large a count -/

theorem Op.run_bind_congr {σ α β : Type} (m : Op σ α) (f : α → Op σ β) (s s2 : σ)
    (h : m.run s = m.run s2) : (m >>= f).run s = (m >>= f).run s2 := by
  show Op.bind m f s = Op.bind m f s2
  unfold Op.bind
  unfold Op.run at h
  rw [h]

theorem ReadToFollowing_skip_bind {Keys β : Type} (tag : String) (e : XmlElement)
    (hne : e.Name ≠ tag) (f : Bool → Op (ReadState Keys) β) (this : OgreClientConfig Keys)
    (cur : Option XmlElement) (es : List XmlElement) (calls : List ReaderCall) :
    (ReadToFollowing tag >>= f).run ⟨this, ⟨cur, e :: es, calls⟩⟩ =
      (ReadToFollowing tag >>= f).run ⟨this, ⟨cur, es, calls⟩⟩ := by
  apply Op.run_bind_congr
  simp only [Op.run, ReadToFollowing, XmlReader.ReadToFollowing, seekElement, hne, if_false]

theorem ReadToFollowing_end_bind {Keys β : Type} (tag : String)
    (f : Bool → Op (ReadState Keys) β) (this : OgreClientConfig Keys)
    (cur : Option XmlElement) (calls : List ReaderCall) :
    (ReadToFollowing tag >>= f).run ⟨this, ⟨cur, [], calls⟩⟩ =
      (f false).run ⟨this, ⟨none, [], calls ++ [ReaderCall.ReadToFollowing tag]⟩⟩ := by
  apply Op.run_bind_ok
  rfl

theorem ReaderItem_none_bind {Keys β : Type} (name : String)
    (f : Option String → Op (ReadState Keys) β) (this : OgreClientConfig Keys)
    (es : List XmlElement) (calls : List ReaderCall) :
    (ReaderItem name >>= f).run ⟨this, ⟨none, es, calls⟩⟩ =
      (f none).run ⟨this, ⟨none, es, calls ++ [ReaderCall.GetAttribute name]⟩⟩ := by
  apply Op.run_bind_ok
  rfl

/-- The inner loop with more iterations than the buttons at hand: the buttons are
read, and the loop goes on behind them. -/
theorem ReadXml_actionbutton_more {Keys : Type} (bs : List ActionButtonConfig)
    (hn : ∀ b ∈ bs, b.Name ≠ none) (j : Nat) (acc : ActionButtonList)
    (this : OgreClientConfig Keys) (cur : Option XmlElement) (rest : List XmlElement)
    (calls : List ReaderCall) :
    (ReadXml_actionbutton (bs.length + j) acc).run
        ⟨this, ⟨cur, bs.map buttonElement ++ rest, calls⟩⟩ =
      (ReadXml_actionbutton j
        { acc with Items := acc.Items ++ bs.map ActionButtonConfig.Stored }).run
        ⟨this, ⟨lastOr (bs.map buttonElement) cur, rest, calls ++ buttonsCalls bs⟩⟩ := by
  induction bs generalizing acc cur calls with
  | nil =>
    simp only [List.length_nil, List.map_nil, List.nil_append, List.append_nil, lastOr,
      buttonsCalls, Nat.zero_add]
  | cons b bs ih =>
    have hb := hn b (List.mem_cons_self b bs)
    have hlen : (b :: bs).length + j = (bs.length + j) + 1 := by
      simp only [List.length_cons]; omega
    rw [hlen]
    simp only [List.map_cons, List.cons_append]
    rw [ReadXml_actionbutton_succ_run (bs.length + j) b hb acc this cur _ calls]
    rw [ih (fun c hc => hn c (List.mem_cons_of_mem b hc))]
    simp [ActionButtonList.Add, lastOr, buttonsCalls]

/-- The outer loop with more iterations than the sets at hand: the sets are read, and
the loop goes on behind them. -/
theorem ReadXml_actionbuttons_more {Keys : Type} (ls : List ActionButtonList)
    (hn : ∀ l ∈ ls, ∀ b ∈ l.Items, b.Name ≠ none)
    (hc : ∀ l ∈ ls, l.Items.length < 2147483648) (j : Nat) (this : OgreClientConfig Keys)
    (cur : Option XmlElement) (rest : List XmlElement) (calls : List ReaderCall) :
    (ReadXml_actionbuttons (ls.length + j)).run ⟨this, ⟨cur, setElements ls ++ rest, calls⟩⟩ =
      (ReadXml_actionbuttons j).run ⟨{ this with
          ActionButtonSets := this.ActionButtonSets ++ ls.map ActionButtonList.Stored },
        ⟨lastOr (setElements ls) cur, rest, calls ++ setCalls ls⟩⟩ := by
  induction ls generalizing this cur calls with
  | nil =>
    simp only [List.length_nil, List.map_nil, List.nil_append, List.append_nil, lastOr,
      setCalls, setElements, Nat.zero_add]
  | cons l ls ih =>
    have hl := hn l (List.mem_cons_self l ls)
    obtain ⟨c, hc1, hc2⟩ := ToInt32_count l.Items.length (hc l (List.mem_cons_self l ls))
    have hlen : (l :: ls).length + j = (ls.length + j) + 1 := by
      simp only [List.length_cons]; omega
    rw [hlen]
    simp only [setElements, List.cons_append, List.append_assoc, ReadXml_actionbuttons]
    rw [show setElement l = XmlElement.mk TAG_ACTIONBUTTONS (setElement l).Attributes from rfl]
    rw [ReadToFollowing_head_bind]
    rw [← show setElement l = XmlElement.mk TAG_ACTIONBUTTONS (setElement l).Attributes from rfl]
    simp only [ReaderItem_bind, setElement_player, setElement_count, ActionButtonList.Count, hc1,
      ofExcept_ok_bind, hc2]
    rw [Op.run_bind_ok _ _ _ _ _ (ReadXml_actionbutton_run l.Items hl _ this _ _ _)]
    rw [assign_bind]
    rw [ih (fun c hc => hn c (List.mem_cons_of_mem l hc))
      (fun c hc' => hc c (List.mem_cons_of_mem l hc'))]
    simp [ActionButtonList.Stored, lastOr, lastOr_append, setCalls]

/-- The inner loop, when the next element is the start of a set: the seek passes it. -/
theorem ReadXml_actionbutton_pass {Keys : Type} (n : Nat) (acc l : ActionButtonList)
    (this : OgreClientConfig Keys) (cur : Option XmlElement) (rest : List XmlElement)
    (calls : List ReaderCall) :
    (ReadXml_actionbutton (n + 1) acc).run ⟨this, ⟨cur, setElement l :: rest, calls⟩⟩ =
      (ReadXml_actionbutton (n + 1) acc).run ⟨this, ⟨cur, rest, calls⟩⟩ := by
  simp only [ReadXml_actionbutton]
  exact ReadToFollowing_skip_bind _ _ (show TAG_ACTIONBUTTONS ≠ TAG_ACTIONBUTTON by decide)
    _ _ _ _ _

/-- The outer loop, when the next elements are buttons: the seek passes them. -/
theorem ReadXml_actionbuttons_pass {Keys : Type} (n : Nat) (bs : List ActionButtonConfig)
    (this : OgreClientConfig Keys) (cur : Option XmlElement) (rest : List XmlElement)
    (calls : List ReaderCall) :
    (ReadXml_actionbuttons (n + 1)).run ⟨this, ⟨cur, bs.map buttonElement ++ rest, calls⟩⟩ =
      (ReadXml_actionbuttons (n + 1)).run ⟨this, ⟨cur, rest, calls⟩⟩ := by
  induction bs with
  | nil => rfl
  | cons b bs ih =>
    rw [← ih]
    simp only [ReadXml_actionbuttons, List.map_cons, List.cons_append]
    exact ReadToFollowing_skip_bind _ _ (show TAG_ACTIONBUTTON ≠ TAG_ACTIONBUTTONS by decide)
      _ _ _ _ _

/-- An iteration of the outer loop at the end of the document adds a set without a
player and without buttons. -/
theorem ReadXml_actionbuttons_end {Keys : Type} (this : OgreClientConfig Keys)
    (cur : Option XmlElement) (calls : List ReaderCall) :
    (ReadXml_actionbuttons 1).run ⟨this, ⟨cur, [], calls⟩⟩ =
      (Except.ok (), ⟨{ this with ActionButtonSets := this.ActionButtonSets ++ [⟨none, []⟩] },
        ⟨none, [], calls ++ [ReaderCall.ReadToFollowing TAG_ACTIONBUTTONS,
          ReaderCall.GetAttribute ATTRIB_PLAYER, ReaderCall.GetAttribute ATTRIB_COUNT]⟩⟩) := by
  simp only [ReadXml_actionbuttons]
  rw [ReadToFollowing_end_bind, ReaderItem_none_bind, ReaderItem_none_bind]
  simp only [Convert.ToInt32, ofExcept_ok_bind]
  simp [Int.toNat_zero, ReadXml_actionbutton, Op.run, bind, Op.bind, pure, Op.pure, assign]

/-- With the right count on its first set, the document is the one WriteXml writes
for the record. -/
theorem miscountedDocument_zero {Keys : Type} (api : Collaborators Keys)
    (r : OgreClientConfig Keys) (l1 l2 : ActionButtonList) (ls : List ActionButtonList)
    (hsets : r.ActionButtonSets = l1 :: l2 :: ls) (hn : NamesPresent r) :
    miscountedDocument api r l1 l2 ls 0 = elementsOf (WriteXml api r).2 := by
  have he : elementsOf (WriteXml_actionbuttonsets r).2 =
      XmlElement.mk TAG_ACTIONBUTTONSETS
          [(ATTRIB_COUNT, intToString (r.ActionButtonSets.length : Int))] ::
        setElements r.ActionButtonSets := by
    rw [WriteXml_actionbuttonsets_snd r hn]
    simp only [elementsOf, leadingAttributes,
      WriteXml_actionbuttons_leading r.ActionButtonSets [XmlEvent.EndElement] rfl,
      WriteXml_actionbuttons_elements r.ActionButtonSets hn, List.append_nil]
  rw [WriteXml_elements api r hn, he, hsets]
  simp only [miscountedDocument, fixedElements, List.append_assoc, setElements, setElement,
    ActionButtonList.Count, List.length_cons, Nat.add_zero]

/-- The inner loop of a set whose count exceeds the number of its buttons by `k`: it
reads the buttons of the set, passes the start of the next set and reads `k` of its
buttons. -/
theorem ReadXml_actionbutton_crossing {Keys : Type} (bs : List ActionButtonConfig)
    (l2 : ActionButtonList) (k : Nat) (hk1 : 1 ≤ k) (hk2 : k ≤ l2.Items.length)
    (hn1 : ∀ b ∈ bs, b.Name ≠ none) (hn2 : ∀ b ∈ l2.Items, b.Name ≠ none)
    (acc : ActionButtonList) (this : OgreClientConfig Keys) (cur : Option XmlElement)
    (rest : List XmlElement) (calls : List ReaderCall) :
    ∃ cur2 calls2, (ReadXml_actionbutton (bs.length + k) acc).run ⟨this, ⟨cur,
        bs.map buttonElement ++ (setElement l2 :: (l2.Items.map buttonElement ++ rest)),
        calls⟩⟩ =
      (Except.ok { acc with Items := acc.Items ++
          (bs ++ l2.Items.take k).map ActionButtonConfig.Stored },
        ⟨this, ⟨cur2, (l2.Items.drop k).map buttonElement ++ rest, calls2⟩⟩) := by
  obtain ⟨j, rfl⟩ : ∃ j, k = j + 1 := ⟨k - 1, by omega⟩
  rw [ReadXml_actionbutton_more bs hn1, ReadXml_actionbutton_pass]
  have hsplit : l2.Items.map buttonElement ++ rest =
      (l2.Items.take (j + 1)).map buttonElement ++
        ((l2.Items.drop (j + 1)).map buttonElement ++ rest) := by
    rw [← List.append_assoc, ← List.map_append, List.take_append_drop]
  have hlen : (l2.Items.take (j + 1)).length = j + 1 := by
    rw [List.length_take]
    omega
  have hrun := ReadXml_actionbutton_run (l2.Items.take (j + 1))
    (fun b hb => hn2 b (List.mem_of_mem_take hb))
    { acc with Items := acc.Items ++ bs.map ActionButtonConfig.Stored } this
    (lastOr (bs.map buttonElement) cur) ((l2.Items.drop (j + 1)).map buttonElement ++ rest)
    (calls ++ buttonsCalls bs)
  rw [hlen] at hrun
  rw [hsplit, hrun]
  have hitems : acc.Items ++ bs.map ActionButtonConfig.Stored ++
      (l2.Items.take (j + 1)).map ActionButtonConfig.Stored =
      acc.Items ++ (bs ++ l2.Items.take (j + 1)).map ActionButtonConfig.Stored := by
    rw [List.map_append, List.append_assoc]
  simp only [hitems]
  exact ⟨_, _, rfl⟩

/-- The iteration of the outer loop on a set whose count exceeds the number of its
buttons by `k`: the set it adds has, after its own buttons, the first `k` buttons of
the next set, and the reader is left before the other buttons of that set. -/
theorem ReadXml_actionbuttons_crossing {Keys : Type} (n : Nat) (l1 l2 : ActionButtonList)
    (k : Nat) (hk1 : 1 ≤ k) (hk2 : k ≤ l2.Items.length)
    (hn1 : ∀ b ∈ l1.Items, b.Name ≠ none) (hn2 : ∀ b ∈ l2.Items, b.Name ≠ none)
    (hc1 : l1.Items.length + k < 2147483648)
    (this : OgreClientConfig Keys) (cur : Option XmlElement)
    (rest : List XmlElement) (calls : List ReaderCall) :
    ∃ cur2 calls2, (ReadXml_actionbuttons (n + 1)).run ⟨this, ⟨cur,
        XmlElement.mk TAG_ACTIONBUTTONS
          [(ATTRIB_PLAYER, l1.PlayerName.getD ""),
            (ATTRIB_COUNT, intToString ((l1.Items.length + k : Nat) : Int))] ::
        (l1.Items.map buttonElement ++
          (setElement l2 :: (l2.Items.map buttonElement ++ rest))), calls⟩⟩ =
      (ReadXml_actionbuttons n).run ⟨{ this with ActionButtonSets := this.ActionButtonSets ++
          [⟨some (l1.PlayerName.getD ""),
            (l1.Items ++ l2.Items.take k).map ActionButtonConfig.Stored⟩] },
        ⟨cur2, (l2.Items.drop k).map buttonElement ++ rest, calls2⟩⟩ := by
  obtain ⟨c, hcount, hnat⟩ := ToInt32_count (l1.Items.length + k) hc1
  have hplayer : List.lookup ATTRIB_PLAYER
      [(ATTRIB_PLAYER, l1.PlayerName.getD ""),
        (ATTRIB_COUNT, intToString ((l1.Items.length + k : Nat) : Int))] =
      some (l1.PlayerName.getD "") := rfl
  have hlook : List.lookup ATTRIB_COUNT
      [(ATTRIB_PLAYER, l1.PlayerName.getD ""),
        (ATTRIB_COUNT, intToString ((l1.Items.length + k : Nat) : Int))] =
      some (intToString ((l1.Items.length + k : Nat) : Int)) := rfl
  simp only [ReadXml_actionbuttons]
  rw [ReadToFollowing_head_bind]
  simp only [ReaderItem_bind, hplayer, hlook, hcount, ofExcept_ok_bind, hnat]
  obtain ⟨cur2, calls2, hinner⟩ := ReadXml_actionbutton_crossing l1.Items l2 k hk1 hk2 hn1 hn2
    ⟨some (l1.PlayerName.getD ""), []⟩ this
    (some (XmlElement.mk TAG_ACTIONBUTTONS
      [(ATTRIB_PLAYER, l1.PlayerName.getD ""),
        (ATTRIB_COUNT, intToString ((l1.Items.length + k : Nat) : Int))]))
    rest (calls ++ [ReaderCall.ReadToFollowing TAG_ACTIONBUTTONS] ++
      [ReaderCall.GetAttribute ATTRIB_PLAYER] ++ [ReaderCall.GetAttribute ATTRIB_COUNT])
  rw [Op.run_bind_ok _ _ _ _ _ hinner, assign_bind]
  exact ⟨cur2, calls2, rfl⟩

/-- The action button sets of a document whose first set has too large a count: the
first set read has buttons of the second one, the second set is not read as a set,
and the last iteration, at the end of the document, adds an empty set. -/
theorem ReadXml_actionbuttonsets_crossing {Keys : Type} (l1 l2 : ActionButtonList)
    (ls : List ActionButtonList) (k : Nat) (hk1 : 1 ≤ k) (hk2 : k ≤ l2.Items.length)
    (hn1 : ∀ b ∈ l1.Items, b.Name ≠ none) (hn2 : ∀ b ∈ l2.Items, b.Name ≠ none)
    (hn : ∀ l ∈ ls, ∀ b ∈ l.Items, b.Name ≠ none)
    (hc : ∀ l ∈ ls, l.Items.length < 2147483648)
    (hc1 : l1.Items.length + k < 2147483648) (hcs : ls.length + 2 < 2147483648)
    (this : OgreClientConfig Keys) (cur : Option XmlElement) (calls : List ReaderCall) :
    ∃ rd, (ReadXml_actionbuttonsets).run ⟨this, ⟨cur,
        XmlElement.mk TAG_ACTIONBUTTONSETS
          [(ATTRIB_COUNT, intToString ((ls.length + 2 : Nat) : Int))] ::
        XmlElement.mk TAG_ACTIONBUTTONS
          [(ATTRIB_PLAYER, l1.PlayerName.getD ""),
            (ATTRIB_COUNT, intToString ((l1.Items.length + k : Nat) : Int))] ::
        (l1.Items.map buttonElement ++ setElements (l2 :: ls)), calls⟩⟩ =
      (Except.ok (), ⟨{ this with ActionButtonSets := this.ActionButtonSets ++
          (⟨some (l1.PlayerName.getD ""),
              (l1.Items ++ l2.Items.take k).map ActionButtonConfig.Stored⟩ ::
            (ls.map ActionButtonList.Stored ++ [⟨none, []⟩])) }, rd⟩) := by
  obtain ⟨c, hcount, hnat⟩ := ToInt32_count (ls.length + 2) hcs
  have hlook : List.lookup ATTRIB_COUNT
      [(ATTRIB_COUNT, intToString ((ls.length + 2 : Nat) : Int))] =
      some (intToString ((ls.length + 2 : Nat) : Int)) := rfl
  unfold ReadXml_actionbuttonsets
  rw [ReadToFollowing_head_bind, ReaderItem_bind]
  simp only [hlook, hcount, ofExcept_ok_bind, hnat, setElements]
  obtain ⟨cur2, calls2, hfirst⟩ := ReadXml_actionbuttons_crossing (ls.length + 1) l1 l2 k hk1 hk2
    hn1 hn2 hc1 this
    (some (XmlElement.mk TAG_ACTIONBUTTONSETS
      [(ATTRIB_COUNT, intToString ((ls.length + 2 : Nat) : Int))]))
    (setElements ls ++ [])
    (calls ++ [ReaderCall.ReadToFollowing TAG_ACTIONBUTTONSETS] ++
      [ReaderCall.GetAttribute ATTRIB_COUNT])
  rw [List.append_nil] at hfirst
  rw [show ls.length + 2 = ls.length + 1 + 1 from rfl, hfirst, ReadXml_actionbuttons_pass]
  rw [← List.append_nil (setElements ls), ReadXml_actionbuttons_more ls hn hc,
    ReadXml_actionbuttons_end]
  simp only [List.append_assoc, List.singleton_append]
  exact ⟨_, rfl⟩

theorem ReadXml_actionbuttonsets_crossing_run {Keys : Type} (l1 l2 : ActionButtonList)
    (ls : List ActionButtonList) (k : Nat) (hk1 : 1 ≤ k) (hk2 : k ≤ l2.Items.length)
    (hn1 : ∀ b ∈ l1.Items, b.Name ≠ none) (hn2 : ∀ b ∈ l2.Items, b.Name ≠ none)
    (hn : ∀ l ∈ ls, ∀ b ∈ l.Items, b.Name ≠ none)
    (hc : ∀ l ∈ ls, l.Items.length < 2147483648)
    (hc1 : l1.Items.length + k < 2147483648) (hcs : ls.length + 2 < 2147483648)
    (this : OgreClientConfig Keys) (cur : Option XmlElement) (calls : List ReaderCall) :
    (ReadXml_actionbuttonsets).run ⟨this, ⟨cur,
        XmlElement.mk TAG_ACTIONBUTTONSETS
          [(ATTRIB_COUNT, intToString ((ls.length + 2 : Nat) : Int))] ::
        XmlElement.mk TAG_ACTIONBUTTONS
          [(ATTRIB_PLAYER, l1.PlayerName.getD ""),
            (ATTRIB_COUNT, intToString ((l1.Items.length + k : Nat) : Int))] ::
        (l1.Items.map buttonElement ++ setElements (l2 :: ls)), calls⟩⟩ =
      (Except.ok (), ⟨{ this with ActionButtonSets := this.ActionButtonSets ++
          (⟨some (l1.PlayerName.getD ""),
              (l1.Items ++ l2.Items.take k).map ActionButtonConfig.Stored⟩ ::
            (ls.map ActionButtonList.Stored ++ [⟨none, []⟩])) },
        ((ReadXml_actionbuttonsets).run ⟨this, ⟨cur,
          XmlElement.mk TAG_ACTIONBUTTONSETS
            [(ATTRIB_COUNT, intToString ((ls.length + 2 : Nat) : Int))] ::
          XmlElement.mk TAG_ACTIONBUTTONS
            [(ATTRIB_PLAYER, l1.PlayerName.getD ""),
              (ATTRIB_COUNT, intToString ((l1.Items.length + k : Nat) : Int))] ::
          (l1.Items.map buttonElement ++ setElements (l2 :: ls)), calls⟩⟩).2.Reader⟩) := by
  obtain ⟨rd, h⟩ := ReadXml_actionbuttonsets_crossing l1 l2 ls k hk1 hk2 hn1 hn2 hn hc hc1 hcs
    this cur calls
  rw [h]

/-- C19: take the document WriteXml writes for a record with the sets `l1`, `l2`
and then those of `ls`, but with a count attribute of the first set that exceeds the
number m1 of its buttons by `k`, where 1 ≤ k ≤ m2, the number of buttons of `l2`.
ReadXml returns normally on it, and the first set it adds has the player of `l1` and
m1 + k buttons: those of `l1`, then the first `k` buttons of `l2`. -/
theorem C19_miscount_crosses_set_boundary {Keys : Type} (api : Collaborators Keys)
    (hapi : KeysRoundTrip api) (r this : OgreClientConfig Keys) (l1 l2 : ActionButtonList)
    (ls : List ActionButtonList) (k : Nat) (cur : Option XmlElement) (calls : List ReaderCall)
    (hk1 : 1 ≤ k) (hk2 : k ≤ l2.Items.length)
    (hn : ∀ l ∈ l1 :: l2 :: ls, ∀ b ∈ l.Items, b.Name ≠ none)
    (hc : ∀ l ∈ ls, l.Items.length < 2147483648)
    (hc1 : l1.Items.length + k < 2147483648) (hcs : ls.length + 2 < 2147483648) :
    ((ReadXml api).run ⟨this, ⟨cur, miscountedDocument api r l1 l2 ls k, calls⟩⟩).1 =
      Except.ok () ∧
    ((ReadXml api).run
      ⟨this, ⟨cur, miscountedDocument api r l1 l2 ls k, calls⟩⟩).2.This.ActionButtonSets =
      this.ActionButtonSets ++
        (⟨some (l1.PlayerName.getD ""),
            (l1.Items ++ l2.Items.take k).map ActionButtonConfig.Stored⟩ ::
          (ls.map ActionButtonList.Stored ++ [⟨none, []⟩])) ∧
    ((l1.Items ++ l2.Items.take k).map ActionButtonConfig.Stored).length =
      l1.Items.length + k ∧
    ((l1.Items ++ l2.Items.take k).map ActionButtonConfig.Stored).drop l1.Items.length =
      (l2.Items.take k).map ActionButtonConfig.Stored := by
  have hn1 : ∀ b ∈ l1.Items, b.Name ≠ none := hn l1 (List.mem_cons_self _ _)
  have hn2 : ∀ b ∈ l2.Items, b.Name ≠ none :=
    hn l2 (List.mem_cons_of_mem _ (List.mem_cons_self _ _))
  have hns : ∀ l ∈ ls, ∀ b ∈ l.Items, b.Name ≠ none :=
    fun l hl => hn l (List.mem_cons_of_mem _ (List.mem_cons_of_mem _ hl))
  have hrun : ((ReadXml api).run
        ⟨this, ⟨cur, miscountedDocument api r l1 l2 ls k, calls⟩⟩).1 = Except.ok () ∧
      ((ReadXml api).run
        ⟨this, ⟨cur, miscountedDocument api r l1 l2 ls k, calls⟩⟩).2.This.ActionButtonSets =
        this.ActionButtonSets ++
          (⟨some (l1.PlayerName.getD ""),
              (l1.Items ++ l2.Items.take k).map ActionButtonConfig.Stored⟩ ::
            (ls.map ActionButtonList.Stored ++ [⟨none, []⟩])) := by
    unfold ReadXml
    simp only [miscountedDocument, fixedElements, List.append_assoc]
    rw [Op.run_bind_ok _ _ _ _ _ (ReadXml_engine_WriteXml r this cur _ calls)]
    rw [Op.run_bind_ok _ _ _ _ _ (ReadXml_input_WriteXml r _ _ _ _)]
    rw [Op.run_bind_ok _ _ _ _ _ (ReadXml_keybinding_WriteXml api r _ _ _ _)]
    rw [Op.run_bind_ok _ _ _ _ _ (ReadXml_keys_movement_WriteXml api hapi r _ _ _ _)]
    rw [Op.run_bind_ok _ _ _ _ _ (ReadXml_keys_modifiers_WriteXml api hapi r _ _ _ _)]
    rw [Op.run_bind_ok _ _ _ _ _ (ReadXml_keys_targetting_WriteXml api hapi r _ _ _ _)]
    rw [Op.run_bind_ok _ _ _ _ _ (ReadXml_keys_others_WriteXml api hapi r _ _ _ _)]
    rw [Op.run_bind_ok _ _ _ _ _ (ReadXml_keys_actions_WriteXml api hapi r _ _ _ _)]
    rw [ReadXml_actionbuttonsets_crossing_run l1 l2 ls k hk1 hk2 hn1 hn2 hns hc hc1 hcs]
    exact ⟨rfl, rfl⟩
  refine ⟨hrun.1, hrun.2, ?_, ?_⟩
  · rw [List.length_map, List.length_append, List.length_take]
    omega
  · rw [List.map_append, List.drop_left' (by rw [List.length_map])]

end

/-- Witness of C19: the sample record has the sets of Alice, with two buttons, and of
Bob, with one; with the count 3 on the set of Alice, ReadXml returns normally and the
button of Bob is read as the third button of Alice. -/
theorem C19_miscount_crosses_set_boundary_witness :
    ((ReadXml sampleApi).run ⟨freshConfig, ⟨none, miscountedDocument sampleApi sampleConfig
      ⟨some "Alice", [⟨⟨1, by decide⟩, ActionButtonType.Spell, some "fireball", ⟨0, by decide⟩⟩,
        ⟨⟨2, by decide⟩, ActionButtonType.Item, some "mace", ⟨1, by decide⟩⟩]⟩
      ⟨some "Bob", [⟨⟨7, by decide⟩, ActionButtonType.Action, some "rest", ⟨0, by decide⟩⟩]⟩
      [] 1, []⟩⟩).1 = Except.ok () ∧
    ((ReadXml sampleApi).run ⟨freshConfig, ⟨none, miscountedDocument sampleApi sampleConfig
      ⟨some "Alice", [⟨⟨1, by decide⟩, ActionButtonType.Spell, some "fireball", ⟨0, by decide⟩⟩,
        ⟨⟨2, by decide⟩, ActionButtonType.Item, some "mace", ⟨1, by decide⟩⟩]⟩
      ⟨some "Bob", [⟨⟨7, by decide⟩, ActionButtonType.Action, some "rest", ⟨0, by decide⟩⟩]⟩
      [] 1, []⟩⟩).2.This.ActionButtonSets =
      [⟨some "Alice", [⟨⟨1, by decide⟩, ActionButtonType.Spell, some "fireball", ⟨0, by decide⟩⟩,
        ⟨⟨2, by decide⟩, ActionButtonType.Item, some "mace", ⟨1, by decide⟩⟩,
        ⟨⟨7, by decide⟩, ActionButtonType.Action, some "rest", ⟨0, by decide⟩⟩]⟩,
       ⟨none, []⟩] := by
  have h := C19_miscount_crosses_set_boundary sampleApi sampleApi_roundtrip sampleConfig
    freshConfig
    ⟨some "Alice", [⟨⟨1, by decide⟩, ActionButtonType.Spell, some "fireball", ⟨0, by decide⟩⟩,
      ⟨⟨2, by decide⟩, ActionButtonType.Item, some "mace", ⟨1, by decide⟩⟩]⟩
    ⟨some "Bob", [⟨⟨7, by decide⟩, ActionButtonType.Action, some "rest", ⟨0, by decide⟩⟩]⟩
    [] 1 none [] (by decide) (by decide) (by decide) (by decide) (by decide) (by decide)
  refine ⟨h.1, ?_⟩
  rw [h.2.1]
  decide

section

variable [Globalization] [ArgumentOrder]

/-! ## The calls of WriteXml are well nested -/

/-- Calls that form a document keep the depth at or above the starting level and
bring it back to it. -/
theorem depthAfter_of_buildNodes (evs : List XmlEvent) :
    ∀ (stack : List OpenElement) (done res : List XmlNode),
      buildNodes evs stack done = some res → depthAfter evs stack.length = some 0 := by
  induction evs with
  | nil =>
    intro stack done res h
    cases stack with
    | nil => rfl
    | cons o stack => simp [buildNodes] at h
  | cons ev evs ih =>
    intro stack done res h
    cases ev with
    | StartElement n =>
      simp only [buildNodes] at h
      simpa [depthAfter] using ih _ _ _ h
    | Attribute a v =>
      cases stack with
      | nil => simp [buildNodes] at h
      | cons o stack =>
        simp only [buildNodes] at h
        cases hc : o.Children with
        | nil =>
          simp only [hc] at h
          simpa [depthAfter] using ih _ _ _ h
        | cons c cs => simp [hc] at h
    | EndElement =>
      cases stack with
      | nil => simp [buildNodes] at h
      | cons o stack =>
        cases stack with
        | nil =>
          simp only [buildNodes] at h
          simpa [depthAfter] using ih _ _ _ h
        | cons p stack =>
          simp only [buildNodes] at h
          simpa [depthAfter] using ih _ _ _ h

/-- In calls that form a document every attribute follows the start tag of its
element or another attribute of it. -/
theorem attributesAfterStart_of_buildNodes (evs : List XmlEvent) :
    ∀ (stack : List OpenElement) (done res : List XmlNode),
      buildNodes evs stack done = some res →
        attributesAfterStart evs (topHasNoChild stack) = true := by
  induction evs with
  | nil =>
    intro stack done res _
    rfl
  | cons ev evs ih =>
    intro stack done res h
    cases ev with
    | StartElement n =>
      simp only [buildNodes] at h
      simpa [attributesAfterStart, topHasNoChild] using ih _ _ _ h
    | Attribute a v =>
      cases stack with
      | nil => simp [buildNodes] at h
      | cons o stack =>
        simp only [buildNodes] at h
        cases hc : o.Children with
        | nil =>
          simp only [hc] at h
          have := ih _ _ _ h
          simpa [attributesAfterStart, topHasNoChild, hc] using this
        | cons c cs => simp [hc] at h
    | EndElement =>
      cases stack with
      | nil => simp [buildNodes] at h
      | cons o stack =>
        cases stack with
        | nil =>
          simp only [buildNodes] at h
          simpa [attributesAfterStart, topHasNoChild] using ih _ _ _ h
        | cons p stack =>
          simp only [buildNodes] at h
          have he : (p.Children ++ [XmlNode.node o.Name o.Attributes o.Children]).isEmpty =
              false := by
            cases p.Children <;> rfl
          simpa [attributesAfterStart, topHasNoChild, he] using ih _ _ _ h

/-- The depth counts the start tags against the end tags. -/
theorem depthAfter_counts (evs : List XmlEvent) :
    ∀ d d2 : Nat, depthAfter evs d = some d2 → d + startCount evs = d2 + endCount evs := by
  induction evs with
  | nil =>
    intro d d2 h
    simp only [depthAfter, Option.some.injEq] at h
    simp [startCount, endCount, h]
  | cons ev evs ih =>
    intro d d2 h
    cases ev with
    | StartElement n =>
      simp only [depthAfter] at h
      have := ih _ _ h
      simp only [startCount, endCount]
      omega
    | Attribute a v =>
      simp only [depthAfter] at h
      have := ih _ _ h
      simp only [startCount, endCount]
      omega
    | EndElement =>
      cases d with
      | zero => simp [depthAfter] at h
      | succ d =>
        simp only [depthAfter] at h
        have := ih _ _ h
        simp only [startCount, endCount]
        omega

/-- The document WriteXml writes: an engine element, then an input element that holds
the keybinding element and the actionbuttonsets element. -/
theorem nodesOf_WriteXml {Keys : Type} (api : Collaborators Keys) (r : OgreClientConfig Keys)
    (hn : NamesPresent r) :
    ∃ engine input : XmlNode, nodesOf (WriteXml api r).2 = some [engine, input] ∧
      engine.Name = TAG_ENGINE ∧ input.Name = TAG_INPUT ∧
      input.Children.map XmlNode.Name =
        [TAG_MOUSEAIMSPEED, TAG_KEYROTATESPEED, TAG_INVERTMOUSEY, TAG_KEYBINDING,
          TAG_ACTIONBUTTONSETS] := by
  rw [WriteXml_snd api r hn, WriteXml_actionbuttonsets_snd r hn]
  simp only [WriteXml_engine, WriteXml_input, WriteXml_keybinding, WriteXml_keys_movement,
    WriteXml_keys_modifiers, WriteXml_keys_targetting, WriteXml_keys_others,
    WriteXml_keys_actions, WriteStartElement_bind_snd, WriteAttributeString_bind_snd,
    WriteEndElement_bind_snd, WriteEndElement_snd, WriteAttributeString_snd, Option.getD_some,
    List.cons_append, List.nil_append]
  simp only [nodesOf, buildNodes_start, buildNodes_attribute, buildNodes_end,
    buildNodes_end_top, buildNodes_actionbuttons r.ActionButtonSets hn, List.nil_append,
    List.append_assoc, List.cons_append]
  exact ⟨_, _, rfl, rfl, rfl, rfl⟩

/-- C21: when WriteXml returns normally, the calls it makes on the writer are well
nested.  The depth never goes below the level at which WriteXml starts and is back
at that level at the end; there are as many end tags as start tags; every attribute
is written directly after the start tag of its element or after another attribute of
it, before any child element; and the calls form exactly two top-level elements, an
engine element and then an input element. -/
theorem C21_WriteXml_calls_well_nested {Keys : Type} (api : Collaborators Keys)
    (r : OgreClientConfig Keys) (hw : (WriteXml api r).1 = Except.ok ()) :
    depthAfter (WriteXml api r).2 0 = some 0 ∧
    startCount (WriteXml api r).2 = endCount (WriteXml api r).2 ∧
    attributesAfterStart (WriteXml api r).2 false = true ∧
    ∃ engine input : XmlNode, nodesOf (WriteXml api r).2 = some [engine, input] ∧
      engine.Name = TAG_ENGINE ∧ input.Name = TAG_INPUT := by
  have hn := (WriteXml_ok_iff api r).mp hw
  obtain ⟨engine, input, hnodes, hengine, hinput, _⟩ := nodesOf_WriteXml api r hn
  have hdepth : depthAfter (WriteXml api r).2 0 = some 0 :=
    depthAfter_of_buildNodes _ [] [] _ hnodes
  refine ⟨hdepth, ?_, attributesAfterStart_of_buildNodes _ [] [] _ hnodes,
    engine, input, hnodes, hengine, hinput⟩
  have hcount := depthAfter_counts _ 0 0 hdepth
  omega

end

/-- Witness of C21: the sample record, with two sets of two and one button. -/
theorem C21_WriteXml_calls_well_nested_witness :
    (WriteXml sampleApi sampleConfig).1 = Except.ok () ∧
    depthAfter (WriteXml sampleApi sampleConfig).2 0 = some 0 ∧
    ∃ engine input : XmlNode,
      nodesOf (WriteXml sampleApi sampleConfig).2 = some [engine, input] ∧
      engine.Name = "engine" ∧ input.Name = "input" := by
  have hw : (WriteXml sampleApi sampleConfig).1 = Except.ok () :=
    WriteXml_ok _ _ (by unfold NamesPresent; decide)
  obtain ⟨hdepth, _, _, hnodes⟩ := C21_WriteXml_calls_well_nested sampleApi sampleConfig hw
  exact ⟨hw, hdepth, hnodes⟩

section

variable [Globalization] [ArgumentOrder]

/-! ## ReadXml appends to the sets the record holds -/

theorem ReadToFollowing_setsAfter {Keys : Type} (base base2 : List ActionButtonList)
    (tag : String) :
    EndAlike (SetsAfter base base2) Eq (ReadToFollowing tag : Op (ReadState Keys) Bool)
      (ReadToFollowing tag) := by
  intro s s2 hs
  obtain ⟨hreader, hsets⟩ := hs
  left
  refine ⟨_, _, _, _, rfl, rfl, ?_, ?_, hsets⟩
  · simp only [hreader]
  · simp only [hreader]

theorem ReaderItem_setsAfter {Keys : Type} (base base2 : List ActionButtonList)
    (name : String) :
    EndAlike (SetsAfter base base2) Eq (ReaderItem name : Op (ReadState Keys) (Option String))
      (ReaderItem name) := by
  intro s s2 hs
  obtain ⟨hreader, hsets⟩ := hs
  left
  refine ⟨_, _, _, _, rfl, rfl, ?_, ?_, hsets⟩
  · simp only [hreader]
  · simp only [hreader]

theorem assign_setsAfter {Keys : Type} (base base2 : List ActionButtonList)
    (g : OgreClientConfig Keys → OgreClientConfig Keys)
    (hg : ∀ r : OgreClientConfig Keys, (g r).ActionButtonSets = r.ActionButtonSets) :
    EndAlike (SetsAfter base base2) Eq (assign g) (assign g) := by
  intro s s2 hs
  obtain ⟨hreader, news, h1, h2⟩ := hs
  left
  refine ⟨(), (), _, _, rfl, rfl, rfl, hreader, news, ?_, ?_⟩
  · show (g s.This).ActionButtonSets = _
    rw [hg, h1]
  · show (g s2.This).ActionButtonSets = _
    rw [hg, h2]

theorem assign_set_setsAfter {Keys : Type} (base base2 : List ActionButtonList)
    (set : ActionButtonList) :
    EndAlike (SetsAfter base base2) Eq
      (assign (fun this : OgreClientConfig Keys =>
        { this with ActionButtonSets := this.ActionButtonSets ++ [set] }))
      (assign (fun this : OgreClientConfig Keys =>
        { this with ActionButtonSets := this.ActionButtonSets ++ [set] })) := by
  intro s s2 hs
  obtain ⟨hreader, news, h1, h2⟩ := hs
  left
  refine ⟨(), (), _, _, rfl, rfl, rfl, hreader, news ++ [set], ?_, ?_⟩
  · show s.This.ActionButtonSets ++ [set] = _
    rw [h1, List.append_assoc]
  · show s2.This.ActionButtonSets ++ [set] = _
    rw [h2, List.append_assoc]

theorem assignAttribute_setsAfter {Keys α : Type} (base base2 : List ActionButtonList)
    (convert : Option String → Except Exception α) (attrName : String)
    (set : α → OgreClientConfig Keys → OgreClientConfig Keys)
    (hset : ∀ (v : α) (r : OgreClientConfig Keys),
      (set v r).ActionButtonSets = r.ActionButtonSets) :
    EndAlike (SetsAfter base base2) Eq (assignAttribute convert attrName set)
      (assignAttribute convert attrName set) := by
  unfold assignAttribute
  refine EndAlike.bind_eq (ReaderItem_setsAfter base base2 attrName) (fun text => ?_)
  refine EndAlike.bind_eq (EndAlike.ofExcept _) (fun v => ?_)
  exact assign_setsAfter base base2 (set v) (hset v)

theorem readField_setsAfter {Keys α : Type} (base base2 : List ActionButtonList)
    (convert : Option String → Except Exception α) (tag attrName : String)
    (set : α → OgreClientConfig Keys → OgreClientConfig Keys)
    (hset : ∀ (v : α) (r : OgreClientConfig Keys),
      (set v r).ActionButtonSets = r.ActionButtonSets) :
    EndAlike (SetsAfter base base2) Eq (readField convert tag attrName set)
      (readField convert tag attrName set) := by
  unfold readField
  exact EndAlike.seq (ReadToFollowing_setsAfter base base2 tag)
    (assignAttribute_setsAfter base base2 convert attrName set hset)

theorem ReadXml_engine_setsAfter {Keys : Type} (base base2 : List ActionButtonList) :
    EndAlike (SetsAfter base base2) Eq (ReadXml_engine : Op (ReadState Keys) Unit)
      ReadXml_engine := by
  unfold ReadXml_engine
  refine EndAlike.seq (ReadToFollowing_setsAfter base base2 _) ?_
  repeat (first
    | refine EndAlike.seq (readField_setsAfter base base2 _ _ _ _ (fun _ _ => rfl)) ?_
    | exact readField_setsAfter base base2 _ _ _ _ (fun _ _ => rfl))

theorem ReadXml_input_setsAfter {Keys : Type} (base base2 : List ActionButtonList) :
    EndAlike (SetsAfter base base2) Eq (ReadXml_input : Op (ReadState Keys) Unit)
      ReadXml_input := by
  unfold ReadXml_input
  refine EndAlike.seq (ReadToFollowing_setsAfter base base2 _) ?_
  repeat (first
    | refine EndAlike.seq (readField_setsAfter base base2 _ _ _ _ (fun _ _ => rfl)) ?_
    | exact readField_setsAfter base base2 _ _ _ _ (fun _ _ => rfl))

theorem ReadXml_keybinding_setsAfter {Keys : Type} (api : Collaborators Keys)
    (base base2 : List ActionButtonList) :
    EndAlike (SetsAfter base base2) Eq (ReadXml_keybinding api) (ReadXml_keybinding api) := by
  unfold ReadXml_keybinding
  refine EndAlike.seq (ReadToFollowing_setsAfter base base2 _) ?_
  refine EndAlike.seq (assign_setsAfter base base2 _ (fun _ => rfl)) ?_
  exact assignAttribute_setsAfter base base2 _ _ _ (fun _ _ => rfl)

theorem ReadXml_keys_movement_setsAfter {Keys : Type} (api : Collaborators Keys)
    (base base2 : List ActionButtonList) :
    EndAlike (SetsAfter base base2) Eq (ReadXml_keys_movement api)
      (ReadXml_keys_movement api) := by
  unfold ReadXml_keys_movement
  repeat (first
    | refine EndAlike.seq (readField_setsAfter base base2 _ _ _ _ (fun _ _ => rfl)) ?_
    | exact readField_setsAfter base base2 _ _ _ _ (fun _ _ => rfl))

theorem ReadXml_keys_modifiers_setsAfter {Keys : Type} (api : Collaborators Keys)
    (base base2 : List ActionButtonList) :
    EndAlike (SetsAfter base base2) Eq (ReadXml_keys_modifiers api)
      (ReadXml_keys_modifiers api) := by
  unfold ReadXml_keys_modifiers
  repeat (first
    | refine EndAlike.seq (readField_setsAfter base base2 _ _ _ _ (fun _ _ => rfl)) ?_
    | exact readField_setsAfter base base2 _ _ _ _ (fun _ _ => rfl))

theorem ReadXml_keys_targetting_setsAfter {Keys : Type} (api : Collaborators Keys)
    (base base2 : List ActionButtonList) :
    EndAlike (SetsAfter base base2) Eq (ReadXml_keys_targetting api)
      (ReadXml_keys_targetting api) := by
  unfold ReadXml_keys_targetting
  repeat (first
    | refine EndAlike.seq (readField_setsAfter base base2 _ _ _ _ (fun _ _ => rfl)) ?_
    | exact readField_setsAfter base base2 _ _ _ _ (fun _ _ => rfl))

theorem ReadXml_keys_others_setsAfter {Keys : Type} (api : Collaborators Keys)
    (base base2 : List ActionButtonList) :
    EndAlike (SetsAfter base base2) Eq (ReadXml_keys_others api)
      (ReadXml_keys_others api) := by
  unfold ReadXml_keys_others
  repeat (first
    | refine EndAlike.seq (readField_setsAfter base base2 _ _ _ _ (fun _ _ => rfl)) ?_
    | exact readField_setsAfter base base2 _ _ _ _ (fun _ _ => rfl))

theorem ReadXml_keys_actions_setsAfter {Keys : Type} (api : Collaborators Keys)
    (base base2 : List ActionButtonList) :
    EndAlike (SetsAfter base base2) Eq (ReadXml_keys_actions api)
      (ReadXml_keys_actions api) := by
  unfold ReadXml_keys_actions
  repeat (first
    | refine EndAlike.seq (readField_setsAfter base base2 _ _ _ _ (fun _ _ => rfl)) ?_
    | exact readField_setsAfter base base2 _ _ _ _ (fun _ _ => rfl))

theorem ReadXml_actionbutton_setsAfter {Keys : Type} (base base2 : List ActionButtonList)
    (n : Nat) (acc : ActionButtonList) :
    EndAlike (SetsAfter base base2) Eq
      (ReadXml_actionbutton n acc : Op (ReadState Keys) ActionButtonList)
      (ReadXml_actionbutton n acc) := by
  induction n generalizing acc with
  | zero =>
    intro s s2 hs
    exact Or.inl ⟨acc, acc, s, s2, rfl, rfl, rfl, hs⟩
  | succ k ih =>
    unfold ReadXml_actionbutton
    refine EndAlike.bind_eq (ReadToFollowing_setsAfter base base2 _) (fun _ => ?_)
    refine EndAlike.bind_eq (evalArguments_alike_of (fun a => ReaderItem_setsAfter base base2 a.Attribute) _ _)
      (fun _ => ?_)
    exact ih _

theorem ReadXml_actionbuttons_setsAfter {Keys : Type} (base base2 : List ActionButtonList)
    (n : Nat) :
    EndAlike (SetsAfter base base2) Eq (ReadXml_actionbuttons n : Op (ReadState Keys) Unit)
      (ReadXml_actionbuttons n) := by
  induction n with
  | zero =>
    intro s s2 hs
    exact Or.inl ⟨(), (), s, s2, rfl, rfl, rfl, hs⟩
  | succ k ih =>
    unfold ReadXml_actionbuttons
    refine EndAlike.bind_eq (ReadToFollowing_setsAfter base base2 _) (fun _ => ?_)
    refine EndAlike.bind_eq (ReaderItem_setsAfter base base2 _) (fun PlayerName => ?_)
    refine EndAlike.bind_eq (ReaderItem_setsAfter base base2 _) (fun _ => ?_)
    refine EndAlike.bind_eq (EndAlike.ofExcept _) (fun num => ?_)
    refine EndAlike.bind_eq (ReadXml_actionbutton_setsAfter base base2 _ _) (fun set => ?_)
    exact EndAlike.bind_eq (assign_set_setsAfter base base2 set) (fun _ => ih)

theorem ReadXml_actionbuttonsets_setsAfter {Keys : Type} (base base2 : List ActionButtonList) :
    EndAlike (SetsAfter base base2) Eq (ReadXml_actionbuttonsets : Op (ReadState Keys) Unit)
      ReadXml_actionbuttonsets := by
  unfold ReadXml_actionbuttonsets
  refine EndAlike.bind_eq (ReadToFollowing_setsAfter base base2 _) (fun _ => ?_)
  refine EndAlike.bind_eq (ReaderItem_setsAfter base base2 _) (fun _ => ?_)
  refine EndAlike.bind_eq (EndAlike.ofExcept _) (fun count => ?_)
  exact ReadXml_actionbuttons_setsAfter base base2 _

/-- Two runs of ReadXml on the same document, into records that hold the sets `base`
and `base2`, end alike, and each record then holds its sets followed by the same sets
read from the document. -/
theorem ReadXml_setsAfter {Keys : Type} (api : Collaborators Keys)
    (base base2 : List ActionButtonList) :
    EndAlike (SetsAfter base base2) Eq (ReadXml api) (ReadXml api) := by
  unfold ReadXml
  refine EndAlike.seq (ReadXml_engine_setsAfter base base2) ?_
  refine EndAlike.seq (ReadXml_input_setsAfter base base2) ?_
  refine EndAlike.seq (ReadXml_keybinding_setsAfter api base base2) ?_
  refine EndAlike.seq (ReadXml_keys_movement_setsAfter api base base2) ?_
  refine EndAlike.seq (ReadXml_keys_modifiers_setsAfter api base base2) ?_
  refine EndAlike.seq (ReadXml_keys_targetting_setsAfter api base base2) ?_
  refine EndAlike.seq (ReadXml_keys_others_setsAfter api base base2) ?_
  refine EndAlike.seq (ReadXml_keys_actions_setsAfter api base base2) ?_
  exact ReadXml_actionbuttonsets_setsAfter base base2

/-- When ReadXml returns normally on a document, into a record that holds no set, and
leaves the sets `D` in it, it returns normally on that document into any record, and
leaves in it the sets it held followed by `D`. -/
theorem ReadXml_appends {Keys : Type} (api : Collaborators Keys)
    (this fresh : OgreClientConfig Keys) (rd : XmlReader) (t : ReadState Keys)
    (hfresh : fresh.ActionButtonSets = [])
    (hok : (ReadXml api).run ⟨fresh, rd⟩ = (Except.ok (), t)) :
    ∃ t2, (ReadXml api).run ⟨this, rd⟩ = (Except.ok (), t2) ∧
      t2.This.ActionButtonSets = this.ActionButtonSets ++ t.This.ActionButtonSets := by
  have hstart : SetsAfter [] this.ActionButtonSets (⟨fresh, rd⟩ : ReadState Keys) ⟨this, rd⟩ :=
    ⟨rfl, [], by simp [hfresh], by simp⟩
  rcases ReadXml_setsAfter api _ _ _ _ hstart with
    ⟨a, a2, u, u2, h1, h2, _, _, news, hn1, hn2⟩ | ⟨e, u, u2, h1, _, _⟩
  · rw [hok] at h1
    have htu : t = u := (Prod.mk.inj h1).2
    subst htu
    refine ⟨u2, h2, ?_⟩
    rw [hn2, hn1, List.nil_append]
  · rw [hok] at h1
    exact nomatch (Prod.mk.inj h1).1

/-- C22: let a document be one on which ReadXml returns normally into a record that
holds no set, leaving the sets `D` in it.  Then into a record that holds the sets `L`
ReadXml returns normally as well and leaves the sets `L ++ D`; and reading the same
document once more into the record so obtained leaves `L ++ D ++ D`: the sets of the
document are in it twice. -/
theorem C22_ReadXml_appends_to_sets {Keys : Type} (api : Collaborators Keys)
    (this fresh : OgreClientConfig Keys) (cur : Option XmlElement) (doc : List XmlElement)
    (calls : List ReaderCall) (t : ReadState Keys) (hfresh : fresh.ActionButtonSets = [])
    (hok : (ReadXml api).run ⟨fresh, ⟨cur, doc, calls⟩⟩ = (Except.ok (), t)) :
    ∃ t2, (ReadXml api).run ⟨this, ⟨cur, doc, calls⟩⟩ = (Except.ok (), t2) ∧
      t2.This.ActionButtonSets = this.ActionButtonSets ++ t.This.ActionButtonSets ∧
      ∃ t3, (ReadXml api).run ⟨t2.This, ⟨cur, doc, calls⟩⟩ = (Except.ok (), t3) ∧
        t3.This.ActionButtonSets =
          this.ActionButtonSets ++ t.This.ActionButtonSets ++ t.This.ActionButtonSets := by
  obtain ⟨t2, h2, hsets2⟩ := ReadXml_appends api this fresh _ t hfresh hok
  obtain ⟨t3, h3, hsets3⟩ := ReadXml_appends api t2.This fresh _ t hfresh hok
  refine ⟨t2, h2, hsets2, t3, h3, ?_⟩
  rw [hsets3, hsets2]

end

/-- Witness of C22: the document of the sample record, with its sets of Alice and
Bob, read into the sample record itself, which then holds four sets. -/
theorem C22_ReadXml_appends_to_sets_witness :
    ∃ t2, (ReadXml sampleApi).run
        ⟨sampleConfig, ⟨none, elementsOf (WriteXml sampleApi sampleConfig).2, []⟩⟩ =
        (Except.ok (), t2) ∧
      t2.This.ActionButtonSets = sampleSets ++ sampleSets := by
  have hread := ReadXml_WriteXml_fresh sampleApi sampleApi_roundtrip sampleConfig freshConfig
    (by unfold NamesPresent; decide) (by unfold CountsFit; decide) rfl none [] []
  rw [List.append_nil] at hread
  obtain ⟨t2, h2, hsets2, _⟩ := C22_ReadXml_appends_to_sets sampleApi sampleConfig freshConfig
    none _ [] _ rfl hread
  refine ⟨t2, h2, ?_⟩
  rw [hsets2]
  decide

section

variable [Globalization] [ArgumentOrder]

/-! ## Writing the record read back -/

theorem WriteAttributeString_getD (name : String) (value : Option String) :
    WriteAttributeString name (some (value.getD "")) = WriteAttributeString name value := by
  cases value <;> rfl

theorem deref_some_bind {β : Type} (v : String) (f : String → Emit XmlEvent β) :
    (deref (some v) >>= f) = f v := rfl

theorem WriteXml_actionbutton_Stored
    (hidem : ∀ c : Char, Globalization.lowerChar (Globalization.lowerChar c) =
      Globalization.lowerChar c) (bs : List ActionButtonConfig)
    (hty : ∀ b ∈ bs,
      GetButtonType (some (ToLower (ActionButtonType.ToString b.ButtonType))) = b.ButtonType) :
    WriteXml_actionbutton (bs.map ActionButtonConfig.Stored) = WriteXml_actionbutton bs := by
  induction bs with
  | nil => rfl
  | cons b bs ih =>
    simp only [List.map_cons, WriteXml_actionbutton]
    rw [ih (fun c hc => hty c (List.mem_cons_of_mem b hc))]
    have hb := hty b (List.mem_cons_self b bs)
    cases hn : b.Name with
    | none => simp only [ActionButtonConfig.Stored, hn, Option.map_none', hb]
    | some n =>
      simp only [ActionButtonConfig.Stored, hn, Option.map_some', deref_some_bind,
        ToLower_ToLower hidem, hb]

theorem WriteXml_actionbuttons_Stored
    (hidem : ∀ c : Char, Globalization.lowerChar (Globalization.lowerChar c) =
      Globalization.lowerChar c) (ls : List ActionButtonList)
    (hty : ∀ l ∈ ls, ∀ b ∈ l.Items,
      GetButtonType (some (ToLower (ActionButtonType.ToString b.ButtonType))) = b.ButtonType) :
    WriteXml_actionbuttons (ls.map ActionButtonList.Stored) = WriteXml_actionbuttons ls := by
  induction ls with
  | nil => rfl
  | cons l ls ih =>
    simp only [List.map_cons, WriteXml_actionbuttons]
    rw [ih (fun c hc => hty c (List.mem_cons_of_mem l hc))]
    simp only [ActionButtonList.Stored, ActionButtonList.Count, List.length_map,
      WriteAttributeString_getD,
      WriteXml_actionbutton_Stored hidem l.Items (hty l (List.mem_cons_self l ls))]

theorem WriteXml_actionbuttonsets_Stored {Keys : Type}
    (hidem : ∀ c : Char, Globalization.lowerChar (Globalization.lowerChar c) =
      Globalization.lowerChar c) (r : OgreClientConfig Keys) (hty : TypesReadBack r) :
    WriteXml_actionbuttonsets r.Stored = WriteXml_actionbuttonsets r := by
  simp only [WriteXml_actionbuttonsets, OgreClientConfig.Stored, List.length_map,
    WriteXml_actionbuttons_Stored hidem r.ActionButtonSets hty]

theorem WriteXml_engine_Stored {Keys : Type} (r : OgreClientConfig Keys) :
    WriteXml_engine r.Stored = WriteXml_engine r := by
  simp only [WriteXml_engine, OgreClientConfig.Stored, WriteAttributeString_getD]

/-- When lower-casing is idempotent and the button types are read back, WriteXml
writes for a record as the document stores it what it writes for the record itself,
and throws when it throws for the record itself. -/
theorem WriteXml_Stored {Keys : Type}
    (hidem : ∀ c : Char, Globalization.lowerChar (Globalization.lowerChar c) =
      Globalization.lowerChar c) (api : Collaborators Keys) (r : OgreClientConfig Keys)
    (hty : TypesReadBack r) :
    WriteXml api r.Stored = WriteXml api r := by
  have h2 : WriteXml_input r.Stored = WriteXml_input r := rfl
  have h3 : WriteXml_keybinding r.Stored = WriteXml_keybinding r := rfl
  have h4 : WriteXml_keys_movement api r.Stored = WriteXml_keys_movement api r := rfl
  have h5 : WriteXml_keys_modifiers api r.Stored = WriteXml_keys_modifiers api r := rfl
  have h6 : WriteXml_keys_targetting api r.Stored = WriteXml_keys_targetting api r := rfl
  have h7 : WriteXml_keys_others api r.Stored = WriteXml_keys_others api r := rfl
  have h8 : WriteXml_keys_actions api r.Stored = WriteXml_keys_actions api r := rfl
  unfold WriteXml
  rw [WriteXml_engine_Stored, h2, h3, h4, h5, h6, h7, h8,
    WriteXml_actionbuttonsets_Stored hidem r hty]

/-- C23, as amended: in a culture whose lower-casing is idempotent (the lower case of
a lower-cased character is that character), for every order of evaluation of the
constructor arguments, when WriteXml returns normally for a record `r` (whose
button names may be in mixed case) and every button type of `r` is the type
GetButtonType reads from its lower-cased name (every type but Item in every
culture, and Item as well when the culture lower-cases `I` to `i`), ReadXml reads
the document written into a fresh record without an exception, and WriteXml makes
for the record read exactly the calls it made for `r`: the same elements and
attributes, with the same values, in the same order. -/
theorem C23_encoding_normalizes_in_one_step {Keys : Type} (api : Collaborators Keys)
    (hapi : KeysRoundTrip api)
    (hidem : ∀ c : Char, Globalization.lowerChar (Globalization.lowerChar c) =
      Globalization.lowerChar c)
    (r fresh : OgreClientConfig Keys) (hw : (WriteXml api r).1 = Except.ok ())
    (hty : TypesReadBack r) (hc : CountsFit r)
    (hfresh : fresh.ActionButtonSets = []) (cur : Option XmlElement)
    (calls : List ReaderCall) :
    ((ReadXml api).run ⟨fresh, ⟨cur, elementsOf (WriteXml api r).2, calls⟩⟩).1 =
      Except.ok () ∧
    (WriteXml api ((ReadXml api).run
      ⟨fresh, ⟨cur, elementsOf (WriteXml api r).2, calls⟩⟩).2.This).2 = (WriteXml api r).2 ∧
    (WriteXml api ((ReadXml api).run
      ⟨fresh, ⟨cur, elementsOf (WriteXml api r).2, calls⟩⟩).2.This).1 = Except.ok () := by
  have hn := (WriteXml_ok_iff api r).mp hw
  have hread := ReadXml_WriteXml_fresh api hapi r fresh hn hc hfresh cur [] calls
  rw [List.append_nil] at hread
  rw [hread]
  refine ⟨rfl, ?_, ?_⟩
  · show (WriteXml api r.Stored).2 = _
    rw [WriteXml_Stored hidem api r hty]
  · show (WriteXml api r.Stored).1 = _
    rw [WriteXml_Stored hidem api r hty, hw]

end

/-- Witness of C23: the sample record with the button "FireBall", whose name is
written as "fireball". -/
theorem C23_encoding_normalizes_in_one_step_witness :
    KeysRoundTrip sampleApi ∧
    (∀ c : Char, Globalization.lowerChar (Globalization.lowerChar c) =
      Globalization.lowerChar c) ∧
    (WriteXml sampleApi fireBallConfig).1 = Except.ok () ∧
    TypesReadBack fireBallConfig ∧ CountsFit fireBallConfig ∧
    (WriteXml sampleApi ((ReadXml sampleApi).run
      ⟨freshConfig, ⟨none, elementsOf (WriteXml sampleApi fireBallConfig).2, []⟩⟩).2.This).2 =
      (WriteXml sampleApi fireBallConfig).2 := by
  have hw : (WriteXml sampleApi fireBallConfig).1 = Except.ok () :=
    WriteXml_ok _ _ (by unfold NamesPresent; decide)
  have hc : CountsFit fireBallConfig := by unfold CountsFit; decide
  have hty : TypesReadBack fireBallConfig := by unfold TypesReadBack; decide
  exact ⟨sampleApi_roundtrip, Char_toLower_toLower, hw, hty, hc,
    (C23_encoding_normalizes_in_one_step sampleApi sampleApi_roundtrip Char_toLower_toLower
      fireBallConfig freshConfig hw hty hc rfl none []).2.1⟩

set_option maxRecDepth 100000 in
set_option maxHeartbeats 4000000 in
/-- C23, counterexample: in the Turkish culture WriteXml writes the type of the
button "mace" of the sample record, Item, as the text with the dotless i; ReadXml
reads the document without an exception, GetButtonType finds no known type in that
text and the button read has the type Unset; WriteXml then writes "unset" for it:
the second document differs from the first. -/
theorem C23_Turkish_Item_written_as_unset :
    (@WriteXml turkishGlobalization SampleKeys sampleApi sampleConfig).1 = Except.ok () ∧
    ((@ReadXml turkishGlobalization leftToRight SampleKeys sampleApi).run
      ⟨freshConfig, ⟨none,
        elementsOf (@WriteXml turkishGlobalization SampleKeys sampleApi sampleConfig).2,
        []⟩⟩).1 = Except.ok () ∧
    XmlEvent.Attribute ATTRIB_TYPE (String.mk [Char.ofNat 305, 't', 'e', 'm']) ∈
      (@WriteXml turkishGlobalization SampleKeys sampleApi sampleConfig).2 ∧
    XmlEvent.Attribute ATTRIB_TYPE (String.mk [Char.ofNat 305, 't', 'e', 'm']) ∉
      (@WriteXml turkishGlobalization SampleKeys sampleApi
        ((@ReadXml turkishGlobalization leftToRight SampleKeys sampleApi).run
          ⟨freshConfig, ⟨none,
            elementsOf (@WriteXml turkishGlobalization SampleKeys sampleApi sampleConfig).2,
            []⟩⟩).2.This).2 ∧
    (@WriteXml turkishGlobalization SampleKeys sampleApi
      ((@ReadXml turkishGlobalization leftToRight SampleKeys sampleApi).run
        ⟨freshConfig, ⟨none,
          elementsOf (@WriteXml turkishGlobalization SampleKeys sampleApi sampleConfig).2,
          []⟩⟩).2.This).2 ≠
      (@WriteXml turkishGlobalization SampleKeys sampleApi sampleConfig).2 := by
  have hn : NamesPresent sampleConfig := by unfold NamesPresent; decide
  have hread := @ReadXml_WriteXml_fresh turkishGlobalization leftToRight SampleKeys sampleApi
    sampleApi_roundtrip sampleConfig freshConfig hn (by unfold CountsFit; decide) rfl none [] []
  rw [List.append_nil] at hread
  rw [hread]
  have h1 : XmlEvent.Attribute ATTRIB_TYPE (String.mk [Char.ofNat 305, 't', 'e', 'm']) ∈
      (@WriteXml turkishGlobalization SampleKeys sampleApi sampleConfig).2 := by decide
  have h2 : XmlEvent.Attribute ATTRIB_TYPE (String.mk [Char.ofNat 305, 't', 'e', 'm']) ∉
      (@WriteXml turkishGlobalization SampleKeys sampleApi
        (@OgreClientConfig.Stored turkishGlobalization SampleKeys sampleConfig)).2 := by decide
  refine ⟨@WriteXml_ok turkishGlobalization leftToRight SampleKeys sampleApi sampleConfig hn,
    rfl, h1, h2, ?_⟩
  intro heq
  apply h2
  show _ ∈ (@WriteXml turkishGlobalization SampleKeys sampleApi
    (@OgreClientConfig.Stored turkishGlobalization SampleKeys sampleConfig)).2
  rw [heq]
  exact h1

end Meridian59.Ogre
